import Mathlib

/-! ZAP Tracking: the DJI gimbal protocol engine, the control table and the mapper

A shallow embedding of `ZT_Lib` (`DJI.cpp`, `DJI_Transaction.cpp`, `DJI_Gimbal.cpp`,
`Gimbal.cpp`, the table and the mapper functions of `ControlLink.cpp`, the gimbal
look-up of `System.cpp`) and theorems about it.

Conventions of the embedding

* A byte is a `Nat` below 256; a C object that the code reads as raw memory
  (`DJI_Frame`, `mRxBuffer`) is the list of its bytes. The host is little-endian.
* `double` values are exact rationals (`ℚ`); conversions to integer types truncate
  toward zero and wrap to the width of the target.
* A function returns `none` when a C `assert` fails or when memory outside an object
  would be accessed; otherwise `some` of its result and of the objects it changed.
* The three threads of the engine are serialised: a public operation, a worker tick
  and the reception of one CAN payload are each one step on the engine state.
* `EthCAN::Device` is an external library: it is an oracle that records the frames
  it accepted and follows a script of send outcomes.
* A caller that sleeps in `Condition_Wait` is given a schedule of events, worker ticks
  and received payloads, which run until the transaction it waits for has a result.
* The mapper calls its gimbals through the interface `ZT::IGimbal`: a bound gimbal is
  an object that records the calls it received and answers from a script. `sscanf` is
  a parameter of the functions that use it.
-/

set_option autoImplicit false

namespace ZT

/-- The flat result enumeration of `Includes/ZT/Result.h`. -/
inductive Result where
  | ZT_OK
  | ZT_OK_REPLACED
  | ZT_ERROR
  | ZT_ERROR_ACTION
  | ZT_ERROR_ALREADY_STARTED
  | ZT_ERROR_ALREADY_STOPPED
  | ZT_ERROR_ALREADY_STOPPING
  | ZT_ERROR_ANGLE_MAX
  | ZT_ERROR_ANGLE_MIN
  | ZT_ERROR_CMD_ID
  | ZT_ERROR_CMD_SET
  | ZT_ERROR_CMD_TYPE
  | ZT_ERROR_CODE
  | ZT_ERROR_CONFIG
  | ZT_ERROR_CONTROL
  | ZT_ERROR_ENCODED
  | ZT_ERROR_EXCEPTION
  | ZT_ERROR_FILE_OPEN
  | ZT_ERROR_FRAME_TOO_LONG
  | ZT_ERROR_FRAME_TOO_SHORT
  | ZT_ERROR_FUNCTION
  | ZT_ERROR_GIMBAL
  | ZT_ERROR_GIMBAL_OFF
  | ZT_ERROR_GIMBAL_VERSION
  | ZT_ERROR_MAX
  | ZT_ERROR_MIN
  | ZT_ERROR_NOT_A_GAMEPAD
  | ZT_ERROR_NOT_READY
  | ZT_ERROR_OPERATION
  | ZT_ERROR_PROTOCOL
  | ZT_ERROR_RECEIVE
  | ZT_ERROR_RECEIVER
  | ZT_ERROR_RESULT
  | ZT_ERROR_SEND
  | ZT_ERROR_SPEED
  | ZT_ERROR_SPEED_MAX
  | ZT_ERROR_SPEED_MIN
  | ZT_ERROR_STATE
  | ZT_ERROR_THREAD
  | ZT_ERROR_TIMEOUT
  | ZT_ERROR_TODO
  | ZT_RESULT_INVALID
  deriving DecidableEq, Repr

open Result

/-! ## Raw memory -/

/-- Copy `src` into `buf` at byte offset `off` (`memcpy`, `memmove`); `none` when the
destination range is not inside the object. -/
def memWrite (buf : List Nat) (off : Nat) (src : List Nat) : Option (List Nat) :=
  if off + src.length ≤ buf.length then
    some (buf.take off ++ src ++ buf.drop (off + src.length))
  else none

/-- Read `len` bytes of `buf` from byte offset `off`; `none` when the range is not
inside the object. -/
def memRead (buf : List Nat) (off len : Nat) : Option (List Nat) :=
  if off + len ≤ buf.length then some ((buf.drop off).take len) else none

/-- The four bytes of a `uint32_t`, least significant first. -/
def bytes_u32 (v : Nat) : List Nat :=
  [v % 256, v / 256 % 256, v / 65536 % 256, v / 16777216 % 256]

/-- The two bytes of a `uint16_t`, least significant first. -/
def bytes_u16 (v : Nat) : List Nat :=
  [v % 256, v / 256 % 256]

/-! ## DJI.h -/

def DJI_FOOTER_SIZE_byte : Nat := 4
def DJI_HEADER_SIZE_byte : Nat := 12
def DJI_SOF : Nat := 0xaa
def DJI_CAN_ID_RX : Nat := 0x222
def DJI_CAN_ID_TX : Nat := 0x223
def DJI_CMD_SET_DEFAULT : Nat := 0x0e
def DJI_CMD_POSITION_SET : Nat := 0x00
def DJI_CMD_SPEED_SET : Nat := 0x01
def DJI_CMD_ANGLE_GET : Nat := 0x02
def DJI_CMD_ANGLE_LIMIT_SET : Nat := 0x03
def DJI_CMD_ANGLE_LIMIT_GET : Nat := 0x04
def DJI_CMD_MOTOR_STIFFNESS_SET : Nat := 0x05
def DJI_CMD_MOTOR_STIFFNESS_GET : Nat := 0x06
def DJI_CMD_VERSION : Nat := 0x09
def DJI_CMD_CONTROL : Nat := 0x0a
def DJI_CMD_TLV_SET : Nat := 0x0c
def DJI_CMD_CALIBRATION : Nat := 0x0f
def DJI_CMD_TRACK_SWITCH : Nat := 0x11
def DJI_CMD_FOCUS : Nat := 0x12
def DJI_CMD_FOCUS_SET : Nat := 0x01
def DJI_CMD_FOCUS_CAL : Nat := 0x02
def DJI_CMD_SET_THIRD_PARTY : Nat := 0x0d
def DJI_CMD_TYPE_DO_REPLY : Nat := 0x03
def DJI_CMD_TYPE_NO_REPLY : Nat := 0x00
def DJI_CMD_TYPE_REPLY : Nat := 0x20
def DJI_OK : Nat := 0x00
def DJI_DATA_CMD_SET : Nat := 0
def DJI_DATA_CMD_ID : Nat := 1
def DJI_REPLY_RESULT : Nat := 2

def DJI_FRAME_TOTAL_SIZE (D : Nat) : Nat :=
  DJI_HEADER_SIZE_byte + D + DJI_FOOTER_SIZE_byte

/-- The checksum functions declared in `DJI_CRC.h`; their bodies are not part of the
sources, so every definition that needs them takes them as a parameter.
`DJI_CRC_16` receives the ten header bytes that precede `mCRC16`, `DJI_CRC_32` the
bytes it is asked to cover. -/
structure DJI_CRC where
  DJI_CRC_16 : List Nat → Nat
  DJI_CRC_32 : List Nat → Nat

/-- Memory image of `class DJI_Frame` (`sizeof(DJI_Frame)` is 28): `mSOF` at byte 0,
`mSize_byte` 1, `mVersion` 2, `mCmdType` 3, `mEncoded` 4, `mReserved0` 5..7, `mSerial`
8..9, `mCRC16` 10..11, `mData` 12..27. The same accessors read a reply through
`mReply`, which points at the 128-byte receive buffer. -/
structure DJI_Frame where
  bytes : List Nat
  deriving DecidableEq, Repr

namespace DJI_Frame

def sizeof : Nat := 28

def mSOF (f : DJI_Frame) : Nat := f.bytes.getD 0 0
def mSize_byte (f : DJI_Frame) : Nat := f.bytes.getD 1 0
def mVersion (f : DJI_Frame) : Nat := f.bytes.getD 2 0
def mCmdType (f : DJI_Frame) : Nat := f.bytes.getD 3 0
def mEncoded (f : DJI_Frame) : Nat := f.bytes.getD 4 0
def mData (f : DJI_Frame) (i : Nat) : Nat := f.bytes.getD (DJI_HEADER_SIZE_byte + i) 0

/-- Assignment `mData[i] = v` of a `uint8_t`. The member is `uint8_t mData[16]`
(DJI.h), the last of the object: an index outside the array is a write outside the
object, which the model does not follow. -/
def mData_Set (f : DJI_Frame) (i v : Nat) : Option DJI_Frame :=
  if ¬ (i < 16) then none
  else some { bytes := f.bytes.set (DJI_HEADER_SIZE_byte + i) (v % 256) }

/-- `DJI_Frame::Init` (DJI.cpp 17-35). -/
def Init (crc : DJI_CRC) (aDataSize_byte aCmdType aCmdSet aCmdId aSerial : Nat) :
    Option DJI_Frame :=
  if ¬ (DJI_CMD_SET_THIRD_PARTY = aCmdSet ∨ DJI_CMD_SET_DEFAULT = aCmdSet) then none
  else if ¬ (0xff ≥ aCmdId) then none
  else
    let b0 := List.replicate sizeof 0
    let b1 := b0.set 3 (aCmdType % 256)
    let b2 := (b1.set 8 (aSerial % 256)).set 9 (aSerial / 256 % 256)
    let b3 := b2.set 1 (DJI_FRAME_TOTAL_SIZE aDataSize_byte % 256)
    let b4 := b3.set 0 DJI_SOF
    let b5 := b4.set (DJI_HEADER_SIZE_byte + DJI_DATA_CMD_SET) (aCmdSet % 256)
    let b6 := b5.set (DJI_HEADER_SIZE_byte + DJI_DATA_CMD_ID) (aCmdId % 256)
    if ¬ (sizeof ≥ b6.getD 1 0) then none
    else
      let lCRC := crc.DJI_CRC_16 (b6.take 10) % 65536
      some { bytes := (b6.set 10 (lCRC % 256)).set 11 (lCRC / 256 % 256) }

/-- `DJI_Frame::Seal` (DJI.cpp 37-46). -/
def Seal (crc : DJI_CRC) (f : DJI_Frame) : Option DJI_Frame :=
  if ¬ (4 < f.mSize_byte) then none
  else
    let lSize_byte := f.mSize_byte - 4
    match memRead f.bytes 0 lSize_byte with
    | none => none
    | some lIn =>
      let lCRC_32 := crc.DJI_CRC_32 lIn % 4294967296
      match memWrite f.bytes lSize_byte (bytes_u32 lCRC_32) with
      | none => none
      | some b => some { bytes := b }

end DJI_Frame

/-! ## EthCAN (external library) -/

/-- The fields of `EthCAN_Frame` that the engine uses; `mData` is the 8-byte array. -/
structure EthCAN_Frame where
  mId : Nat
  mDataSize_byte : Nat
  mData : List Nat
  deriving DecidableEq, Repr

/-- The bytes a CAN frame carries: the first `mDataSize_byte` bytes of `mData`. -/
def EthCAN_Frame.payload (f : EthCAN_Frame) : List Nat :=
  f.mData.take f.mDataSize_byte

/-- The link oracle. `mSent` lists the frames `Send` accepted, oldest first.
`mSend_Script` gives the outcome of the coming `Send` calls (`true` is `EthCAN_OK`);
once it is exhausted every `Send` succeeds. `mCAN_Reset_OK`, `mProtocol_Reset_OK` and
`mReceiver_Config_OK` are the outcomes of `CAN_Reset`, `Protocol_Reset` and
`Receiver_Config`. -/
structure EthCAN_Device where
  mSent : List EthCAN_Frame
  mSend_Script : List Bool
  mCAN_Reset_OK : Bool
  mProtocol_Reset_OK : Bool
  mReceiver_Config_OK : Bool
  deriving DecidableEq, Repr

/-- The oracle for `EthCAN::Device::Send`. -/
def EthCAN_Device.Send (d : EthCAN_Device) (aFrame : EthCAN_Frame) : Bool × EthCAN_Device :=
  match d.mSend_Script with
  | [] => (true, { d with mSent := d.mSent ++ [aFrame] })
  | true :: rest => (true, { d with mSent := d.mSent ++ [aFrame], mSend_Script := rest })
  | false :: rest => (false, { d with mSend_Script := rest })

/-- Every coming `Send` succeeds. -/
def EthCAN_Device.SendsSucceed (d : EthCAN_Device) : Prop :=
  ∀ b ∈ d.mSend_Script, b = true

instance (d : EthCAN_Device) : Decidable d.SendsSucceed := by
  unfold EthCAN_Device.SendsSucceed; infer_instance

/-! ## Includes/ZT/IGimbal.h -/

namespace IGimbal

inductive Axis where
  | AXIS_PITCH
  | AXIS_ROLL
  | AXIS_YAW
  deriving DecidableEq, Repr

/-- The enumerator's value. -/
def Axis.toNat : Axis → Nat
  | .AXIS_PITCH => 0
  | .AXIS_ROLL => 1
  | .AXIS_YAW => 2

/-- The order in which `FOR_EACH_AXIS` visits the axes. -/
def FOR_EACH_AXIS : List Axis := [.AXIS_PITCH, .AXIS_ROLL, .AXIS_YAW]

/-- An array indexed by `Axis` (`T x[AXIS_QTY]`). -/
structure PerAxis (α : Type) where
  pitch : α
  roll : α
  yaw : α
  deriving DecidableEq, Repr

def PerAxis.get {α : Type} (v : PerAxis α) : Axis → α
  | .AXIS_PITCH => v.pitch
  | .AXIS_ROLL => v.roll
  | .AXIS_YAW => v.yaw

def PerAxis.set {α : Type} (v : PerAxis α) (a : Axis) (x : α) : PerAxis α :=
  match a with
  | .AXIS_PITCH => { v with pitch := x }
  | .AXIS_ROLL => { v with roll := x }
  | .AXIS_YAW => { v with yaw := x }

structure Config_Axis where
  mMax_deg : ℚ
  mMin_deg : ℚ
  mOffset_deg : ℚ
  mSpeed_deg_s : ℚ
  mStiffness_pc : ℚ
  deriving DecidableEq, Repr

structure Config where
  mAxis : PerAxis Config_Axis
  deriving DecidableEq, Repr

structure Info_Axis where
  mSpeed_Max_deg_s : ℚ
  deriving DecidableEq, Repr

structure Info where
  mName : List Nat
  mIPv4_Address : Nat
  mIPv4_Gateway : Nat
  mIPv4_NetMask : Nat
  mVersion : List Nat
  mAxis : PerAxis Info_Axis
  deriving DecidableEq, Repr

/-- `Operation` as the `unsigned` value the callers pass; the named operations are
0..4 and `OPERATION_QTY` is 5. -/
abbrev Operation := Nat

def OPERATION_CAL_AUTO_ENABLE : Operation := 0
def OPERATION_CAL_MANUAL_ENABLE : Operation := 1
def OPERATION_CAL_SET_MAX : Operation := 2
def OPERATION_CAL_SET_MIN : Operation := 3
def OPERATION_CAL_STOP : Operation := 4
def OPERATION_QTY : Nat := 5

structure Position where
  mAxis_deg : PerAxis ℚ
  deriving DecidableEq, Repr

structure Speed where
  mAxis_deg_s : PerAxis ℚ
  deriving DecidableEq, Repr

def FOCUS_POSITION_MAX_pc : ℚ := 100
def FOCUS_POSITION_MIN_pc : ℚ := 0
def FOCUS_SPEED_MIN_pc_s : ℚ := -100
def FOCUS_SPEED_MAX_pc_s : ℚ := 100
def FOCUS_SPEED_STOP_pc_s : ℚ := 0
def POSITION_MAX_deg : ℚ := 180.5
def POSITION_MIN_deg : ℚ := -180.5
def SPEED_MAX_deg_s : ℚ := 360
def SPEED_MIN_deg_s : ℚ := -360
def SPEED_STOP_deg_s : ℚ := 0

end IGimbal

open IGimbal

def ZT_FLAG_IGNORE_PITCH : Nat := 0x01
def ZT_FLAG_IGNORE_ROLL : Nat := 0x02
def ZT_FLAG_IGNORE_YAW : Nat := 0x04
def ZT_FLAG_IGNORE_ALL : Nat := 0x07

def ZT_FLAG_IGNORE (a : Axis) : Nat := 1 <<< a.toNat

/-- The test `0 == (aFlags & ZT_FLAG_IGNORE(a))`: axis `a` is under control. -/
def Axis_Controlled (aFlags : Nat) (a : Axis) : Bool :=
  decide (aFlags &&& ZT_FLAG_IGNORE a = 0)

/-! ## Conversions of `double` -/

/-- Truncation toward zero, the value of a `double` converted to an integer type. -/
def Double_Trunc (x : ℚ) : Int :=
  if 0 ≤ x then Int.floor x else Int.ceil x

/-- Conversion `int16_t v = x`, as the two's complement pattern of `v` in 0..65535. -/
def Double_To_Int16 (x : ℚ) : Nat :=
  (Double_Trunc x % 65536).toNat

/-- Conversion `unsigned int v = x`. -/
def Double_To_UInt32 (x : ℚ) : Nat :=
  (Double_Trunc x % 4294967296).toNat

/-- Conversion `uint8_t v = x`. -/
def Double_To_UInt8 (x : ℚ) : Nat :=
  (Double_Trunc x % 256).toNat

/-- The value of an `int16_t` given by its two's complement pattern. -/
def Int16_Value (v : Nat) : Int :=
  if v % 65536 < 32768 then (v % 65536 : Nat) else (v % 65536 : Nat) - 65536

/-! ## Value.cpp -/

def Value_Limit (aValue aMin aMax : ℚ) : Option ℚ :=
  if ¬ (aMin < aMax) then none
  else if aMin > aValue then some aMin
  else if aMax < aValue then some aMax
  else some aValue

def Value_Validate (aValue aMin aMax : ℚ) : Option Result :=
  if ¬ (aMin < aMax) then none
  else if aMin > aValue then some ZT_ERROR_MIN
  else if aMax < aValue then some ZT_ERROR_MAX
  else some ZT_OK

/-! ## DJI.cpp: angle and speed fields -/

namespace DJI_Frame

/-- `DJI_Frame::Angle_Get` (DJI.cpp 48-60). The function has no assertion; it reads
`mData[aOffset_byte]` and `mData[aOffset_byte + 1]`, and a read outside the 16 elements
of `mData` is not followed. -/
def Angle_Get (f : DJI_Frame) (aOffset_byte : Nat) : Option ℚ :=
  if ¬ (aOffset_byte + 1 < 16) then none
  else
    let lAngle := f.mData aOffset_byte ||| (f.mData (aOffset_byte + 1) <<< 8)
    some ((Int16_Value lAngle : ℚ) / 10)

/-- `DJI_Frame::Angle_Set` (DJI.cpp 62-70). The assertion `sizeof(mData) > aOffset_byte`
admits the offset 15, at which the second assignment writes `mData[16]`. -/
def Angle_Set (f : DJI_Frame) (aOffset_byte : Nat) (aAngle_deg : ℚ) : Option DJI_Frame :=
  if ¬ (16 > aOffset_byte) then none
  else
    let lAngle := Double_To_Int16 (aAngle_deg * 10)
    (f.mData_Set aOffset_byte (lAngle &&& 0xff)).bind
      (fun f1 => f1.mData_Set (aOffset_byte + 1) (lAngle >>> 8))

/-- `DJI_Frame::Speed_Set` (DJI.cpp 72-80). The assertion `sizeof(mData) > aOffset_byte`
admits the offset 15, at which the second assignment writes `mData[16]`. -/
def Speed_Set (f : DJI_Frame) (aOffset_byte : Nat) (aSpeed_deg_s : ℚ) : Option DJI_Frame :=
  if ¬ (16 > aOffset_byte) then none
  else
    let lSpeed := Double_To_Int16 (aSpeed_deg_s * 10)
    (f.mData_Set aOffset_byte (lSpeed &&& 0xff)).bind
      (fun f1 => f1.mData_Set (aOffset_byte + 1) (lSpeed >>> 8))

end DJI_Frame

/-! ## Gimbal.h, Gimbal.cpp: the gimbal model -/

namespace Gimbal

/-- `Gimbal::State`, the position state. -/
inductive State where
  | STATE_KNOWN
  | STATE_MOVING
  | STATE_SPEED
  | STATE_UNKNOWN
  deriving DecidableEq, Repr

def ANGLE_OFFSET_DEFAULT_deg : ℚ := 0
def SPEED_DEFAULT_deg_s : ℚ := 360
def SPEED_MAX_deg_s : ℚ := 360
def SPEED_MIN_deg_s : ℚ := 0.1
def STIFFNESS_DEFAULT_pc : ℚ := 50

def SPEED_STOPPED : Speed := { mAxis_deg_s := { pitch := 0, roll := 0, yaw := 0 } }

/-- `Angle_Compare` (Gimbal.cpp 401-407). -/
def Angle_Compare (aA_deg aB_deg : ℚ) : Bool :=
  let lDiff_deg := aA_deg - aB_deg
  let lDiff2_deg2 := lDiff_deg * lDiff_deg
  decide (0.1 > lDiff2_deg2)

/-- `Config_Axis_Init` (Gimbal.cpp 409-418). -/
def Config_Axis_Init : Config_Axis :=
  { mMax_deg := POSITION_MAX_deg
    mMin_deg := POSITION_MIN_deg
    mOffset_deg := ANGLE_OFFSET_DEFAULT_deg
    mSpeed_deg_s := SPEED_DEFAULT_deg_s
    mStiffness_pc := STIFFNESS_DEFAULT_pc }

/-- `Config_Axis_Validate` (Gimbal.cpp 420-438). -/
def Config_Axis_Validate (aIn : Config_Axis) (aInfo : Info_Axis) : Option Result :=
  if POSITION_MAX_deg < aIn.mMax_deg then some ZT_ERROR_ANGLE_MAX
  else if POSITION_MIN_deg > aIn.mMin_deg ∨ aIn.mMax_deg < aIn.mMin_deg then
    some ZT_ERROR_ANGLE_MIN
  else if SPEED_MIN_deg_s > aIn.mSpeed_deg_s ∨ aInfo.mSpeed_Max_deg_s < aIn.mSpeed_deg_s then
    some ZT_ERROR_SPEED
  else Value_Validate aIn.mStiffness_pc 0 100

/-- `Position_Copy` (Gimbal.cpp 440-451). -/
def Position_Copy (aOut aIn : Position) (aFlags : Nat) : Position :=
  FOR_EACH_AXIS.foldl
    (fun o a =>
      if Axis_Controlled aFlags a then
        { mAxis_deg := o.mAxis_deg.set a (aIn.mAxis_deg.get a) }
      else o)
    aOut

/-- The static `Position_Validate` of one axis (Gimbal.cpp 453-466). -/
def Position_Validate_Axis (aIn : ℚ) (aConfig : Config_Axis) : Result :=
  if aConfig.mMax_deg < aIn then ZT_ERROR_ANGLE_MAX
  else if aConfig.mMin_deg > aIn then ZT_ERROR_ANGLE_MIN
  else ZT_OK

/-- `Speed_Copy` (Gimbal.cpp 468-479). -/
def Speed_Copy (aOut aIn : Speed) (aFlags : Nat) : Speed :=
  FOR_EACH_AXIS.foldl
    (fun o a =>
      if Axis_Controlled aFlags a then
        { mAxis_deg_s := o.mAxis_deg_s.set a (aIn.mAxis_deg_s.get a) }
      else o)
    aOut

/-- The static `Speed_Validate` of one axis (Gimbal.cpp 481-494). -/
def Speed_Validate_Axis (aIn_deg_s aMax_deg_s : ℚ) : Result :=
  if aMax_deg_s < aIn_deg_s then ZT_ERROR_SPEED_MAX
  else if (-aMax_deg_s) > aIn_deg_s then ZT_ERROR_SPEED_MIN
  else ZT_OK

end Gimbal

/-- The data members of `class Gimbal` (Gimbal.h). -/
structure Gimbal where
  mConfig : Config
  mFocus_Position_pc : ℚ
  mFocus_Speed_pc_s : ℚ
  mInfo : Info
  mPosition_Flags : Nat
  mPosition_Target : Position
  mSpeed : Speed
  mPosition_Count : Nat
  mPosition_Current : Position
  mPosition_State : Gimbal.State
  mRefCount : Nat
  deriving DecidableEq, Repr

namespace Gimbal

open State

/-- The constructor `Gimbal::Gimbal` (Gimbal.cpp 48-68). -/
def ctor : Gimbal :=
  { mConfig := { mAxis := { pitch := Config_Axis_Init, roll := Config_Axis_Init,
                            yaw := Config_Axis_Init } }
    mFocus_Position_pc := FOCUS_POSITION_MIN_pc
    mFocus_Speed_pc_s := FOCUS_SPEED_STOP_pc_s
    mInfo := { mName := List.replicate 16 0, mIPv4_Address := 0, mIPv4_Gateway := 0,
               mIPv4_NetMask := 0, mVersion := [0, 0, 0, 0],
               mAxis := { pitch := { mSpeed_Max_deg_s := SPEED_MAX_deg_s },
                          roll := { mSpeed_Max_deg_s := SPEED_MAX_deg_s },
                          yaw := { mSpeed_Max_deg_s := SPEED_MAX_deg_s } } }
    mPosition_Flags := ZT_FLAG_IGNORE_ALL
    mPosition_Target := { mAxis_deg := { pitch := 0, roll := 0, yaw := 0 } }
    mSpeed := { mAxis_deg_s := { pitch := 0, roll := 0, yaw := 0 } }
    mPosition_Count := 0
    mPosition_Current := { mAxis_deg := { pitch := 0, roll := 0, yaw := 0 } }
    mPosition_State := STATE_UNKNOWN
    mRefCount := 1 }

/-- `Gimbal::Config_Validate` (Gimbal.cpp 261-271): the loop stops at the first axis
whose result is not `ZT_OK`. -/
def Config_Validate (g : Gimbal) (aIn : Config) : Option Result :=
  FOR_EACH_AXIS.foldl
    (fun r a =>
      match r with
      | some ZT_OK => Config_Axis_Validate (aIn.mAxis.get a) (g.mInfo.mAxis.get a)
      | other => other)
    (some ZT_OK)

/-- `Gimbal::Config_Set` (Gimbal.cpp 93-102). -/
def Config_Set (g : Gimbal) (aIn : Config) : Option (Result × Gimbal) :=
  match g.Config_Validate aIn with
  | none => none
  | some ZT_OK => some (ZT_OK, { g with mConfig := aIn })
  | some lResult => some (lResult, g)

/-- `Gimbal::Config_Get` (Gimbal.cpp 86-91). -/
def Config_Get (g : Gimbal) : Config := g.mConfig

/-- `Gimbal::Focus_Position_Set` (Gimbal.cpp 111-120). -/
def Focus_Position_Set (g : Gimbal) (aPosition_pc : ℚ) : Option (Result × Gimbal) :=
  match Value_Validate aPosition_pc FOCUS_POSITION_MIN_pc FOCUS_POSITION_MAX_pc with
  | none => none
  | some ZT_OK => some (ZT_OK, { g with mFocus_Position_pc := aPosition_pc })
  | some lResult => some (lResult, g)

/-- `Gimbal::Focus_Speed_Set` (Gimbal.cpp 122-131). -/
def Focus_Speed_Set (g : Gimbal) (aSpeed_pc_s : ℚ) : Option (Result × Gimbal) :=
  match Value_Validate aSpeed_pc_s FOCUS_SPEED_MIN_pc_s FOCUS_SPEED_MAX_pc_s with
  | none => none
  | some ZT_OK => some (ZT_OK, { g with mFocus_Speed_pc_s := aSpeed_pc_s })
  | some lResult => some (lResult, g)

/-- `Gimbal::IsFocusMoving` (Gimbal.cpp 273-276). -/
def IsFocusMoving (g : Gimbal) : Bool :=
  decide (FOCUS_SPEED_STOP_pc_s ≠ g.mFocus_Speed_pc_s)

/-- `Gimbal::Position_Current_Get` (Gimbal.cpp 278-298): the value written to `*aOut`
and the returned flag. -/
def Position_Current_Get (g : Gimbal) : Bool × Position :=
  match g.mPosition_State with
  | STATE_KNOWN | STATE_MOVING | STATE_SPEED => (decide (0 < g.mPosition_Count), g.mPosition_Current)
  | STATE_UNKNOWN => (false, g.mPosition_Current)

/-- `Gimbal::Position_State_Get` (Gimbal.cpp 300). -/
def Position_State_Get (g : Gimbal) : State := g.mPosition_State

/-- `Gimbal::Position_Get` (Gimbal.cpp 133-152): the result and the value of `*aOut`
afterwards. -/
def Position_Get (g : Gimbal) (aOut : Position) : Result × Position :=
  let (lFresh, lPosition) := g.Position_Current_Get
  if lFresh then
    (ZT_OK, FOR_EACH_AXIS.foldl
      (fun o a =>
        { mAxis_deg := o.mAxis_deg.set a
            (lPosition.mAxis_deg.get a - (g.mConfig.mAxis.get a).mOffset_deg) })
      aOut)
  else (ZT_ERROR_NOT_READY, aOut)

/-- `Gimbal::Position_Validate` (Gimbal.cpp 340-353). -/
def Position_Validate (g : Gimbal) (aIn : Position) (aFlags : Nat) : Result :=
  FOR_EACH_AXIS.foldl
    (fun r a =>
      if r = ZT_OK then
        if Axis_Controlled aFlags a then
          Position_Validate_Axis (aIn.mAxis_deg.get a) (g.mConfig.mAxis.get a)
        else r
      else r)
    ZT_OK

/-- `Gimbal::Position_Set` (Gimbal.cpp 154-177). The local `lPosition` is not
initialised in the source; only the axes assigned in the first loop are read later,
so the zero position stands for its indeterminate content. -/
def Position_Set (g : Gimbal) (aIn : Position) (aFlags : Nat) (_aDuration_ms : Nat) :
    Result × Gimbal :=
  let lPosition := FOR_EACH_AXIS.foldl
    (fun o a =>
      if Axis_Controlled aFlags a then
        { mAxis_deg := o.mAxis_deg.set a
            (aIn.mAxis_deg.get a + (g.mConfig.mAxis.get a).mOffset_deg) }
      else o)
    { mAxis_deg := { pitch := 0, roll := 0, yaw := 0 } }
  let lResult := g.Position_Validate lPosition aFlags
  if lResult = ZT_OK then
    (lResult, { g with
      mPosition_Flags := g.mPosition_Flags &&& aFlags
      mPosition_State := STATE_MOVING
      mPosition_Target := Position_Copy g.mPosition_Target lPosition aFlags })
  else (lResult, g)

/-- `Gimbal::Speed_Get` (Gimbal.cpp 179-198): the returned value and `*aOut`. -/
def Speed_Get (g : Gimbal) (aOut : Speed) : Result × Speed :=
  match g.mPosition_State with
  | STATE_KNOWN | STATE_UNKNOWN => (ZT_OK, SPEED_STOPPED)
  | STATE_MOVING => (ZT_OK, aOut)
  | STATE_SPEED => (ZT_OK, g.mSpeed)

/-- `Gimbal::Speed_Validate` (Gimbal.cpp 383-396). -/
def Speed_Validate (g : Gimbal) (aIn : Speed) (aFlags : Nat) : Result :=
  FOR_EACH_AXIS.foldl
    (fun r a =>
      if r = ZT_OK then
        if Axis_Controlled aFlags a then
          Speed_Validate_Axis (aIn.mAxis_deg_s.get a) (g.mInfo.mAxis.get a).mSpeed_Max_deg_s
        else r
      else r)
    ZT_OK

/-- `Gimbal::Speed_Set` (Gimbal.cpp 200-221). -/
def Speed_Set (g : Gimbal) (aIn : Speed) (aFlags : Nat) : Result × Gimbal :=
  let lResult := g.Speed_Validate aIn aFlags
  if lResult = ZT_OK then
    let lSpeed := Speed_Copy g.mSpeed aIn aFlags
    let lState := FOR_EACH_AXIS.foldl
      (fun s a => if (0 : ℚ) ≠ lSpeed.mAxis_deg_s.get a then STATE_SPEED else s)
      STATE_KNOWN
    (lResult, { g with mPosition_State := lState, mSpeed := lSpeed })
  else (lResult, g)

/-- `Gimbal::Speed_Stop` (Gimbal.cpp 223-229). -/
def Speed_Stop (g : Gimbal) : Result × Gimbal :=
  (ZT_OK, { g with
    mPosition_State := STATE_KNOWN
    mSpeed := { mAxis_deg_s := { pitch := 0, roll := 0, yaw := 0 } } })

/-- `Gimbal::Position_Update` (Gimbal.cpp 302-338). -/
def Position_Update (g : Gimbal) (aIn : Position) : Gimbal :=
  let g1 := { g with mPosition_Count := 15, mPosition_Current := aIn }
  match g1.mPosition_State with
  | STATE_KNOWN | STATE_SPEED => g1
  | STATE_MOVING =>
    let lFlags := FOR_EACH_AXIS.foldl
      (fun fl a =>
        if Axis_Controlled fl a then
          if Angle_Compare (g1.mPosition_Target.mAxis_deg.get a) (aIn.mAxis_deg.get a) then
            fl ||| ZT_FLAG_IGNORE a
          else fl
        else fl)
      g1.mPosition_Flags
    if ZT_FLAG_IGNORE_ALL = lFlags then
      { g1 with mPosition_Flags := lFlags, mPosition_State := STATE_KNOWN }
    else { g1 with mPosition_Flags := lFlags }
  | STATE_UNKNOWN => { g1 with mPosition_State := STATE_KNOWN }

/-- `Gimbal::Tick` (Gimbal.cpp 355-378). -/
def Tick (g : Gimbal) : Gimbal :=
  let g1 :=
    match g.mPosition_State with
    | STATE_KNOWN =>
      if 0 = g.mPosition_Count then { g with mPosition_State := STATE_UNKNOWN } else g
    | STATE_MOVING | STATE_SPEED | STATE_UNKNOWN => g
  if 0 < g1.mPosition_Count then { g1 with mPosition_Count := g1.mPosition_Count - 1 } else g1

end Gimbal

/-! ## DJI_Transaction.h, DJI_Transaction.cpp -/

/-- The data members of `class DJI_Transaction`. `mReceiver` is `true` when the
pointer is not `NULL`; the only receiver ever registered is the engine itself. -/
structure DJI_Transaction where
  mCode : Nat
  mReceiver : Bool
  mResult : Result
  mRxExpected_byte : Nat
  mRxTimeout_tick : Nat
  mTxFrame : DJI_Frame
  deriving DecidableEq, Repr

namespace DJI_Transaction

/-- The constructor (DJI_Transaction.cpp 22-25). `mRxTimeout_tick` and `mTxFrame` are
not initialised by the source: their indeterminate content is given by the caller. -/
def ctor (aRxTimeout_tick : Nat) (aTxFrame : DJI_Frame) : DJI_Transaction :=
  { mCode := 0, mReceiver := false, mResult := ZT_RESULT_INVALID, mRxExpected_byte := 0,
    mRxTimeout_tick := aRxTimeout_tick, mTxFrame := aTxFrame }

/-- `DJI_Transaction::Complete` (DJI_Transaction.cpp 27-39). The second component is
the code of the message passed to `mReceiver->ProcessMessage`, when there is a
receiver; the engine delivers it (see `DJI_Gimbal.Tr_Current_Call`). -/
def Complete (tr : DJI_Transaction) (aResult : Result) : Option (DJI_Transaction × Option Nat) :=
  if ¬ (ZT_RESULT_INVALID ≠ aResult) then none
  else if ¬ (ZT_RESULT_INVALID = tr.mResult) then none
  else
    some ({ tr with mResult := aResult }, if tr.mReceiver then some tr.mCode else none)

/-- `DJI_Transaction::Frame_Angle_Set` (DJI_Transaction.cpp 41-44). -/
def Frame_Angle_Set (tr : DJI_Transaction) (aOffset_byte : Nat) (aIn_deg : ℚ) :
    Option DJI_Transaction :=
  (tr.mTxFrame.Angle_Set aOffset_byte aIn_deg).map (fun f => { tr with mTxFrame := f })

/-- `DJI_Transaction::Frame_Data_Get` (DJI_Transaction.cpp 46-51). -/
def Frame_Data_Get (tr : DJI_Transaction) (aOffset_byte : Nat) : Option Nat :=
  if ¬ (16 > aOffset_byte) then none else some (tr.mTxFrame.mData aOffset_byte)

/-- `DJI_Transaction::Frame_Get` (DJI_Transaction.cpp 53-56). -/
def Frame_Get (tr : DJI_Transaction) : DJI_Frame := tr.mTxFrame

/-- The private `DJI_Transaction::Frame_Init` (DJI_Transaction.cpp 302-305).
`sSerial` is the file-static counter; its new value is returned with the transaction. -/
def Frame_Init (crc : DJI_CRC) (sSerial : Nat) (tr : DJI_Transaction)
    (aDataSize_byte aCmdType aCmdSet aCmdId : Nat) : Option (DJI_Transaction × Nat) :=
  let lSerial := (sSerial + 1) % 4294967296
  (DJI_Frame.Init crc aDataSize_byte aCmdType aCmdSet aCmdId (lSerial % 65536)).map
    (fun f => ({ tr with mTxFrame := f }, lSerial))

/-- Assignment `mTxFrame.mData[i] = v`. -/
def Data_Set (tr : DJI_Transaction) (i v : Nat) : Option DJI_Transaction :=
  (tr.mTxFrame.mData_Set i v).map (fun f => { tr with mTxFrame := f })

/-- `Frame_Init_ANGLE_GET` (DJI_Transaction.cpp 58-63). -/
def Frame_Init_ANGLE_GET (crc : DJI_CRC) (sSerial : Nat) (tr : DJI_Transaction) :
    Option (DJI_Transaction × Nat) :=
  (Frame_Init crc sSerial tr 3 DJI_CMD_TYPE_DO_REPLY DJI_CMD_SET_DEFAULT DJI_CMD_ANGLE_GET).bind
    (fun r => (r.1.Data_Set 2 0x01).map (fun t => (t, r.2)))

/-- `Frame_Init_ANGLE_LIMIT_GET` (DJI_Transaction.cpp 65-70). -/
def Frame_Init_ANGLE_LIMIT_GET (crc : DJI_CRC) (sSerial : Nat) (tr : DJI_Transaction) :
    Option (DJI_Transaction × Nat) :=
  (Frame_Init crc sSerial tr 3 DJI_CMD_TYPE_DO_REPLY DJI_CMD_SET_DEFAULT
      DJI_CMD_ANGLE_LIMIT_GET).bind
    (fun r => (r.1.Data_Set 2 0x01).map (fun t => (t, r.2)))

/-- The table `OFFSETS` of `Frame_Init_ANGLE_LIMIT_SET`. -/
def ANGLE_LIMIT_SET_OFFSETS : Axis → Nat
  | .AXIS_PITCH => 2
  | .AXIS_ROLL => 7
  | .AXIS_YAW => 5

/-- `Frame_Init_ANGLE_LIMIT_SET` (DJI_Transaction.cpp 72-85). -/
def Frame_Init_ANGLE_LIMIT_SET (crc : DJI_CRC) (sSerial : Nat) (tr : DJI_Transaction)
    (aConfig : Config) : Option (DJI_Transaction × Nat) :=
  (Frame_Init crc sSerial tr 8 DJI_CMD_TYPE_DO_REPLY DJI_CMD_SET_DEFAULT
      DJI_CMD_ANGLE_LIMIT_SET).bind
    (fun r =>
      let t := FOR_EACH_AXIS.foldl
        (fun (o : Option DJI_Transaction) a =>
          o.bind (fun t =>
            let c := aConfig.mAxis.get a
            (t.Data_Set (ANGLE_LIMIT_SET_OFFSETS a)
              (Double_To_UInt8 (if (0 : ℚ) < c.mMax_deg then c.mMax_deg else 0))).bind
              (fun t1 => t1.Data_Set (ANGLE_LIMIT_SET_OFFSETS a + 1)
                (Double_To_UInt8 (if (0 : ℚ) > c.mMin_deg then - c.mMin_deg else 0)))))
        (some r.1)
      (t.bind (fun t => t.Data_Set 2 0x01)).map (fun t => (t, r.2)))

/-- The table `OP_CODES` of `Frame_Init_FOCUS_CAL`. -/
def OP_CODES : List Nat := [0x01, 0x02, 0x05, 0x04, 0x06]

/-- `Frame_Init_FOCUS_CAL` (DJI_Transaction.cpp 87-98). -/
def Frame_Init_FOCUS_CAL (crc : DJI_CRC) (sSerial : Nat) (tr : DJI_Transaction)
    (aOperation : Operation) : Option (DJI_Transaction × Nat) :=
  if ¬ (OPERATION_QTY > aOperation) then none
  else
    (Frame_Init crc sSerial tr 5 DJI_CMD_TYPE_NO_REPLY DJI_CMD_SET_DEFAULT DJI_CMD_FOCUS).bind
      (fun r =>
        ((r.1.Data_Set 2 DJI_CMD_FOCUS_CAL).bind
          (fun t => t.Data_Set 4 (OP_CODES.getD aOperation 0))).map (fun t => (t, r.2)))

/-- `Frame_Init_FOCUS_SET` (DJI_Transaction.cpp 100-118). -/
def Frame_Init_FOCUS_SET (crc : DJI_CRC) (sSerial : Nat) (tr : DJI_Transaction)
    (aValue_pc : ℚ) : Option (DJI_Transaction × Nat) :=
  if ¬ (0 ≤ aValue_pc) then none
  else if ¬ (100 ≥ aValue_pc) then none
  else
    let lValue := aValue_pc / 100 * 4095
    let lValueInt16 := Double_To_Int16 lValue
    (Frame_Init crc sSerial tr 7 DJI_CMD_TYPE_NO_REPLY DJI_CMD_SET_DEFAULT DJI_CMD_FOCUS).bind
      (fun r =>
        ((((r.1.Data_Set 2 DJI_CMD_FOCUS_SET).bind (fun t => t.Data_Set 4 0x02)).bind
            (fun t => t.Data_Set 5 (lValueInt16 &&& 0xff))).bind
            (fun t => t.Data_Set 6 (lValueInt16 >>> 8))).map (fun t => (t, r.2)))

/-- `Frame_Init_MOTOR_STIFFNESS_GET` (DJI_Transaction.cpp 120-125). -/
def Frame_Init_MOTOR_STIFFNESS_GET (crc : DJI_CRC) (sSerial : Nat) (tr : DJI_Transaction) :
    Option (DJI_Transaction × Nat) :=
  (Frame_Init crc sSerial tr 3 DJI_CMD_TYPE_DO_REPLY DJI_CMD_SET_DEFAULT
      DJI_CMD_MOTOR_STIFFNESS_GET).bind
    (fun r => (r.1.Data_Set 2 0x01).map (fun t => (t, r.2)))

/-- `Frame_Init_MOTOR_STIFFNESS_SET` (DJI_Transaction.cpp 127-137). -/
def Frame_Init_MOTOR_STIFFNESS_SET (crc : DJI_CRC) (sSerial : Nat) (tr : DJI_Transaction)
    (aConfig : Config) : Option (DJI_Transaction × Nat) :=
  (Frame_Init crc sSerial tr 6 DJI_CMD_TYPE_DO_REPLY DJI_CMD_SET_DEFAULT
      DJI_CMD_MOTOR_STIFFNESS_SET).bind
    (fun r =>
      let t := FOR_EACH_AXIS.foldl
        (fun (o : Option DJI_Transaction) a =>
          o.bind (fun t =>
            t.Data_Set (3 + a.toNat) (Double_To_UInt8 (aConfig.mAxis.get a).mStiffness_pc)))
        (some r.1)
      (t.bind (fun t => t.Data_Set 2 0x01)).map (fun t => (t, r.2)))

/-- The table `FLAGS` of `Frame_Init_POSITION_SET`. -/
def POSITION_SET_FLAGS : Axis → Nat
  | .AXIS_PITCH => 0x08
  | .AXIS_ROLL => 0x04
  | .AXIS_YAW => 0x02

/-- The table `OFFSETS` of `Frame_Init_POSITION_SET` and `Frame_Init_SPEED_SET`. -/
def AXIS_OFFSETS : Axis → Nat
  | .AXIS_PITCH => 6
  | .AXIS_ROLL => 4
  | .AXIS_YAW => 2

/-- `Frame_Init_POSITION_SET` (DJI_Transaction.cpp 139-161). -/
def Frame_Init_POSITION_SET (crc : DJI_CRC) (sSerial : Nat) (tr : DJI_Transaction)
    (aIn : Position) (aFlags : Nat) (aDuration_ms : Nat) : Option (DJI_Transaction × Nat) :=
  match Frame_Init crc sSerial tr 10 DJI_CMD_TYPE_NO_REPLY DJI_CMD_SET_DEFAULT
      DJI_CMD_POSITION_SET with
  | none => none
  | some (t0, lSerial) =>
    let t1 := t0.Data_Set 8 0x01
    let t2 := FOR_EACH_AXIS.foldl
      (fun (o : Option DJI_Transaction) a =>
        match o with
        | none => none
        | some t =>
          if Axis_Controlled aFlags a then
            t.Frame_Angle_Set (AXIS_OFFSETS a) (aIn.mAxis_deg.get a)
          else
            t.Data_Set 8 (t.mTxFrame.mData 8 ||| POSITION_SET_FLAGS a))
      t1
    (t2.bind (fun t => t.Data_Set 9 (aDuration_ms / 100))).map (fun t => (t, lSerial))

/-- `Frame_Init_SPEED_SET` (DJI_Transaction.cpp 163-175). -/
def Frame_Init_SPEED_SET (crc : DJI_CRC) (sSerial : Nat) (tr : DJI_Transaction)
    (aSpeed : Speed) : Option (DJI_Transaction × Nat) :=
  match Frame_Init crc sSerial tr 9 DJI_CMD_TYPE_NO_REPLY DJI_CMD_SET_DEFAULT
      DJI_CMD_SPEED_SET with
  | none => none
  | some (t0, lSerial) =>
    let t1 := FOR_EACH_AXIS.foldl
      (fun (o : Option DJI_Transaction) a =>
        match o with
        | none => none
        | some t =>
          (t.mTxFrame.Speed_Set (AXIS_OFFSETS a) (aSpeed.mAxis_deg_s.get a)).map
            (fun f => { t with mTxFrame := f }))
      (some t0)
    (t1.bind (fun t => t.Data_Set 8 0x88)).map (fun t => (t, lSerial))

/-- `Frame_Init_TLV_SET` (DJI_Transaction.cpp 177-187). -/
def Frame_Init_TLV_SET (crc : DJI_CRC) (sSerial : Nat) (tr : DJI_Transaction)
    (aSpeed_pc : ℚ) : Option (DJI_Transaction × Nat) :=
  if ¬ (0 ≤ aSpeed_pc) then none
  else if ¬ (100 ≥ aSpeed_pc) then none
  else
    (Frame_Init crc sSerial tr 5 DJI_CMD_TYPE_DO_REPLY DJI_CMD_SET_DEFAULT DJI_CMD_TLV_SET).bind
      (fun r =>
        (((r.1.Data_Set 2 0x75).bind (fun t => t.Data_Set 3 1)).bind
            (fun t => t.Data_Set 4 (Double_To_UInt8 (aSpeed_pc / 100 * 29 + 1)))).map
          (fun t => (t, r.2)))

/-- `Frame_Init_TRACK_SWITCH` (DJI_Transaction.cpp 189-194). -/
def Frame_Init_TRACK_SWITCH (crc : DJI_CRC) (sSerial : Nat) (tr : DJI_Transaction) :
    Option (DJI_Transaction × Nat) :=
  (Frame_Init crc sSerial tr 3 DJI_CMD_TYPE_NO_REPLY DJI_CMD_SET_DEFAULT
      DJI_CMD_TRACK_SWITCH).bind
    (fun r => (r.1.Data_Set 2 0x03).map (fun t => (t, r.2)))

/-- `Frame_Init_VERSION` (DJI_Transaction.cpp 196-201). -/
def Frame_Init_VERSION (crc : DJI_CRC) (sSerial : Nat) (tr : DJI_Transaction) :
    Option (DJI_Transaction × Nat) :=
  (Frame_Init crc sSerial tr 6 DJI_CMD_TYPE_DO_REPLY DJI_CMD_SET_DEFAULT DJI_CMD_VERSION).bind
    (fun r => (r.1.Data_Set 2 1).map (fun t => (t, r.2)))

/-- `DJI_Transaction::IsOK` (DJI_Transaction.cpp 203-206). -/
def IsOK (tr : DJI_Transaction) : Bool := decide (ZT_OK = tr.mResult)

/-- `Prepare(aReceiver, aCode)` (DJI_Transaction.cpp 208-216), called with the engine
as receiver. -/
def Prepare (tr : DJI_Transaction) (aCode : Nat) : Option DJI_Transaction :=
  if ¬ (tr.mReceiver = false) then none
  else some { tr with mCode := aCode, mReceiver := true }

/-- `Prepare(aRxExpected_byte)` (DJI_Transaction.cpp 224-231). -/
def Prepare_RxExpected (tr : DJI_Transaction) (aRxExpected_byte : Nat) : Option DJI_Transaction :=
  if ¬ (0 < aRxExpected_byte) then none
  else if ¬ (0 = tr.mRxExpected_byte) then none
  else
    some { tr with
      mRxExpected_byte :=
        (DJI_FRAME_TOTAL_SIZE aRxExpected_byte - DJI_FOOTER_SIZE_byte) % 4294967296 }

/-- `Prepare(aReceiver, aCode, aRxExpected_byte)` (DJI_Transaction.cpp 218-222). -/
def Prepare_Full (tr : DJI_Transaction) (aCode aRxExpected_byte : Nat) : Option DJI_Transaction :=
  (tr.Prepare aCode).bind (fun t => t.Prepare_RxExpected aRxExpected_byte)

/-- `DJI_Transaction::Reset` (DJI_Transaction.cpp 233-236). -/
def Reset (tr : DJI_Transaction) : DJI_Transaction := { tr with mResult := ZT_RESULT_INVALID }

/-- `DJI_Transaction::Result_Get` (DJI_Transaction.cpp 238-241). -/
def Result_Get (tr : DJI_Transaction) : Result := tr.mResult

/-- `DJI_Transaction::Result_Set` (DJI_Transaction.cpp 243-248). -/
def Result_Set (tr : DJI_Transaction) (aResult : Result) : Option DJI_Transaction :=
  if ¬ (ZT_RESULT_INVALID ≠ aResult) then none else some { tr with mResult := aResult }

/-- `DJI_Transaction::RxExpected_Get` (DJI_Transaction.cpp 250-253). -/
def RxExpected_Get (tr : DJI_Transaction) : Nat := tr.mRxExpected_byte

/-- `DJI_Transaction::RxTimeout_Set` (DJI_Transaction.cpp 255-258). -/
def RxTimeout_Set (tr : DJI_Transaction) (aIn_tick : Nat) : DJI_Transaction :=
  { tr with mRxTimeout_tick := aIn_tick }

/-- `DJI_Transaction::Started` (DJI_Transaction.cpp 260-266). -/
def Started (tr : DJI_Transaction) (aResult : Result) : Option (DJI_Transaction × Option Nat) :=
  if 0 ≥ tr.mRxExpected_byte ∨ ZT_OK ≠ aResult then tr.Complete aResult
  else some (tr, none)

/-- `DJI_Transaction::Tick` (DJI_Transaction.cpp 268-278). -/
def Tick (tr : DJI_Transaction) : Option (DJI_Transaction × Option Nat) :=
  match tr.mRxTimeout_tick with
  | 0 => some (tr, none)
  | 1 => tr.Complete ZT_ERROR_TIMEOUT
  | n + 2 => some ({ tr with mRxTimeout_tick := n + 1 }, none)

/-- A transaction object just constructed (`new DJI_Transaction`, or a local
`DJI_Transaction lTr`). Zeros stand for the indeterminate content of the two members
the constructor leaves alone; every path of the engine assigns them before it reads
them (`Frame_Init` clears the frame, `Tr_Queue_Z0` sets the timeout). -/
def fresh : DJI_Transaction := ctor 0 { bytes := List.replicate DJI_Frame.sizeof 0 }

end DJI_Transaction

/-! ## DJI_Gimbal.h, DJI_Gimbal.cpp: the protocol engine -/

namespace DJI_Gimbal

def MSG_CONFIG : Nat := 1
def MSG_CONFIG_STIFFNESS : Nat := 2
def MSG_DUMMY : Nat := 3
def MSG_INFO : Nat := 4
def MSG_POSITION : Nat := 5
def MSG_POSITION_AND_SIGNAL : Nat := 6
def MSG_RELEASE : Nat := 7
def MSG_REPEAT : Nat := 8
def MSG_SIGNAL : Nat := 9
def MSG_TICK : Nat := 10

def PERIOD_ms : Nat := 10

/-- `sizeof(mRxBuffer)`. -/
def RX_BUFFER_SIZE : Nat := 128

/-- `DJI_Gimbal::State`, the connection state. -/
inductive State where
  | STATE_ACTIVATED
  | STATE_ACTIVATING
  | STATE_ERROR_CAN
  | STATE_ERROR_ETH
  | STATE_INIT
  | STATE_TRANSACTION
  deriving DecidableEq, Repr

end DJI_Gimbal

/-- What a `DJI_Transaction *` of the engine points at: the engine's own member
`mTr_Position`, or a transaction object owned by a caller, held here by value. -/
inductive DJI_Transaction_Ptr where
  | Position
  | Object (tr : DJI_Transaction)
  deriving DecidableEq, Repr

/-- The data members of `class DJI_Gimbal`, which derives from `Gimbal`.
`mReply` is the view of `mRxBuffer` as a `DJI_Frame`. Two components are not members:
`sSerial`, the file-static serial counter of DJI_Transaction.cpp, and `mTr_Done`, the
transactions that `Tr_Complete_Z0` detached from `mTr_Current`, oldest first, as
their owner sees them afterwards. -/
structure DJI_Gimbal extends Gimbal where
  mMoveDuration_ms : Nat
  mRxBuffer : List Nat
  mCounter : Nat
  mTr_Position : DJI_Transaction
  mDevice : EthCAN_Device
  mRxOffset_byte : Nat
  mRxSize_byte : Nat
  mState : DJI_Gimbal.State
  mState_Counter : Nat
  mTr_Current : Option DJI_Transaction_Ptr
  mTr_Next : Option DJI_Transaction_Ptr
  sSerial : Nat
  mTr_Done : List DJI_Transaction
  deriving DecidableEq, Repr

namespace DJI_Gimbal

open State

/-- The reply view `mReply` of the receive buffer. -/
def mReply (g : DJI_Gimbal) : DJI_Frame := { bytes := g.mRxBuffer }

/-- The object a transaction pointer designates. -/
def Tr_Deref (g : DJI_Gimbal) : DJI_Transaction_Ptr → DJI_Transaction
  | .Position => g.mTr_Position
  | .Object tr => tr

/-- The transaction `*mTr_Current`, when the pointer is not `NULL`. -/
def Tr_Current (g : DJI_Gimbal) : Option DJI_Transaction :=
  g.mTr_Current.map g.Tr_Deref

/-- Write through `mTr_Current`. -/
def Tr_Current_Store (g : DJI_Gimbal) (tr : DJI_Transaction) : DJI_Gimbal :=
  match g.mTr_Current with
  | none => g
  | some .Position => { g with mTr_Position := tr }
  | some (.Object _) => { g with mTr_Current := some (.Object tr) }

/-- The constructor (DJI_Gimbal.cpp 65-78). `mMoveDuration_ms`, `mRxBuffer`,
`mState_Counter` and the uninitialised members of `mTr_Position` are indeterminate:
the caller gives their content. -/
def ctor (aDevice : EthCAN_Device) (aMoveDuration_ms : Nat) (aRxBuffer : List Nat)
    (aState_Counter : Nat) (aTr_Position : DJI_Transaction) (aSerial : Nat) :
    Option DJI_Gimbal :=
  (aTr_Position.Prepare_Full MSG_POSITION 10).map (fun t =>
    { toGimbal := Gimbal.ctor
      mMoveDuration_ms := aMoveDuration_ms
      mRxBuffer := aRxBuffer
      mCounter := 0
      mTr_Position := t
      mDevice := aDevice
      mRxOffset_byte := 0
      mRxSize_byte := 0
      mState := STATE_INIT
      mState_Counter := aState_Counter
      mTr_Current := none
      mTr_Next := none
      sSerial := aSerial
      mTr_Done := [] })

/-- `DJI_Gimbal::State_Set_Z0` (DJI_Gimbal.cpp 1092-1105); the trace is not modelled. -/
def State_Set_Z0 (g : DJI_Gimbal) (aTo : State) : DJI_Gimbal := { g with mState := aTo }

/-- `DJI_Gimbal::State_Change_Z0` (DJI_Gimbal.cpp 1037-1050). -/
def State_Change_Z0 (g : DJI_Gimbal) (aFrom aTo : State) : Result × DJI_Gimbal :=
  if g.mState ≠ aFrom then (ZT_ERROR_STATE, g)
  else (ZT_OK, g.State_Set_Z0 aTo)

/-- The size of the next CAN payload of `Frame_Send_Z0` when `lSize_byte` bytes are
left (DJI_Gimbal.cpp 603-607). -/
def Frame_Send_Size (lSize_byte : Nat) : Nat :=
  if 8 < lSize_byte then
    if 12 < lSize_byte then 8 else lSize_byte - DJI_FOOTER_SIZE_byte
  else lSize_byte

/-- The `do ... while` loop of `Frame_Send_Z0` (DJI_Gimbal.cpp 601-628), entered with
`lOffset_byte`; `fuel` bounds the number of iterations and `none` is also the answer
when it runs out. -/
def Frame_Send_Loop (lFrame : List Nat) (lTotalSize_byte : Nat) :
    Nat → Nat → DJI_Gimbal → Option (Result × DJI_Gimbal)
  | 0, _, _ => none
  | fuel + 1, lOffset_byte, g =>
    let lSize_byte := Frame_Send_Size (lTotalSize_byte - lOffset_byte)
    match memRead lFrame lOffset_byte lSize_byte with
    | none => none
    | some lBytes =>
      let lCF : EthCAN_Frame :=
        { mId := DJI_CAN_ID_TX
          mDataSize_byte := lSize_byte
          mData := lBytes ++ List.replicate (8 - lSize_byte) 0 }
      let lOffset_byte := lOffset_byte + lSize_byte
      match g.mDevice.Send lCF with
      | (false, d) => some (ZT_ERROR_SEND, ({ g with mDevice := d }).State_Set_Z0 STATE_ERROR_ETH)
      | (true, d) =>
        if lOffset_byte < lTotalSize_byte then
          Frame_Send_Loop lFrame lTotalSize_byte fuel lOffset_byte { g with mDevice := d }
        else some (ZT_OK, { g with mDevice := d })

/-- `DJI_Gimbal::Frame_Send_Z0` (DJI_Gimbal.cpp 588-632): the result, the engine and
the frame `*aFrame`, which the call seals. Every iteration but a first one with an
empty frame advances the offset, so `mSize_byte + 1` iterations are enough. -/
def Frame_Send_Z0 (crc : DJI_CRC) (g : DJI_Gimbal) (aFrame : DJI_Frame) :
    Option (Result × DJI_Gimbal × DJI_Frame) :=
  let lTotalSize_byte := aFrame.mSize_byte
  match aFrame.Seal crc with
  | none => none
  | some lSealed =>
    match Frame_Send_Loop lSealed.bytes lTotalSize_byte (lTotalSize_byte + 1) 0 g with
    | none => none
    | some (lResult, g1) => some (lResult, g1, lSealed)

/-- The payload sizes `Frame_Send_Loop` produces when every send succeeds. -/
def Frame_Send_Sizes (lTotalSize_byte : Nat) : Nat → Nat → List Nat
  | 0, _ => []
  | fuel + 1, lOffset_byte =>
    let lSize_byte := Frame_Send_Size (lTotalSize_byte - lOffset_byte)
    lSize_byte ::
      (if lOffset_byte + lSize_byte < lTotalSize_byte then
        Frame_Send_Sizes lTotalSize_byte fuel (lOffset_byte + lSize_byte)
      else [])

/-- `DJI_Gimbal::Receiver_Reset` (DJI_Gimbal.cpp 879-886). -/
def Receiver_Reset (g : DJI_Gimbal) : Option DJI_Gimbal :=
  if ¬ (RX_BUFFER_SIZE ≥ g.mRxOffset_byte) then none
  else if ¬ (RX_BUFFER_SIZE ≥ g.mRxSize_byte) then none
  else some { g with mRxOffset_byte := 0, mRxSize_byte := 0 }

/-- `DJI_Gimbal::Receiver_CopyNewData` (DJI_Gimbal.cpp 857-877). -/
def Receiver_CopyNewData (g : DJI_Gimbal) (aCF : EthCAN_Frame) : Option DJI_Gimbal :=
  if ¬ (RX_BUFFER_SIZE > g.mRxOffset_byte) then none
  else if ¬ (RX_BUFFER_SIZE > g.mRxSize_byte) then none
  else if ¬ (g.mRxOffset_byte ≤ g.mRxSize_byte) then none
  else
    let lSize_byte := aCF.mDataSize_byte
    let lToMove_byte := g.mRxSize_byte - g.mRxOffset_byte
    let lMoved : Option (List Nat) :=
      if 0 < lToMove_byte then
        (memRead g.mRxBuffer g.mRxOffset_byte lToMove_byte).bind
          (fun lBytes => memWrite g.mRxBuffer (g.mRxOffset_byte + lSize_byte) lBytes)
      else some g.mRxBuffer
    match lMoved with
    | none => none
    | some b1 =>
      match memRead aCF.mData 0 lSize_byte with
      | none => none
      | some lData =>
        match memWrite b1 g.mRxOffset_byte lData with
        | none => none
        | some b2 =>
          some { g with
            mRxBuffer := b2
            mRxOffset_byte :=
              if 8 ≤ lSize_byte then g.mRxOffset_byte + lSize_byte else g.mRxOffset_byte }

/-- The label `Error` of `Receiver_Validate_Z0` (DJI_Gimbal.cpp 987-991). -/
def Receiver_Validate_Error (g : DJI_Gimbal) (lResult : Result) : Option (Result × DJI_Gimbal) :=
  g.Receiver_Reset.map (fun g1 => (lResult, g1))

/-- `DJI_Gimbal::Receiver_Validate_Z0` (DJI_Gimbal.cpp 888-992). `lCross t` is the
guard `(t > mRxSize_byte) && (t <= aTo_byte)`. -/
def Receiver_Validate_Z0 (g : DJI_Gimbal) (aTo_byte : Nat) : Option (Result × DJI_Gimbal) :=
  match g.Tr_Current with
  | none => none
  | some lTr =>
    if ¬ (g.mRxSize_byte < aTo_byte) then none
    else if ¬ (RX_BUFFER_SIZE ≥ aTo_byte) then none
    else
      let lCross := fun (t : Nat) => decide (t > g.mRxSize_byte ∧ t ≤ aTo_byte)
      if lCross 1 ∧ DJI_SOF ≠ g.mReply.mSOF then
        g.Receiver_Validate_Error ZT_OK
      else if lCross 2 ∧ RX_BUFFER_SIZE < g.mReply.mSize_byte then
        g.Receiver_Validate_Error ZT_ERROR_FRAME_TOO_LONG
      else if lCross 2 ∧ DJI_FRAME_TOTAL_SIZE 1 > g.mReply.mSize_byte then
        g.Receiver_Validate_Error ZT_ERROR_FRAME_TOO_SHORT
      else if lCross 3 ∧ 0 ≠ g.mReply.mVersion &&& 0xfc then
        g.Receiver_Validate_Error ZT_ERROR_GIMBAL_VERSION
      else if lCross 4 ∧ DJI_CMD_TYPE_REPLY ≠ g.mReply.mCmdType then
        g.Receiver_Validate_Error ZT_ERROR_CMD_TYPE
      else if lCross 5 ∧ 0 ≠ g.mReply.mEncoded then
        g.Receiver_Validate_Error ZT_ERROR_ENCODED
      else if lCross 13 ∧ DJI_CMD_SET_DEFAULT ≠ g.mReply.mData DJI_DATA_CMD_SET then
        g.Receiver_Validate_Error ZT_ERROR_CMD_SET
      else if lCross 14 ∧ lTr.Frame_Data_Get DJI_DATA_CMD_ID ≠ some (g.mReply.mData DJI_DATA_CMD_ID) then
        (lTr.Frame_Data_Get DJI_DATA_CMD_ID).bind
          (fun _ => g.Receiver_Validate_Error ZT_ERROR_CMD_ID)
      else if lCross 15 ∧ DJI_OK ≠ g.mReply.mData DJI_REPLY_RESULT then
        g.Receiver_Validate_Error ZT_ERROR_GIMBAL
      else some (ZT_OK, { g with mRxSize_byte := aTo_byte })

/-- `DJI_Gimbal::Tr_Complete_Z0` (DJI_Gimbal.cpp 1211-1219). At each of its call sites
`aTr` is the transaction whose `Complete` is running, which is `*mTr_Current`; the
detached transaction is recorded in `mTr_Done`. -/
def Tr_Complete_Z0 (g : DJI_Gimbal) : DJI_Gimbal :=
  match g.Tr_Current with
  | none => g
  | some tr => { g with mTr_Current := none, mTr_Done := g.mTr_Done ++ [tr] }

/-- The table `OFFSETS` of `Position_Parse`. -/
def Position_Parse_OFFSETS : Axis → Nat
  | .AXIS_PITCH => 8
  | .AXIS_ROLL => 6
  | .AXIS_YAW => 4

/-- `DJI_Gimbal::Position_Parse` (DJI_Gimbal.cpp 826-855). -/
def Position_Parse (g : DJI_Gimbal) : Option (Result × DJI_Gimbal) :=
  if 0x00 = g.mReply.mData 3 then some (ZT_ERROR_NOT_READY, g)
  else
    (g.mReply.Angle_Get (Position_Parse_OFFSETS .AXIS_PITCH)).bind (fun lPitch =>
    (g.mReply.Angle_Get (Position_Parse_OFFSETS .AXIS_ROLL)).bind (fun lRoll =>
    (g.mReply.Angle_Get (Position_Parse_OFFSETS .AXIS_YAW)).bind (fun lYaw =>
      let lPosition : Position :=
        { mAxis_deg := { pitch := lPitch, roll := lRoll, yaw := lYaw } }
      let lResult := g.toGimbal.Position_Validate lPosition 0
      if ZT_OK = lResult then
        some (lResult, { g with toGimbal := g.toGimbal.Position_Update lPosition })
      else some (lResult, g))))

/-- `DJI_Gimbal::OnSignal_Z0` (DJI_Gimbal.cpp 771-782). -/
def OnSignal_Z0 (g : DJI_Gimbal) : DJI_Gimbal :=
  (g.Tr_Complete_Z0.State_Change_Z0 STATE_TRANSACTION STATE_ACTIVATED).2

/-- The table `OFFSETS` of `OnConfig_Z0`. -/
def OnConfig_OFFSETS : Axis → Nat
  | .AXIS_PITCH => 3
  | .AXIS_ROLL => 7
  | .AXIS_YAW => 5

/-- `DJI_Gimbal::OnConfig_Z0` (DJI_Gimbal.cpp 673-691). -/
def OnConfig_Z0 (g : DJI_Gimbal) : Option DJI_Gimbal :=
  match g.Tr_Current with
  | none => none
  | some lTr =>
    let g1 :=
      if lTr.IsOK then
        { g with
          mConfig :=
            { mAxis := FOR_EACH_AXIS.foldl
                (fun c a =>
                  c.set a { c.get a with
                    mMax_deg := (g.mReply.mData (OnConfig_OFFSETS a) : ℚ)
                    mMin_deg := - (g.mReply.mData (OnConfig_OFFSETS a + 1) : ℚ) })
                g.mConfig.mAxis } }
      else g
    some g1.OnSignal_Z0

/-- The table `OFFSETS` of `OnConfigStiffness_Z0`. -/
def OnConfigStiffness_OFFSETS : Axis → Nat
  | .AXIS_PITCH => 3
  | .AXIS_ROLL => 5
  | .AXIS_YAW => 4

/-- `DJI_Gimbal::OnConfigStiffness_Z0` (DJI_Gimbal.cpp 693-712). -/
def OnConfigStiffness_Z0 (g : DJI_Gimbal) : Option DJI_Gimbal :=
  match g.Tr_Current with
  | none => none
  | some lTr =>
    if lTr.IsOK then
      let g1 : DJI_Gimbal :=
        { g with
          mConfig :=
            { mAxis := FOR_EACH_AXIS.foldl
                (fun c a =>
                  c.set a { c.get a with
                    mStiffness_pc := (g.mReply.mData (OnConfigStiffness_OFFSETS a) : ℚ) })
                g.mConfig.mAxis } }
      match g1.toGimbal.Config_Validate g1.mConfig with
      | none => none
      | some lResult =>
        (lTr.Result_Set lResult).map (fun t => (g1.Tr_Current_Store t).OnSignal_Z0)
    else some g.OnSignal_Z0

/-- `DJI_Gimbal::OnInfo_Z0` (DJI_Gimbal.cpp 714-729). -/
def OnInfo_Z0 (g : DJI_Gimbal) : Option DJI_Gimbal :=
  match g.Tr_Current with
  | none => none
  | some lTr =>
    let g1 :=
      if lTr.IsOK then
        { g with
          mInfo := { g.mInfo with
            mVersion := [g.mReply.mData 5, g.mReply.mData 4, g.mReply.mData 3,
                         g.mReply.mData 2] } }
      else g
    some g1.OnSignal_Z0

/-- The statement `aTr->Result_Set(Position_Parse())` of the two position handlers. -/
def OnPosition_Parse (g : DJI_Gimbal) (lTr : DJI_Transaction) : Option DJI_Gimbal :=
  g.Position_Parse.bind (fun r =>
    (lTr.Result_Set r.1).map (fun t => r.2.Tr_Current_Store t))

/-- `DJI_Gimbal::OnPosition_Z0` (DJI_Gimbal.cpp 731-743). -/
def OnPosition_Z0 (g : DJI_Gimbal) : Option DJI_Gimbal :=
  match g.Tr_Current with
  | none => none
  | some lTr =>
    if lTr.IsOK then (g.OnPosition_Parse lTr).map Tr_Complete_Z0
    else some g.Tr_Complete_Z0

/-- `DJI_Gimbal::OnPositionAndSignal_Z0` (DJI_Gimbal.cpp 745-753). -/
def OnPositionAndSignal_Z0 (g : DJI_Gimbal) : Option DJI_Gimbal :=
  match g.Tr_Current with
  | none => none
  | some lTr =>
    if lTr.IsOK then (g.OnPosition_Parse lTr).map OnSignal_Z0
    else some g.OnSignal_Z0

/-- `DJI_Gimbal::OnRelease_Z0` (DJI_Gimbal.cpp 755-769). The `delete` leaves no trace
in the model; when the result is `ZT_OK_REPLACED` the source keeps `mTr_Current`
pointing at the deleted object, and the model keeps the slot as it is. -/
def OnRelease_Z0 (g : DJI_Gimbal) : Option DJI_Gimbal :=
  match g.Tr_Current with
  | none => none
  | some lTr =>
    if ZT_OK_REPLACED ≠ lTr.Result_Get then
      some (g.Tr_Complete_Z0.State_Change_Z0 STATE_TRANSACTION STATE_ACTIVATED).2
    else some g

/-- The cases of `DJI_Gimbal::ProcessMessage` (DJI_Gimbal.cpp 431-457) that a
transaction can send from `Complete`; the sender is `*mTr_Current`. A transaction is
never prepared with `MSG_TICK`, which belongs to the worker thread (see `OnTick`):
that case and the `default` one give `none`. -/
def ProcessMessage_Tr (g : DJI_Gimbal) (aCode : Nat) : Option DJI_Gimbal :=
  if aCode = MSG_CONFIG then g.OnConfig_Z0
  else if aCode = MSG_CONFIG_STIFFNESS then g.OnConfigStiffness_Z0
  else if aCode = MSG_INFO then g.OnInfo_Z0
  else if aCode = MSG_POSITION then g.OnPosition_Z0
  else if aCode = MSG_POSITION_AND_SIGNAL then g.OnPositionAndSignal_Z0
  else if aCode = MSG_RELEASE then g.OnRelease_Z0
  else if aCode = MSG_SIGNAL then g.OnSignal_Z0
  else if aCode = MSG_DUMMY then some g
  else none

/-- A member call `mTr_Current->f(...)` for `f` one of `Complete`, `Started`, `Tick`:
the transaction is updated in place and the message it sends, if any, is delivered to
the engine. -/
def Tr_Current_Call (g : DJI_Gimbal)
    (f : DJI_Transaction → Option (DJI_Transaction × Option Nat)) : Option DJI_Gimbal :=
  match g.Tr_Current with
  | none => none
  | some lTr =>
    match f lTr with
    | none => none
    | some (t, none) => some (g.Tr_Current_Store t)
    | some (t, some lCode) => (g.Tr_Current_Store t).ProcessMessage_Tr lCode

/-- `DJI_Gimbal::Receiver` (DJI_Gimbal.cpp 462-515) up to its call of
`mTr_Current->Complete`: the engine at that point and the result `Complete` is about
to be called with, or `none` on the paths that do not call it. -/
def Receiver_Step (g : DJI_Gimbal) (aCF : EthCAN_Frame) : Option (DJI_Gimbal × Option Result) :=
  if ¬ (8 ≥ aCF.mDataSize_byte) then none
  else if ¬ (RX_BUFFER_SIZE ≥ g.mRxSize_byte) then none
  else if DJI_CAN_ID_RX ≠ aCF.mId ∨ g.mTr_Current = none then some (g, none)
  else
    let lRxSize_byte := g.mRxSize_byte + aCF.mDataSize_byte
    if RX_BUFFER_SIZE < lRxSize_byte then g.Receiver_Reset.map (fun g1 => (g1, none))
    else
      match g.Receiver_CopyNewData aCF with
      | none => none
      | some g1 =>
        match g1.Receiver_Validate_Z0 lRxSize_byte with
        | none => none
        | some (lRet, g2) =>
          if ZT_OK = lRet then
            match g2.Tr_Current with
            | none => none
            | some lTr =>
              if lTr.RxExpected_Get ≤ g2.mRxSize_byte then
                match g2.mState with
                | STATE_ERROR_ETH =>
                  some ({ g2.State_Set_Z0 STATE_ACTIVATED with mState_Counter := 30 }, some ZT_OK)
                | STATE_ACTIVATED | STATE_TRANSACTION =>
                  some ({ g2 with mState_Counter := 30 }, some ZT_OK)
                | _ => none
              else some (g2, none)
          else some (g2, some lRet)

/-- `DJI_Gimbal::Receiver` (DJI_Gimbal.cpp 462-515); the function always returns
`true`, so only the engine is given. -/
def Receiver (g : DJI_Gimbal) (aCF : EthCAN_Frame) : Option DJI_Gimbal :=
  match g.Receiver_Step aCF with
  | none => none
  | some (g1, none) => some g1
  | some (g1, some lResult) => g1.Tr_Current_Call (fun t => t.Complete lResult)

/-- The static function `CalculateMoveDuration` (DJI_Gimbal.cpp 1293-1309). A zero
speed makes the quotient an infinity or a NaN, for which the assertion fails or the
conversion to `unsigned int` is undefined: `none`. -/
def CalculateMoveDuration_Axis (aFrom_deg aTo_deg aSpeed_deg_s : ℚ) : Option Nat :=
  if ¬ (POSITION_MAX_deg ≥ aFrom_deg) then none
  else if ¬ (POSITION_MIN_deg ≤ aFrom_deg) then none
  else if ¬ (POSITION_MAX_deg ≥ aTo_deg) then none
  else if ¬ (POSITION_MIN_deg ≤ aTo_deg) then none
  else if ¬ (IGimbal.SPEED_MAX_deg_s ≥ aSpeed_deg_s) then none
  else if ¬ (IGimbal.SPEED_MIN_deg_s ≤ aSpeed_deg_s) then none
  else
    let lDelta_deg := if aFrom_deg < aTo_deg then aTo_deg - aFrom_deg else aFrom_deg - aTo_deg
    if ¬ (0 ≤ lDelta_deg) then none
    else if aSpeed_deg_s = 0 then none
    else
      let lDuration_s := lDelta_deg / aSpeed_deg_s
      if ¬ (0 ≤ lDuration_s) then none
      else some (Double_To_UInt32 (lDuration_s * 1000))

/-- `DJI_Gimbal::CalculateMoveDuration` (DJI_Gimbal.cpp 521-547). -/
def CalculateMoveDuration (g : DJI_Gimbal) (aTo : Position) (aFlags : Nat) : Option Nat :=
  let (lFresh, lPosition) := g.toGimbal.Position_Current_Get
  if lFresh then
    FOR_EACH_AXIS.foldl
      (fun (r : Option Nat) a =>
        match r with
        | none => none
        | some lResult_ms =>
          if Axis_Controlled aFlags a then
            (CalculateMoveDuration_Axis (lPosition.mAxis_deg.get a) (aTo.mAxis_deg.get a)
                (g.mConfig.mAxis.get a).mSpeed_deg_s).map
              (fun lDuration_ms => if lResult_ms < lDuration_ms then lDuration_ms else lResult_ms)
          else some lResult_ms)
      (some 0)
  else some 200

/-- `DJI_Gimbal::State_Check` (DJI_Gimbal.cpp 1052-1090). -/
def State_Check (g : DJI_Gimbal) : Option (Result × DJI_Gimbal) :=
  match g.mState with
  | STATE_ACTIVATED | STATE_TRANSACTION => some (ZT_OK, g)
  | STATE_ACTIVATING | STATE_INIT => some (ZT_ERROR_STATE, g)
  | STATE_ERROR_ETH =>
    if ¬ g.mDevice.mProtocol_Reset_OK then none
    else if g.mDevice.mReceiver_Config_OK then
      let (lResult, g1) := g.State_Change_Z0 STATE_ERROR_ETH STATE_ACTIVATED
      some (lResult, { g1 with mState_Counter := 10 })
    else some (ZT_ERROR_STATE, g)
  | STATE_ERROR_CAN => none

/-- `DJI_Gimbal::ResetAndSleep_Z0` (DJI_Gimbal.cpp 994-1011). -/
def ResetAndSleep_Z0 (g : DJI_Gimbal) (aNextState : State) : Option DJI_Gimbal :=
  if ¬ (STATE_ERROR_CAN = g.mState) then none
  else if g.mDevice.mCAN_Reset_OK then
    some (({ g with mState_Counter := 10 }).State_Set_Z0 aNextState)
  else some (g.State_Set_Z0 STATE_ERROR_ETH)

/-- `DJI_Gimbal::Tr_Queue_Z0` (DJI_Gimbal.cpp 1246-1256). -/
def Tr_Queue_Z0 (g : DJI_Gimbal) (aTr : DJI_Transaction) : Option DJI_Gimbal :=
  if ¬ (g.mTr_Next = none) then none
  else
    some { g with mTr_Next := some (.Object (aTr.Reset.RxTimeout_Set (1000 / PERIOD_ms))) }

/-- `DJI_Gimbal::Tr_Queue` (DJI_Gimbal.cpp 1222-1243). -/
def Tr_Queue (g : DJI_Gimbal) (aTr : DJI_Transaction) : Option (Result × DJI_Gimbal) :=
  match aTr.Prepare MSG_RELEASE with
  | none => none
  | some lTr =>
    if g.mTr_Next = none then (g.Tr_Queue_Z0 lTr).map (fun g1 => (ZT_OK, g1))
    else some (ZT_ERROR_NOT_READY, g)

/-- `DJI_Gimbal::Tr_Start_Z0` (DJI_Gimbal.cpp 1277-1288). -/
def Tr_Start_Z0 (crc : DJI_CRC) (g : DJI_Gimbal) (aTr : DJI_Transaction_Ptr) :
    Option DJI_Gimbal :=
  let g1 : DJI_Gimbal := { g with mTr_Current := some aTr }
  match g1.Receiver_Reset with
  | none => none
  | some g2 =>
    match Frame_Send_Z0 crc g2 (g2.Tr_Deref aTr).Frame_Get with
    | none => none
    | some (lRet, g3, lFrame) =>
      (g3.Tr_Current_Store { g3.Tr_Deref aTr with mTxFrame := lFrame }).Tr_Current_Call
        (fun t => t.Started lRet)

/-- `DJI_Gimbal::State_TRANSACTION_Z0` (DJI_Gimbal.cpp 1107-1114). -/
def State_TRANSACTION_Z0 (crc : DJI_CRC) (g : DJI_Gimbal) : Option DJI_Gimbal :=
  match g.mTr_Next with
  | none => none
  | some lNext =>
    (Tr_Start_Z0 crc (g.State_Set_Z0 STATE_TRANSACTION) lNext).map
      (fun g1 => { g1 with mTr_Next := none })

/-- `DJI_Gimbal::Tick_Focus_Speed_Z0` (DJI_Gimbal.cpp 1143-1158). -/
def Tick_Focus_Speed_Z0 (crc : DJI_CRC) (g : DJI_Gimbal) : Option DJI_Gimbal :=
  if g.toGimbal.IsFocusMoving then
    let lPosition_pc := g.mFocus_Position_pc + g.mFocus_Speed_pc_s * 2 * PERIOD_ms / 1000
    match Value_Limit lPosition_pc FOCUS_POSITION_MIN_pc FOCUS_POSITION_MAX_pc with
    | none => none
    | some lLimited =>
      let g1 : DJI_Gimbal := { g with mFocus_Position_pc := lLimited }
      match DJI_Transaction.fresh.Frame_Init_FOCUS_SET crc g1.sSerial g1.mFocus_Position_pc with
      | none => none
      | some (lTr, lSerial) =>
        match Frame_Send_Z0 crc { g1 with sSerial := lSerial } lTr.Frame_Get with
        | none => none
        | some (lRet, g2, _) => if ¬ (ZT_OK = lRet) then none else some g2
  else some g

/-- `DJI_Gimbal::Tick_Position_Z0` (DJI_Gimbal.cpp 1160-1166). -/
def Tick_Position_Z0 (crc : DJI_CRC) (g : DJI_Gimbal) : Option DJI_Gimbal :=
  match g.mTr_Position.Frame_Init_ANGLE_GET crc g.sSerial with
  | none => none
  | some (lTr, lSerial) =>
    Tr_Start_Z0 crc { g with mTr_Position := lTr.Reset, sSerial := lSerial } .Position

/-- `DJI_Gimbal::Tick_Speed_Z0` (DJI_Gimbal.cpp 1168-1191). -/
def Tick_Speed_Z0 (crc : DJI_CRC) (g : DJI_Gimbal) : Option DJI_Gimbal :=
  match g.toGimbal.Position_State_Get with
  | .STATE_KNOWN | .STATE_UNKNOWN => some g
  | .STATE_MOVING =>
    match DJI_Transaction.fresh.Frame_Init_POSITION_SET crc g.sSerial g.mPosition_Target
        g.mPosition_Flags g.mMoveDuration_ms with
    | none => none
    | some (lTr, lSerial) =>
      (Frame_Send_Z0 crc { g with sSerial := lSerial } lTr.Frame_Get).map (fun r => r.2.1)
  | .STATE_SPEED =>
    match DJI_Transaction.fresh.Frame_Init_SPEED_SET crc g.sSerial g.mSpeed with
    | none => none
    | some (lTr, lSerial) =>
      (Frame_Send_Z0 crc { g with sSerial := lSerial } lTr.Frame_Get).map (fun r => r.2.1)

/-- `DJI_Gimbal::Tick_Work_Z0` (DJI_Gimbal.cpp 1193-1206). -/
def Tick_Work_Z0 (crc : DJI_CRC) (g : DJI_Gimbal) : Option DJI_Gimbal :=
  let g1 : DJI_Gimbal := { g with mCounter := (g.mCounter + 1) % 4294967296 }
  match g1.mCounter % 4 with
  | 0 | 2 => Tick_Focus_Speed_Z0 crc g1
  | 1 => Tick_Position_Z0 crc g1
  | _ => Tick_Speed_Z0 crc g1

/-- `DJI_Gimbal::Tick_ACTIVATED_Z0` (DJI_Gimbal.cpp 1119-1141). -/
def Tick_ACTIVATED_Z0 (crc : DJI_CRC) (g : DJI_Gimbal) : Option DJI_Gimbal :=
  if g.mTr_Next ≠ none then State_TRANSACTION_Z0 crc g
  else
    match Tick_Work_Z0 crc g with
    | none => none
    | some g1 =>
      match g1.mState_Counter with
      | 0 => none
      | 1 => (g1.State_Set_Z0 STATE_ERROR_CAN).ResetAndSleep_Z0 STATE_ACTIVATED
      | n + 2 => some { g1 with mState_Counter := n + 1 }

/-- `DJI_Gimbal::OnTick` (DJI_Gimbal.cpp 784-824), the body of the worker thread; it
is what `ProcessMessage` runs for `MSG_TICK`. -/
def OnTick (crc : DJI_CRC) (g : DJI_Gimbal) : Option DJI_Gimbal :=
  let lStep : Option DJI_Gimbal :=
    match g.mState with
    | STATE_ACTIVATED => Tick_ACTIVATED_Z0 crc g
    | STATE_ACTIVATING | STATE_ERROR_ETH =>
      if g.mTr_Next ≠ none then State_TRANSACTION_Z0 crc g else some g
    | STATE_TRANSACTION => g.Tr_Current_Call (fun t => t.Tick)
    | STATE_INIT => some g
    | STATE_ERROR_CAN => none
  lStep.map (fun g1 => { g1 with toGimbal := g1.toGimbal.Tick })

/-- `DJI_Gimbal::Focus_Cal` (DJI_Gimbal.cpp 233-253). -/
def Focus_Cal (crc : DJI_CRC) (g : DJI_Gimbal) (aOperation : Operation) :
    Option (Result × DJI_Gimbal) :=
  if OPERATION_QTY ≤ aOperation then some (ZT_ERROR_OPERATION, g)
  else
    match g.State_Check with
    | none => none
    | some (lResult, g1) =>
      if ZT_OK = lResult then
        match DJI_Transaction.fresh.Frame_Init_FOCUS_CAL crc g1.sSerial aOperation with
        | none => none
        | some (lTr, lSerial) => ({ g1 with sSerial := lSerial }).Tr_Queue lTr
      else some (lResult, g1)

/-- `DJI_Gimbal::Focus_Position_Set` (DJI_Gimbal.cpp 255-270). -/
def Focus_Position_Set (crc : DJI_CRC) (g : DJI_Gimbal) (aFocus_pc : ℚ) :
    Option (Result × DJI_Gimbal) :=
  match Value_Validate aFocus_pc 0 100 with
  | none => none
  | some lResult =>
    if ZT_OK = lResult then
      match g.State_Check with
      | none => none
      | some (lResult, g1) =>
        if ZT_OK = lResult then
          match DJI_Transaction.fresh.Frame_Init_FOCUS_SET crc g1.sSerial aFocus_pc with
          | none => none
          | some (lTr, lSerial) => ({ g1 with sSerial := lSerial }).Tr_Queue lTr
        else some (lResult, g1)
    else some (lResult, g)

/-- `DJI_Gimbal::Position_Set` (DJI_Gimbal.cpp 297-322). -/
def Position_Set (crc : DJI_CRC) (g : DJI_Gimbal) (aIn : Position) (aFlags aDuration_ms : Nat) :
    Option (Result × DJI_Gimbal) :=
  let (lResult, lBase) := g.toGimbal.Position_Set aIn aFlags aDuration_ms
  if ZT_OK = lResult then
    match ({ g with toGimbal := lBase }).State_Check with
    | none => none
    | some (lResult, g1) =>
      if ZT_OK = lResult then
        match g1.CalculateMoveDuration aIn aFlags with
        | none => none
        | some lDuration_ms =>
          let g2 : DJI_Gimbal :=
            { g1 with
              mMoveDuration_ms := if aDuration_ms > lDuration_ms then aDuration_ms else lDuration_ms }
          match DJI_Transaction.fresh.Frame_Init_POSITION_SET crc g2.sSerial aIn aFlags
              g2.mMoveDuration_ms with
          | none => none
          | some (lTr, lSerial) =>
            (({ g2 with sSerial := lSerial }).Tr_Queue lTr).map
              (fun (r : Result × DJI_Gimbal) => (if ZT_ERROR_NOT_READY = r.1 then ZT_OK else r.1, r.2))
      else some (lResult, g1)
  else some (lResult, g)

/-- `DJI_Gimbal::Speed_Set` (DJI_Gimbal.cpp 324-343). -/
def Speed_Set (crc : DJI_CRC) (g : DJI_Gimbal) (aIn : Speed) (aFlags : Nat) :
    Option (Result × DJI_Gimbal) :=
  let (lResult, lBase) := g.toGimbal.Speed_Set aIn aFlags
  if ZT_OK = lResult then
    match ({ g with toGimbal := lBase }).State_Check with
    | none => none
    | some (lResult, g1) =>
      if ZT_OK = lResult then
        match DJI_Transaction.fresh.Frame_Init_SPEED_SET crc g1.sSerial g1.mSpeed with
        | none => none
        | some (lTr, lSerial) =>
          (({ g1 with sSerial := lSerial }).Tr_Queue lTr).map
            (fun (r : Result × DJI_Gimbal) => (if ZT_ERROR_NOT_READY = r.1 then ZT_OK else r.1, r.2))
      else some (lResult, g1)
  else some (lResult, g)

/-- `DJI_Gimbal::Speed_Stop` (DJI_Gimbal.cpp 345-360). -/
def Speed_Stop (crc : DJI_CRC) (g : DJI_Gimbal) : Option (Result × DJI_Gimbal) :=
  let (lResult, lBase) := g.toGimbal.Speed_Stop
  if ZT_OK = lResult then
    match ({ g with toGimbal := lBase }).State_Check with
    | none => none
    | some (lResult, g1) =>
      if ZT_OK = lResult then
        match DJI_Transaction.fresh.Frame_Init_SPEED_SET crc g1.sSerial g1.mSpeed with
        | none => none
        | some (lTr, lSerial) => ({ g1 with sSerial := lSerial }).Tr_Queue lTr
      else some (lResult, g1)
  else some (lResult, g)

/-- `DJI_Gimbal::Track_Switch` (DJI_Gimbal.cpp 377-388). -/
def Track_Switch (crc : DJI_CRC) (g : DJI_Gimbal) : Option (Result × DJI_Gimbal) :=
  match g.State_Check with
  | none => none
  | some (lResult, g1) =>
    if ZT_OK = lResult then
      match DJI_Transaction.fresh.Frame_Init_TRACK_SWITCH crc g1.sSerial with
      | none => none
      | some (lTr, lSerial) => ({ g1 with sSerial := lSerial }).Tr_Queue lTr
    else some (lResult, g1)

end DJI_Gimbal

namespace DJI_Gimbal

/-- Delivery of CAN payloads to the reassembler alone: `Receiver_CopyNewData` for each
payload in turn, the receive size being advanced by the payload length after each one
(in `Receiver` this is done by `Receiver_Validate_Z0`). -/
def Receiver_Feed (g : DJI_Gimbal) : List EthCAN_Frame → Option DJI_Gimbal
  | [] => some g
  | lCF :: lRest =>
    match g.Receiver_CopyNewData lCF with
    | none => none
    | some g1 =>
      Receiver_Feed { g1 with mRxSize_byte := g1.mRxSize_byte + lCF.mDataSize_byte } lRest

/-- The engine with an empty receive buffer (the effect of `Receiver_Reset`). -/
def Rx_Empty (g : DJI_Gimbal) : DJI_Gimbal := { g with mRxOffset_byte := 0, mRxSize_byte := 0 }
end DJI_Gimbal

/-! ## Includes/ZT/IGamepad.h -/

namespace IGamepad

/-! The enumeration `Action`; a value of the C enumeration is its number. -/

def ACTION_CHANGED : Nat := 0
def ACTION_DISCONNECTED : Nat := 1
def ACTION_PRESSED : Nat := 2
def ACTION_RELEASED : Nat := 3
def ACTION_QTY : Nat := 4

/-! The enumeration `Control`. -/

def CONTROL_NONE : Nat := 0
def ANALOG_0_X : Nat := 1
def ANALOG_0_Y : Nat := 2
def ANALOG_1_X : Nat := 3
def ANALOG_1_Y : Nat := 4
def BUTTON_A : Nat := 5
def BUTTON_ANALOG_0 : Nat := 6
def BUTTON_ANALOG_1 : Nat := 7
def BUTTON_B : Nat := 8
def BUTTON_BACK : Nat := 9
def BUTTON_LEFT : Nat := 10
def BUTTON_RIGHT : Nat := 11
def BUTTON_START : Nat := 12
def BUTTON_X : Nat := 13
def BUTTON_Y : Nat := 14
def PAD_BOTTOM : Nat := 15
def PAD_LEFT : Nat := 16
def PAD_RIGHT : Nat := 17
def PAD_TOP : Nat := 18
def TRIGGER_LEFT : Nat := 19
def TRIGGER_RIGHT : Nat := 20
def CONTROL_QTY : Nat := 21

end IGamepad

/-! ## ControlLink.h, ControlLink.cpp: the control table -/

namespace ControlLink

/-! The enumeration `Function` (ControlLink.h 53-91). -/

def FUNCTION_ATEM_APERTURE_ABSOLUTE : Nat := 0
def FUNCTION_ATEM_APERTURE_AUTO : Nat := 1
def FUNCTION_ATEM_FOCUS_ABSOLUTE : Nat := 2
def FUNCTION_ATEM_FOCUS_AUTO : Nat := 3
def FUNCTION_ATEM_GAIN_ABSOLUTE : Nat := 4
def FUNCTION_ATEM_ZOOM : Nat := 5
def FUNCTION_ATEM_ZOOM_ABSOLUTE : Nat := 6
def FUNCTION_FOCUS : Nat := 7
def FUNCTION_FOCUS_ABSOLUTE : Nat := 8
def FUNCTION_FOCUS_CALIBRATION : Nat := 9
def FUNCTION_FORWARD : Nat := 10
def FUNCTION_GIMBAL_FIRST : Nat := 11
def FUNCTION_GIMBAL_LAST : Nat := 12
def FUNCTION_GIMBAL_NEXT : Nat := 13
def FUNCTION_GIMBAL_NEXT_LOOP : Nat := 14
def FUNCTION_GIMBAL_PREVIOUS : Nat := 15
def FUNCTION_GIMBAL_PREVIOUS_LOOP : Nat := 16
def FUNCTION_GIMBAL_SELECT : Nat := 17
def FUNCTION_HOME : Nat := 18
def FUNCTION_HOME_PITCH : Nat := 19
def FUNCTION_HOME_SET : Nat := 20
def FUNCTION_HOME_YAW : Nat := 21
def FUNCTION_PITCH : Nat := 22
def FUNCTION_PITCH_ABSOLUTE : Nat := 23
def FUNCTION_ROLL : Nat := 24
def FUNCTION_ROLL_ABSOLUTE : Nat := 25
def FUNCTION_SPEED_BOOST : Nat := 26
def FUNCTION_TRACK_SWITCH : Nat := 27
def FUNCTION_YAW : Nat := 28
def FUNCTION_YAW_ABSOLUTE : Nat := 29
def FUNCTION_ZOOM : Nat := 30
def FUNCTION_ZOOM_ABSOLUTE : Nat := 31
def FUNCTION_ZOOM_CALIBRATION : Nat := 32
def FUNCTION_QTY : Nat := 33

/-- The structure `TableEntry` (ControlLink.h 104-114). -/
structure TableEntry where
  mAction : Nat
  mControl : Nat
  mFunction : Nat
  mFactor : ℚ
  mOffset : ℚ
  deriving DecidableEq, Repr

/-- The type `Table`, a `std::list<TableEntry>`. -/
abbrev Table := List TableEntry

def FACTOR_MAX : ℚ := 360
def FACTOR_MIN : ℚ := -360
def OFFSET_MAX : ℚ := 180
def OFFSET_MIN : ℚ := -180

/-- The loop of `Table_FindEntry`: the position of the first entry with the given
action and control, `none` for `NULL`. -/
def Table_FindEntry_Loop : Table → Nat → Nat → Option Nat
  | [], _, _ => none
  | lIt :: lRest, aAction, aControl =>
    if aAction = lIt.mAction ∧ aControl = lIt.mControl then some 0
    else (Table_FindEntry_Loop lRest aAction aControl).map (fun i => i + 1)

/-- `ControlLink::Table_FindEntry` (ControlLink.cpp 540-554). The returned pointer is
the position of the entry in the list. -/
def Table_FindEntry (mTable : Table) (aAction aControl : Nat) : Option (Option Nat) :=
  if ¬ (IGamepad.ACTION_QTY > aAction) then none
  else if ¬ (IGamepad.CONTROL_QTY > aControl) then none
  else some (Table_FindEntry_Loop mTable aAction aControl)

/-- The three assignments through the pointer `lEntry` in `Table_AddEntry`: the entry
at position `i` gets the function, offset and factor. -/
def Table_Entry_Assign : Table → Nat → Nat → ℚ → ℚ → Table
  | [], _, _, _, _ => []
  | lEntry :: lRest, 0, aFunction, aOffset, aFactor =>
    { lEntry with mFunction := aFunction, mOffset := aOffset, mFactor := aFactor } :: lRest
  | lEntry :: lRest, i + 1, aFunction, aOffset, aFactor =>
    lEntry :: Table_Entry_Assign lRest i aFunction aOffset aFactor

/-- `ControlLink::Table_AddEntry` (ControlLink.cpp 478-513): the result and the table
afterwards. -/
def Table_AddEntry (mTable : Table) (aAction aControl aFunction : Nat) (aFactor aOffset : ℚ) :
    Option (Result × Table) :=
  if ¬ (IGamepad.ACTION_QTY > aAction) then none
  else if ¬ (IGamepad.CONTROL_QTY > aControl) then none
  else if ¬ (FUNCTION_QTY > aFunction) then none
  else
    match Value_Validate aFactor FACTOR_MIN FACTOR_MAX with
    | none => none
    | some ZT_OK =>
      match Value_Validate aOffset OFFSET_MIN OFFSET_MAX with
      | none => none
      | some ZT_OK =>
        match Table_FindEntry mTable aAction aControl with
        | none => none
        | some none =>
          some (ZT_OK, mTable ++ [{ mAction := aAction, mControl := aControl,
                                    mFunction := aFunction, mOffset := aOffset,
                                    mFactor := aFactor }])
        | some (some lEntry) =>
          some (ZT_OK, Table_Entry_Assign mTable lEntry aFunction aOffset aFactor)
      | some lResult => some (lResult, mTable)
    | some lResult => some (lResult, mTable)

/-- The loop of `Table_RemoveEntry`: the first entry with the given action and control
is erased. -/
def Table_RemoveEntry_Loop : Table → Nat → Nat → Table
  | [], _, _ => []
  | lIt :: lRest, aAction, aControl =>
    if aAction = lIt.mAction ∧ aControl = lIt.mControl then lRest
    else lIt :: Table_RemoveEntry_Loop lRest aAction aControl

/-- `ControlLink::Table_RemoveEntry` (ControlLink.cpp 580-593). -/
def Table_RemoveEntry (mTable : Table) (aAction aControl : Nat) : Option Table :=
  if ¬ (IGamepad.ACTION_QTY > aAction) then none
  else if ¬ (IGamepad.CONTROL_QTY > aControl) then none
  else some (Table_RemoveEntry_Loop mTable aAction aControl)

/-- One call of `Table_AddEntry` in `Table_Init`: the result is not looked at; the
offset, and the factor where it is not given, have the default 0.0. -/
def Table_Init_Add (mTable : Table) (aAction aControl aFunction : Nat) (aFactor : ℚ) :
    Option Table :=
  (Table_AddEntry mTable aAction aControl aFunction aFactor 0).map (fun r => r.2)

/-- `ControlLink::Table_Init` (ControlLink.cpp 556-578): the sixteen calls in source
order, each on the table the one before left. -/
def Table_Init (mTable : Table) : Option Table :=
  ((((((((((((((((Table_Init_Add mTable IGamepad.ACTION_CHANGED IGamepad.ANALOG_0_X FUNCTION_YAW 2).bind
    (fun t => Table_Init_Add t IGamepad.ACTION_CHANGED IGamepad.ANALOG_1_Y FUNCTION_PITCH 2)).bind
    (fun t => Table_Init_Add t IGamepad.ACTION_CHANGED IGamepad.TRIGGER_LEFT FUNCTION_FOCUS (-2))).bind
    (fun t => Table_Init_Add t IGamepad.ACTION_CHANGED IGamepad.TRIGGER_RIGHT FUNCTION_FOCUS 2)).bind
    (fun t => Table_Init_Add t IGamepad.ACTION_DISCONNECTED IGamepad.CONTROL_NONE FUNCTION_FORWARD 0)).bind
    (fun t => Table_Init_Add t IGamepad.ACTION_PRESSED IGamepad.BUTTON_A FUNCTION_HOME_SET 0)).bind
    (fun t => Table_Init_Add t IGamepad.ACTION_PRESSED IGamepad.BUTTON_B FUNCTION_HOME 0)).bind
    (fun t => Table_Init_Add t IGamepad.ACTION_PRESSED IGamepad.BUTTON_BACK FUNCTION_FORWARD 0)).bind
    (fun t => Table_Init_Add t IGamepad.ACTION_PRESSED IGamepad.BUTTON_LEFT FUNCTION_TRACK_SWITCH 0)).bind
    (fun t => Table_Init_Add t IGamepad.ACTION_PRESSED IGamepad.BUTTON_START FUNCTION_FOCUS_CALIBRATION 0)).bind
    (fun t => Table_Init_Add t IGamepad.ACTION_PRESSED IGamepad.BUTTON_X FUNCTION_HOME_YAW 0)).bind
    (fun t => Table_Init_Add t IGamepad.ACTION_PRESSED IGamepad.BUTTON_Y FUNCTION_HOME_PITCH 0)).bind
    (fun t => Table_Init_Add t IGamepad.ACTION_PRESSED IGamepad.PAD_BOTTOM FUNCTION_GIMBAL_FIRST 0)).bind
    (fun t => Table_Init_Add t IGamepad.ACTION_PRESSED IGamepad.PAD_LEFT FUNCTION_GIMBAL_PREVIOUS 0)).bind
    (fun t => Table_Init_Add t IGamepad.ACTION_PRESSED IGamepad.PAD_RIGHT FUNCTION_GIMBAL_NEXT 0)).bind
    (fun t => Table_Init_Add t IGamepad.ACTION_PRESSED IGamepad.PAD_TOP FUNCTION_GIMBAL_LAST 0))

/-- The table of a new `ControlLink`: the constructor (ControlLink.cpp 112) calls
`Table_Init` on the empty list. -/
def Table_Default : Option Table := Table_Init []

/-- The line `CLEAR` of a configuration file (ControlLink.cpp 439-442). -/
def Table_Clear (_mTable : Table) : Table := []

end ControlLink

/-! ## DJI_Gimbal.cpp: the calls that wait for the worker thread -/

namespace DJI_Gimbal

open State

/-- What runs while a caller sleeps in `Condition_Wait`: one iteration of the worker
thread, or the reception of one CAN payload. -/
inductive Event where
  | Tick
  | Rx (aCF : EthCAN_Frame)
  deriving DecidableEq, Repr

/-- The engine after one event. -/
def Event.apply (crc : DJI_CRC) (g : DJI_Gimbal) : Event → Option DJI_Gimbal
  | .Tick => OnTick crc g
  | .Rx aCF => g.Receiver aCF

/-- The transaction object of the waiting caller, as it is at the moment: in the
pending slot, in the current slot, or, once `Tr_Complete_Z0` has detached it, the last
of the detached transactions. -/
def Tr_Waited (g : DJI_Gimbal) : Option DJI_Transaction :=
  match g.mTr_Next with
  | some (.Object t) => some t
  | _ =>
    match g.mTr_Current with
    | some (.Object t) => some t
    | _ => g.mTr_Done.getLast?

/-- `DJI_Transaction::Wait` (DJI_Transaction.cpp 281-298) on the transaction the caller
queued. While its result is `ZT_RESULT_INVALID` the caller sleeps in `Condition_Wait`
(which is taken to return `ZT_OK`) and the next event of the schedule runs. The value
is the result, the engine, the transaction as the caller finds it and the events not
yet run; `none` when the schedule ends with the caller still asleep. -/
def Wait (crc : DJI_CRC) : DJI_Gimbal → List Event →
    Option (Result × DJI_Gimbal × DJI_Transaction × List Event)
  | g, [] =>
    match g.Tr_Waited with
    | none => none
    | some t => if ZT_RESULT_INVALID = t.mResult then none else some (t.mResult, g, t, [])
  | g, e :: lRest =>
    match g.Tr_Waited with
    | none => none
    | some t =>
      if ZT_RESULT_INVALID = t.mResult then
        match e.apply crc g with
        | none => none
        | some g1 => Wait crc g1 lRest
      else some (t.mResult, g, t, e :: lRest)

/-- `DJI_Gimbal::Tr_QueueAndWait` (DJI_Gimbal.cpp 1258-1273). -/
def Tr_QueueAndWait (crc : DJI_CRC) (g : DJI_Gimbal) (aTr : DJI_Transaction)
    (aEvents : List Event) : Option (Result × DJI_Gimbal × DJI_Transaction × List Event) :=
  if g.mTr_Next = none then
    match g.Tr_Queue_Z0 aTr with
    | none => none
    | some g1 => Wait crc g1 aEvents
  else some (ZT_ERROR_NOT_READY, g, aTr, aEvents)

/-- The loop of `DJI_Gimbal::Retry`; `aLeft` is `2 - lRetry`, the iterations the loop
condition `lRetry < 2` still allows, and `lResult` the local of that name. -/
def Retry_Loop (crc : DJI_CRC) : Nat → Result → DJI_Gimbal → DJI_Transaction → List Event →
    Option (Result × DJI_Gimbal × DJI_Transaction × List Event)
  | 0, lResult, g, aTr, aEvents => some (lResult, g, aTr, aEvents)
  | aLeft + 1, _, g, aTr, aEvents =>
    match Tr_QueueAndWait crc g aTr aEvents with
    | none => none
    | some (lResult, g1, lTr, lEvents) =>
      if ZT_ERROR_TIMEOUT ≠ lResult ∧ ZT_ERROR_GIMBAL ≠ lResult then
        some (lResult, g1, lTr, lEvents)
      else Retry_Loop crc aLeft lResult g1 lTr lEvents

/-- `DJI_Gimbal::Retry` (DJI_Gimbal.cpp 1014-1033). The local `lResult` is not
initialised; the loop assigns it before it is returned. -/
def Retry (crc : DJI_CRC) (g : DJI_Gimbal) (aTr : DJI_Transaction) (aEvents : List Event) :
    Option (Result × DJI_Gimbal × DJI_Transaction × List Event) :=
  Retry_Loop crc 2 ZT_RESULT_INVALID g aTr aEvents

end DJI_Gimbal

/-! ## Atem.h, Atem.cpp -/

namespace Atem

/-! The enumeration `CameraType` (Atem.h 14-20) and `PORT_QTY` (Atem.h 42). -/

def CAMERA_EF : Nat := 0
def CAMERA_MFT : Nat := 1
def PORT_QTY : Nat := 8

/-- The four assertions at the entry of `Atem::Focus_Absolute` and of
`Atem::Gain_Absolute` (Atem.cpp 129-132, 166-169). -/
def Absolute_Asserts (aPort : Nat) (aValue_pc : ℚ) : Bool :=
  decide (aPort ≥ 1) && decide (aPort ≤ PORT_QTY) &&
    decide (aValue_pc ≥ 0) && decide (aValue_pc ≤ 100)

end Atem

/-! ## The gimbal behind a `ZT::IGimbal *`, as the mapper sees it -/

/-- A call the mapper makes through the interface `ZT::IGimbal` (IGimbal.h 145-149). -/
inductive IGimbal_Call where
  | Speed_Get
  | Speed_Set (aIn : Speed) (aFlags : Nat)
  | Track_Speed_Set (aSpeed_pc : ℚ)
  deriving DecidableEq, Repr

/-- What a gimbal answers to a call: the returned result and, for `Speed_Get`, the
speed it stored in `*aOut`, if it stored one. -/
structure IGimbal_Answer where
  mResult : Result
  mSpeed : Option Speed
  deriving DecidableEq, Repr

/-- The object behind a `ZT::IGimbal *`. The mapper is written against the interface:
`mCalls` lists the calls the object received, oldest first, and `mScript` gives its
answers to the coming calls; once the script is exhausted every call returns `ZT_OK`
and stores nothing. `mIPv4_Address` is the address `Info_Get` reports. -/
structure IGimbal_Object where
  mIPv4_Address : Nat
  mCalls : List IGimbal_Call
  mScript : List IGimbal_Answer
  deriving DecidableEq, Repr

namespace IGimbal_Object

/-- The answer to the `k`-th coming call. -/
def Answer (o : IGimbal_Object) (k : Nat) : IGimbal_Answer :=
  (o.mScript[k]?).getD { mResult := ZT_OK, mSpeed := none }

/-- One call through the interface. -/
def Call (o : IGimbal_Object) (aCall : IGimbal_Call) : IGimbal_Answer × IGimbal_Object :=
  (o.Answer 0, { o with mCalls := o.mCalls ++ [aCall], mScript := o.mScript.tail })

end IGimbal_Object

/-! ## The C library: `sscanf` -/

/-- A value `sscanf` converted: an unsigned number (`%u`) or a string (`%[0-9.]`). -/
inductive Scan_Value where
  | U (aValue : Nat)
  | S (aValue : String)
  deriving DecidableEq, Repr

/-- The function `sscanf` of the C library, as a parameter: for an input and a format,
the values converted and stored, in the order of the conversions. The value `sscanf`
returns is the length of that list (`EOF` counts as none converted: the callers only
compare the returned value with 1, 2 or 4). -/
abbrev Sscanf := String → String → List Scan_Value

/-! ## System.cpp: handing a detected gimbal out -/

/-- The member `mGimbals` of `System`, the gimbals detected and not yet handed out. -/
structure System where
  mGimbals : List IGimbal_Object
  deriving DecidableEq, Repr

namespace System

/-- `System::Gimbal_Get` (System.cpp 128-148): the gimbal at position `aIndex` is erased
from the list and returned; `NULL` when there is none. -/
def Gimbal_Get (s : System) (aIndex : Nat) : Option IGimbal_Object × System :=
  match s.mGimbals[aIndex]? with
  | some lGimbal => (some lGimbal, { s with mGimbals := s.mGimbals.eraseIdx aIndex })
  | none => (none, s)

/-- The position of the first gimbal of the list whose address is `aIPv4`. -/
def Gimbal_Find_Loop : List IGimbal_Object → Nat → Option Nat
  | [], _ => none
  | lGimbal :: lRest, aIPv4 =>
    if aIPv4 = lGimbal.mIPv4_Address then some 0
    else (Gimbal_Find_Loop lRest aIPv4).map (fun i => i + 1)

/-- `System::Gimbal_Find_IPv4(uint32_t)` (System.cpp 106-126). -/
def Gimbal_Find_IPv4_Address (s : System) (aIPv4 : Nat) : Option IGimbal_Object × System :=
  match Gimbal_Find_Loop s.mGimbals aIPv4 with
  | some i => s.Gimbal_Get i
  | none => (none, s)

/-- `System::Gimbal_Find_IPv4(const char *)` (System.cpp 74-104). -/
def Gimbal_Find_IPv4 (sscanf : Sscanf) (s : System) (aIPv4 : String) :
    Option IGimbal_Object × System :=
  match sscanf aIPv4 "%u.%u.%u.%u" with
  | [.U a, .U b, .U c, .U d] =>
    if 255 < a ∨ 255 < b ∨ 255 < c ∨ 255 < d then (none, s)
    else
      s.Gimbal_Find_IPv4_Address
        (((((a <<< 0) % 4294967296) ||| ((b <<< 8) % 4294967296)) |||
          ((c <<< 16) % 4294967296)) ||| ((d <<< 24) % 4294967296))
  | _ => (none, s)

end System

/-! ## ControlLink.h, ControlLink.cpp: the mapper -/

/-- The structure `ControlLink::GimbalInfo` (ControlLink.h 95-102). The pointer
`mGimbal` is the object itself, `none` for `NULL`: `System` hands a gimbal out once. -/
structure GimbalInfo where
  mAtemCameraType : Nat
  mAtemPort : Nat
  mGimbal : Option IGimbal_Object
  mHome : Position
  deriving DecidableEq, Repr

/-- The data members of `class ControlLink` that the functions below use
(ControlLink.h 183-201). -/
structure ControlLink where
  mGimbals : List GimbalInfo
  mGimbalIndex : Nat
  mSpeedCommand : Speed
  mSpeedBoost : ℚ
  mTable : ControlLink.Table
  deriving DecidableEq, Repr

namespace ControlLink

/-- `BOOST_AXIS` (ControlLink.cpp 24). -/
def BOOST_AXIS : Axis → ℚ
  | .AXIS_PITCH => 0.5
  | .AXIS_ROLL => 0.0
  | .AXIS_YAW => 1.0

/-- `FLAGS` (ControlLink.cpp 616-621). -/
def FLAGS : Axis → Nat
  | .AXIS_PITCH => ZT_FLAG_IGNORE_ROLL ||| ZT_FLAG_IGNORE_YAW
  | .AXIS_ROLL => ZT_FLAG_IGNORE_PITCH ||| ZT_FLAG_IGNORE_YAW
  | .AXIS_YAW => ZT_FLAG_IGNORE_PITCH ||| ZT_FLAG_IGNORE_ROLL

/-- `ControlLink::OnGimbalChanged` (ControlLink.cpp 399-402). -/
def OnGimbalChanged (cl : ControlLink) : ControlLink :=
  { cl with mSpeedCommand := { mAxis_deg_s := { pitch := 0, roll := 0, yaw := 0 } } }

/-- The constructor `ControlLink::ControlLink` (ControlLink.cpp 100-113). -/
def ctor : Option ControlLink :=
  Table_Default.map (fun t =>
    OnGimbalChanged
      { mGimbals := []
        mGimbalIndex := 0
        mSpeedCommand := { mAxis_deg_s := { pitch := 0, roll := 0, yaw := 0 } }
        mSpeedBoost := 0
        mTable := t })

/-- The locals of `Gimbal_Set` that `sscanf` writes through its pointer arguments:
`lId`, `lIndex` and `lInfo.mAtemPort`. -/
structure Gimbal_Set_Locals where
  lId : String
  lIndex : Nat
  mAtemPort : Nat
  deriving DecidableEq, Repr

/-- The pointer arguments of a `sscanf` call in `Gimbal_Set`. -/
inductive Scan_Target where
  | Id
  | Index
  | AtemPort
  deriving DecidableEq, Repr

/-- The converted values stored through the pointer arguments, in order. A string of 64
characters or more overruns `char lId[64]`, and a value that is not of the kind of its
conversion is not something `sscanf` gives: `none`. -/
def Scan_Store : Gimbal_Set_Locals → List Scan_Target → List Scan_Value →
    Option Gimbal_Set_Locals
  | l, _, [] => some l
  | l, .AtemPort :: lTargets, .U v :: lValues =>
    Scan_Store { l with mAtemPort := v } lTargets lValues
  | l, .Index :: lTargets, .U v :: lValues =>
    Scan_Store { l with lIndex := v } lTargets lValues
  | l, .Id :: lTargets, .S v :: lValues =>
    if v.length < 64 then Scan_Store { l with lId := v } lTargets lValues else none
  | _, _, _ => none

/-- One `sscanf(aId, aFormat, ...)` of `Gimbal_Set`: the returned count and the locals
after it. -/
def Gimbal_Set_Scan (sscanf : Sscanf) (aId aFormat : String) (aTargets : List Scan_Target)
    (l : Gimbal_Set_Locals) : Option (Nat × Gimbal_Set_Locals) :=
  (Scan_Store l aTargets (sscanf aId aFormat)).map (fun l1 => ((sscanf aId aFormat).length, l1))

/-- What the chain of tests at the head of `Gimbal_Set` leaves: the locals,
`lTestGimbal`, `lInfo.mGimbal` and the system. -/
structure Gimbal_Set_Identified where
  mLocals : Gimbal_Set_Locals
  lTestGimbal : Bool
  mGimbal : Option IGimbal_Object
  mSystem : System
  deriving DecidableEq, Repr

/-- The branch `lInfo.mGimbal = aSystem->Gimbal_Get(aIndex)`. -/
def Gimbal_Set_Get (aSystem : System) (l : Gimbal_Set_Locals) (aIndex : Nat) :
    Gimbal_Set_Identified :=
  { mLocals := l, lTestGimbal := true, mGimbal := (aSystem.Gimbal_Get aIndex).1,
    mSystem := (aSystem.Gimbal_Get aIndex).2 }

/-- The branch `lInfo.mGimbal = aSystem->Gimbal_Find_IPv4(lId)`. -/
def Gimbal_Set_Find (sscanf : Sscanf) (aSystem : System) (l : Gimbal_Set_Locals) :
    Gimbal_Set_Identified :=
  { mLocals := l, lTestGimbal := true, mGimbal := (aSystem.Gimbal_Find_IPv4 sscanf l.lId).1,
    mSystem := (aSystem.Gimbal_Find_IPv4 sscanf l.lId).2 }

/-- The chain of tests at the head of `ControlLink::Gimbal_Set` (ControlLink.cpp
278-310), each `sscanf` in the order the conditions evaluate it. The inner `none` is
`return ZT::ZT_ERROR_CONFIG`. `lIndex` is the value of the local of that name, which
is not initialised. -/
def Gimbal_Set_Identify (sscanf : Sscanf) (aSystem : System) (aId : String) (lIndex : Nat) :
    Option (Option Gimbal_Set_Identified) :=
  (Gimbal_Set_Scan sscanf aId "NONE ATEM = %u" [.AtemPort]
      { lId := "", lIndex := lIndex, mAtemPort := 0 }).bind fun r1 =>
  if 1 = r1.1 then
    if 0 ≥ r1.2.mAtemPort then some none
    else some (some { mLocals := r1.2, lTestGimbal := false, mGimbal := none,
                      mSystem := aSystem })
  else if "" = aId then some (some (Gimbal_Set_Get aSystem r1.2 0))
  else
  (Gimbal_Set_Scan sscanf aId "ATEM = %u" [.AtemPort] r1.2).bind fun r2 =>
  if 1 = r2.1 then some (some (Gimbal_Set_Get aSystem r2.2 0))
  else
  (Gimbal_Set_Scan sscanf aId "ATEM = %u INDEX = %u" [.AtemPort, .Index] r2.2).bind fun r3 =>
  if 2 = r3.1 then some (some (Gimbal_Set_Get aSystem r3.2 r3.2.lIndex))
  else
  (Gimbal_Set_Scan sscanf aId "INDEX = %u ATEM = %u" [.Index, .AtemPort] r3.2).bind fun r4 =>
  if 2 = r4.1 then some (some (Gimbal_Set_Get aSystem r4.2 r4.2.lIndex))
  else
  (Gimbal_Set_Scan sscanf aId "INDEX = %u" [.Index] r4.2).bind fun r5 =>
  if 1 = r5.1 then some (some (Gimbal_Set_Get aSystem r5.2 r5.2.lIndex))
  else
  (Gimbal_Set_Scan sscanf aId "ATEM = %u IPv4 = %[0-9.]" [.AtemPort, .Id] r5.2).bind fun r6 =>
  if 2 = r6.1 then some (some (Gimbal_Set_Find sscanf aSystem r6.2))
  else
  (Gimbal_Set_Scan sscanf aId "IPv4 = %[0-9.] ATEM = %u" [.Id, .AtemPort] r6.2).bind fun r7 =>
  if 2 = r7.1 then some (some (Gimbal_Set_Find sscanf aSystem r7.2))
  else
  (Gimbal_Set_Scan sscanf aId "IPv4 = %[0-9.]" [.Id] r7.2).bind fun r8 =>
  if 1 = r8.1 then some (some (Gimbal_Set_Find sscanf aSystem r8.2))
  else some none

/-- The end of `ControlLink::Gimbal_Set` (ControlLink.cpp 322-333), after the switch
has chosen the camera type. -/
def Gimbal_Set_Store (cl : ControlLink) (aFound : Gimbal_Set_Identified)
    (aAtemCameraType : Nat) : Result × ControlLink × System :=
  if aFound.lTestGimbal = true ∧ aFound.mGimbal = none then
    (ZT_ERROR_GIMBAL_OFF, cl, aFound.mSystem)
  else
    (ZT_OK,
      { cl with mGimbals := cl.mGimbals ++
          [{ mAtemCameraType := aAtemCameraType
             mAtemPort := aFound.mLocals.mAtemPort % 10
             mGimbal := aFound.mGimbal
             mHome := { mAxis_deg := { pitch := 0, roll := 0, yaw := 0 } } }] },
      aFound.mSystem)

/-- `ControlLink::Gimbal_Set` (ControlLink.cpp 267-334). -/
def Gimbal_Set (sscanf : Sscanf) (cl : ControlLink) (aSystem : System) (aId : String)
    (lIndex : Nat) : Option (Result × ControlLink × System) :=
  match Gimbal_Set_Identify sscanf aSystem aId lIndex with
  | none => none
  | some none => some (ZT_ERROR_CONFIG, cl, aSystem)
  | some (some lFound) =>
    match lFound.mLocals.mAtemPort / 10 with
    | 0 => some (Gimbal_Set_Store cl lFound Atem.CAMERA_MFT)
    | 1 => some (Gimbal_Set_Store cl lFound Atem.CAMERA_EF)
    | _ => some (ZT_ERROR_CONFIG, cl, lFound.mSystem)

/-- The macro `CURRENT_GIMBAL` (ControlLink.cpp 80-83): `none` when the assertion fails,
otherwise the binding `lInfo` and its gimbal, `NULL` (`none`) making the function
return at once. -/
def CURRENT_GIMBAL (cl : ControlLink) : Option (GimbalInfo × Option IGimbal_Object) :=
  if ¬ (cl.mGimbals.length > cl.mGimbalIndex) then none
  else (cl.mGimbals[cl.mGimbalIndex]?).map (fun lInfo => (lInfo, lInfo.mGimbal))

/-- The gimbal of the binding `lInfo` after the calls made through `lInfo.mGimbal`. -/
def Gimbal_Put (cl : ControlLink) (lInfo : GimbalInfo) (aGimbal : IGimbal_Object) :
    ControlLink :=
  { cl with mGimbals := cl.mGimbals.set cl.mGimbalIndex { lInfo with mGimbal := some aGimbal } }

/-- `ControlLink::Function_Axis` (ControlLink.cpp 623-637). `lSpeed` is the value of the
local of that name on entry, which is not initialised: only the axis `aAxis` is
assigned. When `lFactor` is 0 the quotient stored at the end is `0.0 / 0.0`, not a
number, for which the model has no value: `none`. -/
def Function_Axis (cl : ControlLink) (aAxis : Axis) (aFactor aValue_pc : ℚ) (lSpeed : Speed) :
    Option ControlLink :=
  match cl.CURRENT_GIMBAL with
  | none => none
  | some (_, none) => some cl
  | some (lInfo, some lGimbal) =>
    let lFactor := aFactor + cl.mSpeedBoost * BOOST_AXIS aAxis
    match Value_Limit (lFactor * aValue_pc) SPEED_MIN_deg_s SPEED_MAX_deg_s with
    | none => none
    | some v =>
      let lSpeed1 : Speed := { mAxis_deg_s := lSpeed.mAxis_deg_s.set aAxis v }
      let lRet := lGimbal.Call (.Speed_Set lSpeed1 (FLAGS aAxis))
      if ¬ (ZT_OK = lRet.1.mResult) then none
      else if lFactor = 0 then none
      else
        some { cl.Gimbal_Put lInfo lRet.2 with
          mSpeedCommand := { mAxis_deg_s := cl.mSpeedCommand.mAxis_deg_s.set aAxis (v / lFactor) } }

/-- `ControlLink::Function_Pitch` (ControlLink.cpp 713-716). -/
def Function_Pitch (cl : ControlLink) (aFactor aValue_pc : ℚ) (lSpeed : Speed) :
    Option ControlLink :=
  cl.Function_Axis .AXIS_PITCH aFactor aValue_pc lSpeed

/-- `ControlLink::Function_Roll` (ControlLink.cpp 718-721). -/
def Function_Roll (cl : ControlLink) (aFactor aValue_pc : ℚ) (lSpeed : Speed) :
    Option ControlLink :=
  cl.Function_Axis .AXIS_ROLL aFactor aValue_pc lSpeed

/-- `ControlLink::Function_Yaw` (ControlLink.cpp 758-761). -/
def Function_Yaw (cl : ControlLink) (aFactor aValue_pc : ℚ) (lSpeed : Speed) :
    Option ControlLink :=
  cl.Function_Axis .AXIS_YAW aFactor aValue_pc lSpeed

/-- The body of the loop over the axes in `Function_Speed_Boost` (ControlLink.cpp
743-746), for the axis `a`. -/
def Speed_Boost_Axis (mSpeedCommand : Speed) (lDelta : ℚ) (lSpeed : Speed) (a : Axis) :
    Speed :=
  if (0 : ℚ) ≠ lSpeed.mAxis_deg_s.get a ∧ (0 : ℚ) ≠ mSpeedCommand.mAxis_deg_s.get a then
    { mAxis_deg_s := lSpeed.mAxis_deg_s.set a
        (lSpeed.mAxis_deg_s.get a + lDelta * BOOST_AXIS a * mSpeedCommand.mAxis_deg_s.get a) }
  else lSpeed

/-- The loop over the axes in `Function_Speed_Boost` (ControlLink.cpp 741-747). -/
def Speed_Boost_Adjust (lSpeed mSpeedCommand : Speed) (lDelta : ℚ) : Speed :=
  FOR_EACH_AXIS.foldl (Speed_Boost_Axis mSpeedCommand lDelta) lSpeed

/-- The block `if (0.0 != lDelta)` of `Function_Speed_Boost` (ControlLink.cpp 734-752):
the gimbal after it, `none` when the assertion on the result of `Speed_Set` fails. -/
def Speed_Boost_Push (lGimbal : IGimbal_Object) (mSpeedCommand : Speed) (lDelta : ℚ)
    (lSpeed : Speed) : Option IGimbal_Object :=
  if (0 : ℚ) ≠ lDelta then
    let lGet := lGimbal.Call .Speed_Get
    if ZT_OK = lGet.1.mResult then
      let lSet := lGet.2.Call
        (.Speed_Set (Speed_Boost_Adjust (lGet.1.mSpeed.getD lSpeed) mSpeedCommand lDelta) 0)
      if ¬ (ZT_OK = lSet.1.mResult) then none else some lSet.2
    else some lGet.2
  else some lGimbal

/-- `ControlLink::Function_Speed_Boost` (ControlLink.cpp 723-756). `lSpeed` is the value
of the local of that name before `Speed_Get` is called, which is not initialised. -/
def Function_Speed_Boost (cl : ControlLink) (aFactor aValue_pc : ℚ) (lSpeed : Speed) :
    Option ControlLink :=
  match cl.CURRENT_GIMBAL with
  | none => none
  | some (_, none) => some cl
  | some (lInfo, some lGimbal) =>
    let lSpeedBoost := cl.mSpeedBoost
    let cl1 := { cl with mSpeedBoost := aFactor * aValue_pc / 100 }
    let lDelta := cl1.mSpeedBoost - lSpeedBoost
    match Speed_Boost_Push lGimbal cl1.mSpeedCommand lDelta lSpeed with
    | none => none
    | some lGimbal1 =>
      let lRet := lGimbal1.Call (.Track_Speed_Set aValue_pc)
      if ¬ (ZT_OK = lRet.1.mResult) then none
      else some (cl1.Gimbal_Put lInfo lRet.2)

/-- The value of `mGimbals.size() - 1` (a `size_t`) assigned to the `unsigned int`
`mGimbalIndex`. -/
def Gimbals_Last (cl : ControlLink) : Nat :=
  ((cl.mGimbals.length + 18446744073709551615) % 18446744073709551616) % 4294967296

/-- `ControlLink::Function_Gimbal_Select` (ControlLink.cpp 661-669). -/
def Function_Gimbal_Select (cl : ControlLink) (aFactor : ℚ) : ControlLink :=
  let cl1 := { cl with mGimbalIndex := Double_To_UInt32 aFactor }
  if cl1.mGimbals.length ≤ cl1.mGimbalIndex then { cl1 with mGimbalIndex := 0 }
  else cl1

/-- `ControlLink::Function_Gimbal_First` (ControlLink.cpp 906-911). -/
def Function_Gimbal_First (cl : ControlLink) : ControlLink :=
  OnGimbalChanged { cl with mGimbalIndex := 0 }

/-- `ControlLink::Function_Gimbal_Last` (ControlLink.cpp 913-920). -/
def Function_Gimbal_Last (cl : ControlLink) : Option ControlLink :=
  if ¬ (0 < cl.mGimbals.length) then none
  else some (OnGimbalChanged { cl with mGimbalIndex := cl.Gimbals_Last })

/-- `ControlLink::Function_Gimbal_Next` (ControlLink.cpp 922-932). -/
def Function_Gimbal_Next (cl : ControlLink) : ControlLink :=
  let cl1 := { cl with mGimbalIndex := (cl.mGimbalIndex + 1) % 4294967296 }
  if cl1.mGimbals.length ≤ cl1.mGimbalIndex then
    OnGimbalChanged { cl1 with mGimbalIndex := cl1.Gimbals_Last }
  else OnGimbalChanged cl1

/-- `ControlLink::Function_Gimbal_Next_Loop` (ControlLink.cpp 934-944). -/
def Function_Gimbal_Next_Loop (cl : ControlLink) : ControlLink :=
  let cl1 := { cl with mGimbalIndex := (cl.mGimbalIndex + 1) % 4294967296 }
  if cl1.mGimbals.length ≤ cl1.mGimbalIndex then
    OnGimbalChanged { cl1 with mGimbalIndex := 0 }
  else OnGimbalChanged cl1

/-- `ControlLink::Function_Gimbal_Previous` (ControlLink.cpp 946-954). -/
def Function_Gimbal_Previous (cl : ControlLink) : ControlLink :=
  if 0 < cl.mGimbalIndex then OnGimbalChanged { cl with mGimbalIndex := cl.mGimbalIndex - 1 }
  else cl

/-- `ControlLink::Function_Gimbal_Previous_Loop` (ControlLink.cpp 956-968). -/
def Function_Gimbal_Previous_Loop (cl : ControlLink) : ControlLink :=
  if 0 < cl.mGimbalIndex then OnGimbalChanged { cl with mGimbalIndex := cl.mGimbalIndex - 1 }
  else OnGimbalChanged { cl with mGimbalIndex := cl.Gimbals_Last }

end ControlLink

/-! ## DJI_Gimbal.cpp: activation -/

namespace DJI_Gimbal

open State

/-- `DJI_Gimbal::Info_Retrieve` (DJI_Gimbal.cpp 655-668): the result, the engine and the
events not yet run. -/
def Info_Retrieve (crc : DJI_CRC) (g : DJI_Gimbal) (aEvents : List Event) :
    Option (Result × DJI_Gimbal × List Event) :=
  match DJI_Transaction.fresh.Prepare_Full MSG_INFO 11 with
  | none => none
  | some lTr =>
    match lTr.Frame_Init_VERSION crc g.sSerial with
    | none => none
    | some (lTr, lSerial) =>
      (Retry crc { g with sSerial := lSerial } lTr aEvents).map
        (fun r => (r.1, r.2.1, r.2.2.2))

/-- `DJI_Gimbal::Config_Retrieve` (DJI_Gimbal.cpp 550-570). -/
def Config_Retrieve (crc : DJI_CRC) (g : DJI_Gimbal) (aEvents : List Event) :
    Option (Result × DJI_Gimbal × List Event) :=
  match DJI_Transaction.fresh.Frame_Init_ANGLE_LIMIT_GET crc g.sSerial with
  | none => none
  | some (lTr0, lSerial0) =>
    match DJI_Transaction.fresh.Frame_Init_MOTOR_STIFFNESS_GET crc lSerial0 with
    | none => none
    | some (lTr1, lSerial1) =>
      match lTr0.Prepare_Full MSG_CONFIG 9 with
      | none => none
      | some lTr0 =>
        match Retry crc { g with sSerial := lSerial1 } lTr0 aEvents with
        | none => none
        | some (lResult, g1, _, lEvents) =>
          if ZT_OK = lResult then
            match lTr1.Prepare_Full MSG_CONFIG_STIFFNESS 6 with
            | none => none
            | some lTr1 =>
              (Retry crc g1 lTr1 lEvents).map (fun r => (r.1, r.2.1, r.2.2.2))
          else some (lResult, g1, lEvents)

/-- The events that run while the calling thread is neither asleep in `Wait` nor inside
a Zone0 section: the worker thread and the receiver are not stopped. -/
def Run (crc : DJI_CRC) : DJI_Gimbal → List Event → Option DJI_Gimbal
  | g, [] => some g
  | g, e :: lRest =>
    match e.apply crc g with
    | none => none
    | some g1 => Run crc g1 lRest

/-- The loop of `Activate` (DJI_Gimbal.cpp 144-161). `aLeft` is `2 - lRetry`, the
iterations the loop condition still allows, and `lResult` the local of that name. The
events `aBetween` run after `Info_Retrieve` returned and before the calling thread
enters the Zone0 section of the next pass. -/
def Activate_Loop (crc : DJI_CRC) (aBetween : List Event) :
    Nat → Nat → Result → DJI_Gimbal → List Event → Option (Result × DJI_Gimbal × List Event)
  | 0, _, lResult, g, aEvents => some (lResult, g, aEvents)
  | aLeft + 1, lRetry, _, g, aEvents =>
    let lEnter : Option DJI_Gimbal :=
      if 0 < lRetry then
        (Run crc g aBetween).bind
          (fun g1 => (g1.State_Set_Z0 STATE_ERROR_CAN).ResetAndSleep_Z0 STATE_ACTIVATING)
      else some g
    match lEnter with
    | none => none
    | some g1 =>
      match Info_Retrieve crc g1 aEvents with
      | none => none
      | some (lResult, g2, lEvents) =>
        if ZT_OK = lResult then some (lResult, g2, lEvents)
        else Activate_Loop crc aBetween aLeft (lRetry + 1) lResult g2 lEvents

/-- `DJI_Gimbal::Activate` (DJI_Gimbal.cpp 122-190) on the path where `Receiver_Start`
and the start of the worker thread succeed. `Gimbal::Activate` returns `ZT_OK`; the
worker thread that `mThread.Stop` stops leaves no trace in the model. -/
def Activate (crc : DJI_CRC) (g : DJI_Gimbal) (aEvents aBetween : List Event) :
    Option (Result × DJI_Gimbal × List Event) :=
  if ¬ (STATE_INIT = g.mState) then none
  else
    match Activate_Loop crc aBetween 2 0 ZT_RESULT_INVALID (g.State_Set_Z0 STATE_ACTIVATING)
        aEvents with
    | none => none
    | some (lResult, g1, lEvents) =>
      let lConfig : Option (Result × DJI_Gimbal × List Event) :=
        if ZT_OK = lResult then Config_Retrieve crc g1 lEvents
        else some (lResult, g1, lEvents)
      match lConfig with
      | none => none
      | some (lResult, g2, lEvents) =>
        if ZT_OK ≠ lResult then some (lResult, g2.State_Set_Z0 STATE_INIT, lEvents)
        else some (lResult, g2, lEvents)

end DJI_Gimbal

/-! ## IGamepad.h, Gamepad.cpp, OSX_Gamepad.cpp: the report decoder -/

namespace IGamepad

/-- The structure `Event` (IGamepad.h 62-69). -/
structure Event where
  mAction : Nat
  mControl : Nat
  mValue_pc : ℚ
  deriving DecidableEq, Repr

end IGamepad

/-- The object behind the `ZT::IMessageReceiver *` a gamepad calls. `mMessages` lists the
messages it received, oldest first, as the code and the event passed; `mScript` gives
what it returns to the calls to come, in order, and a call past the end of the script
returns `true`. -/
structure IMessageReceiver_Object where
  mMessages : List (Nat × IGamepad.Event)
  mScript : List Bool
  deriving DecidableEq, Repr

namespace IMessageReceiver_Object

/-- One call of `ProcessMessage` with an event as data. -/
def ProcessMessage (o : IMessageReceiver_Object) (aCode : Nat) (aData : IGamepad.Event) :
    Bool × IMessageReceiver_Object :=
  (o.mScript.headD true,
   { o with mMessages := o.mMessages ++ [(aCode, aData)], mScript := o.mScript.tail })

end IMessageReceiver_Object

namespace OSX_Gamepad

/-- The enumeration `Type` of OSX_Gamepad.cpp (19-28). -/
inductive EntryType where
  | TYPE_CONST
  | TYPE_VALUE_16
  | TYPE_VALUE_8_HIGH
  | TYPE_VALUE_8_LOW
  | TYPE_END_OF_LIST
  deriving DecidableEq, Repr

open EntryType

/-- The structure `TableEntry` of OSX_Gamepad.cpp (30-39). -/
structure TableEntry where
  mType : EntryType
  mMask : Nat
  mValue : Nat
  mEvent : IGamepad.Event
  deriving DecidableEq, Repr

/-- The last element `{ TYPE_END_OF_LIST }` of each table, the members not named being
zero. -/
def END_OF_LIST : TableEntry :=
  { mType := TYPE_END_OF_LIST, mMask := 0, mValue := 0,
    mEvent := { mAction := 0, mControl := 0, mValue_pc := 0 } }

/-- Two elements of `TABLE_1` for one button: released, then pressed. -/
def Button (aMask aControl : Nat) : List TableEntry :=
  [ { mType := TYPE_CONST, mMask := aMask, mValue := 0x0000,
      mEvent := { mAction := IGamepad.ACTION_RELEASED, mControl := aControl, mValue_pc := 0 } },
    { mType := TYPE_CONST, mMask := aMask, mValue := aMask,
      mEvent := { mAction := IGamepad.ACTION_PRESSED, mControl := aControl, mValue_pc := 0 } } ]

/-- `TABLE_1` (OSX_Gamepad.cpp 49-81). -/
def TABLE_1 : List TableEntry :=
  Button 0x0001 IGamepad.PAD_TOP ++ Button 0x0002 IGamepad.PAD_BOTTOM ++
  Button 0x0004 IGamepad.PAD_LEFT ++ Button 0x0008 IGamepad.PAD_RIGHT ++
  Button 0x0010 IGamepad.BUTTON_START ++ Button 0x0020 IGamepad.BUTTON_BACK ++
  Button 0x0040 IGamepad.BUTTON_ANALOG_0 ++ Button 0x0080 IGamepad.BUTTON_ANALOG_1 ++
  Button 0x0100 IGamepad.BUTTON_LEFT ++ Button 0x0200 IGamepad.BUTTON_RIGHT ++
  Button 0x1000 IGamepad.BUTTON_A ++ Button 0x2000 IGamepad.BUTTON_B ++
  Button 0x4000 IGamepad.BUTTON_X ++ Button 0x8000 IGamepad.BUTTON_Y ++
  [END_OF_LIST]

/-- `TABLE_2` (OSX_Gamepad.cpp 83-89). -/
def TABLE_2 : List TableEntry :=
  [ { mType := TYPE_VALUE_8_HIGH, mMask := 0xff00, mValue := 0,
      mEvent := { mAction := IGamepad.ACTION_CHANGED, mControl := IGamepad.TRIGGER_RIGHT,
                  mValue_pc := 0 } },
    { mType := TYPE_VALUE_8_LOW, mMask := 0x00ff, mValue := 0,
      mEvent := { mAction := IGamepad.ACTION_CHANGED, mControl := IGamepad.TRIGGER_LEFT,
                  mValue_pc := 0 } },
    END_OF_LIST ]

/-- The one element of `TABLE_3` to `TABLE_6`, for the control `aControl`. -/
def Analog (aControl : Nat) : List TableEntry :=
  [ { mType := TYPE_VALUE_16, mMask := 0xffff, mValue := 0,
      mEvent := { mAction := IGamepad.ACTION_CHANGED, mControl := aControl, mValue_pc := 0 } },
    END_OF_LIST ]

/-- `TABLE_3` (OSX_Gamepad.cpp 91-96). -/
def TABLE_3 : List TableEntry := Analog IGamepad.ANALOG_0_X

/-- `TABLE_4` (OSX_Gamepad.cpp 98-103). -/
def TABLE_4 : List TableEntry := Analog IGamepad.ANALOG_0_Y

/-- `TABLE_5` (OSX_Gamepad.cpp 105-110). -/
def TABLE_5 : List TableEntry := Analog IGamepad.ANALOG_1_X

/-- `TABLE_6` (OSX_Gamepad.cpp 112-117). -/
def TABLE_6 : List TableEntry := Analog IGamepad.ANALOG_1_Y

/-- `TABLE` (OSX_Gamepad.cpp 119-122), `none` for `NULL`. -/
def TABLE : Nat → Option (List TableEntry)
  | 1 => some TABLE_1
  | 2 => some TABLE_2
  | 3 => some TABLE_3
  | 4 => some TABLE_4
  | 5 => some TABLE_5
  | 6 => some TABLE_6
  | _ => none

end OSX_Gamepad

/-- The data members of `class Gamepad` (Gamepad.h 39-40) and of `class OSX_Gamepad`
(OSX_Gamepad.h 71) that `Report_Process` uses. `mReport` is an array of 10 `uint16_t`;
`mReceiver` is `none` for `NULL`. -/
structure OSX_Gamepad where
  mReceiver : Option IMessageReceiver_Object
  mReceiver_Code : Nat
  mReport : List Nat
  deriving DecidableEq, Repr

namespace OSX_Gamepad

open EntryType

/-- `Gamepad::Call` (Gamepad.cpp 87-93): what the receiver returns and the gamepad with
the receiver after the call. -/
def Call (g : OSX_Gamepad) (aEvent : IGamepad.Event) : Option (Bool × OSX_Gamepad) :=
  match g.mReceiver with
  | none => none
  | some lReceiver =>
    if ¬ (0 ≠ g.mReceiver_Code) then none
    else
      let lRet := lReceiver.ProcessMessage g.mReceiver_Code aEvent
      some (lRet.1, { g with mReceiver := some lRet.2 })

/-- The `switch (lEntry->mType)` of `Report_Process` (OSX_Gamepad.cpp 352-377): `lCall`
and `lEvent` after it, `none` for `assert(false)`. -/
def Report_Event (lEntry : TableEntry) (lNew : Nat) : Option (Bool × IGamepad.Event) :=
  match lEntry.mType with
  | TYPE_CONST => some (decide (lEntry.mValue = lNew), lEntry.mEvent)
  | TYPE_VALUE_16 =>
    some (true, { lEntry.mEvent with mValue_pc := (Int16_Value lNew : ℚ) / 0x7ffff * 100 })
  | TYPE_VALUE_8_HIGH =>
    some (true, { lEntry.mEvent with mValue_pc := ((lNew >>> 8 : Nat) : ℚ) / 0xff * 100 })
  | TYPE_VALUE_8_LOW =>
    some (true, { lEntry.mEvent with mValue_pc := (lNew : ℚ) / 0xff * 100 })
  | TYPE_END_OF_LIST => none

/-- The loop `while (TYPE_END_OF_LIST != lEntry->mType)` of `Report_Process`
(OSX_Gamepad.cpp 342-387) over the elements from `lEntry` on, for the words `aNew`
(`aIn[i]`) and `aOld` (`mReport[i]`): `lResult` and the gamepad after it. A table without
its last element is walked past its end: `none`. -/
def Report_Entries (g : OSX_Gamepad) (lResult : Bool) (aNew aOld : Nat) :
    List TableEntry → Option (Bool × OSX_Gamepad)
  | [] => none
  | lEntry :: lRest =>
    if lEntry.mType = TYPE_END_OF_LIST then some (lResult, g)
    else
      let lNew := aNew &&& lEntry.mMask
      let lOld := aOld &&& lEntry.mMask
      if lNew ≠ lOld then
        match Report_Event lEntry lNew with
        | none => none
        | some (lCall, lEvent) =>
          if lCall then
            match g.Call lEvent with
            | none => none
            | some (lResult1, g1) => Report_Entries g1 lResult1 aNew aOld lRest
          else Report_Entries g lResult aNew aOld lRest
      else Report_Entries g lResult aNew aOld lRest

/-- The body of the loop over the words of the report (OSX_Gamepad.cpp 335-390), for the
word `i`. A word outside `mReport` or outside the report read is `none`. -/
def Report_Word (g : OSX_Gamepad) (lResult : Bool) (aIn : List Nat) (i : Nat) :
    Option (Bool × OSX_Gamepad) :=
  match g.mReport[i]?, aIn[i]? with
  | some lOld, some lNew =>
    if lOld ≠ lNew then
      match
        (match TABLE i with
         | none => some (lResult, g)
         | some lEntry => Report_Entries g lResult lNew lOld lEntry) with
      | none => none
      | some (lResult1, g1) => some (lResult1, { g1 with mReport := g1.mReport.set i lNew })
    else some (lResult, g)
  | _, _ => none

/-- The loop over the words of the report, for the words listed. -/
def Report_Loop (aIn : List Nat) : OSX_Gamepad → Bool → List Nat → Option (Bool × OSX_Gamepad)
  | g, lResult, [] => some (lResult, g)
  | g, lResult, i :: lRest =>
    match Report_Word g lResult aIn i with
    | none => none
    | some (lResult1, g1) => Report_Loop aIn g1 lResult1 lRest

/-- `OSX_Gamepad::Report_Process` (OSX_Gamepad.cpp 329-394): the value returned and the
gamepad afterwards. `sizeof(mReport) / sizeof(uint16_t)` is 10. -/
def Report_Process (g : OSX_Gamepad) (aIn : List Nat) : Option (Bool × OSX_Gamepad) :=
  Report_Loop aIn g true (List.range 10)

end OSX_Gamepad

/-! ## The validator as the specification words it -/

namespace DJI_Gimbal

/-- The checks of the inbound validator from the second byte on, in ascending order of
the byte count `t` that activates them: `(t, the check fails, the error)`. `aCmdId` is
the command id of the outstanding request. -/
def Receiver_Validate_Checks (aReply : DJI_Frame) (aCmdId : Nat) : List (Nat × Bool × Result) :=
  [ (2, decide (aReply.mSize_byte > 128), ZT_ERROR_FRAME_TOO_LONG),
    (2, decide (aReply.mSize_byte < 17), ZT_ERROR_FRAME_TOO_SHORT),
    (3, decide (aReply.mVersion &&& 0xfc ≠ 0), ZT_ERROR_GIMBAL_VERSION),
    (4, decide (aReply.mCmdType ≠ 0x20), ZT_ERROR_CMD_TYPE),
    (5, decide (aReply.mEncoded ≠ 0), ZT_ERROR_ENCODED),
    (13, decide (aReply.mData 0 ≠ 0x0e), ZT_ERROR_CMD_SET),
    (14, decide (aReply.mData 1 ≠ aCmdId), ZT_ERROR_CMD_ID),
    (15, decide (aReply.mData 2 ≠ 0x00), ZT_ERROR_GIMBAL) ]

/-- The error of the first check with `n < t <= m` that fails, if one does. -/
def Receiver_Validate_First_Failure (n m : Nat) (aReply : DJI_Frame) (aCmdId : Nat) :
    Option Result :=
  ((Receiver_Validate_Checks aReply aCmdId).find?
    (fun c => decide (n < c.1 ∧ c.1 ≤ m) && c.2.1)).map (fun c => c.2.2)

/-- The outcome the specification gives for a validation from `mRxSize_byte` to
`aTo_byte` bytes: on a failure its error and the receive offset and size reset to 0,
otherwise `ZT_OK` and the receive size `aTo_byte`. -/
def Receiver_Validate_Spec (g : DJI_Gimbal) (aTo_byte : Nat) (aCmdId : Nat) :
    Result × DJI_Gimbal :=
  match Receiver_Validate_First_Failure g.mRxSize_byte aTo_byte g.mReply aCmdId with
  | some lError => (lError, { g with mRxOffset_byte := 0, mRxSize_byte := 0 })
  | none => (ZT_OK, { g with mRxSize_byte := aTo_byte })

end DJI_Gimbal

namespace DJI_Transaction

/-- Successive calls of `Tick` on one transaction, given by their number; the messages
the calls send are not part of the result. -/
def Tick_Times : Nat → DJI_Transaction → Option DJI_Transaction
  | 0, tr => some tr
  | n + 1, tr => tr.Tick.bind (fun r => Tick_Times n r.1)

end DJI_Transaction

/-! ## Predicates used by the theorems -/

/-- Header and size of a frame: 28 bytes with a given length byte. -/
def Frame_Shape (f : DJI_Frame) (L : Nat) : Prop :=
  f.bytes.length = 28 ∧ f.mSize_byte = L

namespace DJI_Transaction

/-- A transaction that differs from `tr` in its frame only, the frame having the
given shape. -/
def Reframed (tr t : DJI_Transaction) (L : Nat) : Prop :=
  Frame_Shape t.mTxFrame L ∧ t = { tr with mTxFrame := t.mTxFrame }

end DJI_Transaction

namespace DJI_Gimbal

/-- The values on which `::CalculateMoveDuration` asserts, for a `Position_Set` call on
the engine `g`: when the gimbal model holds a current position (`mPosition_Count` is not
zero), on every axis the call controls the current position and the commanded angle are
within `POSITION_MIN_deg`..`POSITION_MAX_deg` and the configured speed is positive and
at most `SPEED_MAX_deg_s`. -/
def Move_In_Range (g : DJI_Gimbal) (aIn : Position) (aFlags : Nat) : Prop :=
  0 < g.mPosition_Count →
    ∀ a ∈ FOR_EACH_AXIS, Axis_Controlled aFlags a = true →
      (POSITION_MIN_deg ≤ g.mPosition_Current.mAxis_deg.get a ∧
        g.mPosition_Current.mAxis_deg.get a ≤ POSITION_MAX_deg) ∧
      (POSITION_MIN_deg ≤ aIn.mAxis_deg.get a ∧ aIn.mAxis_deg.get a ≤ POSITION_MAX_deg) ∧
      (0 < (g.mConfig.mAxis.get a).mSpeed_deg_s ∧
        (g.mConfig.mAxis.get a).mSpeed_deg_s ≤ IGimbal.SPEED_MAX_deg_s)

instance (g : DJI_Gimbal) (aIn : Position) (aFlags : Nat) :
    Decidable (g.Move_In_Range aIn aFlags) := by
  unfold Move_In_Range; infer_instance

/-- The arguments of a `Position_Set` call are accepted by the base class
(`Gimbal::Position_Set` returns `ZT_OK`: every controlled angle plus its configured
offset is within the configured limits) and the values are in `Move_In_Range`. -/
def Position_Set_Valid (g : DJI_Gimbal) (aIn : Position) (aFlags aDuration_ms : Nat) : Prop :=
  (g.toGimbal.Position_Set aIn aFlags aDuration_ms).1 = ZT_OK ∧
  g.Move_In_Range aIn aFlags

/-- The arguments of a `Speed_Set` call are accepted by the base class
(`Gimbal::Speed_Set` returns `ZT_OK`). -/
def Speed_Set_Valid (g : DJI_Gimbal) (aIn : Speed) (aFlags : Nat) : Prop :=
  (g.toGimbal.Speed_Set aIn aFlags).1 = ZT_OK

instance (g : DJI_Gimbal) (aIn : Position) (aFlags aDuration_ms : Nat) :
    Decidable (g.Position_Set_Valid aIn aFlags aDuration_ms) := by
  unfold Position_Set_Valid; infer_instance

instance (g : DJI_Gimbal) (aIn : Speed) (aFlags : Nat) :
    Decidable (g.Speed_Set_Valid aIn aFlags) := by
  unfold Speed_Set_Valid; infer_instance

end DJI_Gimbal

namespace DJI_Gimbal

/-- Delivery of CAN frames to `Receiver`, one after the other. -/
def Receiver_Run (g : DJI_Gimbal) : List EthCAN_Frame → Option DJI_Gimbal
  | [] => some g
  | lCF :: lRest =>
    match g.Receiver lCF with
    | none => none
    | some g1 => Receiver_Run g1 lRest

/-- The receive buffer has its 128 bytes and, for a transaction in flight, at least 14
reply bytes are expected and the command id of the reply was found equal to the one of
the request once 14 bytes were accepted. -/
def Rx_Checked (g : DJI_Gimbal) : Prop :=
  g.mRxBuffer.length = RX_BUFFER_SIZE ∧
  ∀ tr, g.Tr_Current = some tr →
    14 ≤ tr.mRxExpected_byte ∧
    (14 ≤ g.mRxSize_byte →
      tr.mTxFrame.mData DJI_DATA_CMD_ID = g.mReply.mData DJI_DATA_CMD_ID)

/-- A transaction in flight in `g2` was in flight in `g1` with the same request frame
and the same expected reply size. -/
def Tr_Kept (g1 g2 : DJI_Gimbal) : Prop :=
  ∀ t2, g2.Tr_Current = some t2 →
    ∃ t1, g1.Tr_Current = some t1 ∧ t2.mTxFrame = t1.mTxFrame ∧
      t2.mRxExpected_byte = t1.mRxExpected_byte

/-- The receive buffer and its two counters are the same in `g1` and `g2`, and
`Tr_Kept g1 g2`. -/
def Same_Request (g1 g2 : DJI_Gimbal) : Prop :=
  g2.mRxBuffer = g1.mRxBuffer ∧ g2.mRxOffset_byte = g1.mRxOffset_byte ∧
  g2.mRxSize_byte = g1.mRxSize_byte ∧ Tr_Kept g1 g2

end DJI_Gimbal

namespace DJI_Gimbal

/-- What the completion of the transaction in flight does to the transaction slots:
the pending slot is left alone, and the completed transaction, `t` as its owner sees it
afterwards, was either detached from the current slot (and logged) or is still there. -/
def Completion_Effect (g1 g2 : DJI_Gimbal) (t : DJI_Transaction) : Prop :=
  g2.mTr_Next = g1.mTr_Next ∧
  ((g2.mTr_Current = none ∧ g2.mTr_Done = g1.mTr_Done ++ [t]) ∨
   (g2.Tr_Current = some t ∧ g2.mTr_Done = g1.mTr_Done))

/-- The message codes whose handler assigns the result slot again (`Result_Set`). -/
def Parsing_Code (aCode : Nat) : Prop :=
  aCode = MSG_CONFIG_STIFFNESS ∨ aCode = MSG_POSITION ∨ aCode = MSG_POSITION_AND_SIGNAL

instance (aCode : Nat) : Decidable (Parsing_Code aCode) := by
  unfold Parsing_Code; infer_instance

end DJI_Gimbal

namespace DJI_Gimbal

/-- The worker thread runs `aCount` ticks, nothing else happening in between. -/
def OnTick_Times (crc : DJI_CRC) : Nat → DJI_Gimbal → Option DJI_Gimbal
  | 0, g => some g
  | aCount + 1, g => (OnTick crc g).bind (OnTick_Times crc aCount)

/-- An idle engine on a sound link: ACTIVATED, the pending slot empty, every coming
send accepted, the receive counters within the buffer and a reply expected for the
position query. -/
def Tick_Ready (g : DJI_Gimbal) : Prop :=
  g.mState = State.STATE_ACTIVATED ∧ g.mTr_Next = none ∧ g.mDevice.SendsSucceed ∧
  g.mRxOffset_byte ≤ RX_BUFFER_SIZE ∧ g.mRxSize_byte ≤ RX_BUFFER_SIZE ∧
  0 < g.mTr_Position.mRxExpected_byte

instance (g : DJI_Gimbal) : Decidable g.Tick_Ready := by
  unfold Tick_Ready; infer_instance

/-- What the periodic work of a tick keeps: `g2` differs from `g1` in nothing that
`Tick_Ready` or the liveness counter looks at, and the outcome of a bus reset is the
same. -/
def Tick_Kept (g1 g2 : DJI_Gimbal) : Prop :=
  g2.mState = g1.mState ∧ g2.mState_Counter = g1.mState_Counter ∧
  g2.mTr_Next = g1.mTr_Next ∧ g2.mDevice.SendsSucceed ∧
  g2.mDevice.mCAN_Reset_OK = g1.mDevice.mCAN_Reset_OK ∧
  g2.mRxOffset_byte ≤ RX_BUFFER_SIZE ∧ g2.mRxSize_byte ≤ RX_BUFFER_SIZE ∧
  g2.mTr_Position.mRxExpected_byte = g1.mTr_Position.mRxExpected_byte

end DJI_Gimbal

namespace DJI_Gimbal

open State

/-- `DJI_Gimbal::Tr_QueueAndWait` (DJI_Gimbal.cpp 1258-1273) up to its call of `Wait`:
the transaction is queued when the pending slot is free; `Wait` then blocks the caller
until the worker thread or the receiver completes the transaction. When the slot is
taken nothing is queued and the result is `ZT_ERROR_NOT_READY`. -/
def Tr_QueueAndWait_Queue (g : DJI_Gimbal) (aTr : DJI_Transaction) : Option DJI_Gimbal :=
  if g.mTr_Next = none then g.Tr_Queue_Z0 aTr else some g

/-- `DJI_Gimbal::Activate` (DJI_Gimbal.cpp 122-190) from its entry to the first wait, on
the path where `Receiver_Start` and the start of the worker thread succeed: the state
becomes ACTIVATING and `Info_Retrieve` (DJI_Gimbal.cpp 648-661) prepares its
transaction and hands it to `Retry`, whose first `Tr_QueueAndWait` queues it. What
`Activate` does after the wait is not part of this definition. -/
def Activate_Begin (crc : DJI_CRC) (g : DJI_Gimbal) : Option DJI_Gimbal :=
  if ¬ (STATE_INIT = g.mState) then none
  else
    let g1 := g.State_Set_Z0 STATE_ACTIVATING
    match DJI_Transaction.fresh.Prepare_Full MSG_INFO 11 with
    | none => none
    | some lTr =>
      match lTr.Frame_Init_VERSION crc g1.sSerial with
      | none => none
      | some (lTr, lSerial) => ({ g1 with sSerial := lSerial }).Tr_QueueAndWait_Queue lTr

end DJI_Gimbal

namespace Gimbal

/-- The result of `Speed_Set` as the specification words it: the first axis, in the
order pitch, roll, yaw, that is not ignored and whose speed is outside [-360, 360]
decides, `ZT_ERROR_SPEED_MAX` above 360 and `ZT_ERROR_SPEED_MIN` below -360; without
such an axis the result is `ZT_OK`. -/
def Speed_Set_Spec (aIn : Speed) (aFlags : Nat) : Result :=
  match FOR_EACH_AXIS.find? (fun a =>
      Axis_Controlled aFlags a &&
        decide (aIn.mAxis_deg_s.get a > 360 ∨ aIn.mAxis_deg_s.get a < -360)) with
  | none => ZT_OK
  | some a => if aIn.mAxis_deg_s.get a > 360 then ZT_ERROR_SPEED_MAX else ZT_ERROR_SPEED_MIN

/-- The result of `Position_Set` as the specification words it: the first axis that is
not ignored and whose angle plus offset is outside the configured range decides,
`ZT_ERROR_ANGLE_MAX` above the maximum and `ZT_ERROR_ANGLE_MIN` below the minimum;
without such an axis the result is `ZT_OK`. -/
def Position_Set_Spec (aConfig : Config) (aIn : Position) (aFlags : Nat) : Result :=
  match FOR_EACH_AXIS.find? (fun a =>
      Axis_Controlled aFlags a &&
        decide (aIn.mAxis_deg.get a + (aConfig.mAxis.get a).mOffset_deg >
            (aConfig.mAxis.get a).mMax_deg ∨
          aIn.mAxis_deg.get a + (aConfig.mAxis.get a).mOffset_deg <
            (aConfig.mAxis.get a).mMin_deg)) with
  | none => ZT_OK
  | some a =>
    if aIn.mAxis_deg.get a + (aConfig.mAxis.get a).mOffset_deg > (aConfig.mAxis.get a).mMax_deg
    then ZT_ERROR_ANGLE_MAX else ZT_ERROR_ANGLE_MIN

end Gimbal

namespace Gimbal

/-- The conditions the specification lists for one axis of a configuration,
`aMax_deg_s` being the maximum speed of the axis. -/
def Config_Axis_Valid (c : Config_Axis) (aMax_deg_s : ℚ) : Prop :=
  c.mMax_deg ≤ 180.5 ∧ -180.5 ≤ c.mMin_deg ∧ c.mMin_deg ≤ c.mMax_deg ∧
  0.1 ≤ c.mSpeed_deg_s ∧ c.mSpeed_deg_s ≤ aMax_deg_s ∧
  0 ≤ c.mStiffness_pc ∧ c.mStiffness_pc ≤ 100

instance (c : Config_Axis) (aMax_deg_s : ℚ) : Decidable (Config_Axis_Valid c aMax_deg_s) := by
  unfold Config_Axis_Valid
  infer_instance

/-- The error of one axis as the specification words it: the conditions are checked in
the order ANGLE_MAX, ANGLE_MIN, SPEED, then MIN and MAX for the stiffness. -/
def Config_Axis_Spec (c : Config_Axis) (aMax_deg_s : ℚ) : Result :=
  if ¬ (c.mMax_deg ≤ 180.5) then ZT_ERROR_ANGLE_MAX
  else if ¬ (-180.5 ≤ c.mMin_deg ∧ c.mMin_deg ≤ c.mMax_deg) then ZT_ERROR_ANGLE_MIN
  else if ¬ (0.1 ≤ c.mSpeed_deg_s ∧ c.mSpeed_deg_s ≤ aMax_deg_s) then ZT_ERROR_SPEED
  else if ¬ (0 ≤ c.mStiffness_pc) then ZT_ERROR_MIN
  else if ¬ (c.mStiffness_pc ≤ 100) then ZT_ERROR_MAX
  else ZT_OK

/-- The result of `Config_Set` as the specification words it: the error of the first
axis, in the order pitch, roll, yaw, that fails a condition; `ZT_OK` without such an
axis. -/
def Config_Set_Spec (g : Gimbal) (aIn : Config) : Result :=
  match FOR_EACH_AXIS.find? (fun a =>
      decide (¬ Config_Axis_Valid (aIn.mAxis.get a) (g.mInfo.mAxis.get a).mSpeed_Max_deg_s)) with
  | none => ZT_OK
  | some a => Config_Axis_Spec (aIn.mAxis.get a) (g.mInfo.mAxis.get a).mSpeed_Max_deg_s

end Gimbal

namespace Gimbal

open State

/-- The operations on the gimbal model that a sequence is made of. -/
inductive Op where
  | Position_Update (aIn : Position)
  | Tick
  | Position_Set (aIn : Position) (aFlags aDuration_ms : Nat)
  | Speed_Set (aIn : Speed) (aFlags : Nat)
  | Speed_Stop

/-- The model after one operation; the result an operation returns is dropped. -/
def Op.apply (g : Gimbal) : Op → Gimbal
  | .Position_Update aIn => g.Position_Update aIn
  | .Tick => g.Tick
  | .Position_Set aIn aFlags aDuration_ms => (g.Position_Set aIn aFlags aDuration_ms).2
  | .Speed_Set aIn aFlags => (g.Speed_Set aIn aFlags).2
  | .Speed_Stop => g.Speed_Stop.2

/-- The model after a sequence of operations, the first of the list applied first. -/
def Run (g : Gimbal) (aOps : List Op) : Gimbal := aOps.foldl Op.apply g

/-- One step of `Last_Update`. -/
def Last_Update_Step : Option (Position × Nat) → Op → Option (Position × Nat)
  | _, .Position_Update aIn => some (aIn, 0)
  | some (p, n), .Tick => some (p, n + 1)
  | r, _ => r

/-- The position of the last `Position_Update` of a sequence and the number of `Tick`
calls after it; `none` when the sequence has no `Position_Update`. -/
def Last_Update (aOps : List Op) : Option (Position × Nat) := aOps.foldl Last_Update_Step none

/-- What ties the model to the history of updates and ticks: the counter is 15 minus
the ticks since the last update (0 without an update), the current position is the one
of the last update, and state UNKNOWN comes with counter 0. -/
def Fresh_Inv (aConfig : Config) (g : Gimbal) (aLast : Option (Position × Nat)) : Prop :=
  g.mConfig = aConfig ∧
  (g.mPosition_State = STATE_UNKNOWN → g.mPosition_Count = 0) ∧
  (match aLast with
    | none => g.mPosition_Count = 0
    | some (p, n) => g.mPosition_Count = 15 - n ∧ g.mPosition_Current = p)

end Gimbal

namespace ControlLink

/-- The key of an entry. -/
def TableEntry.key (e : TableEntry) : Nat × Nat := (e.mAction, e.mControl)

/-- No two entries of the table have the same (Action, Control) key. -/
def Unique_Keys (t : Table) : Prop := (t.map TableEntry.key).Nodup

instance (t : Table) : Decidable (Unique_Keys t) := by
  unfold Unique_Keys
  infer_instance

/-- The operations that change the control table. -/
inductive Table_Op where
  | AddEntry (aAction aControl aFunction : Nat) (aFactor aOffset : ℚ)
  | RemoveEntry (aAction aControl : Nat)
  | CLEAR

/-- The enumeration arguments of an operation are values of their enumerations. -/
def Table_Op.In_Range : Table_Op → Prop
  | .AddEntry aAction aControl aFunction _ _ =>
    aAction < IGamepad.ACTION_QTY ∧ aControl < IGamepad.CONTROL_QTY ∧ aFunction < FUNCTION_QTY
  | .RemoveEntry aAction aControl =>
    aAction < IGamepad.ACTION_QTY ∧ aControl < IGamepad.CONTROL_QTY
  | .CLEAR => True

instance (op : Table_Op) : Decidable op.In_Range := by
  cases op <;> unfold Table_Op.In_Range <;> infer_instance

/-- The table after one operation; the result of `Table_AddEntry` is dropped. -/
def Table_Op.apply (t : Table) : Table_Op → Option Table
  | .AddEntry aAction aControl aFunction aFactor aOffset =>
    (Table_AddEntry t aAction aControl aFunction aFactor aOffset).map (fun r => r.2)
  | .RemoveEntry aAction aControl => Table_RemoveEntry t aAction aControl
  | .CLEAR => some (Table_Clear t)

/-- The table after a sequence of operations, the first of the list applied first. -/
def Table_Run (t : Table) : List Table_Op → Option Table
  | [] => some t
  | op :: rest =>
    match Table_Op.apply t op with
    | none => none
    | some t1 => Table_Run t1 rest

end ControlLink

namespace DJI_Transaction

/-- The 28 bytes of the frame that `Frame_Init_POSITION_SET` leaves, written out: the
header of `Init` with the serial number `n` and its CRC-16, command set and id, the
angle of each controlled axis (yaw, roll, pitch), the flags byte, the duration. -/
def POSITION_SET_Image (crc : DJI_CRC) (n : Nat) (aIn : Position) (aFlags aDuration_ms : Nat) :
    List Nat :=
  [0xaa, 26, 0, 0, 0, 0, 0, 0, n % 256, n / 256 % 256,
   crc.DJI_CRC_16 [0xaa, 26, 0, 0, 0, 0, 0, 0, n % 256, n / 256 % 256] % 65536 % 256,
   crc.DJI_CRC_16 [0xaa, 26, 0, 0, 0, 0, 0, 0, n % 256, n / 256 % 256] % 65536 / 256 % 256,
   0x0e, 0x00,
   if Axis_Controlled aFlags .AXIS_YAW = true then
     (Double_To_Int16 (aIn.mAxis_deg.get .AXIS_YAW * 10) &&& 0xff) % 256 else 0,
   if Axis_Controlled aFlags .AXIS_YAW = true then
     (Double_To_Int16 (aIn.mAxis_deg.get .AXIS_YAW * 10) >>> 8) % 256 else 0,
   if Axis_Controlled aFlags .AXIS_ROLL = true then
     (Double_To_Int16 (aIn.mAxis_deg.get .AXIS_ROLL * 10) &&& 0xff) % 256 else 0,
   if Axis_Controlled aFlags .AXIS_ROLL = true then
     (Double_To_Int16 (aIn.mAxis_deg.get .AXIS_ROLL * 10) >>> 8) % 256 else 0,
   if Axis_Controlled aFlags .AXIS_PITCH = true then
     (Double_To_Int16 (aIn.mAxis_deg.get .AXIS_PITCH * 10) &&& 0xff) % 256 else 0,
   if Axis_Controlled aFlags .AXIS_PITCH = true then
     (Double_To_Int16 (aIn.mAxis_deg.get .AXIS_PITCH * 10) >>> 8) % 256 else 0,
   0x01 + (if Axis_Controlled aFlags .AXIS_PITCH = true then 0 else 0x08) +
     (if Axis_Controlled aFlags .AXIS_ROLL = true then 0 else 0x04) +
     (if Axis_Controlled aFlags .AXIS_YAW = true then 0 else 0x02),
   aDuration_ms / 100 % 256, 0, 0, 0, 0, 0, 0]

end DJI_Transaction

namespace ControlLink

/-- The mapper `cl` once the gimbal `o` of its active binding `lInfo` has received the
calls `aCalls` and given as many answers. -/
def After_Calls (cl : ControlLink) (lInfo : GimbalInfo) (o : IGimbal_Object)
    (aCalls : List IGimbal_Call) : ControlLink :=
  { cl with
    mGimbals := cl.mGimbals.set cl.mGimbalIndex
      { lInfo with
        mGimbal := some { o with mCalls := o.mCalls ++ aCalls
                                 mScript := o.mScript.drop aCalls.length } } }

end ControlLink

namespace DJI_Gimbal

/-- What moves the focus position between explicit setpoints: an integration step of
the worker, or a call of `Focus_Speed_Set`. -/
inductive Focus_Op where
  | Step
  | Speed_Set (aSpeed_pc_s : ℚ)
  deriving DecidableEq, Repr

/-- The engine after one focus operation; a refused `Focus_Speed_Set` changes nothing. -/
def Focus_Op.apply (crc : DJI_CRC) (g : DJI_Gimbal) : Focus_Op → Option DJI_Gimbal
  | .Step => Tick_Focus_Speed_Z0 crc g
  | .Speed_Set aSpeed_pc_s =>
    (g.toGimbal.Focus_Speed_Set aSpeed_pc_s).map (fun r => { g with toGimbal := r.2 })

/-- The engine after a sequence of focus operations. -/
def Focus_Run (crc : DJI_CRC) : DJI_Gimbal → List Focus_Op → Option DJI_Gimbal
  | g, [] => some g
  | g, lOp :: lRest => (lOp.apply crc g).bind (fun g1 => Focus_Run crc g1 lRest)

end DJI_Gimbal

namespace DJI_Transaction

/-- The 28 bytes of the frame that `Frame_Init_ANGLE_LIMIT_SET` leaves, written out: the
header of `Init` for 8 data bytes with the serial number `n` and its CRC-16, command
set and id, then the data bytes 2 to 8 as the loop and the final assignment of
`mData[2]` leave them. -/
def ANGLE_LIMIT_SET_Image (crc : DJI_CRC) (n : Nat) (aConfig : Config) : List Nat :=
  [0xaa, 24, 0, 0x03, 0, 0, 0, 0, n % 256, n / 256 % 256,
   crc.DJI_CRC_16 [0xaa, 24, 0, 0x03, 0, 0, 0, 0, n % 256, n / 256 % 256] % 65536 % 256,
   crc.DJI_CRC_16 [0xaa, 24, 0, 0x03, 0, 0, 0, 0, n % 256, n / 256 % 256] % 65536 / 256 % 256,
   0x0e, 0x03,
   0x01,
   Double_To_UInt8 (if (0 : ℚ) > aConfig.mAxis.pitch.mMin_deg then
     - aConfig.mAxis.pitch.mMin_deg else 0) % 256,
   0,
   Double_To_UInt8 (if (0 : ℚ) < aConfig.mAxis.yaw.mMax_deg then
     aConfig.mAxis.yaw.mMax_deg else 0) % 256,
   Double_To_UInt8 (if (0 : ℚ) > aConfig.mAxis.yaw.mMin_deg then
     - aConfig.mAxis.yaw.mMin_deg else 0) % 256,
   Double_To_UInt8 (if (0 : ℚ) < aConfig.mAxis.roll.mMax_deg then
     aConfig.mAxis.roll.mMax_deg else 0) % 256,
   Double_To_UInt8 (if (0 : ℚ) > aConfig.mAxis.roll.mMin_deg then
     - aConfig.mAxis.roll.mMin_deg else 0) % 256,
   0, 0, 0, 0, 0, 0, 0]

end DJI_Transaction

namespace DJI_Gimbal

/-- The bounds of the receive state: the buffer has its 128 bytes and
receive offset <= receive size <= 128. -/
def Rx_Bounds (g : DJI_Gimbal) : Prop :=
  g.mRxBuffer.length = RX_BUFFER_SIZE ∧ g.mRxOffset_byte ≤ g.mRxSize_byte ∧
  g.mRxSize_byte ≤ RX_BUFFER_SIZE

end DJI_Gimbal

namespace DJI_Gimbal

/-- The message codes with which the engine prepares a transaction (DJI_Gimbal.cpp 77,
223, 281, 368, 564, 659, 1226); the handler of each detaches the completed transaction
from the current slot. -/
def Handled_Code (aCode : Nat) : Prop :=
  aCode = MSG_CONFIG ∨ aCode = MSG_CONFIG_STIFFNESS ∨ aCode = MSG_INFO ∨
  aCode = MSG_POSITION ∨ aCode = MSG_POSITION_AND_SIGNAL ∨ aCode = MSG_RELEASE ∨
  aCode = MSG_SIGNAL

instance (aCode : Nat) : Decidable (Handled_Code aCode) := by
  unfold Handled_Code; infer_instance

/-- The transaction was prepared by the engine: it has a receiver and one of the
message codes above. -/
def Tr_Prepared (t : DJI_Transaction) : Prop :=
  t.mReceiver = true ∧ Handled_Code t.mCode

instance (t : DJI_Transaction) : Decidable (Tr_Prepared t) := by
  unfold Tr_Prepared; infer_instance

/-- A prepared transaction whose result slot is unassigned (`ZT_RESULT_INVALID`, as
`Reset` leaves it). -/
def Tr_Unassigned (t : DJI_Transaction) : Prop :=
  t.mResult = ZT_RESULT_INVALID ∧ Tr_Prepared t

instance (t : DJI_Transaction) : Decidable (Tr_Unassigned t) := by
  unfold Tr_Unassigned; infer_instance

/-- The transactions the engine holds are unassigned: the one in the current slot and
the one in the pending slot, which is never the member `mTr_Position`; and
`mTr_Position` is prepared. -/
def Slots_Unassigned (g : DJI_Gimbal) : Prop :=
  (∀ t, g.Tr_Current = some t → Tr_Unassigned t) ∧
  (∀ p, g.mTr_Next = some p → ∃ t, p = .Object t ∧ Tr_Unassigned t) ∧
  Tr_Prepared g.mTr_Position

/-- The transaction slots, the member `mTr_Position` and the record of the detached
transactions are the same in `g1` and `g2`. -/
def Same_Slots (g1 g2 : DJI_Gimbal) : Prop :=
  g2.mTr_Current = g1.mTr_Current ∧ g2.mTr_Next = g1.mTr_Next ∧
  g2.mTr_Done = g1.mTr_Done ∧ g2.mTr_Position = g1.mTr_Position

/-- The completed transaction `t` was detached from the current slot of `g1` and
recorded; the pending slot is as it was and `mTr_Position` is still prepared. -/
def Detached (g1 g2 : DJI_Gimbal) (t : DJI_Transaction) : Prop :=
  g2.mTr_Current = none ∧ g2.mTr_Next = g1.mTr_Next ∧
  g2.mTr_Done = g1.mTr_Done ++ [t] ∧
  (Tr_Prepared g1.mTr_Position → Tr_Prepared g2.mTr_Position)

/-- One step of a run of the engine: an iteration of the worker thread, the reception
of a CAN payload, or a user thread handing a transaction to `Tr_Queue_Z0`, which
resets it. -/
inductive Engine_Step where
  | Tick
  | Rx (aCF : EthCAN_Frame)
  | Queue (aTr : DJI_Transaction)
  deriving DecidableEq, Repr

/-- The engine after one step. -/
def Engine_Step.apply (crc : DJI_CRC) (g : DJI_Gimbal) : Engine_Step → Option DJI_Gimbal
  | .Tick => OnTick crc g
  | .Rx aCF => g.Receiver aCF
  | .Queue aTr => g.Tr_Queue_Z0 aTr

/-- The transactions that the steps hand to `Tr_Queue_Z0` are prepared. -/
def Engine_Step.Prepared : Engine_Step → Prop
  | .Queue aTr => Tr_Prepared aTr
  | _ => True

/-- A run of engine steps. -/
def Engine_Run (crc : DJI_CRC) : DJI_Gimbal → List Engine_Step → Option DJI_Gimbal
  | g, [] => some g
  | g, s :: lRest =>
    match s.apply crc g with
    | none => none
    | some g1 => Engine_Run crc g1 lRest

/-- What a run has done to the transactions: the slots hold unassigned transactions,
and the record of the detached transactions of `g1` was extended by at most `n`
transactions, each with an assigned result. -/
def Completed_Assigned (g1 g2 : DJI_Gimbal) (n : Nat) : Prop :=
  g2.Slots_Unassigned ∧
  ∃ lNew : List DJI_Transaction, g2.mTr_Done = g1.mTr_Done ++ lNew ∧ lNew.length ≤ n ∧
    ∀ t ∈ lNew, t.mResult ≠ ZT_RESULT_INVALID

end DJI_Gimbal

/-! ## Concrete objects used to evaluate the definitions -/

namespace Example

/-- A stand-in for the checksum functions. -/
def crc : DJI_CRC :=
  { DJI_CRC_16 := fun b => b.sum + 1, DJI_CRC_32 := fun b => 16777619 * b.sum + 305419896 }

/-- A link on which every operation succeeds and nothing was sent yet. -/
def device : EthCAN_Device :=
  { mSent := [], mSend_Script := [], mCAN_Reset_OK := true, mProtocol_Reset_OK := true,
    mReceiver_Config_OK := true }

/-- The engine as its constructor leaves it, with zeros for the indeterminate members. -/
def engine : DJI_Gimbal :=
  { toGimbal := Gimbal.ctor
    mMoveDuration_ms := 0
    mRxBuffer := List.replicate 128 0
    mCounter := 0
    mTr_Position :=
      { DJI_Transaction.fresh with
        mCode := DJI_Gimbal.MSG_POSITION, mReceiver := true, mRxExpected_byte := 22 }
    mDevice := device
    mRxOffset_byte := 0
    mRxSize_byte := 0
    mState := .STATE_INIT
    mState_Counter := 0
    mTr_Current := none
    mTr_Next := none
    sSerial := 0
    mTr_Done := [] }

/-- A 28-byte frame image whose length byte is `L`. -/
def frame (L : Nat) : DJI_Frame :=
  { bytes := [0xaa, L, 0, 0x03, 0, 0, 0, 0, 1, 0, 0x34, 0x12, 0x0e, 0x02, 0x01, 0, 0, 0, 0, 0,
              0, 0, 0, 0, 0, 0, 0, 0] }

/-- The transaction of `Track_Speed_Set(0)` as `Tr_Queue_Z0` queues it: prepared with
`MSG_SIGNAL` and one expected reply byte, carrying a TLV_SET frame. -/
def tr_TLV : DJI_Transaction :=
  { mCode := DJI_Gimbal.MSG_SIGNAL, mReceiver := true, mResult := .ZT_RESULT_INVALID,
    mRxExpected_byte := 13, mRxTimeout_tick := 100,
    mTxFrame := { bytes := [0xaa, 21, 0, 0x03, 0, 0, 0, 0, 1, 0, 196, 0, 0x0e, 0x0c,
                            0x75, 1, 1, 0, 0, 0, 0, 0, 0, 0, 0, 0, 0, 0] } }

/-- The engine in state TRANSACTION with `tr_TLV` in flight and an empty receive
buffer. -/
def engine_TLV : DJI_Gimbal :=
  { engine with mState := .STATE_TRANSACTION, mState_Counter := 30,
                mTr_Current := some (.Object tr_TLV) }

/-- An inbound CAN frame with identifier 0x222 that carries `aBytes`. -/
def rx (aBytes : List Nat) : EthCAN_Frame :=
  { mId := 0x222, mDataSize_byte := aBytes.length,
    mData := aBytes ++ List.replicate (8 - aBytes.length) 0 }

/-- The engine `engine_TLV` after a first payload `00 C8` was copied into the receive
buffer and before it is validated. -/
def engine_bad_SOF : DJI_Gimbal :=
  { engine_TLV with mRxBuffer := [0x00, 200] ++ List.replicate 126 0 }

/-- The engine `engine_TLV` after the first eight bytes of a well-formed reply were
copied into the receive buffer and before they are validated. -/
def engine_good_header : DJI_Gimbal :=
  { engine_TLV with
    mRxBuffer := [0xaa, 17, 0, 0x20, 0, 0, 0, 0] ++ List.replicate 120 0
    mRxOffset_byte := 8 }

/-- The engine activated, with a transaction waiting in the pending slot. -/
def engine_busy : DJI_Gimbal :=
  { engine with mState := .STATE_ACTIVATED, mState_Counter := 30,
                mTr_Next := some (.Object tr_TLV) }

/-- A position inside the default limits. -/
def position_A : Position := { mAxis_deg := { pitch := 10, roll := 0, yaw := 20 } }

/-- Another position inside the default limits. -/
def position_B : Position := { mAxis_deg := { pitch := -30, roll := 5, yaw := 90 } }

/-- A speed inside the limits. -/
def speed_A : Speed := { mAxis_deg_s := { pitch := 10, roll := 0, yaw := 0 } }

/-- Another speed inside the limits. -/
def speed_B : Speed := { mAxis_deg_s := { pitch := 0, roll := 0, yaw := -45 } }

/-- An idle engine: activated, both transaction slots empty. -/
def engine_active : DJI_Gimbal :=
  { Example.engine with
    mState := .STATE_ACTIVATED
    mState_Counter := 30 }

/-- The default configuration with a pitch offset of -10 degrees. -/
def config_pitch_offset : Config :=
  { mAxis :=
    { Example.engine_busy.mConfig.mAxis with
      pitch := { Example.engine_busy.mConfig.mAxis.pitch with mOffset_deg := -10 } } }

/-- The engine `engine_busy` with `config_pitch_offset` configured and the zero
position received as current position (`Position_Update`). -/
def engine_busy_known : DJI_Gimbal :=
  { Example.engine_busy with
    toGimbal :=
      ({ Example.engine_busy.toGimbal with mConfig := config_pitch_offset }).Position_Update
        { mAxis_deg := { pitch := 0, roll := 0, yaw := 0 } } }

/-- A position whose pitch is above `POSITION_MAX_deg`. -/
def position_185 : Position := { mAxis_deg := { pitch := 185, roll := 0, yaw := 0 } }

/-- The engine `engine_busy` with a pitch offset of 5 degrees configured. -/
def engine_busy_offset : DJI_Gimbal :=
  { Example.engine_busy with
    mConfig :=
      { mAxis :=
        { Example.engine_busy.mConfig.mAxis with
          pitch := { Example.engine_busy.mConfig.mAxis.pitch with mOffset_deg := 5 } } } }

/-- The engine after the worker started the position query (`Tick_Position_Z0` on
`engine_active`, the frames sent left out): `mTr_Position` in flight with its
ANGLE_GET request, 22 reply bytes expected, receive buffer empty. -/
def engine_position : DJI_Gimbal :=
  { engine_active with
    mTr_Current := some .Position
    mTr_Position :=
      { engine_active.mTr_Position with
        mTxFrame := { bytes := [0xaa, 19, 0, 0x03, 0, 0, 0, 0, 1, 0, 194, 0, 0x0e, 0x02,
                                1, 116, 210, 54, 166, 0, 0, 0, 0, 0, 0, 0, 0, 0] } }
    sSerial := 1 }

/-- The engine after a failed send (ERROR_ETH), on a link whose `Protocol_Reset`
fails. -/
def engine_ETH_no_reset : DJI_Gimbal :=
  { engine_active with
    mState := .STATE_ERROR_ETH
    mDevice := { device with mProtocol_Reset_OK := false } }

/-- The engine after a failed send (ERROR_ETH), on a link that can be reset. -/
def engine_ETH : DJI_Gimbal :=
  { engine_active with
    mState := .STATE_ERROR_ETH
    mState_Counter := 3 }

/-- The idle engine on a link that refuses the next send. -/
def engine_send_fails : DJI_Gimbal :=
  { engine_active with mDevice := { device with mSend_Script := [false] } }

/-- The idle engine with the liveness counter at 3. -/
def engine_counter_3 : DJI_Gimbal :=
  { engine_active with mState_Counter := 3 }

/-- A speed whose pitch component is above the limit of 360 deg/s. -/
def speed_fast : Speed := { mAxis_deg_s := { pitch := 400, roll := 0, yaw := 0 } }

/-- A position whose pitch is below the default lower limit and whose yaw is above the
default upper limit. -/
def position_out : Position := { mAxis_deg := { pitch := -200, roll := 0, yaw := 200 } }

/-- The transaction of `Config_Retrieve` for the angle limits, as `Tr_Queue_Z0` queues
it: prepared with `MSG_CONFIG` and 9 expected reply bytes, carrying an ANGLE_LIMIT_GET
frame. -/
def tr_config : DJI_Transaction :=
  { mCode := DJI_Gimbal.MSG_CONFIG, mReceiver := true, mResult := .ZT_RESULT_INVALID,
    mRxExpected_byte := 21, mRxTimeout_tick := 100,
    mTxFrame := { bytes := [0xaa, 19, 0, 0x03, 0, 0, 0, 0, 1, 0, 194, 0, 0x0e, 0x04,
                            1, 0, 0, 0, 0, 0, 0, 0, 0, 0, 0, 0, 0, 0] } }

/-- The engine in state TRANSACTION with `tr_config` in flight and an empty receive
buffer. -/
def engine_config : DJI_Gimbal :=
  { engine with mState := .STATE_TRANSACTION, mState_Counter := 30,
                mTr_Current := some (.Object tr_config), sSerial := 1 }

/-- A reply to ANGLE_LIMIT_GET in three payloads: return code 0, pitch limits 200 and
90, yaw limits 180 and 180, roll limits 30 and 30. -/
def config_reply : List EthCAN_Frame :=
  [rx [0xaa, 25, 0, 0x20, 0, 0, 0, 0], rx [1, 0, 194, 0, 0x0e, 0x04, 0, 200],
   rx [90, 180, 180, 30, 30]]

/-- A configuration whose roll axis has a minimum above its maximum and whose yaw axis
has a speed of zero. -/
def config_bad : Config :=
  { mAxis := { pitch := Gimbal.Config_Axis_Init
               roll := { Gimbal.Config_Axis_Init with mMax_deg := 10, mMin_deg := 20 }
               yaw := { Gimbal.Config_Axis_Init with mSpeed_deg_s := 0 } } }

/-- A valid configuration different from the default one. -/
def config_good : Config :=
  { mAxis := { pitch := { Gimbal.Config_Axis_Init with mMax_deg := 45, mMin_deg := -45 }
               roll := { Gimbal.Config_Axis_Init with mStiffness_pc := 100 }
               yaw := { Gimbal.Config_Axis_Init with mSpeed_deg_s := 0.1, mOffset_deg := 7 } } }

/-- The model as constructed, with a pitch offset of 5 degrees configured. -/
def model_offset : Gimbal :=
  { Gimbal.ctor with
    mConfig :=
      { mAxis :=
        { Gimbal.ctor.mConfig.mAxis with
          pitch := { Gimbal.ctor.mConfig.mAxis.pitch with mOffset_deg := 5 } } } }

/-- An update followed by two ticks, with a move and a stop in between. -/
def ops_fresh : List Gimbal.Op :=
  [.Position_Update position_B, .Tick, .Position_Update position_A, .Tick,
   .Position_Set position_B 0 0, .Tick, .Speed_Stop]

/-- The default control table, entry by entry. -/
def table_default : ControlLink.Table :=
  [{ mAction := 0, mControl := 1, mFunction := 28, mFactor := 2, mOffset := 0 },
   { mAction := 0, mControl := 4, mFunction := 22, mFactor := 2, mOffset := 0 },
   { mAction := 0, mControl := 19, mFunction := 7, mFactor := -2, mOffset := 0 },
   { mAction := 0, mControl := 20, mFunction := 7, mFactor := 2, mOffset := 0 },
   { mAction := 1, mControl := 0, mFunction := 10, mFactor := 0, mOffset := 0 },
   { mAction := 2, mControl := 5, mFunction := 20, mFactor := 0, mOffset := 0 },
   { mAction := 2, mControl := 8, mFunction := 18, mFactor := 0, mOffset := 0 },
   { mAction := 2, mControl := 9, mFunction := 10, mFactor := 0, mOffset := 0 },
   { mAction := 2, mControl := 10, mFunction := 27, mFactor := 0, mOffset := 0 },
   { mAction := 2, mControl := 12, mFunction := 9, mFactor := 0, mOffset := 0 },
   { mAction := 2, mControl := 13, mFunction := 21, mFactor := 0, mOffset := 0 },
   { mAction := 2, mControl := 14, mFunction := 19, mFactor := 0, mOffset := 0 },
   { mAction := 2, mControl := 15, mFunction := 11, mFactor := 0, mOffset := 0 },
   { mAction := 2, mControl := 16, mFunction := 15, mFactor := 0, mOffset := 0 },
   { mAction := 2, mControl := 17, mFunction := 13, mFactor := 0, mOffset := 0 },
   { mAction := 2, mControl := 18, mFunction := 12, mFactor := 0, mOffset := 0 }]

/-- A change of the entry of button A, the removal of the entry of the first analog
axis, a refused insertion (factor 400) and an accepted one for that key. -/
def table_ops : List ControlLink.Table_Op :=
  [.AddEntry IGamepad.ACTION_PRESSED IGamepad.BUTTON_A ControlLink.FUNCTION_FOCUS 1.5 3,
   .RemoveEntry IGamepad.ACTION_CHANGED IGamepad.ANALOG_0_X,
   .AddEntry IGamepad.ACTION_CHANGED IGamepad.ANALOG_0_X ControlLink.FUNCTION_ATEM_FOCUS_AUTO 400 0,
   .AddEntry IGamepad.ACTION_CHANGED IGamepad.ANALOG_0_X ControlLink.FUNCTION_ATEM_FOCUS_AUTO 40 0]

/-- The engine `engine_position` after the second pass of the loop of `Activate` has
reset the CAN link (`State_Set_Z0(STATE_ERROR_CAN)`, `ResetAndSleep_Z0(STATE_ACTIVATING)`):
state ACTIVATING, liveness counter 10, the position query still in flight. -/
def engine_position_activating : DJI_Gimbal :=
  { engine_position with mState := .STATE_ACTIVATING, mState_Counter := 10 }

/-- A reply to the position query in payloads of 8, 8 and 6 bytes: 22 bytes, the
expected count of the query. -/
def position_reply : List EthCAN_Frame :=
  [rx [0xaa, 26, 0, 0x20, 0, 0, 0, 0], rx [1, 0, 194, 0, 0x0e, 0x02, 0, 0],
   rx [100, 0, 0, 0, 200, 0]]

/-- The engine `engine_position` after the first two payloads of `position_reply`. -/
def engine_position_16 : DJI_Gimbal :=
  { engine_position with
    mRxBuffer := [0xaa, 26, 0, 0x20, 0, 0, 0, 0, 1, 0, 194, 0, 0x0e, 0x02, 0, 0] ++
      List.replicate 112 0
    mRxOffset_byte := 16
    mRxSize_byte := 16 }

/-- The engine `engine_position_16` after the third payload was copied and validated. -/
def engine_position_22 : DJI_Gimbal :=
  { engine_position with
    mRxBuffer := [0xaa, 26, 0, 0x20, 0, 0, 0, 0, 1, 0, 194, 0, 0x0e, 0x02, 0, 0, 100, 0, 0, 0,
                  200, 0] ++ List.replicate 106 0
    mRxOffset_byte := 16
    mRxSize_byte := 22 }

/-- The digits at the head of the input: their decimal value, if there is a digit, and
what follows them. -/
def scan_number : List Char → Option Nat → Option Nat × List Char
  | [], lValue => (lValue, [])
  | c :: lRest, lValue =>
    if c.isDigit then scan_number lRest (some (lValue.getD 0 * 10 + (c.toNat - 48)))
    else (lValue, c :: lRest)

/-- A stand-in for `sscanf`, for formats made of characters, blanks, `%u` and
`%[0-9.]`: the values converted from the input, format first. -/
def scan : List Char → List Char → List Scan_Value
  | [], _ => []
  | '%' :: 'u' :: lFormat, aIn =>
    match scan_number (aIn.dropWhile Char.isWhitespace) none with
    | (some v, lRest) => .U v :: scan lFormat lRest
    | (none, _) => []
  | '%' :: '[' :: '0' :: '-' :: '9' :: '.' :: ']' :: lFormat, aIn =>
    match aIn.span (fun c => c.isDigit || c == '.') with
    | ([], _) => []
    | (lValue, lRest) => .S (String.mk lValue) :: scan lFormat lRest
  | ' ' :: lFormat, aIn => scan lFormat (aIn.dropWhile Char.isWhitespace)
  | c :: lFormat, aIn =>
    match aIn with
    | d :: lRest => if c = d then scan lFormat lRest else []
    | [] => []

/-- A stand-in for `sscanf`. -/
def sscanf : Sscanf := fun aIn aFormat => scan aFormat.toList aIn.toList

/-- A gimbal at 192.168.0.4 that has received no call and accepts every call. -/
def gimbal : IGimbal_Object :=
  { mIPv4_Address := 0x0400a8c0, mCalls := [], mScript := [] }

/-- The binding `Gimbal_Set` stores for `gimbal` without an ATEM port. -/
def binding (aGimbal : IGimbal_Object) : GimbalInfo :=
  { mAtemCameraType := Atem.CAMERA_MFT, mAtemPort := 0, mGimbal := some aGimbal,
    mHome := { mAxis_deg := { pitch := 0, roll := 0, yaw := 0 } } }

/-- A new mapper with the default table and the gimbal `aGimbal` bound. -/
def mapper (aGimbal : IGimbal_Object) : ControlLink :=
  { mGimbals := [binding aGimbal]
    mGimbalIndex := 0
    mSpeedCommand := { mAxis_deg_s := { pitch := 0, roll := 0, yaw := 0 } }
    mSpeedBoost := 0
    mTable := table_default }

/-- The engine after a failed send (ERROR_ETH), on a link that can be reset but on which
`Receiver_Config` fails. -/
def engine_ETH_no_config : DJI_Gimbal :=
  { engine_ETH with mDevice := { device with mReceiver_Config_OK := false } }

/-- A gimbal that answers the next call with `ZT_ERROR_STATE`. -/
def gimbal_down : IGimbal_Object :=
  { gimbal with mScript := [{ mResult := .ZT_ERROR_STATE, mSpeed := none }] }

/-- A gimbal turning at 50 deg/s in yaw, which is what it answers to `Speed_Get`. -/
def gimbal_yaw_50 : IGimbal_Object :=
  { gimbal with
    mScript := [{ mResult := .ZT_OK
                  mSpeed := some { mAxis_deg_s := { pitch := 0, roll := 0, yaw := 50 } } }] }

/-- The mapper after a yaw command of 50 was recorded for `aGimbal`. -/
def mapper_yaw (aGimbal : IGimbal_Object) (aCommand : ℚ) : ControlLink :=
  { mapper aGimbal with
    mSpeedCommand := { mAxis_deg_s := { pitch := 0, roll := 0, yaw := aCommand } } }

/-- A gimbal turning at 200 deg/s in yaw that refuses the speed it is sent next with
`ZT_ERROR_SPEED_MAX`. -/
def gimbal_yaw_200 : IGimbal_Object :=
  { gimbal with
    mScript := [{ mResult := .ZT_OK
                  mSpeed := some { mAxis_deg_s := { pitch := 0, roll := 0, yaw := 200 } } },
                { mResult := .ZT_ERROR_SPEED_MAX, mSpeed := none }] }

/-- A second gimbal, at 192.168.0.5. -/
def gimbal_2 : IGimbal_Object :=
  { mIPv4_Address := 0x0500a8c0, mCalls := [], mScript := [] }

/-- A new mapper with the default table and two gimbals bound, the first one active. -/
def mapper_pair : ControlLink :=
  { mapper gimbal with mGimbals := [binding gimbal, binding gimbal_2] }

/-- A new mapper: the default table and no gimbal bound. -/
def mapper_new : ControlLink :=
  { mapper gimbal with mGimbals := [] }

/-- A system that detected the gimbal `gimbal`. -/
def system : System := { mGimbals := [gimbal] }

/-- The gimbal model after `Position_Set(position_A)` with every axis controlled: in
state MOVING. -/
def model_moving : Gimbal := (Gimbal.ctor.Position_Set position_A 0 0).2

/-- The idle engine with the focus at 99.9 % and a focus speed of 10 %/s. -/
def engine_focus : DJI_Gimbal :=
  { engine_active with mFocus_Position_pc := 99.9, mFocus_Speed_pc_s := 10 }

/-- The engine `engine_focus` on a link that refuses the next send. -/
def engine_focus_send_fails : DJI_Gimbal :=
  { engine_focus with mDevice := { device with mSend_Script := [false] } }

/-- A receiver that has received nothing and returns `true` to every message. -/
def receiver : IMessageReceiver_Object := { mMessages := [], mScript := [] }

/-- The gamepad as `OSX_Gamepad::Receiver_Start` leaves it, with the message code 7. -/
def gamepad : OSX_Gamepad :=
  { mReceiver := some receiver, mReceiver_Code := 7,
    mReport := [0x1400, 0, 0, 0, 0, 0, 0, 0, 0, 0] }

/-- The engine as its constructor leaves it, with 30 for the indeterminate liveness
counter. -/
def engine_new : DJI_Gimbal := { engine with mState_Counter := 30 }

/-- The engine when the first `Info_Retrieve` of `Activate` has returned, on a link
that stays silent for 202 worker ticks. -/
def engine_first_pass : Option DJI_Gimbal :=
  (DJI_Gimbal.Info_Retrieve crc (engine_new.State_Set_Z0 .STATE_ACTIVATING)
    (List.replicate 202 .Tick)).map (fun r => r.2.1)

/-- The engine after one more worker tick, which runs before the calling thread enters
the Zone0 section of the second pass. -/
def engine_between : Option DJI_Gimbal :=
  engine_first_pass.bind (fun g => DJI_Gimbal.Run crc g [.Tick])

/-- The engine after the Zone0 section of the second pass. -/
def engine_second_pass : Option DJI_Gimbal :=
  engine_between.bind
    (fun g => (g.State_Set_Z0 .STATE_ERROR_CAN).ResetAndSleep_Z0 .STATE_ACTIVATING)

/-- The engine after the second `Info_Retrieve` has queued its transaction. -/
def engine_second_queued : Option DJI_Gimbal :=
  engine_second_pass.bind (fun g =>
    (DJI_Transaction.fresh.Prepare_Full DJI_Gimbal.MSG_INFO 11).bind (fun t =>
      (t.Frame_Init_VERSION crc g.sSerial).bind (fun r =>
        ({ g with sSerial := r.2 } : DJI_Gimbal).Tr_QueueAndWait_Queue r.1)))

/-- The engine after the first two payloads of the reply to the position query. -/
def engine_second_16 : Option DJI_Gimbal :=
  engine_second_queued.bind (fun g => DJI_Gimbal.Run crc g ((position_reply.take 2).map .Rx))

/-- The third payload of the reply to the position query. -/
def position_reply_3 : EthCAN_Frame := rx [100, 0, 0, 0, 200, 0]

end Example

/-! # Theorems -/

set_option maxRecDepth 100000

theorem memRead_eq_some {buf : List Nat} {off len : Nat} (h : off + len ≤ buf.length) :
    memRead buf off len = some ((buf.drop off).take len) := by
  simp [memRead, h]

theorem Send_of_SendsSucceed (d : EthCAN_Device) (f : EthCAN_Frame) (h : d.SendsSucceed) :
    ∃ d', d.Send f = (true, d') ∧ d'.mSent = d.mSent ++ [f] ∧ d'.SendsSucceed := by
  unfold EthCAN_Device.SendsSucceed at h
  unfold EthCAN_Device.Send
  rcases hs : d.mSend_Script with _ | ⟨b, rest⟩
  · refine ⟨_, rfl, rfl, ?_⟩
    simp [EthCAN_Device.SendsSucceed, hs]
  · have hb : b = true := h b (by simp [hs])
    subst hb
    refine ⟨_, rfl, rfl, ?_⟩
    intro c hc
    exact h c (by simp [hs, hc])

namespace DJI_Gimbal

open State

theorem Frame_Send_Size_le (r : Nat) : Frame_Send_Size r ≤ r := by
  unfold Frame_Send_Size DJI_FOOTER_SIZE_byte
  split_ifs <;> omega

theorem Frame_Send_Size_pos (r : Nat) (h : 0 < r) : 0 < Frame_Send_Size r := by
  unfold Frame_Send_Size DJI_FOOTER_SIZE_byte
  split_ifs <;> omega

theorem Frame_Send_Size_le_8 (r : Nat) : Frame_Send_Size r ≤ 8 := by
  unfold Frame_Send_Size DJI_FOOTER_SIZE_byte
  split_ifs <;> omega

/-- The send loop, when every send succeeds: it returns `ZT_OK`, changes the link only,
and the frames it appends carry the bytes from the entry offset to the total size. -/
theorem Frame_Send_Loop_ok (buf : List Nat) (total : Nat) (htot : total ≤ buf.length) :
    ∀ (fuel off : Nat) (g : DJI_Gimbal), off ≤ total → total - off < fuel →
      g.mDevice.SendsSucceed →
      ∃ (d : EthCAN_Device) (ps : List EthCAN_Frame),
        Frame_Send_Loop buf total fuel off g = some (ZT_OK, { g with mDevice := d }) ∧
        d.mSent = g.mDevice.mSent ++ ps ∧
        d.SendsSucceed ∧
        ps.map EthCAN_Frame.mDataSize_byte = Frame_Send_Sizes total fuel off ∧
        (∀ p ∈ ps, p.mId = DJI_CAN_ID_TX ∧ p.mData.length = 8) ∧
        (ps.map EthCAN_Frame.payload).flatten = (buf.drop off).take (total - off) := by
  intro fuel
  induction fuel with
  | zero => intro off g _ h; omega
  | succ fuel ih =>
    intro off g hoff hfuel hs
    have hsz := Frame_Send_Size_le (total - off)
    have hsz8 := Frame_Send_Size_le_8 (total - off)
    have hread : memRead buf off (Frame_Send_Size (total - off)) =
        some ((buf.drop off).take (Frame_Send_Size (total - off))) :=
      memRead_eq_some (by omega)
    let cf : EthCAN_Frame :=
      { mId := DJI_CAN_ID_TX, mDataSize_byte := Frame_Send_Size (total - off),
        mData := (buf.drop off).take (Frame_Send_Size (total - off)) ++
          List.replicate (8 - Frame_Send_Size (total - off)) 0 }
    obtain ⟨d1, hsend, hsent, hs1⟩ := Send_of_SendsSucceed g.mDevice cf hs
    have hlen : ((buf.drop off).take (Frame_Send_Size (total - off))).length
        = Frame_Send_Size (total - off) := by
      simp; omega
    by_cases hmore : off + Frame_Send_Size (total - off) < total
    · obtain ⟨d2, ps, hloop, hsent2, hs2, hsizes, hids, hcat⟩ :=
        ih (off + Frame_Send_Size (total - off)) { g with mDevice := d1 } (by omega)
          (by
            have := Frame_Send_Size_pos (total - off) (by omega)
            omega) hs1
      refine ⟨d2, cf :: ps, ?_, ?_, hs2, ?_, ?_, ?_⟩
      · simp only [Frame_Send_Loop, hread, hsend, hmore, if_true]
        exact hloop
      · simp only at hsent2
        rw [hsent2, hsent]
        simp
      · simp only [Frame_Send_Sizes, hmore, if_true, List.map_cons, hsizes]
      · intro p hp
        rcases List.mem_cons.1 hp with rfl | hp
        · refine ⟨rfl, ?_⟩
          simp only [List.length_append, List.length_replicate, hlen]
          omega
        · exact hids p hp
      · simp only [List.map_cons, List.flatten_cons, hcat, EthCAN_Frame.payload]
        rw [List.take_left' hlen]
        have e : total - off = Frame_Send_Size (total - off)
            + (total - (off + Frame_Send_Size (total - off))) := by omega
        conv_rhs => rw [e, List.take_add]
        simp [List.drop_drop, Nat.add_comm]
    · refine ⟨d1, [cf], ?_, ?_, hs1, ?_, ?_, ?_⟩
      · simp only [Frame_Send_Loop, hread, hsend, hmore, if_false]
      · rw [hsent]
      · simp only [Frame_Send_Sizes, hmore, if_false, List.map_cons, List.map_nil]
      · intro p hp
        rcases List.mem_singleton.1 hp with rfl
        refine ⟨rfl, ?_⟩
        simp only [List.length_append, List.length_replicate, hlen]
        omega
      · simp only [List.map_cons, List.map_nil, List.flatten_cons, List.flatten_nil,
          List.append_nil, EthCAN_Frame.payload]
        rw [List.take_left' hlen]
        have e : Frame_Send_Size (total - off) = total - off := by omega
        rw [e]

/-- The payload sizes for every total length from 5 to 28. -/
theorem Frame_Send_Sizes_shape : ∀ L < 29, 4 < L →
    (∀ s ∈ Frame_Send_Sizes L (L + 1) 0, 1 ≤ s ∧ s ≤ 8) ∧
    (∀ i < (Frame_Send_Sizes L (L + 1) 0).length,
      i + 2 < (Frame_Send_Sizes L (L + 1) 0).length →
        (Frame_Send_Sizes L (L + 1) 0).getD i 0 = 8) ∧
    (∃ n < 4, (Frame_Send_Sizes L (L + 1) 0).length = n + 1 ∧
      4 ≤ (Frame_Send_Sizes L (L + 1) 0).getD n 0) ∧
    ((L % 8 = 1 ∨ L % 8 = 2 ∨ L % 8 = 3) →
      ∃ n < 4, (Frame_Send_Sizes L (L + 1) 0).length = n + 2 ∧
        (Frame_Send_Sizes L (L + 1) 0).getD (n + 1) 0 = 4 ∧
        (Frame_Send_Sizes L (L + 1) 0).getD n 0 = 4 + L % 8) ∧
    (¬ (L % 8 = 1 ∨ L % 8 = 2 ∨ L % 8 = 3) →
      ∀ i < (Frame_Send_Sizes L (L + 1) 0).length,
        i + 1 < (Frame_Send_Sizes L (L + 1) 0).length →
          (Frame_Send_Sizes L (L + 1) 0).getD i 0 = 8) := by
  intro L hL h4
  interval_cases L <;> decide

end DJI_Gimbal

/-- Sealing a 28-byte frame whose length byte is in 5..28 keeps the bytes before the
footer, writes the CRC-32 of those bytes as the footer, and keeps the bytes after it. -/
theorem Seal_eq_some (crc : DJI_CRC) (f : DJI_Frame) (hlen : f.bytes.length = DJI_Frame.sizeof)
    (hmin : 4 < f.mSize_byte) (hmax : f.mSize_byte ≤ 28) :
    f.Seal crc = some
      { bytes := f.bytes.take (f.mSize_byte - 4) ++
          bytes_u32 (crc.DJI_CRC_32 (f.bytes.take (f.mSize_byte - 4)) % 4294967296) ++
          f.bytes.drop f.mSize_byte } := by
  have hlen' : f.bytes.length = 28 := hlen
  have h1 : memRead f.bytes 0 (f.mSize_byte - 4) = some (f.bytes.take (f.mSize_byte - 4)) := by
    rw [memRead_eq_some (by omega)]; simp
  have h2 : ∀ v, memWrite f.bytes (f.mSize_byte - 4) (bytes_u32 v) =
      some (f.bytes.take (f.mSize_byte - 4) ++ bytes_u32 v ++ f.bytes.drop f.mSize_byte) := by
    intro v
    have hl : (bytes_u32 v).length = 4 := rfl
    unfold memWrite
    rw [hl, if_pos (by omega)]
    have : f.mSize_byte - 4 + 4 = f.mSize_byte := by omega
    rw [this]
  unfold DJI_Frame.Seal
  rw [if_neg (by omega)]
  simp only [h1, h2]

theorem memWrite_eq_some {buf src : List Nat} {off : Nat} (h : off + src.length ≤ buf.length) :
    memWrite buf off src = some (buf.take off ++ src ++ buf.drop (off + src.length)) := by
  simp [memWrite, h]

namespace DJI_Gimbal

open State

/-- What `Frame_Send_Z0` does to a 28-byte frame of length 5..28 on a link that accepts
every send. -/
theorem Frame_Send_Z0_frames (crc : DJI_CRC) (g : DJI_Gimbal) (aFrame : DJI_Frame)
    (hlen : aFrame.bytes.length = DJI_Frame.sizeof)
    (hmin : 4 < aFrame.mSize_byte) (hmax : aFrame.mSize_byte ≤ 28)
    (hs : g.mDevice.SendsSucceed) :
    ∃ (lSealed : DJI_Frame) (d : EthCAN_Device) (ps : List EthCAN_Frame),
      aFrame.Seal crc = some lSealed ∧
      Frame_Send_Z0 crc g aFrame = some (ZT_OK, { g with mDevice := d }, lSealed) ∧
      d.mSent = g.mDevice.mSent ++ ps ∧
      d.SendsSucceed ∧
      ps.map EthCAN_Frame.mDataSize_byte =
        Frame_Send_Sizes aFrame.mSize_byte (aFrame.mSize_byte + 1) 0 ∧
      (∀ p ∈ ps, p.mId = DJI_CAN_ID_TX ∧ p.mData.length = 8) ∧
      (ps.map EthCAN_Frame.payload).flatten = lSealed.bytes.take aFrame.mSize_byte := by
  have hseal := Seal_eq_some crc aFrame hlen hmin hmax
  have hlen' : aFrame.bytes.length = 28 := hlen
  set L := aFrame.mSize_byte with hL
  set sealed : DJI_Frame :=
    { bytes := aFrame.bytes.take (L - 4) ++
        bytes_u32 (crc.DJI_CRC_32 (aFrame.bytes.take (L - 4)) % 4294967296) ++
        aFrame.bytes.drop L } with hsealed
  have hslen : L ≤ sealed.bytes.length := by
    have hl : ∀ v, (bytes_u32 v).length = 4 := fun _ => rfl
    simp only [hsealed, List.length_append, List.length_take, List.length_drop, hl]
    omega
  obtain ⟨d, ps, hloop, hsent, hs', hsizes, hids, hcat⟩ :=
    Frame_Send_Loop_ok sealed.bytes L hslen (L + 1) 0 g (by omega) (by omega) hs
  refine ⟨sealed, d, ps, hseal, ?_, hsent, hs', hsizes, hids, ?_⟩
  · simp only [Frame_Send_Z0, hseal, ← hL, hloop]
  · simpa using hcat

/-- For the lengths whose last chunk is not rebalanced, the payload sizes add up to the
length and all but the last are 8. -/
theorem Frame_Send_Sizes_in_order : ∀ L < 29, 4 < L →
    ¬ (L % 8 = 1 ∨ L % 8 = 2 ∨ L % 8 = 3) →
    (Frame_Send_Sizes L (L + 1) 0).sum = L ∧
    ∀ s ∈ (Frame_Send_Sizes L (L + 1) 0).dropLast, s = 8 := by
  intro L hL h4
  interval_cases L <;> decide

/-- A payload that arrives when no footer byte is pending (receive offset = receive
size) is appended at the end of the received bytes. -/
theorem Receiver_CopyNewData_append (g : DJI_Gimbal) (aCF : EthCAN_Frame)
    (hbuf : g.mRxBuffer.length = RX_BUFFER_SIZE)
    (hoff : g.mRxOffset_byte = g.mRxSize_byte)
    (hsize : g.mRxSize_byte + aCF.mDataSize_byte ≤ RX_BUFFER_SIZE)
    (hlt : g.mRxSize_byte < RX_BUFFER_SIZE)
    (hdata : aCF.mDataSize_byte ≤ aCF.mData.length) :
    g.Receiver_CopyNewData aCF = some
      { g with
        mRxBuffer := g.mRxBuffer.take g.mRxSize_byte ++ aCF.payload ++
          g.mRxBuffer.drop (g.mRxSize_byte + aCF.mDataSize_byte)
        mRxOffset_byte :=
          if 8 ≤ aCF.mDataSize_byte then g.mRxSize_byte + aCF.mDataSize_byte
          else g.mRxSize_byte } := by
  have hpl : aCF.payload.length = aCF.mDataSize_byte := by
    simp [EthCAN_Frame.payload]; omega
  have hread : memRead aCF.mData 0 aCF.mDataSize_byte = some aCF.payload := by
    rw [memRead_eq_some (by omega)]; simp [EthCAN_Frame.payload]
  have hwrite : memWrite g.mRxBuffer g.mRxSize_byte aCF.payload =
      some (g.mRxBuffer.take g.mRxSize_byte ++ aCF.payload ++
        g.mRxBuffer.drop (g.mRxSize_byte + aCF.mDataSize_byte)) := by
    rw [memWrite_eq_some (by rw [hpl, hbuf]; exact hsize), hpl]
  unfold Receiver_CopyNewData
  rw [if_neg (by rw [hoff]; omega), if_neg (by omega), if_neg (by omega)]
  simp only [hoff, Nat.sub_self, Nat.lt_irrefl, if_false, hread, hwrite]

/-- Payloads of which all but the last have 8 bytes are reassembled in order. -/
theorem Receiver_Feed_in_order :
    ∀ (ps : List EthCAN_Frame) (g : DJI_Gimbal),
      g.mRxBuffer.length = RX_BUFFER_SIZE →
      g.mRxOffset_byte = g.mRxSize_byte →
      g.mRxSize_byte + (ps.map EthCAN_Frame.mDataSize_byte).sum < RX_BUFFER_SIZE →
      (∀ p ∈ ps, p.mDataSize_byte ≤ p.mData.length) →
      (∀ p ∈ ps.dropLast, p.mDataSize_byte = 8) →
      ∃ g', g.Receiver_Feed ps = some g' ∧
        g'.mRxSize_byte = g.mRxSize_byte + (ps.map EthCAN_Frame.mDataSize_byte).sum ∧
        g'.mRxBuffer.take g'.mRxSize_byte =
          g.mRxBuffer.take g.mRxSize_byte ++ (ps.map EthCAN_Frame.payload).flatten := by
  intro ps
  induction ps with
  | nil =>
    intro g _ _ _ _ _
    exact ⟨g, rfl, by simp, by simp⟩
  | cons p rest ih =>
    intro g hbuf hoff hsum hdata h8
    simp only [List.map_cons, List.sum_cons] at hsum
    have hpd := hdata p (List.mem_cons_self _ _)
    have hpl : p.payload.length = p.mDataSize_byte := by
      simp [EthCAN_Frame.payload]; omega
    have hcopy := Receiver_CopyNewData_append g p hbuf hoff (by omega) (by omega) hpd
    have hbuf' : (g.mRxBuffer.take g.mRxSize_byte ++ p.payload ++
        g.mRxBuffer.drop (g.mRxSize_byte + p.mDataSize_byte)).length = RX_BUFFER_SIZE := by
      simp only [List.length_append, List.length_take, List.length_drop, hpl, hbuf]
      unfold RX_BUFFER_SIZE at *
      omega
    have htake : (g.mRxBuffer.take g.mRxSize_byte ++ p.payload ++
        g.mRxBuffer.drop (g.mRxSize_byte + p.mDataSize_byte)).take
          (g.mRxSize_byte + p.mDataSize_byte) = g.mRxBuffer.take g.mRxSize_byte ++ p.payload := by
      apply List.take_left'
      simp only [List.length_append, List.length_take, hpl, hbuf]
      unfold RX_BUFFER_SIZE at *
      omega
    rcases rest with _ | ⟨q, rest'⟩
    · refine ⟨{ g with
          mRxBuffer := g.mRxBuffer.take g.mRxSize_byte ++ p.payload ++
            g.mRxBuffer.drop (g.mRxSize_byte + p.mDataSize_byte)
          mRxOffset_byte :=
            if 8 ≤ p.mDataSize_byte then g.mRxSize_byte + p.mDataSize_byte
            else g.mRxSize_byte
          mRxSize_byte := g.mRxSize_byte + p.mDataSize_byte }, ?_, ?_, ?_⟩
      · simp only [Receiver_Feed, hcopy]
      · simp
      · simp only [List.map_cons, List.map_nil, List.flatten_cons, List.flatten_nil,
          List.append_nil]
        exact htake
    · have hp8 : p.mDataSize_byte = 8 := h8 p (by simp [List.dropLast])
      obtain ⟨g', hfeed, hsz, hcat⟩ := ih
        { g with
          mRxBuffer := g.mRxBuffer.take g.mRxSize_byte ++ p.payload ++
            g.mRxBuffer.drop (g.mRxSize_byte + p.mDataSize_byte)
          mRxOffset_byte :=
            if 8 ≤ p.mDataSize_byte then g.mRxSize_byte + p.mDataSize_byte
            else g.mRxSize_byte
          mRxSize_byte := g.mRxSize_byte + p.mDataSize_byte }
        hbuf' (by simp [hp8]) (by simpa [Nat.add_assoc] using hsum)
        (fun r hr => hdata r (List.mem_cons_of_mem _ hr))
        (fun r hr => h8 r (by
          simp only [List.dropLast_cons₂]
          exact List.mem_cons_of_mem _ hr))
      refine ⟨g', ?_, ?_, ?_⟩
      · simp only [Receiver_Feed, hcopy]
        exact hfeed
      · rw [hsz]
        simp [Nat.add_assoc]
      · rw [hcat]
        simp only [htake]
        simp [List.append_assoc]

/-- C1 (as stated, refuted). A frame of total length 4 is inside the stated range, the
link accepts every send, and `Frame_Send_Z0` emits nothing: the assertion
`sizeof(uint32_t) < mSize_byte` of `Seal` fails. -/
theorem Frame_Send_Z0_length_4 :
    (Example.frame 4).bytes.length = 28 ∧ (Example.frame 4).mSize_byte = 4 ∧
    Example.engine.mDevice.SendsSucceed ∧
    (Example.frame 4).Seal Example.crc = none ∧
    Frame_Send_Z0 Example.crc Example.engine (Example.frame 4) = none := by
  decide

/-- C1 (amended). For every 28-byte frame whose length byte L satisfies 4 < L <= 28,
when every link send succeeds, `Frame_Send_Z0` seals the frame, returns `ZT_OK`, and
appends to the link CAN frames with identifier 0x223 whose payloads concatenate to the
first L sealed bytes; every payload has 1..8 bytes, all but the last two have 8, the
last has at least 4; when L mod 8 is 1, 2 or 3 the last has exactly 4 bytes and the one
before it 4 + L mod 8, otherwise every payload but the last has 8 bytes. -/
theorem Frame_Send_Z0_payloads (crc : DJI_CRC) (g : DJI_Gimbal) (aFrame : DJI_Frame)
    (hlen : aFrame.bytes.length = DJI_Frame.sizeof)
    (hmin : 4 < aFrame.mSize_byte) (hmax : aFrame.mSize_byte ≤ 28)
    (hs : g.mDevice.SendsSucceed) :
    ∃ (lSealed : DJI_Frame) (d : EthCAN_Device) (ps : List EthCAN_Frame),
      aFrame.Seal crc = some lSealed ∧
      Frame_Send_Z0 crc g aFrame = some (ZT_OK, { g with mDevice := d }, lSealed) ∧
      d.mSent = g.mDevice.mSent ++ ps ∧
      (∀ p ∈ ps, p.mId = 0x223 ∧ 1 ≤ p.mDataSize_byte ∧ p.mDataSize_byte ≤ 8) ∧
      (ps.map EthCAN_Frame.payload).flatten = lSealed.bytes.take aFrame.mSize_byte ∧
      (∀ i, i + 2 < ps.length → (ps.map EthCAN_Frame.mDataSize_byte).getD i 0 = 8) ∧
      (∃ n, ps.length = n + 1 ∧ 4 ≤ (ps.map EthCAN_Frame.mDataSize_byte).getD n 0) ∧
      ((aFrame.mSize_byte % 8 = 1 ∨ aFrame.mSize_byte % 8 = 2 ∨ aFrame.mSize_byte % 8 = 3) →
        ∃ n, ps.length = n + 2 ∧
          (ps.map EthCAN_Frame.mDataSize_byte).getD (n + 1) 0 = 4 ∧
          (ps.map EthCAN_Frame.mDataSize_byte).getD n 0 = 4 + aFrame.mSize_byte % 8) ∧
      (¬ (aFrame.mSize_byte % 8 = 1 ∨ aFrame.mSize_byte % 8 = 2 ∨ aFrame.mSize_byte % 8 = 3) →
        ∀ i, i + 1 < ps.length → (ps.map EthCAN_Frame.mDataSize_byte).getD i 0 = 8) := by
  obtain ⟨lSealed, d, ps, hseal, hsend, hsent, -, hsizes, hids, hcat⟩ :=
    Frame_Send_Z0_frames crc g aFrame hlen hmin hmax hs
  obtain ⟨p1, p2, p3, p4, p5⟩ := Frame_Send_Sizes_shape aFrame.mSize_byte (by omega) hmin
  have hpl : ps.length =
      (Frame_Send_Sizes aFrame.mSize_byte (aFrame.mSize_byte + 1) 0).length := by
    rw [← hsizes, List.length_map]
  refine ⟨lSealed, d, ps, hseal, hsend, hsent, ?_, hcat, ?_, ?_, ?_, ?_⟩
  · intro p hp
    refine ⟨(hids p hp).1, ?_⟩
    apply p1
    rw [← hsizes]
    exact List.mem_map_of_mem _ hp
  · intro i hi
    rw [hsizes]
    exact p2 i (by omega) (by omega)
  · obtain ⟨n, _, h1, h2⟩ := p3
    exact ⟨n, by omega, by rw [hsizes]; exact h2⟩
  · intro h
    obtain ⟨n, _, h1, h2, h3⟩ := p4 h
    exact ⟨n, by omega, by rw [hsizes]; exact h2, by rw [hsizes]; exact h3⟩
  · intro h i hi
    rw [hsizes]
    exact p5 h i (by omega) (by omega)

/-- Witness of C1 (amended): a 17-byte frame on a link that accepts every send is sent
in payloads of 8, 5 and 4 bytes. -/
theorem Frame_Send_Z0_payloads_witness :
    (Example.frame 17).bytes.length = DJI_Frame.sizeof ∧
    4 < (Example.frame 17).mSize_byte ∧ (Example.frame 17).mSize_byte ≤ 28 ∧
    Example.engine.mDevice.SendsSucceed ∧
    ∃ (lSealed : DJI_Frame) (d : EthCAN_Device),
      Frame_Send_Z0 Example.crc Example.engine (Example.frame 17)
        = some (ZT_OK, { Example.engine with mDevice := d }, lSealed) ∧
      d.mSent.map EthCAN_Frame.mDataSize_byte = [8, 5, 4] := by
  refine ⟨by decide, by decide, by decide, by decide, ?_⟩
  obtain ⟨lSealed, d, ps, -, h, -⟩ :=
    Frame_Send_Z0_payloads Example.crc Example.engine (Example.frame 17)
      (by decide) (by decide) (by decide) (by decide)
  refine ⟨lSealed, d, h, ?_⟩
  have e : Frame_Send_Z0 Example.crc Example.engine (Example.frame 17) =
      some (ZT_OK, { Example.engine with mDevice := d }, lSealed) := h
  have e2 : (Frame_Send_Z0 Example.crc Example.engine (Example.frame 17)).map
      (fun r => r.2.1.mDevice.mSent.map EthCAN_Frame.mDataSize_byte) = some [8, 5, 4] := by
    decide
  rw [e] at e2
  simpa using e2

/-- C2 (as stated, refuted). The 17-byte example frame is sent as payloads of 8, 5 and 4
bytes; delivered in that order to an empty receive buffer they leave the footer before
the 5 bytes that precede it, so the first 17 bytes differ from the sealed frame. -/
theorem Frame_roundtrip_length_17 :
    (Example.frame 17).bytes.length = 28 ∧ (Example.frame 17).mSize_byte = 17 ∧
    (Frame_Send_Z0 Example.crc Example.engine (Example.frame 17)).map
      (fun s => (s.1, s.2.1.mDevice.mSent.map EthCAN_Frame.payload, s.2.2.bytes.take 17)) =
      some (ZT_OK, [[170, 17, 0, 3, 0, 0, 0, 0], [1, 0, 52, 18, 14], [97, 7, 54, 37]],
        [170, 17, 0, 3, 0, 0, 0, 0, 1, 0, 52, 18, 14, 97, 7, 54, 37]) ∧
    (Frame_Send_Z0 Example.crc Example.engine (Example.frame 17)).bind
      (fun s => ((Rx_Empty Example.engine).Receiver_Feed s.2.1.mDevice.mSent).map
        (fun r => (r.mRxSize_byte, r.mRxBuffer.take 17))) =
      some (17, [170, 17, 0, 3, 0, 0, 0, 0, 97, 7, 54, 37, 1, 0, 52, 18, 14]) := by
  decide

/-- C2 (amended). For every 28-byte frame of total length L with 17 <= L <= 28 and
L mod 8 not in 1..3, on a link that accepts every send: the CAN payloads that
`Frame_Send_Z0` produces, delivered in the order sent to the reassembler of an engine
whose receive buffer is empty, leave a receive size of L and a receive buffer whose
first L bytes are the first L bytes of the sealed frame. -/
theorem Frame_roundtrip (crc : DJI_CRC) (g r : DJI_Gimbal) (aFrame : DJI_Frame)
    (hlen : aFrame.bytes.length = DJI_Frame.sizeof)
    (hmin : 17 ≤ aFrame.mSize_byte) (hmax : aFrame.mSize_byte ≤ 28)
    (hmod : ¬ (aFrame.mSize_byte % 8 = 1 ∨ aFrame.mSize_byte % 8 = 2 ∨
      aFrame.mSize_byte % 8 = 3))
    (hs : g.mDevice.SendsSucceed)
    (hbuf : r.mRxBuffer.length = RX_BUFFER_SIZE)
    (hoff : r.mRxOffset_byte = 0) (hsize : r.mRxSize_byte = 0) :
    ∃ (lSealed : DJI_Frame) (d : EthCAN_Device) (ps : List EthCAN_Frame) (r' : DJI_Gimbal),
      Frame_Send_Z0 crc g aFrame = some (ZT_OK, { g with mDevice := d }, lSealed) ∧
      d.mSent = g.mDevice.mSent ++ ps ∧
      r.Receiver_Feed ps = some r' ∧
      r'.mRxSize_byte = aFrame.mSize_byte ∧
      r'.mRxBuffer.take aFrame.mSize_byte = lSealed.bytes.take aFrame.mSize_byte := by
  obtain ⟨lSealed, d, ps, -, hsend, hsent, -, hsizes, hids, hcat⟩ :=
    Frame_Send_Z0_frames crc g aFrame hlen (by omega) hmax hs
  obtain ⟨hsum, h8⟩ := Frame_Send_Sizes_in_order aFrame.mSize_byte (by omega) (by omega) hmod
  obtain ⟨p1, -⟩ := Frame_Send_Sizes_shape aFrame.mSize_byte (by omega) (by omega)
  rw [← hsizes] at hsum h8 p1
  have hdata : ∀ p ∈ ps, p.mDataSize_byte ≤ p.mData.length := by
    intro p hp
    rw [(hids p hp).2]
    exact (p1 _ (List.mem_map_of_mem _ hp)).2
  have hlast : ∀ p ∈ ps.dropLast, p.mDataSize_byte = 8 := by
    intro p hp
    apply h8
    rw [← List.map_dropLast]
    exact List.mem_map_of_mem _ hp
  obtain ⟨r', hfeed, hsz, hbytes⟩ := Receiver_Feed_in_order ps r hbuf (by rw [hoff, hsize])
    (by rw [hsize, hsum]; unfold RX_BUFFER_SIZE; omega) hdata hlast
  rw [hsize, hsum, Nat.zero_add] at hsz
  refine ⟨lSealed, d, ps, r', hsend, hsent, hfeed, hsz, ?_⟩
  rw [hsz, hsize, hcat] at hbytes
  simpa using hbytes

end DJI_Gimbal

namespace DJI_Gimbal

/-- Witness of C2 (amended): the 20-byte example frame, sent and reassembled. -/
theorem Frame_roundtrip_witness :
    ∃ (lSealed : DJI_Frame) (d : EthCAN_Device) (ps : List EthCAN_Frame) (r' : DJI_Gimbal),
      Frame_Send_Z0 Example.crc Example.engine (Example.frame 20)
        = some (ZT_OK, { Example.engine with mDevice := d }, lSealed) ∧
      d.mSent = Example.engine.mDevice.mSent ++ ps ∧
      (Rx_Empty Example.engine).Receiver_Feed ps = some r' ∧
      r'.mRxSize_byte = (Example.frame 20).mSize_byte ∧
      r'.mRxBuffer.take (Example.frame 20).mSize_byte
        = lSealed.bytes.take (Example.frame 20).mSize_byte :=
  Frame_roundtrip Example.crc Example.engine (Rx_Empty Example.engine) (Example.frame 20)
    (by decide) (by decide) (by decide) (by decide) (by decide) (by decide) (by decide)
    (by decide)

end DJI_Gimbal

namespace DJI_Gimbal

theorem find?_cons_ite {α : Type} (p : α → Bool) (x : α) (xs : List α) :
    (x :: xs).find? p = if p x = true then some x else xs.find? p := by
  cases h : p x <;> simp [List.find?, h]

/-- C3 (amended). For a receive buffer growing from n to m bytes (n < m <= 128) whose
start-of-frame check is not active or passes (n >= 1, or the first byte is 0xAA),
`Receiver_Validate_Z0` returns what the specification's table gives: the error of the
first failing check among those with n < t <= m (t=2 too long / too short, t=3 version,
t=4 command type, t=5 encoded, t=13 command set, t=14 command id, t=15 result byte) with
the receive offset and size reset to 0, or `ZT_OK` with the receive size set to m. -/
theorem Receiver_Validate_Z0_spec (g : DJI_Gimbal) (lTr : DJI_Transaction) (aTo_byte : Nat)
    (hcur : g.Tr_Current = some lTr)
    (hlt : g.mRxSize_byte < aTo_byte) (hle : aTo_byte ≤ 128)
    (hoff : g.mRxOffset_byte ≤ 128)
    (hsof : 0 < g.mRxSize_byte ∨ g.mReply.mSOF = 0xaa) :
    g.Receiver_Validate_Z0 aTo_byte =
      some (g.Receiver_Validate_Spec aTo_byte (lTr.mTxFrame.mData 1)) := by
  have hreset : ∀ r, g.Receiver_Validate_Error r =
      some (r, { g with mRxOffset_byte := 0, mRxSize_byte := 0 }) := by
    intro r
    simp only [Receiver_Validate_Error, Receiver_Reset, RX_BUFFER_SIZE]
    rw [if_neg (by omega), if_neg (by omega)]
    rfl
  have hget : lTr.Frame_Data_Get DJI_DATA_CMD_ID = some (lTr.mTxFrame.mData 1) := by
    simp [DJI_Transaction.Frame_Data_Get, DJI_DATA_CMD_ID]
  have h1 : ¬ ((decide (1 > g.mRxSize_byte ∧ 1 ≤ aTo_byte) = true) ∧ DJI_SOF ≠ g.mReply.mSOF) := by
    rintro ⟨h, hne⟩
    rcases hsof with h0 | h0
    · simp at h; omega
    · exact hne (by rw [h0]; rfl)
  unfold Receiver_Validate_Z0
  simp only [hcur, hreset, hget, Option.some_bind]
  rw [if_neg (by omega), if_neg (by unfold RX_BUFFER_SIZE; omega), if_neg h1]
  simp only [Receiver_Validate_Spec, Receiver_Validate_First_Failure, Receiver_Validate_Checks,
    RX_BUFFER_SIZE, DJI_FRAME_TOTAL_SIZE, DJI_HEADER_SIZE_byte, DJI_FOOTER_SIZE_byte,
    DJI_CMD_TYPE_REPLY, DJI_CMD_SET_DEFAULT, DJI_DATA_CMD_SET, DJI_DATA_CMD_ID, DJI_OK,
    DJI_REPLY_RESULT, find?_cons_ite, List.find?_nil, Bool.and_eq_true, decide_eq_true_eq,
    gt_iff_lt]
  have k2 : (g.mReply.mSize_byte < 12 + 1 + 4) ↔ (g.mReply.mSize_byte < 17) := Iff.rfl
  have k3 : (0 ≠ g.mReply.mVersion &&& 252) ↔ (g.mReply.mVersion &&& 252 ≠ 0) := ne_comm
  have k4 : (32 ≠ g.mReply.mCmdType) ↔ (g.mReply.mCmdType ≠ 32) := ne_comm
  have k5 : (0 ≠ g.mReply.mEncoded) ↔ (g.mReply.mEncoded ≠ 0) := ne_comm
  have k6 : (14 ≠ g.mReply.mData 0) ↔ (g.mReply.mData 0 ≠ 14) := ne_comm
  have k7 : (some (lTr.mTxFrame.mData 1) ≠ some (g.mReply.mData 1)) ↔
      (g.mReply.mData 1 ≠ lTr.mTxFrame.mData 1) := by
    constructor
    · intro h e; exact h (by rw [e])
    · intro h e; exact h (Option.some.inj e).symm
  have k8 : (0 ≠ g.mReply.mData 2) ↔ (g.mReply.mData 2 ≠ 0) := ne_comm
  simp only [k2, k3, k4, k5, k6, k7, k8]
  by_cases c1 : (g.mRxSize_byte < 2 ∧ 2 ≤ aTo_byte) ∧ 128 < g.mReply.mSize_byte
  · rw [if_pos c1, if_pos c1]; rfl
  rw [if_neg c1, if_neg c1]
  by_cases c2 : (g.mRxSize_byte < 2 ∧ 2 ≤ aTo_byte) ∧ g.mReply.mSize_byte < 17
  · rw [if_pos c2, if_pos c2]; rfl
  rw [if_neg c2, if_neg c2]
  by_cases c3 : (g.mRxSize_byte < 3 ∧ 3 ≤ aTo_byte) ∧ g.mReply.mVersion &&& 252 ≠ 0
  · rw [if_pos c3, if_pos c3]; rfl
  rw [if_neg c3, if_neg c3]
  by_cases c4 : (g.mRxSize_byte < 4 ∧ 4 ≤ aTo_byte) ∧ g.mReply.mCmdType ≠ 32
  · rw [if_pos c4, if_pos c4]; rfl
  rw [if_neg c4, if_neg c4]
  by_cases c5 : (g.mRxSize_byte < 5 ∧ 5 ≤ aTo_byte) ∧ g.mReply.mEncoded ≠ 0
  · rw [if_pos c5, if_pos c5]; rfl
  rw [if_neg c5, if_neg c5]
  by_cases c6 : (g.mRxSize_byte < 13 ∧ 13 ≤ aTo_byte) ∧ g.mReply.mData 0 ≠ 14
  · rw [if_pos c6, if_pos c6]; rfl
  rw [if_neg c6, if_neg c6]
  by_cases c7 : (g.mRxSize_byte < 14 ∧ 14 ≤ aTo_byte) ∧ g.mReply.mData 1 ≠ lTr.mTxFrame.mData 1
  · rw [if_pos c7, if_pos c7]; rfl
  rw [if_neg c7, if_neg c7]
  by_cases c8 : (g.mRxSize_byte < 15 ∧ 15 ≤ aTo_byte) ∧ g.mReply.mData 2 ≠ 0
  · rw [if_pos c8, if_pos c8]; rfl
  rw [if_neg c8, if_neg c8]
  rfl

/-- Witness of C3 (amended): eight bytes of a well-formed header pass the checks 1..5. -/
theorem Receiver_Validate_Z0_spec_witness :
    Example.engine_good_header.Receiver_Validate_Z0 8 =
      some (ZT_OK, { Example.engine_good_header with mRxSize_byte := 8 }) :=
  Receiver_Validate_Z0_spec Example.engine_good_header Example.tr_TLV 8
    (by decide) (by decide) (by decide) (by decide) (by decide)

/-- C3 (as stated, refuted). With an empty receive buffer and a first byte that is not
0xAA the start-of-frame check runs before the listed ones: for a length byte of 200 the
code returns `ZT_OK`, not `ZT_ERROR_FRAME_TOO_LONG`, and when no listed check fails the
receive size becomes 0, not m. -/
theorem Receiver_Validate_Z0_bad_SOF :
    Example.engine_bad_SOF.mRxSize_byte = 0 ∧
    Example.engine_bad_SOF.Tr_Current = some Example.tr_TLV ∧
    Receiver_Validate_First_Failure 0 2 Example.engine_bad_SOF.mReply
      (Example.tr_TLV.mTxFrame.mData 1) = some ZT_ERROR_FRAME_TOO_LONG ∧
    (Example.engine_bad_SOF.Receiver_Validate_Z0 2).map (fun r => (r.1, r.2.mRxSize_byte))
      = some (ZT_OK, 0) ∧
    Receiver_Validate_First_Failure 0 1 Example.engine_bad_SOF.mReply
      (Example.tr_TLV.mTxFrame.mData 1) = none ∧
    (Example.engine_bad_SOF.Receiver_Validate_Z0 1).map (fun r => (r.1, r.2.mRxSize_byte))
      = some (ZT_OK, 0) := by
  decide

/-- C4 as stated, refuted. A transaction is in flight, the receive buffer is empty and
a payload arrives whose first byte is 0x55: `Receiver_Validate_Z0` returns `ZT_OK` (not
an error), the receive buffer is reset, `Receiver` does not call `Complete`, and the
transaction stays in the current slot with its result slot invalid. -/
theorem Receiver_bad_SOF :
    Example.engine_TLV.mRxSize_byte = 0 ∧
    Example.engine_TLV.mTr_Current = some (.Object Example.tr_TLV) ∧
    ((Example.engine_TLV.Receiver_CopyNewData (Example.rx [0x55, 17, 0, 0x20, 0, 0, 0, 0])).bind
      (fun g => g.Receiver_Validate_Z0 8)).map
        (fun r => (r.1, r.2.mRxOffset_byte, r.2.mRxSize_byte)) = some (ZT_OK, 0, 0) ∧
    (Example.engine_TLV.Receiver_Step (Example.rx [0x55, 17, 0, 0x20, 0, 0, 0, 0])).map
      (fun r => r.2) = some (none : Option Result) ∧
    (Example.engine_TLV.Receiver (Example.rx [0x55, 17, 0, 0x20, 0, 0, 0, 0])).map
      (fun g => (g.mRxOffset_byte, g.mRxSize_byte, g.mTr_Current, g.mTr_Done, g.mState)) =
      some (0, 0, some (DJI_Transaction_Ptr.Object Example.tr_TLV), ([] : List DJI_Transaction),
        State.STATE_TRANSACTION) ∧
    Example.tr_TLV.mResult = ZT_RESULT_INVALID := by
  decide

end DJI_Gimbal

namespace DJI_Transaction

/-- While more than one tick is left, `Tick` only decrements the timeout. -/
theorem Tick_Times_decrement : ∀ (k n : Nat) (tr : DJI_Transaction),
    k < n → tr.mRxTimeout_tick = n →
    tr.Tick_Times k = some { tr with mRxTimeout_tick := n - k } := by
  intro k
  induction k with
  | zero =>
    intro n tr _ ht
    simp [Tick_Times, ← ht]
  | succ k ih =>
    intro n tr hk ht
    obtain ⟨m, rfl⟩ : ∃ m, n = m + 2 := ⟨n - 2, by omega⟩
    have hstep : tr.Tick = some ({ tr with mRxTimeout_tick := m + 1 }, none) := by
      simp [Tick, ht]
    simp only [Tick_Times, hstep, Option.some_bind]
    rw [ih (m + 1) _ (by omega) rfl]
    have e : m + 1 - k = m + 2 - (k + 1) := by omega
    rw [e]

/-- C6. A transaction queued through `Tr_Queue_Z0` carries a receive timeout of 100
ticks. For a transaction with timeout n >= 1 whose result slot is invalid, each of the
first n-1 calls of `Tick` only decrements the timeout (the result slot stays invalid,
no message is sent) and the n-th call completes it with `ZT_ERROR_TIMEOUT`; with a
timeout of 0 no number of calls changes the transaction. -/
theorem Tick_timeout (g : DJI_Gimbal) (aTr tr : DJI_Transaction) (n : Nat)
    (hnext : g.mTr_Next = none) (hn : 1 ≤ n) (ht : tr.mRxTimeout_tick = n)
    (hr : tr.mResult = ZT_RESULT_INVALID) :
    (∃ t, g.Tr_Queue_Z0 aTr = some { g with mTr_Next := some (.Object t) } ∧
      t.mRxTimeout_tick = 100) ∧
    (∀ k, k < n → ∃ t, tr.Tick_Times k = some t ∧ t.mResult = ZT_RESULT_INVALID ∧
      t.mRxTimeout_tick = n - k ∧ t = { tr with mRxTimeout_tick := n - k }) ∧
    (∀ k, k + 1 < n → ∃ t, tr.Tick_Times k = some t ∧
      t.Tick = some ({ t with mRxTimeout_tick := t.mRxTimeout_tick - 1 }, none)) ∧
    (∃ t, tr.Tick_Times (n - 1) = some t ∧
      t.Tick = some ({ tr with mRxTimeout_tick := 1, mResult := ZT_ERROR_TIMEOUT },
        if tr.mReceiver then some tr.mCode else none)) ∧
    (∀ (z : DJI_Transaction) (k : Nat), z.mRxTimeout_tick = 0 → z.Tick_Times k = some z) := by
  refine ⟨?_, ?_, ?_, ?_, ?_⟩
  · refine ⟨(aTr.Reset.RxTimeout_Set (1000 / DJI_Gimbal.PERIOD_ms)), ?_, ?_⟩
    · simp [DJI_Gimbal.Tr_Queue_Z0, hnext]
    · simp [RxTimeout_Set, DJI_Gimbal.PERIOD_ms]
  · intro k hk
    exact ⟨_, Tick_Times_decrement k n tr hk ht, hr, rfl, rfl⟩
  · intro k hk
    refine ⟨_, Tick_Times_decrement k n tr (by omega) ht, ?_⟩
    obtain ⟨m, hm⟩ : ∃ m, n - k = m + 2 := ⟨n - k - 2, by omega⟩
    simp [Tick, hm]
  · refine ⟨_, Tick_Times_decrement (n - 1) n tr (by omega) ht, ?_⟩
    have e : n - (n - 1) = 1 := by omega
    simp [Tick, Complete, e, hr]
  · intro z k hz
    induction k with
    | zero => rfl
    | succ k ih =>
      have hstep : z.Tick = some (z, none) := by simp [Tick, hz]
      simp only [Tick_Times, hstep, Option.some_bind]
      exact ih

/-- Witness of C6: the transaction of the example engine, queued with 100 ticks. -/
theorem Tick_timeout_witness :
    ∃ t, Example.tr_TLV.Tick_Times (100 - 1) = some t ∧
      t.Tick = some ({ Example.tr_TLV with mRxTimeout_tick := 1, mResult := ZT_ERROR_TIMEOUT },
        if Example.tr_TLV.mReceiver then some Example.tr_TLV.mCode else none) :=
  (Tick_timeout Example.engine DJI_Transaction.fresh Example.tr_TLV 100
    (by decide) (by decide) (by decide) (by decide)).2.2.2.1

end DJI_Transaction

namespace DJI_Gimbal

/-- C7. `Tr_Queue` offered a newly constructed transaction (no receiver registered
yet): when the pending slot is occupied it returns `ZT_ERROR_NOT_READY` and the engine,
with its pending slot, current slot and state, is unchanged (the offered transaction is
deleted); when the pending slot is empty it returns `ZT_OK` and the pending slot holds
the offered transaction, prepared with `MSG_RELEASE`, its result reset to invalid and
its timeout set to 100 ticks. -/
theorem Tr_Queue_spec (g : DJI_Gimbal) (aTr : DJI_Transaction) (hnew : aTr.mReceiver = false) :
    (g.mTr_Next ≠ none → g.Tr_Queue aTr = some (ZT_ERROR_NOT_READY, g)) ∧
    (g.mTr_Next = none →
      g.Tr_Queue aTr = some (ZT_OK,
        { g with mTr_Next := some (.Object
          { aTr with mCode := MSG_RELEASE, mReceiver := true, mResult := ZT_RESULT_INVALID,
                     mRxTimeout_tick := 100 }) })) := by
  constructor
  · intro h
    simp [Tr_Queue, DJI_Transaction.Prepare, hnew, h]
  · intro h
    simp [Tr_Queue, Tr_Queue_Z0, DJI_Transaction.Prepare, DJI_Transaction.Reset,
      DJI_Transaction.RxTimeout_Set, PERIOD_ms, hnew, h]

/-- Witness of C7: a new transaction offered to the example engine, whose pending slot
is empty. -/
theorem Tr_Queue_spec_witness :
    Example.engine.Tr_Queue DJI_Transaction.fresh = some (ZT_OK,
      { Example.engine with mTr_Next := some (.Object
        { DJI_Transaction.fresh with
          mCode := MSG_RELEASE
          mReceiver := true
          mResult := ZT_RESULT_INVALID
          mRxTimeout_tick := 100 }) }) :=
  (Tr_Queue_spec Example.engine DJI_Transaction.fresh (by decide)).2 (by decide)

end DJI_Gimbal

theorem Init_shape (crc : DJI_CRC) (D aCmdType aCmdId aSerial : Nat) (hD : D ≤ 12)
    (hid : aCmdId ≤ 255) :
    ∃ f, DJI_Frame.Init crc D aCmdType DJI_CMD_SET_DEFAULT aCmdId aSerial = some f ∧
      Frame_Shape f (16 + D) := by
  unfold DJI_Frame.Init
  rw [if_neg (by simp), if_neg (by omega)]
  simp only [DJI_Frame.sizeof, List.replicate, List.set_cons_succ, List.set_cons_zero,
    DJI_HEADER_SIZE_byte, DJI_DATA_CMD_SET, DJI_DATA_CMD_ID, DJI_FRAME_TOTAL_SIZE,
    DJI_FOOTER_SIZE_byte, List.getD_cons_succ, List.getD_cons_zero]
  have e : (12 + D + 4) % 256 = 16 + D := by omega
  rw [e, if_neg (by omega)]
  refine ⟨_, rfl, rfl, ?_⟩
  simp [DJI_Frame.mSize_byte]

theorem mData_Set_shape (f : DJI_Frame) (i v L : Nat) (hi : i < 16) (h : Frame_Shape f L) :
    ∃ f', f.mData_Set i v = some f' ∧ Frame_Shape f' L := by
  obtain ⟨h1, h2⟩ := h
  refine ⟨_, by rw [DJI_Frame.mData_Set, if_neg (not_not.2 hi)], by simp [h1], ?_⟩
  unfold DJI_Frame.mSize_byte DJI_HEADER_SIZE_byte at *
  simp only [List.getD_eq_getElem?_getD] at *
  rw [List.getElem?_set_ne (by omega)]
  exact h2

theorem Angle_Set_shape (f : DJI_Frame) (o L : Nat) (x : ℚ) (ho : o + 1 < 16)
    (h : Frame_Shape f L) :
    ∃ f', f.Angle_Set o x = some f' ∧ Frame_Shape f' L := by
  unfold DJI_Frame.Angle_Set
  rw [if_neg (by omega)]
  obtain ⟨f1, e1, s1⟩ := mData_Set_shape f o (Double_To_Int16 (x * 10) &&& 0xff) L (by omega) h
  obtain ⟨f2, e2, s2⟩ := mData_Set_shape f1 (o + 1) (Double_To_Int16 (x * 10) >>> 8) L ho s1
  exact ⟨f2, by simp only [e1, Option.some_bind, e2], s2⟩

theorem Speed_Set_shape (f : DJI_Frame) (o L : Nat) (x : ℚ) (ho : o + 1 < 16)
    (h : Frame_Shape f L) :
    ∃ f', f.Speed_Set o x = some f' ∧ Frame_Shape f' L := by
  unfold DJI_Frame.Speed_Set
  rw [if_neg (by omega)]
  obtain ⟨f1, e1, s1⟩ := mData_Set_shape f o (Double_To_Int16 (x * 10) &&& 0xff) L (by omega) h
  obtain ⟨f2, e2, s2⟩ := mData_Set_shape f1 (o + 1) (Double_To_Int16 (x * 10) >>> 8) L ho s1
  exact ⟨f2, by simp only [e1, Option.some_bind, e2], s2⟩

namespace DJI_Transaction

theorem Frame_Init_shape (crc : DJI_CRC) (s : Nat) (tr : DJI_Transaction)
    (D aCmdType aCmdId : Nat) (hD : D ≤ 12) (hid : aCmdId ≤ 255) :
    ∃ t, Frame_Init crc s tr D aCmdType DJI_CMD_SET_DEFAULT aCmdId =
        some (t, (s + 1) % 4294967296) ∧ Reframed tr t (16 + D) := by
  obtain ⟨f, hf, hs⟩ := Init_shape crc D aCmdType aCmdId ((s + 1) % 4294967296 % 65536) hD hid
  exact ⟨{ tr with mTxFrame := f }, by simp [Frame_Init, hf], hs, rfl⟩

theorem Data_Set_shape (tr t : DJI_Transaction) (i v L : Nat) (hi : i < 16)
    (h : Reframed tr t L) :
    ∃ t', t.Data_Set i v = some t' ∧ Reframed tr t' L := by
  obtain ⟨h1, h2⟩ := h
  obtain ⟨f', hf, hs⟩ := mData_Set_shape t.mTxFrame i v L hi h1
  refine ⟨{ t with mTxFrame := f' }, by simp [Data_Set, hf], hs, ?_⟩
  rw [h2]

theorem Frame_Angle_Set_shape (tr t : DJI_Transaction) (o L : Nat) (x : ℚ) (ho : o + 1 < 16)
    (h : Reframed tr t L) :
    ∃ t', t.Frame_Angle_Set o x = some t' ∧ Reframed tr t' L := by
  obtain ⟨h1, h2⟩ := h
  obtain ⟨f', hf, hs⟩ := Angle_Set_shape t.mTxFrame o L x ho h1
  refine ⟨{ t with mTxFrame := f' }, by simp [Frame_Angle_Set, hf], hs, ?_⟩
  rw [h2]

theorem Frame_Speed_Set_shape (tr t : DJI_Transaction) (o L : Nat) (x : ℚ) (ho : o + 1 < 16)
    (h : Reframed tr t L) :
    ∃ t', (t.mTxFrame.Speed_Set o x).map (fun f => { t with mTxFrame := f }) = some t' ∧
      Reframed tr t' L := by
  obtain ⟨h1, h2⟩ := h
  obtain ⟨f', hf, hs⟩ := Speed_Set_shape t.mTxFrame o L x ho h1
  refine ⟨{ t with mTxFrame := f' }, by simp [hf], hs, ?_⟩
  rw [h2]

theorem AXIS_OFFSETS_lt (a : Axis) : AXIS_OFFSETS a + 1 < 16 := by
  cases a <;> simp [AXIS_OFFSETS]

theorem Frame_Init_POSITION_SET_shape (crc : DJI_CRC) (s : Nat) (tr : DJI_Transaction)
    (aIn : Position) (aFlags aDuration_ms : Nat) :
    ∃ t, Frame_Init_POSITION_SET crc s tr aIn aFlags aDuration_ms =
        some (t, (s + 1) % 4294967296) ∧ Reframed tr t 26 := by
  obtain ⟨t0, h0, s0⟩ := Frame_Init_shape crc s tr 10 DJI_CMD_TYPE_NO_REPLY DJI_CMD_POSITION_SET
    (by omega) (by simp [DJI_CMD_POSITION_SET])
  have step : ∀ (t : DJI_Transaction) (a : Axis), Reframed tr t 26 →
      ∃ t', (if Axis_Controlled aFlags a = true then
          t.Frame_Angle_Set (AXIS_OFFSETS a) (aIn.mAxis_deg.get a)
        else t.Data_Set 8 (t.mTxFrame.mData 8 ||| POSITION_SET_FLAGS a)) = some t' ∧
        Reframed tr t' 26 := by
    intro t a ht
    split_ifs
    · exact Frame_Angle_Set_shape tr t _ _ _ (AXIS_OFFSETS_lt a) ht
    · exact Data_Set_shape tr t _ _ _ (by omega) ht
  obtain ⟨ta, ha, sa⟩ := Data_Set_shape tr t0 8 0x01 _ (by omega) s0
  obtain ⟨t1, h1, s1⟩ := step ta .AXIS_PITCH sa
  obtain ⟨t2, h2, s2⟩ := step t1 .AXIS_ROLL s1
  obtain ⟨t3, h3, s3⟩ := step t2 .AXIS_YAW s2
  obtain ⟨t4, h4, s4⟩ := Data_Set_shape tr t3 9 (aDuration_ms / 100) _ (by omega) s3
  refine ⟨t4, ?_, s4⟩
  simp only [Frame_Init_POSITION_SET, h0, FOR_EACH_AXIS, List.foldl, ha, h1, h2, h3, h4,
    Option.some_bind, Option.map_some']

theorem Frame_Init_SPEED_SET_shape (crc : DJI_CRC) (s : Nat) (tr : DJI_Transaction)
    (aSpeed : Speed) :
    ∃ t, Frame_Init_SPEED_SET crc s tr aSpeed = some (t, (s + 1) % 4294967296) ∧
      Reframed tr t 25 := by
  obtain ⟨t0, h0, s0⟩ := Frame_Init_shape crc s tr 9 DJI_CMD_TYPE_NO_REPLY DJI_CMD_SPEED_SET
    (by omega) (by simp [DJI_CMD_SPEED_SET])
  obtain ⟨t1, h1, s1⟩ := Frame_Speed_Set_shape tr t0 _ _ (aSpeed.mAxis_deg_s.get .AXIS_PITCH)
    (AXIS_OFFSETS_lt .AXIS_PITCH) s0
  obtain ⟨t2, h2, s2⟩ := Frame_Speed_Set_shape tr t1 _ _ (aSpeed.mAxis_deg_s.get .AXIS_ROLL)
    (AXIS_OFFSETS_lt .AXIS_ROLL) s1
  obtain ⟨t3, h3, s3⟩ := Frame_Speed_Set_shape tr t2 _ _ (aSpeed.mAxis_deg_s.get .AXIS_YAW)
    (AXIS_OFFSETS_lt .AXIS_YAW) s2
  obtain ⟨t4, h4, s4⟩ := Data_Set_shape tr t3 8 0x88 _ (by omega) s3
  refine ⟨t4, ?_, s4⟩
  simp only [Frame_Init_SPEED_SET, h0, FOR_EACH_AXIS, List.foldl, h1, h2, h3, h4,
    Option.some_bind, Option.map_some']

theorem Frame_Init_FOCUS_CAL_shape (crc : DJI_CRC) (s : Nat) (tr : DJI_Transaction)
    (aOperation : Operation) (h : aOperation < OPERATION_QTY) :
    ∃ t, Frame_Init_FOCUS_CAL crc s tr aOperation = some (t, (s + 1) % 4294967296) ∧
      Reframed tr t 21 := by
  obtain ⟨t0, h0, s0⟩ := Frame_Init_shape crc s tr 5 DJI_CMD_TYPE_NO_REPLY DJI_CMD_FOCUS
    (by omega) (by simp [DJI_CMD_FOCUS])
  obtain ⟨t1, h1, s1⟩ := Data_Set_shape tr t0 2 DJI_CMD_FOCUS_CAL _ (by omega) s0
  obtain ⟨t2, h2, s2⟩ := Data_Set_shape tr t1 4 (OP_CODES.getD aOperation 0) _ (by omega) s1
  refine ⟨t2, ?_, s2⟩
  unfold Frame_Init_FOCUS_CAL
  rw [if_neg (not_not.2 h)]
  simp only [h0, h1, h2, Option.some_bind, Option.map_some']

theorem Frame_Init_FOCUS_SET_shape (crc : DJI_CRC) (s : Nat) (tr : DJI_Transaction)
    (aValue_pc : ℚ) (h0 : 0 ≤ aValue_pc) (h100 : aValue_pc ≤ 100) :
    ∃ t, Frame_Init_FOCUS_SET crc s tr aValue_pc = some (t, (s + 1) % 4294967296) ∧
      Reframed tr t 23 := by
  obtain ⟨t0, hi, s0⟩ := Frame_Init_shape crc s tr 7 DJI_CMD_TYPE_NO_REPLY DJI_CMD_FOCUS
    (by omega) (by simp [DJI_CMD_FOCUS])
  obtain ⟨t1, h1, s1⟩ := Data_Set_shape tr t0 2 DJI_CMD_FOCUS_SET _ (by omega) s0
  obtain ⟨t2, h2, s2⟩ := Data_Set_shape tr t1 4 0x02 _ (by omega) s1
  obtain ⟨t3, h3, s3⟩ := Data_Set_shape tr t2 5
    (Double_To_Int16 (aValue_pc / 100 * 4095) &&& 0xff) _ (by omega) s2
  obtain ⟨t4, h4, s4⟩ := Data_Set_shape tr t3 6
    (Double_To_Int16 (aValue_pc / 100 * 4095) >>> 8) _ (by omega) s3
  refine ⟨t4, ?_, s4⟩
  unfold Frame_Init_FOCUS_SET
  rw [if_neg (by simpa using h0), if_neg (by simpa using h100)]
  simp only [hi, h1, h2, h3, h4, Option.some_bind, Option.map_some']

theorem Frame_Init_TRACK_SWITCH_shape (crc : DJI_CRC) (s : Nat) (tr : DJI_Transaction) :
    ∃ t, Frame_Init_TRACK_SWITCH crc s tr = some (t, (s + 1) % 4294967296) ∧
      Reframed tr t 19 := by
  obtain ⟨t0, h0, s0⟩ := Frame_Init_shape crc s tr 3 DJI_CMD_TYPE_NO_REPLY DJI_CMD_TRACK_SWITCH
    (by omega) (by simp [DJI_CMD_TRACK_SWITCH])
  obtain ⟨t1, h1, s1⟩ := Data_Set_shape tr t0 2 0x03 _ (by omega) s0
  refine ⟨t1, ?_, s1⟩
  simp only [Frame_Init_TRACK_SWITCH, h0, h1, Option.some_bind, Option.map_some']

end DJI_Transaction

namespace Gimbal

open State

/-- The result of `Gimbal::Position_Set` depends on the configuration only. -/
theorem Position_Set_result_congr (g g2 : Gimbal) (aIn : Position) (aFlags d d2 : Nat)
    (h : g2.mConfig = g.mConfig) :
    (g2.Position_Set aIn aFlags d2).1 = (g.Position_Set aIn aFlags d).1 := by
  simp only [Position_Set, Position_Validate, h]
  split_ifs <;> simp_all

/-- The result of `Gimbal::Speed_Set` depends on the information block only. -/
theorem Speed_Set_result_congr (g g2 : Gimbal) (aIn : Speed) (aFlags : Nat)
    (h : g2.mInfo = g.mInfo) :
    (g2.Speed_Set aIn aFlags).1 = (g.Speed_Set aIn aFlags).1 := by
  simp only [Speed_Set, Speed_Validate, h]
  split_ifs <;> simp_all

/-- What `Gimbal::Position_Set` never changes. -/
theorem Position_Set_keeps (g : Gimbal) (aIn : Position) (aFlags d : Nat) :
    (g.Position_Set aIn aFlags d).2.mConfig = g.mConfig ∧
    (g.Position_Set aIn aFlags d).2.mPosition_Count = g.mPosition_Count ∧
    (g.Position_Set aIn aFlags d).2.mPosition_Current = g.mPosition_Current := by
  simp only [Position_Set]
  split_ifs <;> exact ⟨rfl, rfl, rfl⟩

/-- What `Gimbal::Speed_Set` never changes. -/
theorem Speed_Set_keeps (g : Gimbal) (aIn : Speed) (aFlags : Nat) :
    (g.Speed_Set aIn aFlags).2.mInfo = g.mInfo := by
  simp only [Speed_Set]
  split_ifs <;> rfl

end Gimbal

namespace DJI_Gimbal

open State

theorem CalculateMoveDuration_Axis_some (aFrom_deg aTo_deg aSpeed_deg_s : ℚ)
    (hf : POSITION_MIN_deg ≤ aFrom_deg ∧ aFrom_deg ≤ POSITION_MAX_deg)
    (ht : POSITION_MIN_deg ≤ aTo_deg ∧ aTo_deg ≤ POSITION_MAX_deg)
    (hs : 0 < aSpeed_deg_s ∧ aSpeed_deg_s ≤ IGimbal.SPEED_MAX_deg_s) :
    ∃ d, CalculateMoveDuration_Axis aFrom_deg aTo_deg aSpeed_deg_s = some d := by
  have hmin : IGimbal.SPEED_MIN_deg_s ≤ aSpeed_deg_s := by
    have : IGimbal.SPEED_MIN_deg_s ≤ 0 := by decide!
    linarith [hs.1]
  have hdelta : (0 : ℚ) ≤ if aFrom_deg < aTo_deg then aTo_deg - aFrom_deg
      else aFrom_deg - aTo_deg := by
    split_ifs with h
    · linarith
    · linarith [not_lt.1 h]
  unfold CalculateMoveDuration_Axis
  rw [if_neg (not_not.2 hf.2), if_neg (not_not.2 hf.1), if_neg (not_not.2 ht.2),
    if_neg (not_not.2 ht.1), if_neg (not_not.2 hs.2), if_neg (not_not.2 hmin)]
  simp only
  rw [if_neg (not_not.2 hdelta), if_neg (ne_of_gt hs.1),
    if_neg (not_not.2 (div_nonneg hdelta (le_of_lt hs.1)))]
  exact ⟨_, rfl⟩

/-- Within `Move_In_Range`, `CalculateMoveDuration` returns for a command that the
base class has accepted. -/
theorem CalculateMoveDuration_some (g : DJI_Gimbal) (aIn : Position)
    (aFlags aDuration_ms : Nat)
    (hv : (g.toGimbal.Position_Set aIn aFlags aDuration_ms).1 = ZT_OK)
    (hr : g.Move_In_Range aIn aFlags) :
    ∃ d, ({ g with toGimbal := (g.toGimbal.Position_Set aIn aFlags aDuration_ms).2 } :
      DJI_Gimbal).CalculateMoveDuration aIn aFlags = some d := by
  have h2 : ∃ fl tg, (g.toGimbal.Position_Set aIn aFlags aDuration_ms).2 =
      { g.toGimbal with mPosition_Flags := fl, mPosition_State := Gimbal.State.STATE_MOVING,
                        mPosition_Target := tg } := by
    simp only [Gimbal.Position_Set] at hv ⊢
    split_ifs at hv ⊢ with h
    · exact ⟨_, _, rfl⟩
    · exact absurd hv h
  obtain ⟨fl, tg, h2⟩ := h2
  rw [h2]
  unfold CalculateMoveDuration
  simp only [Gimbal.Position_Current_Get]
  by_cases hc : 0 < g.mPosition_Count
  · have hr := hr hc
    have step : ∀ (n : Nat) (a : Axis), a ∈ FOR_EACH_AXIS →
        ∃ m, (if Axis_Controlled aFlags a = true then
          (CalculateMoveDuration_Axis (g.mPosition_Current.mAxis_deg.get a)
            (aIn.mAxis_deg.get a) (g.mConfig.mAxis.get a).mSpeed_deg_s).map
            (fun lDuration_ms => if n < lDuration_ms then lDuration_ms else n)
          else some n) = some m := by
      intro n a ha
      split_ifs with hca
      · obtain ⟨h1, h2, h3⟩ := hr a ha hca
        obtain ⟨d, hd⟩ := CalculateMoveDuration_Axis_some _ _ _ h1 h2 h3
        exact ⟨_, by rw [hd]; rfl⟩
      · exact ⟨_, rfl⟩
    obtain ⟨m1, e1⟩ := step 0 .AXIS_PITCH (by simp [FOR_EACH_AXIS])
    obtain ⟨m2, e2⟩ := step m1 .AXIS_ROLL (by simp [FOR_EACH_AXIS])
    obtain ⟨m3, e3⟩ := step m2 .AXIS_YAW (by simp [FOR_EACH_AXIS])
    refine ⟨m3, ?_⟩
    simp only [hc, decide_True, if_true, FOR_EACH_AXIS, List.foldl, e1, e2, e3]
  · exact ⟨200, by simp [hc]⟩

theorem Move_In_Range_congr (g g2 : DJI_Gimbal) (aIn : Position) (aFlags : Nat)
    (h1 : g2.mConfig = g.mConfig) (h2 : g2.mPosition_Count = g.mPosition_Count)
    (h3 : g2.mPosition_Current = g.mPosition_Current)
    (h : g.Move_In_Range aIn aFlags) : g2.Move_In_Range aIn aFlags := by
  unfold Move_In_Range at h ⊢
  rw [h1, h2, h3]
  exact h

theorem Position_Set_Valid_congr (g g2 : DJI_Gimbal) (aIn : Position) (aFlags d d2 : Nat)
    (h1 : g2.mConfig = g.mConfig) (h2 : g2.mPosition_Count = g.mPosition_Count)
    (h3 : g2.mPosition_Current = g.mPosition_Current)
    (h : g.Position_Set_Valid aIn aFlags d) : g2.Position_Set_Valid aIn aFlags d2 :=
  ⟨by rw [Gimbal.Position_Set_result_congr g.toGimbal g2.toGimbal aIn aFlags d d2 h1]
      exact h.1,
    Move_In_Range_congr g g2 aIn aFlags h1 h2 h3 h.2⟩

theorem Speed_Set_Valid_congr (g g2 : DJI_Gimbal) (aIn : Speed) (aFlags : Nat)
    (h1 : g2.mInfo = g.mInfo) (h : g.Speed_Set_Valid aIn aFlags) :
    g2.Speed_Set_Valid aIn aFlags := by
  unfold Speed_Set_Valid at h ⊢
  rw [Gimbal.Speed_Set_result_congr g.toGimbal g2.toGimbal aIn aFlags h1]
  exact h

theorem State_Check_active (g : DJI_Gimbal)
    (hstate : g.mState = STATE_ACTIVATED ∨ g.mState = STATE_TRANSACTION) :
    g.State_Check = some (ZT_OK, g) := by
  rcases hstate with h | h <;> simp [State_Check, h]

theorem Tr_Queue_busy (g0 : DJI_Gimbal) (t : DJI_Transaction) (L : Nat)
    (h : DJI_Transaction.Reframed DJI_Transaction.fresh t L) (hnext : g0.mTr_Next ≠ none)
    (g : DJI_Gimbal) (hsame : g.mTr_Next = g0.mTr_Next) :
    g.Tr_Queue t = some (ZT_ERROR_NOT_READY, g) := by
  have hr : t.mReceiver = false := by
    rw [h.2]; rfl
  rw [← hsame] at hnext
  simp [Tr_Queue, DJI_Transaction.Prepare, hr, hnext]

/-- `Position_Set` with valid arguments while the pending slot is occupied: the model
takes the command, the move duration and the serial counter are updated, the
transaction is dropped and the result is `ZT_OK`. -/
theorem Position_Set_busy (crc : DJI_CRC) (g : DJI_Gimbal) (aIn : Position)
    (aFlags aDuration_ms d : Nat)
    (hstate : g.mState = STATE_ACTIVATED ∨ g.mState = STATE_TRANSACTION)
    (hnext : g.mTr_Next ≠ none)
    (hv : (g.toGimbal.Position_Set aIn aFlags aDuration_ms).1 = ZT_OK)
    (hd : ({ g with toGimbal := (g.toGimbal.Position_Set aIn aFlags aDuration_ms).2 } :
      DJI_Gimbal).CalculateMoveDuration aIn aFlags = some d) :
    Position_Set crc g aIn aFlags aDuration_ms = some (ZT_OK,
      { g with
        toGimbal := (g.toGimbal.Position_Set aIn aFlags aDuration_ms).2
        mMoveDuration_ms := if aDuration_ms > d then aDuration_ms else d
        sSerial := (g.sSerial + 1) % 4294967296 }) := by
  set g1 : DJI_Gimbal :=
    { g with toGimbal := (g.toGimbal.Position_Set aIn aFlags aDuration_ms).2 } with hg1
  have hc : g1.State_Check = some (ZT_OK, g1) := State_Check_active g1 hstate
  obtain ⟨t, ht, hshape⟩ := DJI_Transaction.Frame_Init_POSITION_SET_shape crc g1.sSerial
    DJI_Transaction.fresh aIn aFlags (if aDuration_ms > d then aDuration_ms else d)
  unfold Position_Set
  simp only [hv, if_true, ← hg1, hc, hd, ht, Option.map_some']
  rw [Tr_Queue_busy g t 26 hshape hnext]
  · rfl
  · rfl

/-- `Speed_Set` with valid arguments while the pending slot is occupied. -/
theorem Speed_Set_busy (crc : DJI_CRC) (g : DJI_Gimbal) (aIn : Speed) (aFlags : Nat)
    (hstate : g.mState = STATE_ACTIVATED ∨ g.mState = STATE_TRANSACTION)
    (hnext : g.mTr_Next ≠ none)
    (hv : (g.toGimbal.Speed_Set aIn aFlags).1 = ZT_OK) :
    Speed_Set crc g aIn aFlags = some (ZT_OK,
      { g with
        toGimbal := (g.toGimbal.Speed_Set aIn aFlags).2
        sSerial := (g.sSerial + 1) % 4294967296 }) := by
  set g1 : DJI_Gimbal := { g with toGimbal := (g.toGimbal.Speed_Set aIn aFlags).2 } with hg1
  have hc : g1.State_Check = some (ZT_OK, g1) := State_Check_active g1 hstate
  obtain ⟨t, ht, hshape⟩ := DJI_Transaction.Frame_Init_SPEED_SET_shape crc g1.sSerial
    DJI_Transaction.fresh g1.mSpeed
  unfold Speed_Set
  simp only [hv, if_true, ← hg1, hc, ht, Option.map_some']
  rw [Tr_Queue_busy g t 25 hshape hnext]
  · rfl
  · rfl

/-- C8. With the engine in ACTIVATED or TRANSACTION and the pending slot occupied, for
arguments that the base class accepts: `Position_Set` returns `ZT_OK` whenever it
returns, and it returns when the values on which `::CalculateMoveDuration` asserts are
in range (`Move_In_Range`); `Speed_Set` returns `ZT_OK`; `Speed_Stop`, `Focus_Cal`
(valid operation), `Focus_Position_Set` (focus in 0..100) and `Track_Switch` return
`ZT_ERROR_NOT_READY`. -/
theorem Queue_busy_results (crc : DJI_CRC) (g : DJI_Gimbal)
    (aPosition : Position) (aPosition_Flags aDuration_ms : Nat)
    (aSpeed : Speed) (aSpeed_Flags : Nat) (aOperation : Operation) (aFocus_pc : ℚ)
    (hstate : g.mState = STATE_ACTIVATED ∨ g.mState = STATE_TRANSACTION)
    (hnext : g.mTr_Next ≠ none)
    (hpos : (g.toGimbal.Position_Set aPosition aPosition_Flags aDuration_ms).1 = ZT_OK)
    (hspeed : (g.toGimbal.Speed_Set aSpeed aSpeed_Flags).1 = ZT_OK)
    (hop : aOperation < OPERATION_QTY)
    (hfocus : 0 ≤ aFocus_pc ∧ aFocus_pc ≤ 100) :
    ((∀ r g', Position_Set crc g aPosition aPosition_Flags aDuration_ms = some (r, g') →
        r = ZT_OK) ∧
      (g.Move_In_Range aPosition aPosition_Flags →
        ∃ g', Position_Set crc g aPosition aPosition_Flags aDuration_ms = some (ZT_OK, g'))) ∧
    (∃ g', Speed_Set crc g aSpeed aSpeed_Flags = some (ZT_OK, g')) ∧
    (∃ g', Speed_Stop crc g = some (ZT_ERROR_NOT_READY, g')) ∧
    (∃ g', Focus_Cal crc g aOperation = some (ZT_ERROR_NOT_READY, g')) ∧
    (∃ g', Focus_Position_Set crc g aFocus_pc = some (ZT_ERROR_NOT_READY, g')) ∧
    (∃ g', Track_Switch crc g = some (ZT_ERROR_NOT_READY, g')) := by
  have hc : g.State_Check = some (ZT_OK, g) := State_Check_active g hstate
  refine ⟨⟨?_, ?_⟩, ?_, ?_, ?_, ?_, ?_⟩
  · intro r g' h
    rcases hd : ({ g with toGimbal :=
        (g.toGimbal.Position_Set aPosition aPosition_Flags aDuration_ms).2 } :
        DJI_Gimbal).CalculateMoveDuration aPosition aPosition_Flags with _ | d
    · have hc1 := State_Check_active
        ({ g with toGimbal :=
          (g.toGimbal.Position_Set aPosition aPosition_Flags aDuration_ms).2 } : DJI_Gimbal)
        hstate
      unfold Position_Set at h
      simp only [hpos, if_true, hc1, hd] at h
      exact absurd h (fun hh => Option.noConfusion hh)
    · rw [Position_Set_busy crc g aPosition aPosition_Flags aDuration_ms d hstate hnext hpos
        hd] at h
      simp only [Option.some.injEq, Prod.mk.injEq] at h
      exact h.1.symm
  · intro hr
    obtain ⟨d, hd⟩ := CalculateMoveDuration_some g aPosition aPosition_Flags aDuration_ms
      hpos hr
    exact ⟨_, Position_Set_busy crc g aPosition aPosition_Flags aDuration_ms d hstate hnext
      hpos hd⟩
  · exact ⟨_, Speed_Set_busy crc g aSpeed aSpeed_Flags hstate hnext hspeed⟩
  · set g1 : DJI_Gimbal := { g with toGimbal := g.toGimbal.Speed_Stop.2 } with hg1
    have hc1 : g1.State_Check = some (ZT_OK, g1) := State_Check_active g1 hstate
    obtain ⟨t, ht, hshape⟩ := DJI_Transaction.Frame_Init_SPEED_SET_shape crc g1.sSerial
      DJI_Transaction.fresh g1.mSpeed
    refine ⟨{ g1 with sSerial := (g1.sSerial + 1) % 4294967296 }, ?_⟩
    unfold Speed_Stop
    have hs : g.toGimbal.Speed_Stop.1 = ZT_OK := rfl
    simp only [hs, if_true, ← hg1, hc1, ht]
    exact Tr_Queue_busy g t 25 hshape hnext _ rfl
  · obtain ⟨t, ht, hshape⟩ := DJI_Transaction.Frame_Init_FOCUS_CAL_shape crc g.sSerial
      DJI_Transaction.fresh aOperation hop
    refine ⟨{ g with sSerial := (g.sSerial + 1) % 4294967296 }, ?_⟩
    unfold Focus_Cal
    rw [if_neg (Nat.not_le.2 hop)]
    simp only [hc, if_true, ht]
    exact Tr_Queue_busy g t 21 hshape hnext _ rfl
  · obtain ⟨t, ht, hshape⟩ := DJI_Transaction.Frame_Init_FOCUS_SET_shape crc g.sSerial
      DJI_Transaction.fresh aFocus_pc hfocus.1 hfocus.2
    refine ⟨{ g with sSerial := (g.sSerial + 1) % 4294967296 }, ?_⟩
    have hval : Value_Validate aFocus_pc 0 100 = some ZT_OK := by
      unfold Value_Validate
      rw [if_neg (by norm_num), if_neg (by simpa using hfocus.1),
        if_neg (by simpa using hfocus.2)]
    unfold Focus_Position_Set
    simp only [hval, hc, if_true, ht]
    exact Tr_Queue_busy g t 23 hshape hnext _ rfl
  · obtain ⟨t, ht, hshape⟩ := DJI_Transaction.Frame_Init_TRACK_SWITCH_shape crc g.sSerial
      DJI_Transaction.fresh
    refine ⟨{ g with sSerial := (g.sSerial + 1) % 4294967296 }, ?_⟩
    unfold Track_Switch
    simp only [hc, if_true, ht]
    exact Tr_Queue_busy g t 19 hshape hnext _ rfl

end DJI_Gimbal

namespace DJI_Gimbal

/-- C8, failing input. The engine `engine_busy_known` (pending slot occupied, pitch
offset -10 configured, current position known) is offered `Position_Set` of the pitch
185: `Gimbal::Config_Set` accepts the configuration, `Gimbal::Position_Set` accepts the
position (185 - 10 is within the limits) and stores the target 175, and
`CalculateMoveDuration` is then given the commanded 185, on which
`assert(POSITION_MAX_deg >= aTo_deg)` fails: the call does not return. The pitch 170 on
the same engine returns `ZT_OK`. -/
theorem Queue_busy_Position_Set_asserts :
    (Example.engine_busy.toGimbal.Config_Set Example.config_pitch_offset).map (fun r => r.1) =
      some ZT_OK ∧
    Example.engine_busy_known.mConfig = Example.config_pitch_offset ∧
    Example.engine_busy_known.mState = State.STATE_ACTIVATED ∧
    Example.engine_busy_known.mTr_Next ≠ none ∧
    (Example.engine_busy_known.toGimbal.Position_Set Example.position_185 0 0).1 = ZT_OK ∧
    (Example.engine_busy_known.toGimbal.Position_Set Example.position_185 0
      0).2.mPosition_Target.mAxis_deg.pitch = 175 ∧
    CalculateMoveDuration_Axis 0 185 360 = none ∧
    Position_Set Example.crc Example.engine_busy_known Example.position_185 0 0 = none ∧
    (Position_Set Example.crc Example.engine_busy_known
      { mAxis_deg := { pitch := 170, roll := 0, yaw := 0 } } 0 0).map (fun r => r.1) =
      some ZT_OK := by
  refine ⟨?_, ?_, ?_, ?_, ?_, ?_, ?_, ?_, ?_⟩ <;> decide!

/-- Witness of C8: the six operations on the example engine with its pending slot
occupied, a pitch offset configured and a current position known. -/
theorem Queue_busy_results_witness :
    (∃ g', Position_Set Example.crc Example.engine_busy_known Example.position_A 0 0
      = some (ZT_OK, g')) ∧
    (∃ g', Speed_Set Example.crc Example.engine_busy_known Example.speed_A 0
      = some (ZT_OK, g')) ∧
    (∃ g', Speed_Stop Example.crc Example.engine_busy_known
      = some (ZT_ERROR_NOT_READY, g')) ∧
    (∃ g', Focus_Cal Example.crc Example.engine_busy_known OPERATION_CAL_STOP
      = some (ZT_ERROR_NOT_READY, g')) ∧
    (∃ g', Focus_Position_Set Example.crc Example.engine_busy_known 50
      = some (ZT_ERROR_NOT_READY, g')) ∧
    (∃ g', Track_Switch Example.crc Example.engine_busy_known
      = some (ZT_ERROR_NOT_READY, g')) := by
  have h := Queue_busy_results Example.crc Example.engine_busy_known Example.position_A 0 0
    Example.speed_A 0 OPERATION_CAL_STOP 50 (by decide) (by decide) (by decide!) (by decide!)
    (by decide) (by norm_num)
  exact ⟨h.1.2 (by decide!), h.2⟩

end DJI_Gimbal

namespace DJI_Gimbal

open State

/-- The worker tick that promotes a pending no-reply transaction: the frame is sealed
and sent, the transaction completes with `ZT_OK` at once and is released, and the
engine is ACTIVATED again with both slots empty. -/
theorem OnTick_promote (crc : DJI_CRC) (g : DJI_Gimbal) (tr : DJI_Transaction) (L : Nat)
    (hstate : g.mState = STATE_ACTIVATED)
    (hnext : g.mTr_Next = some (.Object tr))
    (hcode : tr.mCode = MSG_RELEASE) (hrecv : tr.mReceiver = true)
    (hres : tr.mResult = ZT_RESULT_INVALID) (hexp : tr.mRxExpected_byte = 0)
    (hshape : Frame_Shape tr.mTxFrame L) (hmin : 4 < L) (hmax : L ≤ 28)
    (hs : g.mDevice.SendsSucceed)
    (hoff : g.mRxOffset_byte ≤ RX_BUFFER_SIZE) (hsize : g.mRxSize_byte ≤ RX_BUFFER_SIZE) :
    ∃ (lSealed : DJI_Frame) (d : EthCAN_Device) (ps : List EthCAN_Frame),
      tr.mTxFrame.Seal crc = some lSealed ∧
      OnTick crc g = some
        { g with
          toGimbal := g.toGimbal.Tick
          mDevice := d
          mRxOffset_byte := 0
          mRxSize_byte := 0
          mState := STATE_ACTIVATED
          mTr_Current := none
          mTr_Next := none
          mTr_Done := g.mTr_Done ++ [{ tr with mTxFrame := lSealed, mResult := ZT_OK }] } ∧
      d.mSent = g.mDevice.mSent ++ ps ∧
      (∀ p ∈ ps, p.mId = DJI_CAN_ID_TX) ∧
      (ps.map EthCAN_Frame.payload).flatten = lSealed.bytes.take L := by
  obtain ⟨hlen, hL⟩ := hshape
  set g1 : DJI_Gimbal :=
    { g.State_Set_Z0 STATE_TRANSACTION with mTr_Current := some (.Object tr) } with hg1
  have hreset : g1.Receiver_Reset =
      some { g1 with mRxOffset_byte := 0, mRxSize_byte := 0 } := by
    unfold Receiver_Reset
    rw [if_neg (by simpa [hg1, State_Set_Z0] using hoff),
      if_neg (by simpa [hg1, State_Set_Z0] using hsize)]
  set g2 : DJI_Gimbal := { g1 with mRxOffset_byte := 0, mRxSize_byte := 0 } with hg2
  obtain ⟨lSealed, d, ps, hseal, hsend, hsent, -, -, hids, hcat⟩ :=
    Frame_Send_Z0_frames crc g2 tr.mTxFrame hlen (by omega) (by omega) hs
  refine ⟨lSealed, d, ps, hseal, ?_, hsent, fun p hp => (hids p hp).1, by rw [← hL]; exact hcat⟩
  have hstart : Tr_Start_Z0 crc (g.State_Set_Z0 STATE_TRANSACTION) (.Object tr) = some
      { g with
        mDevice := d
        mRxOffset_byte := 0
        mRxSize_byte := 0
        mState := STATE_ACTIVATED
        mTr_Current := none
        mTr_Done := g.mTr_Done ++ [{ tr with mTxFrame := lSealed, mResult := ZT_OK }] } := by
    unfold Tr_Start_Z0
    simp only [← hg1, hreset, Tr_Deref, DJI_Transaction.Frame_Get, hsend]
    simp [Tr_Current_Call, Tr_Current, Tr_Current_Store, Tr_Deref, DJI_Transaction.Started,
      DJI_Transaction.Complete, hexp, hres, hrecv, hcode, ProcessMessage_Tr, MSG_RELEASE,
      MSG_CONFIG, MSG_CONFIG_STIFFNESS, MSG_INFO, MSG_POSITION, MSG_POSITION_AND_SIGNAL,
      OnRelease_Z0, DJI_Transaction.Result_Get, Tr_Complete_Z0, State_Change_Z0, State_Set_Z0,
      hg1, hg2]
  unfold OnTick
  simp only [hstate, Tick_ACTIVATED_Z0, hnext, State_TRANSACTION_Z0, hstart]
  simp

theorem Tr_Queue_idle (g0 : DJI_Gimbal) (t : DJI_Transaction) (L : Nat)
    (h : DJI_Transaction.Reframed DJI_Transaction.fresh t L) (hnext : g0.mTr_Next = none)
    (g : DJI_Gimbal) (hsame : g.mTr_Next = g0.mTr_Next) :
    g.Tr_Queue t = some (ZT_OK,
      { g with mTr_Next := some (.Object
        { t with
          mCode := MSG_RELEASE
          mReceiver := true
          mResult := ZT_RESULT_INVALID
          mRxTimeout_tick := 100 }) }) := by
  have hr : t.mReceiver = false := by
    rw [h.2]; rfl
  rw [← hsame] at hnext
  simp [Tr_Queue, Tr_Queue_Z0, DJI_Transaction.Prepare, DJI_Transaction.Reset,
    DJI_Transaction.RxTimeout_Set, PERIOD_ms, hr, hnext]

/-- `Position_Set` with valid arguments while the pending slot is empty: the
transaction that carries the POSITION_SET frame of the call is queued. -/
theorem Position_Set_idle (crc : DJI_CRC) (g : DJI_Gimbal) (aIn : Position)
    (aFlags aDuration_ms d : Nat)
    (hstate : g.mState = STATE_ACTIVATED ∨ g.mState = STATE_TRANSACTION)
    (hnext : g.mTr_Next = none)
    (hv : (g.toGimbal.Position_Set aIn aFlags aDuration_ms).1 = ZT_OK)
    (hd : ({ g with toGimbal := (g.toGimbal.Position_Set aIn aFlags aDuration_ms).2 } :
      DJI_Gimbal).CalculateMoveDuration aIn aFlags = some d) :
    ∃ t, DJI_Transaction.fresh.Frame_Init_POSITION_SET crc g.sSerial aIn aFlags
        (if aDuration_ms > d then aDuration_ms else d) = some (t, (g.sSerial + 1) % 4294967296) ∧
      DJI_Transaction.Reframed DJI_Transaction.fresh t 26 ∧
      Position_Set crc g aIn aFlags aDuration_ms = some (ZT_OK,
        { g with
          toGimbal := (g.toGimbal.Position_Set aIn aFlags aDuration_ms).2
          mMoveDuration_ms := if aDuration_ms > d then aDuration_ms else d
          sSerial := (g.sSerial + 1) % 4294967296
          mTr_Next := some (.Object
            { t with
              mCode := MSG_RELEASE
              mReceiver := true
              mResult := ZT_RESULT_INVALID
              mRxTimeout_tick := 100 }) }) := by
  set g1 : DJI_Gimbal :=
    { g with toGimbal := (g.toGimbal.Position_Set aIn aFlags aDuration_ms).2 } with hg1
  have hc : g1.State_Check = some (ZT_OK, g1) := State_Check_active g1 hstate
  obtain ⟨t, ht, hshape⟩ := DJI_Transaction.Frame_Init_POSITION_SET_shape crc g1.sSerial
    DJI_Transaction.fresh aIn aFlags (if aDuration_ms > d then aDuration_ms else d)
  refine ⟨t, ht, hshape, ?_⟩
  unfold Position_Set
  simp only [hv, if_true, ← hg1, hc, hd, ht, Option.map_some']
  rw [Tr_Queue_idle g t 26 hshape hnext]
  · rfl
  · rfl

/-- `Speed_Set` with valid arguments while the pending slot is empty. -/
theorem Speed_Set_idle (crc : DJI_CRC) (g : DJI_Gimbal) (aIn : Speed) (aFlags : Nat)
    (hstate : g.mState = STATE_ACTIVATED ∨ g.mState = STATE_TRANSACTION)
    (hnext : g.mTr_Next = none)
    (hv : (g.toGimbal.Speed_Set aIn aFlags).1 = ZT_OK) :
    ∃ t, DJI_Transaction.fresh.Frame_Init_SPEED_SET crc g.sSerial
        (g.toGimbal.Speed_Set aIn aFlags).2.mSpeed = some (t, (g.sSerial + 1) % 4294967296) ∧
      DJI_Transaction.Reframed DJI_Transaction.fresh t 25 ∧
      Speed_Set crc g aIn aFlags = some (ZT_OK,
        { g with
          toGimbal := (g.toGimbal.Speed_Set aIn aFlags).2
          sSerial := (g.sSerial + 1) % 4294967296
          mTr_Next := some (.Object
            { t with
              mCode := MSG_RELEASE
              mReceiver := true
              mResult := ZT_RESULT_INVALID
              mRxTimeout_tick := 100 }) }) := by
  set g1 : DJI_Gimbal := { g with toGimbal := (g.toGimbal.Speed_Set aIn aFlags).2 } with hg1
  have hc : g1.State_Check = some (ZT_OK, g1) := State_Check_active g1 hstate
  obtain ⟨t, ht, hshape⟩ := DJI_Transaction.Frame_Init_SPEED_SET_shape crc g1.sSerial
    DJI_Transaction.fresh g1.mSpeed
  refine ⟨t, ht, hshape, ?_⟩
  unfold Speed_Set
  simp only [hv, if_true, ← hg1, hc, ht, Option.map_some']
  rw [Tr_Queue_idle g t 25 hshape hnext]
  · rfl
  · rfl

/-- C9 (as stated, refuted). On the idle example engine `Position_Set(A)` followed by
`Position_Set(B)` both return `ZT_OK`, yet the pending slot holds the frame of A after the
first call and still the frame of A after the second (the frame of B, third line, is never
queued), and the worker tick that follows transmits the frame of A. -/
theorem Queue_supersede_refuted :
    (Position_Set Example.crc Example.engine_active Example.position_A 0 0).map
      (fun r => (r.1, r.2.mTr_Next.map (fun p => (r.2.Tr_Deref p).mTxFrame.bytes))) =
      some (ZT_OK, some [170, 26, 0, 0, 0, 0, 0, 0, 1, 0, 198, 0, 14, 0, 200, 0, 0, 0, 100, 0,
        1, 2, 0, 0, 0, 0, 0, 0]) ∧
    ((Position_Set Example.crc Example.engine_active Example.position_A 0 0).bind
      (fun r => Position_Set Example.crc r.2 Example.position_B 0 0)).map
      (fun r => (r.1, r.2.mTr_Next.map (fun p => (r.2.Tr_Deref p).mTxFrame.bytes))) =
      some (ZT_OK, some [170, 26, 0, 0, 0, 0, 0, 0, 1, 0, 198, 0, 14, 0, 200, 0, 0, 0, 100, 0,
        1, 2, 0, 0, 0, 0, 0, 0]) ∧
    (DJI_Transaction.fresh.Frame_Init_POSITION_SET Example.crc 1 Example.position_B 0 200).map
      (fun r => r.1.mTxFrame.bytes) =
      some [170, 26, 0, 0, 0, 0, 0, 0, 2, 0, 199, 0, 14, 0, 132, 3, 50, 0, 212, 254,
        1, 2, 0, 0, 0, 0, 0, 0] ∧
    (((Position_Set Example.crc Example.engine_active Example.position_A 0 0).bind
      (fun r => Position_Set Example.crc r.2 Example.position_B 0 0)).bind
      (fun r => OnTick Example.crc r.2)).map
      (fun g => g.mDevice.mSent.map EthCAN_Frame.payload) =
      some [[170, 26, 0, 0, 0, 0, 0, 0], [1, 0, 198, 0, 14, 0, 200, 0], [0, 0, 100, 0, 1, 2],
        [80, 183, 56, 218]] := by
  decide!

/-- C9 (amended). Engine ACTIVATED, pending slot empty, link accepting every send.
If `Position_Set(A)` is called and then `Position_Set(B)` before the worker promotes A
(both accepted by the base class and in `Move_In_Range` for the engine before the two
calls), both calls return `ZT_OK`, the pending slot holds after each call the
transaction with the POSITION_SET frame built for A (the transaction of B is dropped),
and the next worker tick seals and sends that frame of A and nothing else, leaving both
slots empty. The same holds for two `Speed_Set` calls. -/
theorem Queue_keeps_older (crc : DJI_CRC) (g : DJI_Gimbal)
    (aA aB : Position) (aFlags_A aDuration_A aFlags_B aDuration_B : Nat)
    (aSA aSB : Speed) (aSFlags_A aSFlags_B : Nat)
    (hstate : g.mState = STATE_ACTIVATED) (hnext : g.mTr_Next = none)
    (hs : g.mDevice.SendsSucceed)
    (hoff : g.mRxOffset_byte ≤ RX_BUFFER_SIZE) (hsize : g.mRxSize_byte ≤ RX_BUFFER_SIZE)
    (hA : g.Position_Set_Valid aA aFlags_A aDuration_A)
    (hB : g.Position_Set_Valid aB aFlags_B aDuration_B)
    (hSA : g.Speed_Set_Valid aSA aSFlags_A)
    (hSB : g.Speed_Set_Valid aSB aSFlags_B) :
    (∃ (gA gB g' : DJI_Gimbal) (tA trA : DJI_Transaction) (lSerial : Nat)
        (lSealed : DJI_Frame) (ps : List EthCAN_Frame),
      Position_Set crc g aA aFlags_A aDuration_A = some (ZT_OK, gA) ∧
      DJI_Transaction.fresh.Frame_Init_POSITION_SET crc g.sSerial aA aFlags_A
        gA.mMoveDuration_ms = some (tA, lSerial) ∧
      gA.mTr_Next = some (.Object trA) ∧ trA.mTxFrame = tA.mTxFrame ∧
      Position_Set crc gA aB aFlags_B aDuration_B = some (ZT_OK, gB) ∧
      gB.mTr_Next = some (.Object trA) ∧
      gB.mDevice = g.mDevice ∧
      trA.mTxFrame.Seal crc = some lSealed ∧
      OnTick crc gB = some g' ∧
      g'.mDevice.mSent = g.mDevice.mSent ++ ps ∧
      (ps.map EthCAN_Frame.payload).flatten = lSealed.bytes.take 26 ∧
      g'.mTr_Current = none ∧ g'.mTr_Next = none) ∧
    (∃ (gA gB g' : DJI_Gimbal) (tA trA : DJI_Transaction) (lSerial : Nat)
        (lSealed : DJI_Frame) (ps : List EthCAN_Frame),
      Speed_Set crc g aSA aSFlags_A = some (ZT_OK, gA) ∧
      DJI_Transaction.fresh.Frame_Init_SPEED_SET crc g.sSerial gA.mSpeed = some (tA, lSerial) ∧
      gA.mTr_Next = some (.Object trA) ∧ trA.mTxFrame = tA.mTxFrame ∧
      Speed_Set crc gA aSB aSFlags_B = some (ZT_OK, gB) ∧
      gB.mTr_Next = some (.Object trA) ∧
      gB.mDevice = g.mDevice ∧
      trA.mTxFrame.Seal crc = some lSealed ∧
      OnTick crc gB = some g' ∧
      g'.mDevice.mSent = g.mDevice.mSent ++ ps ∧
      (ps.map EthCAN_Frame.payload).flatten = lSealed.bytes.take 25 ∧
      g'.mTr_Current = none ∧ g'.mTr_Next = none) := by
  constructor
  · obtain ⟨hvA, hrA⟩ := hA
    obtain ⟨dA, hdA⟩ := CalculateMoveDuration_some g aA aFlags_A aDuration_A hvA hrA
    obtain ⟨tA, hframe, hshape, hcallA⟩ := Position_Set_idle crc g aA aFlags_A aDuration_A dA
      (Or.inl hstate) hnext hvA hdA
    obtain ⟨k1, k2, k3⟩ := Gimbal.Position_Set_keeps g.toGimbal aA aFlags_A aDuration_A
    obtain ⟨gA, hcallA, hAstate, hAnext, hAdev, hAoff, hAsize, hAdur, hAser, hAcfg, hAcount,
        hAcur⟩ :
        ∃ gA : DJI_Gimbal, Position_Set crc g aA aFlags_A aDuration_A = some (ZT_OK, gA) ∧
          gA.mState = g.mState ∧
          gA.mTr_Next = some (.Object
            { tA with
              mCode := MSG_RELEASE
              mReceiver := true
              mResult := ZT_RESULT_INVALID
              mRxTimeout_tick := 100 }) ∧
          gA.mDevice = g.mDevice ∧ gA.mRxOffset_byte = g.mRxOffset_byte ∧
          gA.mRxSize_byte = g.mRxSize_byte ∧
          gA.mMoveDuration_ms = (if aDuration_A > dA then aDuration_A else dA) ∧
          gA.sSerial = (g.sSerial + 1) % 4294967296 ∧
          gA.mConfig = g.mConfig ∧ gA.mPosition_Count = g.mPosition_Count ∧
          gA.mPosition_Current = g.mPosition_Current :=
      ⟨_, hcallA, rfl, rfl, rfl, rfl, rfl, rfl, rfl, k1, k2, k3⟩
    obtain ⟨hvB, hrB⟩ := Position_Set_Valid_congr g gA aB aFlags_B aDuration_B aDuration_B
      hAcfg hAcount hAcur hB
    obtain ⟨dB, hdB⟩ := CalculateMoveDuration_some gA aB aFlags_B aDuration_B hvB hrB
    have hcallB := Position_Set_busy crc gA aB aFlags_B aDuration_B dB
      (Or.inl (by rw [hAstate]; exact hstate)) (by rw [hAnext]; simp) hvB hdB
    obtain ⟨gB, hcallB, hBstate, hBnext, hBdev, hBoff, hBsize⟩ :
        ∃ gB : DJI_Gimbal, Position_Set crc gA aB aFlags_B aDuration_B = some (ZT_OK, gB) ∧
          gB.mState = gA.mState ∧ gB.mTr_Next = gA.mTr_Next ∧ gB.mDevice = gA.mDevice ∧
          gB.mRxOffset_byte = gA.mRxOffset_byte ∧ gB.mRxSize_byte = gA.mRxSize_byte :=
      ⟨_, hcallB, rfl, rfl, rfl, rfl, rfl⟩
    obtain ⟨lSealed, d, ps, hseal, htick, hsent, -, hcat⟩ := OnTick_promote crc gB
      { tA with
        mCode := MSG_RELEASE
        mReceiver := true
        mResult := ZT_RESULT_INVALID
        mRxTimeout_tick := 100 } 26
      (by rw [hBstate, hAstate]; exact hstate) (by rw [hBnext, hAnext]) rfl rfl rfl
      (by rw [hshape.2]; rfl) hshape.1 (by omega) (by omega)
      (by rw [hBdev, hAdev]; exact hs) (by rw [hBoff, hAoff]; exact hoff)
      (by rw [hBsize, hAsize]; exact hsize)
    refine ⟨gA, gB, _, tA, _, (g.sSerial + 1) % 4294967296, lSealed, ps, hcallA, ?_, hAnext,
      rfl, hcallB, ?_, ?_, hseal,
      htick, ?_, hcat, rfl, rfl⟩
    · rw [hAdur]; exact hframe
    · rw [hBnext, hAnext]
    · rw [hBdev, hAdev]
    · simp only [hsent, hBdev, hAdev]
  · obtain ⟨tA, hframe, hshape, hcallA⟩ := Speed_Set_idle crc g aSA aSFlags_A
      (Or.inl hstate) hnext hSA
    have k1 := Gimbal.Speed_Set_keeps g.toGimbal aSA aSFlags_A
    obtain ⟨gA, hcallA, hAstate, hAnext, hAdev, hAoff, hAsize, hAspeed, hAser, hAinfo⟩ :
        ∃ gA : DJI_Gimbal, Speed_Set crc g aSA aSFlags_A = some (ZT_OK, gA) ∧
          gA.mState = g.mState ∧
          gA.mTr_Next = some (.Object
            { tA with
              mCode := MSG_RELEASE
              mReceiver := true
              mResult := ZT_RESULT_INVALID
              mRxTimeout_tick := 100 }) ∧
          gA.mDevice = g.mDevice ∧ gA.mRxOffset_byte = g.mRxOffset_byte ∧
          gA.mRxSize_byte = g.mRxSize_byte ∧
          gA.mSpeed = (g.toGimbal.Speed_Set aSA aSFlags_A).2.mSpeed ∧
          gA.sSerial = (g.sSerial + 1) % 4294967296 ∧
          gA.mInfo = g.mInfo :=
      ⟨_, hcallA, rfl, rfl, rfl, rfl, rfl, rfl, rfl, k1⟩
    have hvB := Speed_Set_Valid_congr g gA aSB aSFlags_B hAinfo hSB
    have hcallB := Speed_Set_busy crc gA aSB aSFlags_B
      (Or.inl (by rw [hAstate]; exact hstate)) (by rw [hAnext]; simp) hvB
    obtain ⟨gB, hcallB, hBstate, hBnext, hBdev, hBoff, hBsize⟩ :
        ∃ gB : DJI_Gimbal, Speed_Set crc gA aSB aSFlags_B = some (ZT_OK, gB) ∧
          gB.mState = gA.mState ∧ gB.mTr_Next = gA.mTr_Next ∧ gB.mDevice = gA.mDevice ∧
          gB.mRxOffset_byte = gA.mRxOffset_byte ∧ gB.mRxSize_byte = gA.mRxSize_byte :=
      ⟨_, hcallB, rfl, rfl, rfl, rfl, rfl⟩
    obtain ⟨lSealed, d, ps, hseal, htick, hsent, -, hcat⟩ := OnTick_promote crc gB
      { tA with
        mCode := MSG_RELEASE
        mReceiver := true
        mResult := ZT_RESULT_INVALID
        mRxTimeout_tick := 100 } 25
      (by rw [hBstate, hAstate]; exact hstate) (by rw [hBnext, hAnext]) rfl rfl rfl
      (by rw [hshape.2]; rfl) hshape.1 (by omega) (by omega)
      (by rw [hBdev, hAdev]; exact hs) (by rw [hBoff, hAoff]; exact hoff)
      (by rw [hBsize, hAsize]; exact hsize)
    refine ⟨gA, gB, _, tA, _, (g.sSerial + 1) % 4294967296, lSealed, ps, hcallA, ?_, hAnext,
      rfl, hcallB, ?_, ?_, hseal,
      htick, ?_, hcat, rfl, rfl⟩
    · rw [hAspeed]; exact hframe
    · rw [hBnext, hAnext]
    · rw [hBdev, hAdev]
    · simp only [hsent, hBdev, hAdev]

/-- Witness of C9 (amended): two position commands on the idle example engine. -/
theorem Queue_keeps_older_witness :
    ∃ gA gB g' : DJI_Gimbal,
      Position_Set Example.crc Example.engine_active Example.position_A 0 0 = some (ZT_OK, gA) ∧
      Position_Set Example.crc gA Example.position_B 0 0 = some (ZT_OK, gB) ∧
      gB.mTr_Next = gA.mTr_Next ∧
      OnTick Example.crc gB = some g' ∧ g'.mTr_Next = none := by
  obtain ⟨⟨gA, gB, g', _, _, _, _, _, hA, _, hAn, _, hB, hBn, _, _, ht, _, _, _, hn⟩, _⟩ :=
    Queue_keeps_older Example.crc Example.engine_active Example.position_A
      Example.position_B 0 0 0 0 Example.speed_A Example.speed_B 0 0
      (by decide) (by decide) (by decide) (by decide) (by decide) (by decide!)
      (by decide!) (by decide!) (by decide!)
  exact ⟨gA, gB, g', hA, hB, by rw [hBn, hAn], ht, hn⟩

end DJI_Gimbal

namespace Gimbal

open State

theorem Position_Copy_get (aOut aIn : Position) (aFlags : Nat) (a : Axis)
    (h : Axis_Controlled aFlags a = true) :
    (Position_Copy aOut aIn aFlags).mAxis_deg.get a = aIn.mAxis_deg.get a := by
  simp only [Position_Copy, FOR_EACH_AXIS, List.foldl]
  cases a <;> split_ifs <;> simp_all [PerAxis.get, PerAxis.set]

theorem Speed_Copy_get (aOut aIn : Speed) (aFlags : Nat) (a : Axis)
    (h : Axis_Controlled aFlags a = true) :
    (Speed_Copy aOut aIn aFlags).mAxis_deg_s.get a = aIn.mAxis_deg_s.get a := by
  simp only [Speed_Copy, FOR_EACH_AXIS, List.foldl]
  cases a <;> split_ifs <;> simp_all [PerAxis.get, PerAxis.set]

theorem Axis_Controlled_land (x y : Nat) (a : Axis) (h : Axis_Controlled y a = true) :
    Axis_Controlled (x &&& y) a = true := by
  simp only [Axis_Controlled, decide_eq_true_eq] at *
  rw [Nat.land_assoc, h]
  simp

/-- What an accepted `Gimbal::Position_Set` stores. -/
theorem Position_Set_stores (g : Gimbal) (aIn : Position) (aFlags aDuration_ms : Nat)
    (hv : (g.Position_Set aIn aFlags aDuration_ms).1 = ZT_OK) :
    (g.Position_Set aIn aFlags aDuration_ms).2.mPosition_State = STATE_MOVING ∧
    (g.Position_Set aIn aFlags aDuration_ms).2.mConfig = g.mConfig ∧
    ∀ a, Axis_Controlled aFlags a = true →
      (g.Position_Set aIn aFlags aDuration_ms).2.mPosition_Target.mAxis_deg.get a =
        aIn.mAxis_deg.get a + (g.mConfig.mAxis.get a).mOffset_deg ∧
      Axis_Controlled (g.Position_Set aIn aFlags aDuration_ms).2.mPosition_Flags a = true := by
  unfold Position_Set at hv ⊢
  simp only at hv ⊢
  split_ifs at hv ⊢ with h
  · refine ⟨rfl, rfl, ?_⟩
    intro a ha
    refine ⟨?_, Axis_Controlled_land _ _ a ha⟩
    simp only
    rw [Position_Copy_get _ _ _ a ha]
    simp only [FOR_EACH_AXIS, List.foldl]
    cases a <;> split_ifs <;> simp_all [PerAxis.get, PerAxis.set]
  · exact absurd hv h

/-- What an accepted `Gimbal::Speed_Set` stores. -/
theorem Speed_Set_stores (g : Gimbal) (aIn : Speed) (aFlags : Nat)
    (hv : (g.Speed_Set aIn aFlags).1 = ZT_OK) :
    (∀ a, Axis_Controlled aFlags a = true →
      (g.Speed_Set aIn aFlags).2.mSpeed.mAxis_deg_s.get a = aIn.mAxis_deg_s.get a) ∧
    ((∃ a, (g.Speed_Set aIn aFlags).2.mSpeed.mAxis_deg_s.get a ≠ 0) →
      (g.Speed_Set aIn aFlags).2.mPosition_State = STATE_SPEED) ∧
    ((∀ a, (g.Speed_Set aIn aFlags).2.mSpeed.mAxis_deg_s.get a = 0) →
      (g.Speed_Set aIn aFlags).2.mPosition_State = STATE_KNOWN) := by
  unfold Speed_Set at hv ⊢
  simp only at hv ⊢
  split_ifs at hv ⊢ with h
  · refine ⟨fun a ha => Speed_Copy_get _ _ _ a ha, ?_, ?_⟩
    · rintro ⟨a, ha⟩
      simp only [FOR_EACH_AXIS, List.foldl] at ha ⊢
      cases a <;> split_ifs <;> simp_all [PerAxis.get]
    · intro hz
      have hp := hz .AXIS_PITCH
      have hr := hz .AXIS_ROLL
      have hy := hz .AXIS_YAW
      simp only [PerAxis.get] at hp hr hy
      simp only [FOR_EACH_AXIS, List.foldl, PerAxis.get, hp, hr, hy]
      simp
  · exact absurd hv h

end Gimbal

namespace DJI_Gimbal

open State

/-- `Tick_Speed_Z0` while the model is MOVING: the POSITION_SET frame built from the
stored target, flags and duration is sealed and sent. -/
theorem Tick_Speed_Z0_moving (crc : DJI_CRC) (g : DJI_Gimbal)
    (hm : g.mPosition_State = Gimbal.State.STATE_MOVING) (hs : g.mDevice.SendsSucceed) :
    ∃ (t : DJI_Transaction) (lSealed : DJI_Frame) (d : EthCAN_Device) (ps : List EthCAN_Frame),
      DJI_Transaction.fresh.Frame_Init_POSITION_SET crc g.sSerial g.mPosition_Target
        g.mPosition_Flags g.mMoveDuration_ms = some (t, (g.sSerial + 1) % 4294967296) ∧
      t.mTxFrame.Seal crc = some lSealed ∧
      Tick_Speed_Z0 crc g =
        some { g with sSerial := (g.sSerial + 1) % 4294967296, mDevice := d } ∧
      d.mSent = g.mDevice.mSent ++ ps ∧
      (ps.map EthCAN_Frame.payload).flatten = lSealed.bytes.take 26 := by
  obtain ⟨t, ht, hshape⟩ := DJI_Transaction.Frame_Init_POSITION_SET_shape crc g.sSerial
    DJI_Transaction.fresh g.mPosition_Target g.mPosition_Flags g.mMoveDuration_ms
  obtain ⟨lSealed, d, ps, hseal, hsend, hsent, -, -, -, hcat⟩ := Frame_Send_Z0_frames crc
    { g with sSerial := (g.sSerial + 1) % 4294967296 } t.mTxFrame hshape.1.1
    (by rw [hshape.1.2]; omega) (by rw [hshape.1.2]; omega) hs
  refine ⟨t, lSealed, d, ps, ht, hseal, ?_, hsent, ?_⟩
  · unfold Tick_Speed_Z0
    simp only [Gimbal.Position_State_Get, hm, ht, DJI_Transaction.Frame_Get, hsend,
      Option.map_some']
  · rw [hcat, hshape.1.2]

/-- `Tick_Speed_Z0` while the model is in SPEED: the SPEED_SET frame built from the
stored speed is sealed and sent. -/
theorem Tick_Speed_Z0_speed (crc : DJI_CRC) (g : DJI_Gimbal)
    (hm : g.mPosition_State = Gimbal.State.STATE_SPEED) (hs : g.mDevice.SendsSucceed) :
    ∃ (t : DJI_Transaction) (lSealed : DJI_Frame) (d : EthCAN_Device) (ps : List EthCAN_Frame),
      DJI_Transaction.fresh.Frame_Init_SPEED_SET crc g.sSerial g.mSpeed =
        some (t, (g.sSerial + 1) % 4294967296) ∧
      t.mTxFrame.Seal crc = some lSealed ∧
      Tick_Speed_Z0 crc g =
        some { g with sSerial := (g.sSerial + 1) % 4294967296, mDevice := d } ∧
      d.mSent = g.mDevice.mSent ++ ps ∧
      (ps.map EthCAN_Frame.payload).flatten = lSealed.bytes.take 25 := by
  obtain ⟨t, ht, hshape⟩ := DJI_Transaction.Frame_Init_SPEED_SET_shape crc g.sSerial
    DJI_Transaction.fresh g.mSpeed
  obtain ⟨lSealed, d, ps, hseal, hsend, hsent, -, -, -, hcat⟩ := Frame_Send_Z0_frames crc
    { g with sSerial := (g.sSerial + 1) % 4294967296 } t.mTxFrame hshape.1.1
    (by rw [hshape.1.2]; omega) (by rw [hshape.1.2]; omega) hs
  refine ⟨t, lSealed, d, ps, ht, hseal, ?_, hsent, ?_⟩
  · unfold Tick_Speed_Z0
    simp only [Gimbal.Position_State_Get, hm, ht, DJI_Transaction.Frame_Get, hsend,
      Option.map_some']
  · rw [hcat, hshape.1.2]

/-- `Tick_Speed_Z0` while the model is KNOWN sends nothing and changes nothing. -/
theorem Tick_Speed_Z0_known (crc : DJI_CRC) (g : DJI_Gimbal)
    (hm : g.mPosition_State = Gimbal.State.STATE_KNOWN) :
    Tick_Speed_Z0 crc g = some g := by
  unfold Tick_Speed_Z0
  simp only [Gimbal.Position_State_Get, hm]

/-- C10 (as stated, refuted). On the example engine with its pending slot occupied, a
`Speed_Set` of the zero speed returns `ZT_OK` and leaves the model in KNOWN, not SPEED,
and the refresh tick `Tick_Speed_Z0` sends nothing; and with a pitch offset of 5 degrees
configured, `Position_Set` of pitch 10 returns `ZT_OK` with the stored pitch target 15,
and the refresh tick sends a frame that encodes 150 (bytes 18, 19) where the frame of the
command encodes 100. -/
theorem Dropped_motion_refuted :
    (Speed_Set Example.crc Example.engine_busy Gimbal.SPEED_STOPPED 0).map
      (fun r => (r.1, r.2.mPosition_State,
        (Tick_Speed_Z0 Example.crc r.2).map (fun g => g.mDevice.mSent))) =
      some (ZT_OK, Gimbal.State.STATE_KNOWN, some []) ∧
    (Position_Set Example.crc Example.engine_busy_offset Example.position_A 0 0).map
      (fun r => (r.1, r.2.mPosition_Target.mAxis_deg.pitch,
        (Tick_Speed_Z0 Example.crc r.2).map
          (fun g => g.mDevice.mSent.map EthCAN_Frame.payload))) =
      some (ZT_OK, 15, some [[170, 26, 0, 0, 0, 0, 0, 0], [2, 0, 199, 0, 14, 0, 200, 0],
        [0, 0, 150, 0, 1, 2], [44, 9, 57, 14]]) ∧
    (DJI_Transaction.fresh.Frame_Init_POSITION_SET Example.crc 1 Example.position_A 0 200).map
      (fun r => r.1.mTxFrame.bytes.take 22) =
      some [170, 26, 0, 0, 0, 0, 0, 0, 2, 0, 199, 0, 14, 0, 200, 0, 0, 0, 100, 0, 1, 2] := by
  decide!

/-- C10 (amended). Engine in ACTIVATED or TRANSACTION, pending slot occupied, link
accepting every send. A `Position_Set` that the base class accepts, with its values in
`Move_In_Range`, returns `ZT_OK`, leaves the pending slot
as it was, puts the model in MOVING with, on every controlled axis, target = commanded
angle + configured offset, and the next `Tick_Speed_Z0` seals and sends the POSITION_SET
frame built from the stored target, flags and duration. A `Speed_Set` that the base
class accepts returns `ZT_OK`, leaves the pending slot as it was and stores the
commanded speed on every
controlled axis; if some axis of the stored speed is non-zero the model is in SPEED and
the next `Tick_Speed_Z0` seals and sends the SPEED_SET frame of the stored speed; if
the stored speed is zero on all axes the model is in KNOWN and `Tick_Speed_Z0` sends
nothing. -/
theorem Dropped_motion_refresh (crc : DJI_CRC) (g : DJI_Gimbal)
    (aIn : Position) (aFlags aDuration_ms : Nat) (aSpeed : Speed) (aSpeed_Flags : Nat)
    (hstate : g.mState = STATE_ACTIVATED ∨ g.mState = STATE_TRANSACTION)
    (hnext : g.mTr_Next ≠ none)
    (hs : g.mDevice.SendsSucceed)
    (hP : g.Position_Set_Valid aIn aFlags aDuration_ms)
    (hS : g.Speed_Set_Valid aSpeed aSpeed_Flags) :
    (∃ (gP : DJI_Gimbal) (t : DJI_Transaction) (lSealed : DJI_Frame) (d : EthCAN_Device)
        (ps : List EthCAN_Frame),
      Position_Set crc g aIn aFlags aDuration_ms = some (ZT_OK, gP) ∧
      gP.mTr_Next = g.mTr_Next ∧
      gP.mPosition_State = Gimbal.State.STATE_MOVING ∧
      (∀ a, Axis_Controlled aFlags a = true →
        gP.mPosition_Target.mAxis_deg.get a =
          aIn.mAxis_deg.get a + (g.mConfig.mAxis.get a).mOffset_deg ∧
        Axis_Controlled gP.mPosition_Flags a = true) ∧
      DJI_Transaction.fresh.Frame_Init_POSITION_SET crc gP.sSerial gP.mPosition_Target
        gP.mPosition_Flags gP.mMoveDuration_ms = some (t, (gP.sSerial + 1) % 4294967296) ∧
      t.mTxFrame.Seal crc = some lSealed ∧
      Tick_Speed_Z0 crc gP =
        some { gP with sSerial := (gP.sSerial + 1) % 4294967296, mDevice := d } ∧
      d.mSent = g.mDevice.mSent ++ ps ∧
      (ps.map EthCAN_Frame.payload).flatten = lSealed.bytes.take 26) ∧
    (∃ gS : DJI_Gimbal,
      Speed_Set crc g aSpeed aSpeed_Flags = some (ZT_OK, gS) ∧
      gS.mTr_Next = g.mTr_Next ∧
      (∀ a, Axis_Controlled aSpeed_Flags a = true →
        gS.mSpeed.mAxis_deg_s.get a = aSpeed.mAxis_deg_s.get a) ∧
      ((∃ a, gS.mSpeed.mAxis_deg_s.get a ≠ 0) →
        gS.mPosition_State = Gimbal.State.STATE_SPEED ∧
        ∃ (t : DJI_Transaction) (lSealed : DJI_Frame) (d : EthCAN_Device)
            (ps : List EthCAN_Frame),
          DJI_Transaction.fresh.Frame_Init_SPEED_SET crc gS.sSerial gS.mSpeed =
            some (t, (gS.sSerial + 1) % 4294967296) ∧
          t.mTxFrame.Seal crc = some lSealed ∧
          Tick_Speed_Z0 crc gS =
            some { gS with sSerial := (gS.sSerial + 1) % 4294967296, mDevice := d } ∧
          d.mSent = g.mDevice.mSent ++ ps ∧
          (ps.map EthCAN_Frame.payload).flatten = lSealed.bytes.take 25) ∧
      ((∀ a, gS.mSpeed.mAxis_deg_s.get a = 0) →
        gS.mPosition_State = Gimbal.State.STATE_KNOWN ∧ Tick_Speed_Z0 crc gS = some gS)) := by
  constructor
  · obtain ⟨hv, hr⟩ := hP
    obtain ⟨dur, hd⟩ := CalculateMoveDuration_some g aIn aFlags aDuration_ms hv hr
    have hcall := Position_Set_busy crc g aIn aFlags aDuration_ms dur hstate hnext hv hd
    obtain ⟨hmov, -, htarget⟩ := Gimbal.Position_Set_stores g.toGimbal aIn aFlags aDuration_ms hv
    obtain ⟨gP, hcall, hPnext, hPdev, hPmodel⟩ :
        ∃ gP : DJI_Gimbal, Position_Set crc g aIn aFlags aDuration_ms = some (ZT_OK, gP) ∧
          gP.mTr_Next = g.mTr_Next ∧ gP.mDevice = g.mDevice ∧
          gP.toGimbal = (g.toGimbal.Position_Set aIn aFlags aDuration_ms).2 :=
      ⟨_, hcall, rfl, rfl, rfl⟩
    have hPmov : gP.mPosition_State = Gimbal.State.STATE_MOVING := by
      show gP.toGimbal.mPosition_State = _
      rw [hPmodel]; exact hmov
    obtain ⟨t, lSealed, d, ps, ht, hseal, htick, hsent, hcat⟩ :=
      Tick_Speed_Z0_moving crc gP hPmov (by rw [hPdev]; exact hs)
    refine ⟨gP, t, lSealed, d, ps, hcall, hPnext, hPmov, ?_, ht, hseal, htick, ?_, hcat⟩
    · intro a ha
      have := htarget a ha
      rw [← hPmodel] at this
      exact this
    · rw [hsent, hPdev]
  · have hv : (g.toGimbal.Speed_Set aSpeed aSpeed_Flags).1 = ZT_OK := hS
    have hcall := Speed_Set_busy crc g aSpeed aSpeed_Flags hstate hnext hv
    obtain ⟨hstored, hnz, hz⟩ := Gimbal.Speed_Set_stores g.toGimbal aSpeed aSpeed_Flags hv
    obtain ⟨gS, hcall, hSnext, hSdev, hSmodel⟩ :
        ∃ gS : DJI_Gimbal, Speed_Set crc g aSpeed aSpeed_Flags = some (ZT_OK, gS) ∧
          gS.mTr_Next = g.mTr_Next ∧ gS.mDevice = g.mDevice ∧
          gS.toGimbal = (g.toGimbal.Speed_Set aSpeed aSpeed_Flags).2 :=
      ⟨_, hcall, rfl, rfl, rfl⟩
    rw [← hSmodel] at hstored hnz hz
    refine ⟨gS, hcall, hSnext, hstored, ?_, ?_⟩
    · intro h
      have hsp := hnz h
      obtain ⟨t, lSealed, d, ps, ht, hseal, htick, hsent, hcat⟩ :=
        Tick_Speed_Z0_speed crc gS hsp (by rw [hSdev]; exact hs)
      exact ⟨hsp, t, lSealed, d, ps, ht, hseal, htick, by rw [hsent, hSdev], hcat⟩
    · intro h
      exact ⟨hz h, Tick_Speed_Z0_known crc gS (hz h)⟩

/-- Witness of C10 (amended): a position and a speed command on the example engine with
its pending slot occupied. -/
theorem Dropped_motion_refresh_witness :
    (∃ gP g', Position_Set Example.crc Example.engine_busy Example.position_A 0 0 =
        some (ZT_OK, gP) ∧
      gP.mPosition_State = Gimbal.State.STATE_MOVING ∧
      gP.mPosition_Target.mAxis_deg.get .AXIS_YAW = 20 ∧
      Tick_Speed_Z0 Example.crc gP = some g') ∧
    (∃ gS, Speed_Set Example.crc Example.engine_busy Example.speed_A 0 = some (ZT_OK, gS) ∧
      gS.mSpeed.mAxis_deg_s.get .AXIS_PITCH = 10) := by
  obtain ⟨⟨gP, t, lSealed, d, ps, hP, -, hm, htarget, -, -, htick, -, -⟩,
      ⟨gS, hS, -, hstored, -, -⟩⟩ :=
    Dropped_motion_refresh Example.crc Example.engine_busy Example.position_A 0 0
      Example.speed_A 0 (by decide) (by decide) (by decide) (by decide!) (by decide!)
  refine ⟨⟨gP, _, hP, hm, ?_, htick⟩, ⟨gS, hS, ?_⟩⟩
  · rw [(htarget .AXIS_YAW (by decide)).1]
    decide!
  · rw [hstored .AXIS_PITCH (by decide)]
    rfl

end DJI_Gimbal

theorem memWrite_some {buf src b : List Nat} {off : Nat} (h : memWrite buf off src = some b) :
    b.length = buf.length ∧ ∀ i, i < off → b.getD i 0 = buf.getD i 0 := by
  unfold memWrite at h
  split_ifs at h with hle
  injection h with h
  subst h
  constructor
  · simp only [List.length_append, List.length_take, List.length_drop]; omega
  · intro i hi
    have hi2 : i < (buf.take off).length := by simp [List.length_take]; omega
    simp only [List.getD_eq_getElem?_getD, List.append_assoc]
    rw [List.getElem?_append_left hi2, List.getElem?_take_of_lt hi]

namespace DJI_Gimbal

open State

/-- A successful `Receiver_CopyNewData` when nothing waits to be moved: the bytes below
the receive size are kept. -/
theorem Receiver_CopyNewData_some (g g1 : DJI_Gimbal) (aCF : EthCAN_Frame)
    (hoff : g.mRxOffset_byte = g.mRxSize_byte)
    (h : g.Receiver_CopyNewData aCF = some g1) :
    ∃ b, g1 = { g with
        mRxBuffer := b
        mRxOffset_byte :=
          if 8 ≤ aCF.mDataSize_byte then g.mRxOffset_byte + aCF.mDataSize_byte
          else g.mRxOffset_byte } ∧
      b.length = g.mRxBuffer.length ∧
      ∀ i, i < g.mRxSize_byte → b.getD i 0 = g.mRxBuffer.getD i 0 := by
  unfold Receiver_CopyNewData at h
  split_ifs at h with h1 h2 h3
  simp only [hoff, Nat.sub_self, lt_irrefl, if_false] at h
  rcases hr : memRead aCF.mData 0 aCF.mDataSize_byte with _ | lData
  · rw [hr] at h
    exact absurd h (by simp)
  · rw [hr] at h
    simp only at h
    rcases hw : memWrite g.mRxBuffer g.mRxSize_byte lData with _ | b2
    · rw [hw] at h
      exact absurd h (by simp)
    · rw [hw] at h
      simp only [Option.some.injEq] at h
      obtain ⟨hl, hget⟩ := memWrite_some hw
      refine ⟨b2, ?_, hl, hget⟩
      rw [← h, hoff]

end DJI_Gimbal

theorem ite_eq_some_cases {α : Type} {c : Prop} [Decidable c] {a b : Option α} {x : α}
    (h : (if c then a else b) = some x) : (c ∧ a = some x) ∨ (¬ c ∧ b = some x) := by
  by_cases hc : c
  · rw [if_pos hc] at h; exact Or.inl ⟨hc, h⟩
  · rw [if_neg hc] at h; exact Or.inr ⟨hc, h⟩

namespace DJI_Gimbal

open State

theorem Receiver_Validate_Error_some (g g2 : DJI_Gimbal) (r ret : Result)
    (h : g.Receiver_Validate_Error r = some (ret, g2)) :
    ret = r ∧ g2 = { g with mRxOffset_byte := 0, mRxSize_byte := 0 } := by
  unfold Receiver_Validate_Error Receiver_Reset at h
  split_ifs at h
  all_goals simp at h
  exact ⟨h.1.symm, h.2.symm⟩

/-- A returning `Receiver_Validate_Z0` either reset the receive buffer or accepted the
bytes up to `aTo_byte`; in the second case the command id was compared when byte 13
was among the new bytes. -/
theorem Receiver_Validate_Z0_some (g g2 : DJI_Gimbal) (aTo_byte : Nat) (ret : Result)
    (lTr : DJI_Transaction) (hcur : g.Tr_Current = some lTr)
    (h : g.Receiver_Validate_Z0 aTo_byte = some (ret, g2)) :
    g2 = { g with mRxOffset_byte := 0, mRxSize_byte := 0 } ∨
    (ret = ZT_OK ∧ g2 = { g with mRxSize_byte := aTo_byte } ∧
      (g.mRxSize_byte < 14 → 14 ≤ aTo_byte →
        lTr.mTxFrame.mData DJI_DATA_CMD_ID = g.mReply.mData DJI_DATA_CMD_ID)) := by
  unfold Receiver_Validate_Z0 at h
  rw [hcur] at h
  simp only at h
  rcases ite_eq_some_cases h with ⟨_, h⟩ | ⟨_, h⟩
  · exact absurd h (by simp)
  rcases ite_eq_some_cases h with ⟨_, h⟩ | ⟨_, h⟩
  · exact absurd h (by simp)
  rcases ite_eq_some_cases h with ⟨_, h⟩ | ⟨_, h⟩
  · exact Or.inl (Receiver_Validate_Error_some _ _ _ _ h).2
  rcases ite_eq_some_cases h with ⟨_, h⟩ | ⟨_, h⟩
  · exact Or.inl (Receiver_Validate_Error_some _ _ _ _ h).2
  rcases ite_eq_some_cases h with ⟨_, h⟩ | ⟨_, h⟩
  · exact Or.inl (Receiver_Validate_Error_some _ _ _ _ h).2
  rcases ite_eq_some_cases h with ⟨_, h⟩ | ⟨_, h⟩
  · exact Or.inl (Receiver_Validate_Error_some _ _ _ _ h).2
  rcases ite_eq_some_cases h with ⟨_, h⟩ | ⟨_, h⟩
  · exact Or.inl (Receiver_Validate_Error_some _ _ _ _ h).2
  rcases ite_eq_some_cases h with ⟨_, h⟩ | ⟨_, h⟩
  · exact Or.inl (Receiver_Validate_Error_some _ _ _ _ h).2
  rcases ite_eq_some_cases h with ⟨_, h⟩ | ⟨_, h⟩
  · exact Or.inl (Receiver_Validate_Error_some _ _ _ _ h).2
  rcases ite_eq_some_cases h with ⟨_, h⟩ | ⟨c8, h⟩
  · simp only [DJI_Transaction.Frame_Data_Get, DJI_DATA_CMD_ID] at h
    exact Or.inl (Receiver_Validate_Error_some _ _ _ _ h).2
  rcases ite_eq_some_cases h with ⟨_, h⟩ | ⟨_, h⟩
  · exact Or.inl (Receiver_Validate_Error_some _ _ _ _ h).2
  right
  simp only [Option.some.injEq, Prod.mk.injEq] at h
  refine ⟨h.1.symm, h.2.symm, ?_⟩
  intro hlt hle
  by_contra hne
  apply c8
  refine ⟨by simp; omega, ?_⟩
  simp only [DJI_Transaction.Frame_Data_Get, DJI_DATA_CMD_ID]
  simpa [DJI_DATA_CMD_ID] using hne

theorem mReply_cmd_id (g : DJI_Gimbal) :
    g.mReply.mData DJI_DATA_CMD_ID = g.mRxBuffer.getD 13 0 := rfl

/-- One reception up to the call of `Complete`, from a state in which nothing waits to
be moved: the check of the command id is kept, and a completion with `ZT_OK` finds
the command id of the request in the reply. -/
theorem Receiver_Step_checked (g g2 : DJI_Gimbal) (aCF : EthCAN_Frame) (r : Option Result)
    (hI : g.Rx_Checked) (hoff : g.mRxOffset_byte = g.mRxSize_byte)
    (h : g.Receiver_Step aCF = some (g2, r)) :
    g2.Rx_Checked ∧ g2.Tr_Current = g.Tr_Current ∧
    (aCF.mDataSize_byte = 8 → g2.mRxOffset_byte = g2.mRxSize_byte) ∧
    (r = some ZT_OK → ∃ tr, g2.Tr_Current = some tr ∧
      tr.mTxFrame.mData DJI_DATA_CMD_ID = g2.mReply.mData DJI_DATA_CMD_ID) := by
  unfold Receiver_Step at h
  rcases ite_eq_some_cases h with ⟨_, h⟩ | ⟨_, h⟩
  · exact absurd h (by simp)
  rcases ite_eq_some_cases h with ⟨_, h⟩ | ⟨_, h⟩
  · exact absurd h (by simp)
  rcases ite_eq_some_cases h with ⟨_, h⟩ | ⟨hcur, h⟩
  · simp only [Option.some.injEq, Prod.mk.injEq] at h
    obtain ⟨rfl, rfl⟩ := h
    exact ⟨hI, rfl, fun _ => hoff, fun hr => absurd hr (by simp)⟩
  simp only at h
  have hne : g.mTr_Current ≠ none := fun hn => hcur (Or.inr hn)
  obtain ⟨p, hp⟩ := Option.ne_none_iff_exists'.1 hne
  have hcur0 : g.Tr_Current = some (g.Tr_Deref p) := by simp [Tr_Current, hp]
  obtain ⟨hlen, hE, hid⟩ : g.mRxBuffer.length = RX_BUFFER_SIZE ∧
      14 ≤ (g.Tr_Deref p).mRxExpected_byte ∧ (14 ≤ g.mRxSize_byte →
      (g.Tr_Deref p).mTxFrame.mData DJI_DATA_CMD_ID = g.mReply.mData DJI_DATA_CMD_ID) :=
    ⟨hI.1, (hI.2 _ hcur0).1, (hI.2 _ hcur0).2⟩
  -- every engine that keeps the transaction and has an empty buffer is fine
  have hreset : ∀ (gx : DJI_Gimbal), gx.mRxBuffer.length = RX_BUFFER_SIZE →
      gx.Tr_Current = g.Tr_Current → gx.mRxSize_byte = 0 → gx.Rx_Checked := by
    intro gx hl hc hz
    refine ⟨hl, ?_⟩
    intro tr htr
    rw [hc, hcur0] at htr
    injection htr with htr
    subst htr
    exact ⟨hE, fun h14 => absurd h14 (by omega)⟩
  rcases ite_eq_some_cases h with ⟨_, h⟩ | ⟨_, h⟩
  · unfold Receiver_Reset at h
    rcases Option.map_eq_some'.1 h with ⟨g1, h1, h2⟩
    rcases ite_eq_some_cases h1 with ⟨_, h1⟩ | ⟨_, h1⟩
    · exact absurd h1 (by simp)
    rcases ite_eq_some_cases h1 with ⟨_, h1⟩ | ⟨_, h1⟩
    · exact absurd h1 (by simp)
    simp only [Option.some.injEq] at h1
    simp only [Prod.mk.injEq] at h2
    obtain ⟨rfl, rfl⟩ := h2
    subst h1
    exact ⟨hreset _ hlen rfl rfl, rfl, fun _ => rfl, fun hr => absurd hr (by simp)⟩
  rcases hc : g.Receiver_CopyNewData aCF with _ | g1
  · rw [hc] at h
    exact absurd h (by simp)
  rw [hc] at h
  simp only at h
  obtain ⟨b, hg1, hbl, hbget⟩ := Receiver_CopyNewData_some g g1 aCF hoff hc
  have hcur1 : g1.Tr_Current = some (g.Tr_Deref p) := by rw [hg1]; exact hcur0
  rcases hv : g1.Receiver_Validate_Z0 (g.mRxSize_byte + aCF.mDataSize_byte) with _ | ⟨lRet, gv⟩
  · rw [hv] at h
    exact absurd h (by simp)
  rw [hv] at h
  simp only at h
  rcases Receiver_Validate_Z0_some g1 gv _ lRet _ hcur1 hv with hgv | ⟨hret, hgv, hcheck⟩
  · -- the validator reset the buffer
    have hgvcur : gv.Tr_Current = some (g.Tr_Deref p) := by rw [hgv]; exact hcur1
    have hgvsize : gv.mRxSize_byte = 0 := by rw [hgv]
    have hgvoff : gv.mRxOffset_byte = 0 := by rw [hgv]
    have hgvlen : gv.mRxBuffer.length = RX_BUFFER_SIZE := by
      rw [hgv]; show g1.mRxBuffer.length = _; rw [hg1]; show b.length = _; rw [hbl, hlen]
    have hfin : g2 = gv ∧ r ≠ some ZT_OK := by
      rcases ite_eq_some_cases h with ⟨hok, h⟩ | ⟨hok, h⟩
      · rw [hgvcur] at h
        simp only [DJI_Transaction.RxExpected_Get, hgvsize] at h
        rw [if_neg (by omega)] at h
        simp only [Option.some.injEq, Prod.mk.injEq] at h
        exact ⟨h.1.symm, by rw [← h.2]; simp⟩
      · simp only [Option.some.injEq, Prod.mk.injEq] at h
        refine ⟨h.1.symm, ?_⟩
        rw [← h.2]
        intro hr
        injection hr with hr
        exact hok hr.symm
    obtain ⟨rfl, hr⟩ := hfin
    exact ⟨hreset _ hgvlen (by rw [hgvcur, hcur0]) hgvsize, by rw [hgvcur, hcur0],
      fun _ => by rw [hgvoff, hgvsize], fun hr2 => absurd hr2 hr⟩
  · -- the validator accepted the new bytes
    have hgvcur : gv.Tr_Current = some (g.Tr_Deref p) := by rw [hgv]; exact hcur1
    have hgvsize : gv.mRxSize_byte = g.mRxSize_byte + aCF.mDataSize_byte := by rw [hgv]
    have hgvoff : gv.mRxOffset_byte =
        if 8 ≤ aCF.mDataSize_byte then g.mRxOffset_byte + aCF.mDataSize_byte
        else g.mRxOffset_byte := by
      rw [hgv]; show g1.mRxOffset_byte = _; rw [hg1]
    have hgvbuf : gv.mRxBuffer = b := by
      rw [hgv]; show g1.mRxBuffer = _; rw [hg1]
    have hg1size : g1.mRxSize_byte = g.mRxSize_byte := by rw [hg1]
    have hg1buf : g1.mRxBuffer = b := by rw [hg1]
    have hmatch : 14 ≤ g.mRxSize_byte + aCF.mDataSize_byte →
        (g.Tr_Deref p).mTxFrame.mData DJI_DATA_CMD_ID = b.getD 13 0 := by
      intro h14
      by_cases hold : 14 ≤ g.mRxSize_byte
      · rw [hid hold, mReply_cmd_id, hbget 13 (by omega)]
      · have := hcheck (by rw [hg1size]; omega) h14
        rw [this, mReply_cmd_id, hg1buf]
    have hgen : ∀ (gx : DJI_Gimbal), gx.mRxBuffer = gv.mRxBuffer →
        gx.mRxSize_byte = gv.mRxSize_byte → gx.mRxOffset_byte = gv.mRxOffset_byte →
        gx.Tr_Current = gv.Tr_Current →
        gx.Rx_Checked ∧ gx.Tr_Current = g.Tr_Current ∧
        (aCF.mDataSize_byte = 8 → gx.mRxOffset_byte = gx.mRxSize_byte) ∧
        (14 ≤ g.mRxSize_byte + aCF.mDataSize_byte → ∃ tr, gx.Tr_Current = some tr ∧
          tr.mTxFrame.mData DJI_DATA_CMD_ID = gx.mReply.mData DJI_DATA_CMD_ID) := by
      intro gx hb hs ho hc
      refine ⟨⟨by rw [hb, hgvbuf, hbl, hlen], ?_⟩, by rw [hc, hgvcur, hcur0], ?_, ?_⟩
      · intro tr htr
        rw [hc, hgvcur] at htr
        injection htr with htr
        subst htr
        refine ⟨hE, fun h14 => ?_⟩
        rw [hs, hgvsize] at h14
        rw [mReply_cmd_id, hb, hgvbuf]
        exact hmatch h14
      · intro h8
        rw [ho, hs, hgvoff, hgvsize, if_pos (by omega), hoff]
      · intro h14
        exact ⟨_, by rw [hc, hgvcur], by rw [mReply_cmd_id, hb, hgvbuf]; exact hmatch h14⟩
    rw [if_pos hret.symm, hgvcur] at h
    simp only [DJI_Transaction.RxExpected_Get] at h
    rcases ite_eq_some_cases h with ⟨hexp, h⟩ | ⟨hexp, h⟩
    · have h14 : 14 ≤ g.mRxSize_byte + aCF.mDataSize_byte := by
        rw [hgvsize] at hexp; omega
      have hfin : ∃ gx : DJI_Gimbal, g2 = gx ∧ gx.mRxBuffer = gv.mRxBuffer ∧
          gx.mRxSize_byte = gv.mRxSize_byte ∧ gx.mRxOffset_byte = gv.mRxOffset_byte ∧
          gx.Tr_Current = gv.Tr_Current := by
        cases hst : gv.mState <;> rw [hst] at h <;>
          first
          | exact ⟨_, (Prod.mk.inj (Option.some.inj h)).1.symm, rfl, rfl, rfl, rfl⟩
          | exact absurd h (fun hh => Option.noConfusion hh)
      obtain ⟨gx, rfl, hb, hs, ho, hc⟩ := hfin
      obtain ⟨k1, k2, k3, k4⟩ := hgen _ hb hs ho hc
      exact ⟨k1, k2, k3, fun _ => k4 h14⟩
    · simp only [Option.some.injEq, Prod.mk.injEq] at h
      obtain ⟨rfl, rfl⟩ := h
      obtain ⟨k1, k2, k3, -⟩ := hgen _ rfl rfl rfl rfl
      exact ⟨k1, k2, k3, fun hr => absurd hr (by simp)⟩

theorem Tr_Kept_trans {g1 g2 g3 : DJI_Gimbal} (h12 : Tr_Kept g1 g2) (h23 : Tr_Kept g2 g3) :
    Tr_Kept g1 g3 := by
  intro t3 h3
  obtain ⟨t2, h2, e1, e2⟩ := h23 t3 h3
  obtain ⟨t1, h1, e3, e4⟩ := h12 t2 h2
  exact ⟨t1, h1, e1.trans e3, e2.trans e4⟩

theorem Tr_Kept_of_eq {g1 g2 : DJI_Gimbal} (h : g2.Tr_Current = g1.Tr_Current) :
    Tr_Kept g1 g2 := by
  intro t2 h2
  exact ⟨t2, by rw [← h, h2], rfl, rfl⟩

theorem Same_Request_trans {g1 g2 g3 : DJI_Gimbal} (h12 : Same_Request g1 g2)
    (h23 : Same_Request g2 g3) : Same_Request g1 g3 :=
  ⟨h23.1.trans h12.1, h23.2.1.trans h12.2.1, h23.2.2.1.trans h12.2.2.1,
    Tr_Kept_trans h12.2.2.2 h23.2.2.2⟩

theorem Same_Request_of_eq {g1 g2 : DJI_Gimbal} (hb : g2.mRxBuffer = g1.mRxBuffer)
    (ho : g2.mRxOffset_byte = g1.mRxOffset_byte) (hs : g2.mRxSize_byte = g1.mRxSize_byte)
    (hc : g2.Tr_Current = g1.Tr_Current) : Same_Request g1 g2 :=
  ⟨hb, ho, hs, Tr_Kept_of_eq hc⟩

theorem Same_Request_Tr_Complete_Z0 (g : DJI_Gimbal) : Same_Request g g.Tr_Complete_Z0 := by
  unfold Tr_Complete_Z0
  rcases h : g.Tr_Current with _ | tr
  · exact Same_Request_of_eq rfl rfl rfl rfl
  · refine ⟨rfl, rfl, rfl, ?_⟩
    intro t2 h2
    exact absurd h2 (by simp [Tr_Current])

theorem Same_Request_State_Change_Z0 (g : DJI_Gimbal) (aFrom aTo : State) :
    Same_Request g (g.State_Change_Z0 aFrom aTo).2 := by
  unfold State_Change_Z0
  split_ifs
  · exact Same_Request_of_eq rfl rfl rfl rfl
  · exact Same_Request_of_eq rfl rfl rfl rfl

theorem Same_Request_OnSignal_Z0 (g : DJI_Gimbal) : Same_Request g g.OnSignal_Z0 :=
  Same_Request_trans (Same_Request_Tr_Complete_Z0 g) (Same_Request_State_Change_Z0 _ _ _)

theorem Same_Request_Tr_Current_Store (g : DJI_Gimbal) (tr t : DJI_Transaction)
    (hcur : g.Tr_Current = some tr) (hf : t.mTxFrame = tr.mTxFrame)
    (he : t.mRxExpected_byte = tr.mRxExpected_byte) :
    Same_Request g (g.Tr_Current_Store t) ∧ (g.Tr_Current_Store t).Tr_Current = some t := by
  unfold Tr_Current_Store
  rcases hp : g.mTr_Current with _ | p
  · simp [Tr_Current, hp] at hcur
  · have key : ∀ gx : DJI_Gimbal, gx.mRxBuffer = g.mRxBuffer →
        gx.mRxOffset_byte = g.mRxOffset_byte → gx.mRxSize_byte = g.mRxSize_byte →
        gx.Tr_Current = some t → Same_Request g gx ∧ gx.Tr_Current = some t := by
      intro gx hb ho hs hc
      refine ⟨⟨hb, ho, hs, ?_⟩, hc⟩
      intro t2 h2
      rw [hc] at h2
      injection h2 with h2
      subst h2
      exact ⟨tr, hcur, hf, he⟩
    cases p with
    | Position => exact key _ rfl rfl rfl (by simp [Tr_Current, hp, Tr_Deref])
    | Object o => exact key _ rfl rfl rfl (by simp [Tr_Current, Tr_Deref])

theorem Result_Set_some (tr t : DJI_Transaction) (r : Result) (h : tr.Result_Set r = some t) :
    t.mTxFrame = tr.mTxFrame ∧ t.mRxExpected_byte = tr.mRxExpected_byte := by
  unfold DJI_Transaction.Result_Set at h
  split_ifs at h
  injection h with h
  subst h
  exact ⟨rfl, rfl⟩

theorem Complete_some (tr t : DJI_Transaction) (r : Result) (c : Option Nat)
    (h : tr.Complete r = some (t, c)) :
    t.mTxFrame = tr.mTxFrame ∧ t.mRxExpected_byte = tr.mRxExpected_byte := by
  unfold DJI_Transaction.Complete at h
  rcases ite_eq_some_cases h with ⟨_, h⟩ | ⟨_, h⟩
  · exact absurd h (fun hh => Option.noConfusion hh)
  rcases ite_eq_some_cases h with ⟨_, h⟩ | ⟨_, h⟩
  · exact absurd h (fun hh => Option.noConfusion hh)
  simp only [Option.some.injEq, Prod.mk.injEq] at h
  obtain ⟨rfl, -⟩ := h
  exact ⟨rfl, rfl⟩

/-- What `Position_Parse` changes of the engine: nothing, or the gimbal model, which
then holds the decoded position. -/
theorem Position_Parse_cases (g : DJI_Gimbal) (r : Result) (g1 : DJI_Gimbal)
    (h : g.Position_Parse = some (r, g1)) :
    g1 = g ∨ ∃ p : Position, g1 = { g with toGimbal := g.toGimbal.Position_Update p } := by
  unfold Position_Parse at h
  rcases ite_eq_some_cases h with ⟨_, h⟩ | ⟨_, h⟩
  · simp only [Option.some.injEq, Prod.mk.injEq] at h
    exact Or.inl h.2.symm
  obtain ⟨lPitch, -, h⟩ := Option.bind_eq_some.1 h
  obtain ⟨lRoll, -, h⟩ := Option.bind_eq_some.1 h
  obtain ⟨lYaw, -, h⟩ := Option.bind_eq_some.1 h
  simp only at h
  rcases ite_eq_some_cases h with ⟨_, h⟩ | ⟨_, h⟩
  · simp only [Option.some.injEq, Prod.mk.injEq] at h
    exact Or.inr ⟨_, h.2.symm⟩
  · simp only [Option.some.injEq, Prod.mk.injEq] at h
    exact Or.inl h.2.symm

theorem Same_Request_Position_Parse (g : DJI_Gimbal) (r : Result) (g1 : DJI_Gimbal)
    (h : g.Position_Parse = some (r, g1)) : Same_Request g g1 := by
  rcases Position_Parse_cases g r g1 h with rfl | ⟨p, rfl⟩
  · exact Same_Request_of_eq rfl rfl rfl rfl
  · exact Same_Request_of_eq rfl rfl rfl rfl

theorem Same_Request_OnPosition_Parse (g g2 : DJI_Gimbal) (lTr : DJI_Transaction)
    (hcur : g.Tr_Current = some lTr) (h : g.OnPosition_Parse lTr = some g2) :
    Same_Request g g2 := by
  unfold OnPosition_Parse at h
  obtain ⟨⟨r, g1⟩, hp, h⟩ := Option.bind_eq_some.1 h
  simp only at h
  obtain ⟨t, ht, rfl⟩ := Option.map_eq_some'.1 h
  obtain ⟨hf, he⟩ := Result_Set_some _ _ _ ht
  have hpp := Same_Request_Position_Parse g r g1 hp
  have hcur1 : g1.Tr_Current = some lTr := by
    rcases Position_Parse_cases g r g1 hp with rfl | ⟨p, rfl⟩
    · exact hcur
    · exact hcur
  exact Same_Request_trans hpp (Same_Request_Tr_Current_Store _ lTr t hcur1 hf he).1

theorem Same_Request_OnConfig_Z0 (g g2 : DJI_Gimbal) (h : g.OnConfig_Z0 = some g2) :
    Same_Request g g2 := by
  unfold OnConfig_Z0 at h
  rcases hc : g.Tr_Current with _ | lTr
  · rw [hc] at h; exact absurd h (fun hh => Option.noConfusion hh)
  · rw [hc] at h
    simp only [Option.some.injEq] at h
    subst h
    refine Same_Request_trans ?_ (Same_Request_OnSignal_Z0 _)
    split_ifs
    · exact Same_Request_of_eq rfl rfl rfl rfl
    · exact Same_Request_of_eq rfl rfl rfl rfl

theorem Same_Request_OnInfo_Z0 (g g2 : DJI_Gimbal) (h : g.OnInfo_Z0 = some g2) :
    Same_Request g g2 := by
  unfold OnInfo_Z0 at h
  rcases hc : g.Tr_Current with _ | lTr
  · rw [hc] at h; exact absurd h (fun hh => Option.noConfusion hh)
  · rw [hc] at h
    simp only [Option.some.injEq] at h
    subst h
    refine Same_Request_trans ?_ (Same_Request_OnSignal_Z0 _)
    split_ifs
    · exact Same_Request_of_eq rfl rfl rfl rfl
    · exact Same_Request_of_eq rfl rfl rfl rfl

theorem Same_Request_OnConfigStiffness_Z0 (g g2 : DJI_Gimbal)
    (h : g.OnConfigStiffness_Z0 = some g2) : Same_Request g g2 := by
  unfold OnConfigStiffness_Z0 at h
  rcases hc : g.Tr_Current with _ | lTr
  · rw [hc] at h; exact absurd h (fun hh => Option.noConfusion hh)
  · rw [hc] at h
    simp only at h
    rcases ite_eq_some_cases h with ⟨_, h⟩ | ⟨_, h⟩
    · split at h
      · exact absurd h (fun hh => Option.noConfusion hh)
      · obtain ⟨t, ht, rfl⟩ := Option.map_eq_some'.1 h
        obtain ⟨hf, he⟩ := Result_Set_some _ _ _ ht
        refine Same_Request_trans ?_ (Same_Request_OnSignal_Z0 _)
        have hstore := fun (gx : DJI_Gimbal) (hx : gx.Tr_Current = some lTr) =>
          (Same_Request_Tr_Current_Store gx lTr t hx hf he).1
        refine Same_Request_trans (Same_Request_of_eq rfl rfl rfl rfl) (hstore _ ?_)
        exact hc
    · simp only [Option.some.injEq] at h
      subst h
      exact Same_Request_OnSignal_Z0 _

theorem Same_Request_OnPosition_Z0 (g g2 : DJI_Gimbal) (h : g.OnPosition_Z0 = some g2) :
    Same_Request g g2 := by
  unfold OnPosition_Z0 at h
  rcases hc : g.Tr_Current with _ | lTr
  · rw [hc] at h; exact absurd h (fun hh => Option.noConfusion hh)
  · rw [hc] at h
    simp only at h
    rcases ite_eq_some_cases h with ⟨_, h⟩ | ⟨_, h⟩
    · obtain ⟨g1, h1, rfl⟩ := Option.map_eq_some'.1 h
      exact Same_Request_trans (Same_Request_OnPosition_Parse g g1 lTr hc h1)
        (Same_Request_Tr_Complete_Z0 _)
    · simp only [Option.some.injEq] at h
      subst h
      exact Same_Request_Tr_Complete_Z0 _

theorem Same_Request_OnPositionAndSignal_Z0 (g g2 : DJI_Gimbal)
    (h : g.OnPositionAndSignal_Z0 = some g2) : Same_Request g g2 := by
  unfold OnPositionAndSignal_Z0 at h
  rcases hc : g.Tr_Current with _ | lTr
  · rw [hc] at h; exact absurd h (fun hh => Option.noConfusion hh)
  · rw [hc] at h
    simp only at h
    rcases ite_eq_some_cases h with ⟨_, h⟩ | ⟨_, h⟩
    · obtain ⟨g1, h1, rfl⟩ := Option.map_eq_some'.1 h
      exact Same_Request_trans (Same_Request_OnPosition_Parse g g1 lTr hc h1)
        (Same_Request_OnSignal_Z0 _)
    · simp only [Option.some.injEq] at h
      subst h
      exact Same_Request_OnSignal_Z0 _

theorem Same_Request_OnRelease_Z0 (g g2 : DJI_Gimbal) (h : g.OnRelease_Z0 = some g2) :
    Same_Request g g2 := by
  unfold OnRelease_Z0 at h
  rcases hc : g.Tr_Current with _ | lTr
  · rw [hc] at h; exact absurd h (fun hh => Option.noConfusion hh)
  · rw [hc] at h
    simp only at h
    rcases ite_eq_some_cases h with ⟨_, h⟩ | ⟨_, h⟩
    · simp only [Option.some.injEq] at h
      subst h
      exact Same_Request_trans (Same_Request_Tr_Complete_Z0 g)
        (Same_Request_State_Change_Z0 _ _ _)
    · simp only [Option.some.injEq] at h
      subst h
      exact Same_Request_of_eq rfl rfl rfl rfl

/-- The handlers that a completing transaction reaches leave the receive buffer alone
and start no other transaction. -/
theorem Same_Request_ProcessMessage_Tr (g g2 : DJI_Gimbal) (aCode : Nat)
    (h : g.ProcessMessage_Tr aCode = some g2) : Same_Request g g2 := by
  unfold ProcessMessage_Tr at h
  rcases ite_eq_some_cases h with ⟨_, h⟩ | ⟨_, h⟩
  · exact Same_Request_OnConfig_Z0 g g2 h
  rcases ite_eq_some_cases h with ⟨_, h⟩ | ⟨_, h⟩
  · exact Same_Request_OnConfigStiffness_Z0 g g2 h
  rcases ite_eq_some_cases h with ⟨_, h⟩ | ⟨_, h⟩
  · exact Same_Request_OnInfo_Z0 g g2 h
  rcases ite_eq_some_cases h with ⟨_, h⟩ | ⟨_, h⟩
  · exact Same_Request_OnPosition_Z0 g g2 h
  rcases ite_eq_some_cases h with ⟨_, h⟩ | ⟨_, h⟩
  · exact Same_Request_OnPositionAndSignal_Z0 g g2 h
  rcases ite_eq_some_cases h with ⟨_, h⟩ | ⟨_, h⟩
  · exact Same_Request_OnRelease_Z0 g g2 h
  rcases ite_eq_some_cases h with ⟨_, h⟩ | ⟨_, h⟩
  · simp only [Option.some.injEq] at h
    subst h
    exact Same_Request_OnSignal_Z0 g
  rcases ite_eq_some_cases h with ⟨_, h⟩ | ⟨_, h⟩
  · simp only [Option.some.injEq] at h
    subst h
    exact Same_Request_of_eq rfl rfl rfl rfl
  · exact absurd h (fun hh => Option.noConfusion hh)

/-- The call `mTr_Current->Complete(aResult)`. -/
theorem Same_Request_Complete (g g2 : DJI_Gimbal) (aResult : Result)
    (h : g.Tr_Current_Call (fun t => t.Complete aResult) = some g2) : Same_Request g g2 := by
  unfold Tr_Current_Call at h
  rcases hc : g.Tr_Current with _ | lTr
  · rw [hc] at h; exact absurd h (fun hh => Option.noConfusion hh)
  · rw [hc] at h
    simp only at h
    rcases hk : lTr.Complete aResult with _ | ⟨t, c⟩
    · rw [hk] at h; exact absurd h (fun hh => Option.noConfusion hh)
    · rw [hk] at h
      obtain ⟨hf, he⟩ := Complete_some _ _ _ _ hk
      have hst := (Same_Request_Tr_Current_Store g lTr t hc hf he).1
      cases c with
      | none =>
        simp only [Option.some.injEq] at h
        subst h
        exact hst
      | some lCode =>
        simp only at h
        exact Same_Request_trans hst (Same_Request_ProcessMessage_Tr _ _ _ h)

theorem Rx_Checked_of_Same_Request {g1 g2 : DJI_Gimbal} (h : g1.Rx_Checked)
    (hs : Same_Request g1 g2) : g2.Rx_Checked := by
  obtain ⟨hb, -, hsz, hk⟩ := hs
  refine ⟨by rw [hb]; exact h.1, ?_⟩
  intro t2 h2
  obtain ⟨t1, h1, hf, he⟩ := hk t2 h2
  obtain ⟨hE, hid⟩ := h.2 t1 h1
  refine ⟨by rw [he]; exact hE, fun h14 => ?_⟩
  rw [hsz] at h14
  rw [hf, hid h14, mReply_cmd_id, mReply_cmd_id, hb]

/-- One call of `Receiver` with an 8-byte payload keeps the check of the command id. -/
theorem Receiver_checked (g g2 : DJI_Gimbal) (aCF : EthCAN_Frame)
    (hI : g.Rx_Checked) (hoff : g.mRxOffset_byte = g.mRxSize_byte)
    (h8 : aCF.mDataSize_byte = 8) (h : g.Receiver aCF = some g2) :
    g2.Rx_Checked ∧ g2.mRxOffset_byte = g2.mRxSize_byte ∧ Tr_Kept g g2 := by
  unfold Receiver at h
  rcases hs : g.Receiver_Step aCF with _ | ⟨g1, r⟩
  · rw [hs] at h; exact absurd h (fun hh => Option.noConfusion hh)
  · rw [hs] at h
    obtain ⟨k1, k2, k3, -⟩ := Receiver_Step_checked g g1 aCF r hI hoff hs
    cases r with
    | none =>
      simp only [Option.some.injEq] at h
      subst h
      exact ⟨k1, k3 h8, Tr_Kept_of_eq k2⟩
    | some lResult =>
      simp only at h
      have hsame := Same_Request_Complete g1 g2 lResult h
      refine ⟨Rx_Checked_of_Same_Request k1 hsame, ?_,
        Tr_Kept_trans (Tr_Kept_of_eq k2) hsame.2.2.2⟩
      rw [hsame.2.1, hsame.2.2.1]
      exact k3 h8

theorem Receiver_Run_checked :
    ∀ (ps : List EthCAN_Frame) (g g2 : DJI_Gimbal),
      g.Rx_Checked → g.mRxOffset_byte = g.mRxSize_byte →
      (∀ p ∈ ps, p.mDataSize_byte = 8) → g.Receiver_Run ps = some g2 →
      g2.Rx_Checked ∧ g2.mRxOffset_byte = g2.mRxSize_byte ∧ Tr_Kept g g2 := by
  intro ps
  induction ps with
  | nil =>
    intro g g2 hI hoff _ h
    simp only [Receiver_Run, Option.some.injEq] at h
    subst h
    exact ⟨hI, hoff, Tr_Kept_of_eq rfl⟩
  | cons p ps ih =>
    intro g g2 hI hoff h8 h
    simp only [Receiver_Run] at h
    rcases hr : g.Receiver p with _ | g1
    · rw [hr] at h; exact absurd h (fun hh => Option.noConfusion hh)
    · rw [hr] at h
      simp only at h
      obtain ⟨k1, k2, k3⟩ := Receiver_checked g g1 p hI hoff (h8 p (List.mem_cons_self _ _)) hr
      obtain ⟨m1, m2, m3⟩ := ih g1 g2 k1 k2 (fun q hq => h8 q (List.mem_cons_of_mem _ hq)) h
      exact ⟨m1, m2, Tr_Kept_trans k3 m3⟩

/-- C5 (as stated, refuted). Two completions with `ZT_OK` whose reply does not carry the
command id of the request at byte 13. First, the transaction of `Track_Speed_Set` is
prepared for 13 reply bytes: after an 8-byte and a 5-byte payload the receiver
completes it with `ZT_OK` although byte 13 was never received (it is 0, the request
has 0x0c). Second, the position query (22 bytes expected, command id 0x02): the
payloads of 8, 6 and 8 bytes are accepted and the transaction completed with `ZT_OK`,
the third payload having been inserted before the second, so that byte 13 is 9. -/
theorem Receiver_cmd_id_refuted :
    ((Example.engine_TLV.Receiver_Run [Example.rx [0xaa, 17, 0, 0x20, 0, 0, 0, 0]]).bind
      (fun g => g.Receiver_Step (Example.rx [1, 0, 196, 0, 0x0e]))).map
      (fun r => (r.2, r.1.mRxSize_byte, r.1.mReply.mData DJI_DATA_CMD_ID,
        r.1.Tr_Current.map (fun t => t.Frame_Data_Get DJI_DATA_CMD_ID))) =
      some (some ZT_OK, 13, 0, some (some 0x0c)) ∧
    ((Example.engine_position.Receiver_Run [Example.rx [0xaa, 22, 0, 0x20, 0, 0, 0, 0],
        Example.rx [1, 0, 7, 0, 0x0e, 0x02]]).bind
      (fun g => g.Receiver_Step (Example.rx [0, 1, 2, 3, 4, 9, 0, 0]))).map
      (fun r => (r.2, r.1.mRxSize_byte, r.1.mReply.mData DJI_DATA_CMD_ID,
        r.1.Tr_Current.map (fun t => t.Frame_Data_Get DJI_DATA_CMD_ID))) =
      some (some ZT_OK, 22, 9, some (some 0x02)) ∧
    ((Example.engine_position.Receiver_Run [Example.rx [0xaa, 22, 0, 0x20, 0, 0, 0, 0],
        Example.rx [1, 0, 7, 0, 0x0e, 0x02]]).bind
      (fun g => g.Receiver_Step (Example.rx [0, 1, 2, 3, 4, 9, 0, 0]))).map
      (fun r => r.1.mRxBuffer.take 22) =
      some [0xaa, 22, 0, 0x20, 0, 0, 0, 0, 0, 1, 2, 3, 4, 9, 0, 0, 1, 0, 7, 0, 0x0e, 0x02] ∧
    (Tick_Position_Z0 Example.crc Example.engine_active).map
      (fun g => (g.Tr_Current.map (fun t => (t.mTxFrame.bytes, t.mRxExpected_byte)),
        g.mRxOffset_byte, g.mRxSize_byte)) =
      some (Example.engine_position.Tr_Current.map
        (fun t => (t.mTxFrame.bytes, t.mRxExpected_byte)), 0, 0) := by
  refine ⟨?_, ?_, ?_, ?_⟩
  · decide!
  · decide!
  · decide!
  · decide!

/-- C5 (amended). A transaction in flight for which at least 14 reply bytes are
expected, the receive buffer empty (as `Tr_Start_Z0` leaves it): if the reply
arrives in payloads of 8 bytes followed by one last payload of any size, and the
receiver completes the transaction with `ZT_OK` at that last payload, then the
transaction still carries the request frame it had and byte 13 of the receive buffer
(data offset 1) equals the command id of that request frame. -/
theorem Receiver_cmd_id (g g1 g2 : DJI_Gimbal) (ps : List EthCAN_Frame) (aCF : EthCAN_Frame)
    (hbuf : g.mRxBuffer.length = RX_BUFFER_SIZE)
    (hoff : g.mRxOffset_byte = 0) (hsize : g.mRxSize_byte = 0)
    (hexp : ∀ tr, g.Tr_Current = some tr → 14 ≤ tr.mRxExpected_byte)
    (h8 : ∀ p ∈ ps, p.mDataSize_byte = 8)
    (hrun : g.Receiver_Run ps = some g1)
    (hstep : g1.Receiver_Step aCF = some (g2, some ZT_OK)) :
    ∃ tr0 tr, g.Tr_Current = some tr0 ∧ g2.Tr_Current = some tr ∧
      tr.mTxFrame = tr0.mTxFrame ∧
      tr.Frame_Data_Get DJI_DATA_CMD_ID = some (g2.mReply.mData DJI_DATA_CMD_ID) := by
  have hI : g.Rx_Checked :=
    ⟨hbuf, fun tr htr => ⟨hexp tr htr, fun h14 => absurd h14 (by omega)⟩⟩
  obtain ⟨k1, k2, k3⟩ := Receiver_Run_checked ps g g1 hI (by rw [hoff, hsize]) h8 hrun
  obtain ⟨-, m2, -, m4⟩ := Receiver_Step_checked g1 g2 aCF _ k1 k2 hstep
  obtain ⟨tr, htr, hid⟩ := m4 rfl
  obtain ⟨tr0, h0, hf, -⟩ := k3 tr (by rw [← m2, htr])
  refine ⟨tr0, tr, h0, htr, hf, ?_⟩
  simp only [DJI_Transaction.Frame_Data_Get, DJI_DATA_CMD_ID] at hid ⊢
  rw [if_neg (by omega), hid]

/-- Witness of C5 (amended): the position query answered in payloads of 8, 8 and 6
bytes. -/
theorem Receiver_cmd_id_witness :
    ∃ g2 tr,
      (Example.engine_position.Receiver_Run [Example.rx [0xaa, 22, 0, 0x20, 0, 0, 0, 0],
        Example.rx [1, 0, 7, 0, 0x0e, 0x02, 0, 0]]).bind
        (fun g => g.Receiver_Step (Example.rx [0, 0, 0, 0, 0, 0])) = some (g2, some ZT_OK) ∧
      g2.Tr_Current = some tr ∧
      tr.Frame_Data_Get DJI_DATA_CMD_ID = some (g2.mReply.mData DJI_DATA_CMD_ID) := by
  have hev : ((Example.engine_position.Receiver_Run [Example.rx [0xaa, 22, 0, 0x20, 0, 0, 0, 0],
        Example.rx [1, 0, 7, 0, 0x0e, 0x02, 0, 0]]).bind
        (fun g => g.Receiver_Step (Example.rx [0, 0, 0, 0, 0, 0]))).map (fun r => r.2) =
      some (some ZT_OK) := by
    decide!
  rcases hrun : Example.engine_position.Receiver_Run [Example.rx [0xaa, 22, 0, 0x20, 0, 0, 0, 0],
        Example.rx [1, 0, 7, 0, 0x0e, 0x02, 0, 0]] with _ | g1
  · rw [hrun] at hev
    exact absurd hev (by simp)
  rw [hrun] at hev
  simp only [Option.some_bind] at hev ⊢
  rcases hstep : g1.Receiver_Step (Example.rx [0, 0, 0, 0, 0, 0]) with _ | ⟨g2, r⟩
  · rw [hstep] at hev
    exact absurd hev (by simp)
  rw [hstep] at hev
  simp only [Option.map_some', Option.some.injEq] at hev
  subst hev
  obtain ⟨tr0, tr, -, htr, -, hid⟩ := Receiver_cmd_id Example.engine_position g1 g2
    [Example.rx [0xaa, 22, 0, 0x20, 0, 0, 0, 0], Example.rx [1, 0, 7, 0, 0x0e, 0x02, 0, 0]]
    (Example.rx [0, 0, 0, 0, 0, 0]) (by decide) (by decide) (by decide)
    (by
      intro tr h
      have e : Example.engine_position.Tr_Current = some Example.engine_position.mTr_Position :=
        rfl
      rw [e] at h
      injection h with h
      subst h
      decide)
    (by
      intro p hp
      simp only [List.mem_cons, List.mem_singleton, List.not_mem_nil, or_false] at hp
      rcases hp with rfl | rfl <;> rfl)
    hrun hstep
  exact ⟨g2, tr, rfl, htr, hid⟩

end DJI_Gimbal

namespace DJI_Gimbal

open State

theorem Tr_Complete_Z0_effect (g : DJI_Gimbal) (t : DJI_Transaction)
    (hcur : g.Tr_Current = some t) :
    g.Tr_Complete_Z0.mTr_Next = g.mTr_Next ∧ g.Tr_Complete_Z0.mTr_Current = none ∧
    g.Tr_Complete_Z0.mTr_Done = g.mTr_Done ++ [t] := by
  unfold Tr_Complete_Z0
  rw [hcur]
  exact ⟨rfl, rfl, rfl⟩

theorem State_Change_Z0_slots (g : DJI_Gimbal) (aFrom aTo : State) :
    (g.State_Change_Z0 aFrom aTo).2.mTr_Next = g.mTr_Next ∧
    (g.State_Change_Z0 aFrom aTo).2.mTr_Current = g.mTr_Current ∧
    (g.State_Change_Z0 aFrom aTo).2.mTr_Done = g.mTr_Done ∧
    (g.State_Change_Z0 aFrom aTo).2.mTr_Position = g.mTr_Position := by
  unfold State_Change_Z0
  split_ifs
  · exact ⟨rfl, rfl, rfl, rfl⟩
  · exact ⟨rfl, rfl, rfl, rfl⟩

theorem OnSignal_Z0_effect (g : DJI_Gimbal) (t : DJI_Transaction)
    (hcur : g.Tr_Current = some t) : Completion_Effect g g.OnSignal_Z0 t := by
  obtain ⟨h1, h2, h3⟩ := Tr_Complete_Z0_effect g t hcur
  obtain ⟨k1, k2, k3, -⟩ := State_Change_Z0_slots g.Tr_Complete_Z0 STATE_TRANSACTION
    STATE_ACTIVATED
  unfold OnSignal_Z0
  exact ⟨by rw [k1, h1], Or.inl ⟨by rw [k2, h2], by rw [k3, h3]⟩⟩

/-- The completion effect only looks at the transaction slots. -/
theorem Completion_Effect_of_eq {g0 g1 g2 : DJI_Gimbal} {t : DJI_Transaction}
    (hn : g1.mTr_Next = g0.mTr_Next) (hd : g1.mTr_Done = g0.mTr_Done)
    (h : Completion_Effect g1 g2 t) : Completion_Effect g0 g2 t := by
  obtain ⟨h1, h2⟩ := h
  refine ⟨h1.trans hn, ?_⟩
  rcases h2 with ⟨a, b⟩ | ⟨a, b⟩
  · exact Or.inl ⟨a, by rw [b, hd]⟩
  · exact Or.inr ⟨a, by rw [b, hd]⟩

theorem Tr_Current_Store_slots (g : DJI_Gimbal) (t0 t : DJI_Transaction)
    (hcur : g.Tr_Current = some t0) :
    (g.Tr_Current_Store t).Tr_Current = some t ∧
    (g.Tr_Current_Store t).mTr_Next = g.mTr_Next ∧
    (g.Tr_Current_Store t).mTr_Done = g.mTr_Done := by
  unfold Tr_Current_Store
  rcases hp : g.mTr_Current with _ | p
  · simp [Tr_Current, hp] at hcur
  · cases p with
    | Position => exact ⟨by simp [Tr_Current, hp, Tr_Deref], rfl, rfl⟩
    | Object o => exact ⟨by simp [Tr_Current, Tr_Deref], rfl, rfl⟩

theorem Result_Set_eq (tr t : DJI_Transaction) (r : Result) (h : tr.Result_Set r = some t) :
    t = { tr with mResult := r } := by
  unfold DJI_Transaction.Result_Set at h
  split_ifs at h
  injection h with h
  exact h.symm

theorem Position_Parse_slots (g : DJI_Gimbal) (r : Result) (g1 : DJI_Gimbal)
    (h : g.Position_Parse = some (r, g1)) :
    g1.Tr_Current = g.Tr_Current ∧
    g1.mTr_Next = g.mTr_Next ∧
    g1.mTr_Done = g.mTr_Done := by
  rcases Position_Parse_cases g r g1 h with rfl | ⟨p, rfl⟩
  · exact ⟨rfl, rfl, rfl⟩
  · exact ⟨rfl, rfl, rfl⟩

theorem OnPosition_Parse_slots (g g2 : DJI_Gimbal) (lTr : DJI_Transaction)
    (hcur : g.Tr_Current = some lTr) (h : g.OnPosition_Parse lTr = some g2) :
    ∃ r, g2.Tr_Current = some { lTr with mResult := r } ∧
      g2.mTr_Next = g.mTr_Next ∧ g2.mTr_Done = g.mTr_Done := by
  unfold OnPosition_Parse at h
  obtain ⟨⟨r, g1⟩, hp, h⟩ := Option.bind_eq_some.1 h
  simp only at h
  obtain ⟨t, ht, rfl⟩ := Option.map_eq_some'.1 h
  have he := Result_Set_eq _ _ _ ht
  obtain ⟨p1, p2, p3⟩ := Position_Parse_slots g r g1 hp
  obtain ⟨s1, s2, s3⟩ := Tr_Current_Store_slots g1 lTr t (by rw [p1, hcur])
  exact ⟨r, by rw [s1, he], by rw [s2, p2], by rw [s3, p3]⟩

theorem OnConfig_Z0_effect (g g2 : DJI_Gimbal) (t : DJI_Transaction)
    (hcur : g.Tr_Current = some t) (h : g.OnConfig_Z0 = some g2) :
    Completion_Effect g g2 t := by
  unfold OnConfig_Z0 at h
  rw [hcur] at h
  simp only [Option.some.injEq] at h
  subst h
  by_cases hok : t.IsOK = true
  · rw [if_pos hok]
    exact Completion_Effect_of_eq rfl rfl (OnSignal_Z0_effect _ t hcur)
  · rw [if_neg hok]
    exact OnSignal_Z0_effect g t hcur

theorem OnInfo_Z0_effect (g g2 : DJI_Gimbal) (t : DJI_Transaction)
    (hcur : g.Tr_Current = some t) (h : g.OnInfo_Z0 = some g2) :
    Completion_Effect g g2 t := by
  unfold OnInfo_Z0 at h
  rw [hcur] at h
  simp only [Option.some.injEq] at h
  subst h
  by_cases hok : t.IsOK = true
  · rw [if_pos hok]
    exact Completion_Effect_of_eq rfl rfl (OnSignal_Z0_effect _ t hcur)
  · rw [if_neg hok]
    exact OnSignal_Z0_effect g t hcur

theorem OnConfigStiffness_Z0_effect (g g2 : DJI_Gimbal) (t : DJI_Transaction)
    (hcur : g.Tr_Current = some t) (h : g.OnConfigStiffness_Z0 = some g2) :
    ∃ r, Completion_Effect g g2 { t with mResult := r } ∧ (t.IsOK = false → r = t.mResult) := by
  unfold OnConfigStiffness_Z0 at h
  rw [hcur] at h
  simp only at h
  rcases ite_eq_some_cases h with ⟨hok, h⟩ | ⟨hok, h⟩
  · split at h
    · exact absurd h (fun hh => Option.noConfusion hh)
    · rename_i lResult _
      obtain ⟨t1, ht1, rfl⟩ := Option.map_eq_some'.1 h
      have he := Result_Set_eq _ _ _ ht1
      subst he
      refine ⟨lResult, ?_, fun hf => absurd hok (by rw [hf]; simp)⟩
      have key : ∀ gx : DJI_Gimbal, gx.Tr_Current = some t → gx.mTr_Next = g.mTr_Next →
          gx.mTr_Done = g.mTr_Done →
          Completion_Effect g (gx.Tr_Current_Store { t with mResult := lResult }).OnSignal_Z0
            { t with mResult := lResult } := by
        intro gx hx hn hd
        obtain ⟨s1, s2, s3⟩ := Tr_Current_Store_slots gx t { t with mResult := lResult } hx
        exact Completion_Effect_of_eq (s2.trans hn) (s3.trans hd) (OnSignal_Z0_effect _ _ s1)
      refine key _ ?_ ?_ ?_
      · exact hcur
      · rfl
      · rfl
  · simp only [Option.some.injEq] at h
    subst h
    exact ⟨t.mResult, OnSignal_Z0_effect g t hcur, fun _ => rfl⟩

theorem OnPosition_Z0_effect (g g2 : DJI_Gimbal) (t : DJI_Transaction)
    (hcur : g.Tr_Current = some t) (h : g.OnPosition_Z0 = some g2) :
    ∃ r, Completion_Effect g g2 { t with mResult := r } ∧ (t.IsOK = false → r = t.mResult) := by
  unfold OnPosition_Z0 at h
  rw [hcur] at h
  simp only at h
  rcases ite_eq_some_cases h with ⟨hok, h⟩ | ⟨hok, h⟩
  · obtain ⟨g1, h1, rfl⟩ := Option.map_eq_some'.1 h
    obtain ⟨r, s1, s2, s3⟩ := OnPosition_Parse_slots g g1 t hcur h1
    obtain ⟨c1, c2, c3⟩ := Tr_Complete_Z0_effect g1 _ s1
    exact ⟨r, ⟨by rw [c1, s2], Or.inl ⟨c2, by rw [c3, s3]⟩⟩,
      fun hf => absurd hok (by rw [hf]; simp)⟩
  · simp only [Option.some.injEq] at h
    subst h
    obtain ⟨c1, c2, c3⟩ := Tr_Complete_Z0_effect g t hcur
    exact ⟨t.mResult, ⟨c1, Or.inl ⟨c2, c3⟩⟩, fun _ => rfl⟩

theorem OnPositionAndSignal_Z0_effect (g g2 : DJI_Gimbal) (t : DJI_Transaction)
    (hcur : g.Tr_Current = some t) (h : g.OnPositionAndSignal_Z0 = some g2) :
    ∃ r, Completion_Effect g g2 { t with mResult := r } ∧ (t.IsOK = false → r = t.mResult) := by
  unfold OnPositionAndSignal_Z0 at h
  rw [hcur] at h
  simp only at h
  rcases ite_eq_some_cases h with ⟨hok, h⟩ | ⟨hok, h⟩
  · obtain ⟨g1, h1, rfl⟩ := Option.map_eq_some'.1 h
    obtain ⟨r, s1, s2, s3⟩ := OnPosition_Parse_slots g g1 t hcur h1
    exact ⟨r, Completion_Effect_of_eq s2 s3 (OnSignal_Z0_effect g1 _ s1),
      fun hf => absurd hok (by rw [hf]; simp)⟩
  · simp only [Option.some.injEq] at h
    subst h
    exact ⟨t.mResult, OnSignal_Z0_effect g t hcur, fun _ => rfl⟩

theorem OnRelease_Z0_effect (g g2 : DJI_Gimbal) (t : DJI_Transaction)
    (hcur : g.Tr_Current = some t) (h : g.OnRelease_Z0 = some g2) :
    Completion_Effect g g2 t := by
  unfold OnRelease_Z0 at h
  rw [hcur] at h
  simp only at h
  rcases ite_eq_some_cases h with ⟨_, h⟩ | ⟨_, h⟩
  · simp only [Option.some.injEq] at h
    subst h
    exact OnSignal_Z0_effect g t hcur
  · simp only [Option.some.injEq] at h
    subst h
    exact ⟨rfl, Or.inr ⟨hcur, rfl⟩⟩

/-- What the handler of a completion message does to the transaction slots. Only the
handlers of the parsing codes, and only for a transaction completed with `ZT_OK`,
change the result of the transaction. -/
theorem ProcessMessage_Tr_effect (g g2 : DJI_Gimbal) (aCode : Nat) (t : DJI_Transaction)
    (hcur : g.Tr_Current = some t) (h : g.ProcessMessage_Tr aCode = some g2) :
    ∃ r, Completion_Effect g g2 { t with mResult := r } ∧
      (¬ Parsing_Code aCode ∨ t.IsOK = false → r = t.mResult) := by
  unfold ProcessMessage_Tr at h
  rcases ite_eq_some_cases h with ⟨_, h⟩ | ⟨n1, h⟩
  · exact ⟨t.mResult, OnConfig_Z0_effect g g2 t hcur h, fun _ => rfl⟩
  rcases ite_eq_some_cases h with ⟨c2, h⟩ | ⟨n2, h⟩
  · obtain ⟨r, e, hr⟩ := OnConfigStiffness_Z0_effect g g2 t hcur h
    refine ⟨r, e, fun hh => ?_⟩
    rcases hh with hh | hh
    · exact absurd (Or.inl c2) hh
    · exact hr hh
  rcases ite_eq_some_cases h with ⟨_, h⟩ | ⟨n3, h⟩
  · exact ⟨t.mResult, OnInfo_Z0_effect g g2 t hcur h, fun _ => rfl⟩
  rcases ite_eq_some_cases h with ⟨c4, h⟩ | ⟨n4, h⟩
  · obtain ⟨r, e, hr⟩ := OnPosition_Z0_effect g g2 t hcur h
    refine ⟨r, e, fun hh => ?_⟩
    rcases hh with hh | hh
    · exact absurd (Or.inr (Or.inl c4)) hh
    · exact hr hh
  rcases ite_eq_some_cases h with ⟨c5, h⟩ | ⟨n5, h⟩
  · obtain ⟨r, e, hr⟩ := OnPositionAndSignal_Z0_effect g g2 t hcur h
    refine ⟨r, e, fun hh => ?_⟩
    rcases hh with hh | hh
    · exact absurd (Or.inr (Or.inr c5)) hh
    · exact hr hh
  rcases ite_eq_some_cases h with ⟨_, h⟩ | ⟨n6, h⟩
  · exact ⟨t.mResult, OnRelease_Z0_effect g g2 t hcur h, fun _ => rfl⟩
  rcases ite_eq_some_cases h with ⟨_, h⟩ | ⟨n7, h⟩
  · simp only [Option.some.injEq] at h
    subst h
    exact ⟨t.mResult, OnSignal_Z0_effect g t hcur, fun _ => rfl⟩
  rcases ite_eq_some_cases h with ⟨_, h⟩ | ⟨n8, h⟩
  · simp only [Option.some.injEq] at h
    subst h
    exact ⟨t.mResult, ⟨rfl, Or.inr ⟨hcur, rfl⟩⟩, fun _ => rfl⟩
  · exact absurd h (fun hh => Option.noConfusion hh)

theorem Complete_eq (tr t : DJI_Transaction) (r : Result) (c : Option Nat)
    (h : tr.Complete r = some (t, c)) :
    tr.mResult = ZT_RESULT_INVALID ∧ r ≠ ZT_RESULT_INVALID ∧
    t = { tr with mResult := r } ∧ c = (if tr.mReceiver then some tr.mCode else none) := by
  unfold DJI_Transaction.Complete at h
  rcases ite_eq_some_cases h with ⟨_, h⟩ | ⟨h1, h⟩
  · exact absurd h (fun hh => Option.noConfusion hh)
  rcases ite_eq_some_cases h with ⟨_, h⟩ | ⟨h2, h⟩
  · exact absurd h (fun hh => Option.noConfusion hh)
  simp only [Option.some.injEq, Prod.mk.injEq] at h
  exact ⟨(not_not.1 h2).symm, fun hh => (not_not.1 h1) hh.symm, h.1.symm, h.2.symm⟩

/-- The call `mTr_Current->Complete(aResult)` and the handler it reaches: `Complete`
finds the result slot unassigned, the pending slot is left alone, and the completed
transaction carries `aResult` unless a parsing handler replaced an `ZT_OK`. -/
theorem Complete_effect (g g2 : DJI_Gimbal) (aResult : Result) (tr : DJI_Transaction)
    (hcur : g.Tr_Current = some tr)
    (h : g.Tr_Current_Call (fun t => t.Complete aResult) = some g2) :
    tr.mResult = ZT_RESULT_INVALID ∧ aResult ≠ ZT_RESULT_INVALID ∧
    ∃ r, Completion_Effect g g2 { tr with mResult := r } ∧
      (¬ (aResult = ZT_OK ∧ tr.mReceiver = true ∧ Parsing_Code tr.mCode) → r = aResult) := by
  unfold Tr_Current_Call at h
  rw [hcur] at h
  simp only at h
  rcases hk : tr.Complete aResult with _ | ⟨t, c⟩
  · rw [hk] at h; exact absurd h (fun hh => Option.noConfusion hh)
  · rw [hk] at h
    obtain ⟨e1, e2, e3, e4⟩ := Complete_eq _ _ _ _ hk
    obtain ⟨s1, s2, s3⟩ := Tr_Current_Store_slots g tr t hcur
    refine ⟨e1, e2, ?_⟩
    cases c with
    | none =>
      simp only [Option.some.injEq] at h
      subst h
      refine ⟨aResult, ⟨s2, Or.inr ⟨by rw [s1, e3], s3⟩⟩, fun _ => rfl⟩
    | some lCode =>
      simp only at h
      obtain ⟨r, hce, hr⟩ := ProcessMessage_Tr_effect _ g2 lCode t s1 h
      have hrec : tr.mReceiver = true ∧ lCode = tr.mCode := by
        by_cases hrc : tr.mReceiver = true
        · rw [if_pos hrc] at e4
          injection e4 with e4
          exact ⟨hrc, e4⟩
        · rw [if_neg hrc] at e4
          exact absurd e4 (fun hh => Option.noConfusion hh)
      refine ⟨r, ?_, ?_⟩
      · have := Completion_Effect_of_eq s2 s3 hce
        rw [e3] at this
        exact this
      · intro hn
        have : r = t.mResult := by
          apply hr
          by_cases hp : Parsing_Code lCode
          · right
            rw [hrec.2] at hp
            have hne : aResult ≠ ZT_OK := fun hh => hn ⟨hh, hrec.1, hp⟩
            rw [e3]
            simp only [DJI_Transaction.IsOK, decide_eq_false_iff_not]
            exact fun hh => hne hh.symm
          · exact Or.inl hp
        rw [this, e3]

theorem Tr_Kept_of_Completion_Effect {g g2 : DJI_Gimbal} {tr : DJI_Transaction} {r : Result}
    (hcur : g.Tr_Current = some tr)
    (h : Completion_Effect g g2 { tr with mResult := r }) : Tr_Kept g g2 := by
  intro t2 h2
  rcases h.2 with ⟨a, -⟩ | ⟨a, -⟩
  · simp [Tr_Current, a] at h2
  · rw [a] at h2
    injection h2 with h2
    subst h2
    exact ⟨tr, hcur, rfl, rfl⟩

/-- The call `mTr_Current->Tick()` leaves the pending slot alone and keeps or clears
the current slot. -/
theorem Tick_effect (g g2 : DJI_Gimbal)
    (h : g.Tr_Current_Call (fun t => t.Tick) = some g2) :
    g2.mTr_Next = g.mTr_Next ∧ Tr_Kept g g2 := by
  rcases hcur : g.Tr_Current with _ | tr
  · unfold Tr_Current_Call at h
    rw [hcur] at h
    exact absurd h (fun hh => Option.noConfusion hh)
  · have hstore : ∀ t : DJI_Transaction, t.mTxFrame = tr.mTxFrame →
        t.mRxExpected_byte = tr.mRxExpected_byte →
        (g.Tr_Current_Store t).mTr_Next = g.mTr_Next ∧ Tr_Kept g (g.Tr_Current_Store t) := by
      intro t hf he
      obtain ⟨s1, s2, -⟩ := Tr_Current_Store_slots g tr t hcur
      refine ⟨s2, ?_⟩
      intro t2 h2
      rw [s1] at h2
      injection h2 with h2
      subst h2
      exact ⟨tr, hcur, hf, he⟩
    rcases hto : tr.mRxTimeout_tick with _ | _ | n
    · unfold Tr_Current_Call at h
      rw [hcur] at h
      simp only [DJI_Transaction.Tick, hto, Option.some.injEq] at h
      subst h
      exact hstore tr rfl rfl
    · have hc : g.Tr_Current_Call (fun t => t.Complete ZT_ERROR_TIMEOUT) = some g2 := by
        unfold Tr_Current_Call at h ⊢
        rw [hcur] at h ⊢
        simp only [DJI_Transaction.Tick, hto] at h
        exact h
      obtain ⟨-, -, r, hce, -⟩ := Complete_effect g g2 _ tr hcur hc
      exact ⟨hce.1, Tr_Kept_of_Completion_Effect hcur hce⟩
    · unfold Tr_Current_Call at h
      rw [hcur] at h
      simp only [DJI_Transaction.Tick, hto, Option.some.injEq] at h
      subst h
      exact hstore _ rfl rfl

theorem OnTick_TRANSACTION (crc : DJI_CRC) (g g2 : DJI_Gimbal)
    (hs : g.mState = STATE_TRANSACTION) (h : OnTick crc g = some g2) :
    g2.mTr_Next = g.mTr_Next ∧ Tr_Kept g g2 := by
  unfold OnTick at h
  simp only [hs] at h
  obtain ⟨g1, h1, rfl⟩ := Option.map_eq_some'.1 h
  obtain ⟨k1, k2⟩ := Tick_effect g g1 h1
  exact ⟨k1, Tr_Kept_trans k2 (Tr_Kept_of_eq rfl)⟩

theorem OnTick_promoting (crc : DJI_CRC) (g : DJI_Gimbal)
    (hs : g.mState = STATE_ACTIVATED ∨ g.mState = STATE_ACTIVATING ∨
      g.mState = STATE_ERROR_ETH)
    (hn : g.mTr_Next ≠ none) :
    OnTick crc g = (State_TRANSACTION_Z0 crc g).map
      (fun g1 => { g1 with toGimbal := g1.toGimbal.Tick }) := by
  unfold OnTick
  rcases hs with hs | hs | hs
  · simp only [hs, Tick_ACTIVATED_Z0, if_pos hn]
  · simp only [hs, if_pos hn]
  · simp only [hs, if_pos hn]

/-- C11 (as stated, refuted). On the idle example engine the first worker tick starts the
periodic position query and leaves the engine ACTIVATED: the current slot holds
`mTr_Position`, its result not yet written. `Position_Set` then queues a transaction,
and the next worker tick promotes it: afterwards the only completed transaction is the
one of `Position_Set`, the current slot is empty, and the result of the position query
is still unwritten, so the query in flight was replaced. -/
theorem Tick_preempts_position_query :
    (OnTick Example.crc Example.engine_active).map
      (fun g => (g.mState, g.mTr_Current, g.mTr_Position.mResult, g.mTr_Next.isSome,
        g.mTr_Done.length)) =
      some (STATE_ACTIVATED, some .Position, ZT_RESULT_INVALID, false, 0) ∧
    ((OnTick Example.crc Example.engine_active).bind
      (fun g => Position_Set Example.crc g Example.position_A 0 0)).map
      (fun r => (r.1, r.2.mState, r.2.mTr_Current, r.2.mTr_Position.mResult,
        r.2.mTr_Next.isSome)) =
      some (ZT_OK, STATE_ACTIVATED, some .Position, ZT_RESULT_INVALID, true) ∧
    (((OnTick Example.crc Example.engine_active).bind
      (fun g => Position_Set Example.crc g Example.position_A 0 0)).bind
      (fun r => OnTick Example.crc r.2)).map
      (fun g => (g.mTr_Current, g.mTr_Position.mResult, g.mTr_Next.isSome,
        g.mTr_Done.map (fun t => (t.mCode, t.mResult)))) =
      some (none, ZT_RESULT_INVALID, false, [(MSG_RELEASE, ZT_OK)]) := by
  refine ⟨?_, ?_, ?_⟩
  · decide!
  · decide!
  · decide!

/-- C11 (amended). A worker tick taken in state TRANSACTION never promotes the pending
transaction: the pending slot is left as it is, and the current slot is cleared or
still holds the same request. A worker tick taken in ACTIVATED, ACTIVATING or
ERROR_ETH with the pending slot occupied promotes it without looking at the current
slot: the outcome of the tick is the same whatever the current slot holds, and the
pending slot is empty afterwards. -/
theorem Tick_promotion (crc : DJI_CRC) (g : DJI_Gimbal) :
    (g.mState = STATE_TRANSACTION → ∀ g2, OnTick crc g = some g2 →
      g2.mTr_Next = g.mTr_Next ∧ Tr_Kept g g2) ∧
    ((g.mState = STATE_ACTIVATED ∨ g.mState = STATE_ACTIVATING ∨
        g.mState = STATE_ERROR_ETH) → g.mTr_Next ≠ none →
      (∀ c, OnTick crc { g with mTr_Current := c } = OnTick crc g) ∧
      ∀ g2, OnTick crc g = some g2 → g2.mTr_Next = none) := by
  refine ⟨fun hs g2 h => OnTick_TRANSACTION crc g g2 hs h, fun hs hn => ⟨fun c => ?_, ?_⟩⟩
  · rw [OnTick_promoting crc g hs hn, OnTick_promoting crc { g with mTr_Current := c } hs hn]
    rfl
  · intro g2 h
    rw [OnTick_promoting crc g hs hn] at h
    obtain ⟨g1, h1, rfl⟩ := Option.map_eq_some'.1 h
    unfold State_TRANSACTION_Z0 at h1
    rcases hp : g.mTr_Next with _ | p
    · exact absurd hp hn
    · rw [hp] at h1
      obtain ⟨g0, -, rfl⟩ := Option.map_eq_some'.1 h1
      rfl

/-- Witness of C11 (amended): a tick of the example engine with a transaction in
flight, and a tick of the example engine with its pending slot occupied. -/
theorem Tick_promotion_witness :
    (∃ g2, OnTick Example.crc Example.engine_TLV = some g2 ∧
      g2.mTr_Next = Example.engine_TLV.mTr_Next ∧ Tr_Kept Example.engine_TLV g2) ∧
    (∃ g2, OnTick Example.crc Example.engine_busy = some g2 ∧ g2.mTr_Next = none) := by
  obtain ⟨g2, h2⟩ := Option.isSome_iff_exists.1
    (show (OnTick Example.crc Example.engine_TLV).isSome = true by decide!)
  obtain ⟨g3, h3⟩ := Option.isSome_iff_exists.1
    (show (OnTick Example.crc Example.engine_busy).isSome = true by decide!)
  exact ⟨⟨g2, h2, (Tick_promotion Example.crc Example.engine_TLV).1 (by decide) g2 h2⟩,
    ⟨g3, h3, ((Tick_promotion Example.crc Example.engine_busy).2 (by decide) (by decide)).2
      g3 h3⟩⟩

end DJI_Gimbal

namespace DJI_Gimbal

open State

theorem State_Check_inactive (g : DJI_Gimbal)
    (h : g.mState = STATE_INIT ∨ g.mState = STATE_ACTIVATING) :
    g.State_Check = some (ZT_ERROR_STATE, g) := by
  unfold State_Check
  rcases h with h | h <;> rw [h]

/-- C12, failing input. In ERROR_ETH on a link whose `Protocol_Reset` fails,
`State_Check` does not return `ZT_ERROR_STATE`: the assertion that follows the call
fails. -/
theorem State_Check_reset_asserted :
    Example.engine_ETH_no_reset.mState = STATE_ERROR_ETH ∧
    Example.engine_ETH_no_reset.State_Check = none := by
  decide

/-- C12. `State_Check` returns `ZT_OK` and changes nothing in ACTIVATED and
TRANSACTION; it returns `ZT_ERROR_STATE` and changes nothing in INIT and ACTIVATING,
and then each queued operation called with valid arguments returns `ZT_ERROR_STATE`
with the transaction slots, the serial counter and the link untouched (only the gimbal
model keeps what `Position_Set`, `Speed_Set` and `Speed_Stop` stored before the check).
In ERROR_ETH, provided `Protocol_Reset` succeeds (the code asserts it): if
`Receiver_Config` succeeds the engine moves to ACTIVATED with the liveness counter set
to 10 and the result is `ZT_OK`; if it fails the engine is unchanged and the result is
`ZT_ERROR_STATE`. -/
theorem State_Check_spec (crc : DJI_CRC) (g : DJI_Gimbal)
    (aPosition : Position) (aPosition_Flags aDuration_ms : Nat)
    (aSpeed : Speed) (aSpeed_Flags : Nat) (aOperation : Operation) (aFocus_pc : ℚ)
    (hpos : (g.toGimbal.Position_Set aPosition aPosition_Flags aDuration_ms).1 = ZT_OK)
    (hspeed : (g.toGimbal.Speed_Set aSpeed aSpeed_Flags).1 = ZT_OK)
    (hop : aOperation < OPERATION_QTY)
    (hfocus : Value_Validate aFocus_pc 0 100 = some ZT_OK) :
    (g.mState = STATE_ACTIVATED ∨ g.mState = STATE_TRANSACTION →
      g.State_Check = some (ZT_OK, g)) ∧
    (g.mState = STATE_INIT ∨ g.mState = STATE_ACTIVATING →
      g.State_Check = some (ZT_ERROR_STATE, g) ∧
      Position_Set crc g aPosition aPosition_Flags aDuration_ms = some (ZT_ERROR_STATE,
        { g with toGimbal := (g.toGimbal.Position_Set aPosition aPosition_Flags aDuration_ms).2 }) ∧
      Speed_Set crc g aSpeed aSpeed_Flags = some (ZT_ERROR_STATE,
        { g with toGimbal := (g.toGimbal.Speed_Set aSpeed aSpeed_Flags).2 }) ∧
      Speed_Stop crc g = some (ZT_ERROR_STATE, { g with toGimbal := g.toGimbal.Speed_Stop.2 }) ∧
      Focus_Cal crc g aOperation = some (ZT_ERROR_STATE, g) ∧
      Focus_Position_Set crc g aFocus_pc = some (ZT_ERROR_STATE, g) ∧
      Track_Switch crc g = some (ZT_ERROR_STATE, g)) ∧
    (g.mState = STATE_ERROR_ETH → g.mDevice.mProtocol_Reset_OK = true →
      (g.mDevice.mReceiver_Config_OK = true →
        g.State_Check =
          some (ZT_OK, { g with mState := STATE_ACTIVATED, mState_Counter := 10 })) ∧
      (g.mDevice.mReceiver_Config_OK = false → g.State_Check = some (ZT_ERROR_STATE, g))) := by
  refine ⟨fun h => State_Check_active g h, fun h => ?_, fun h hp => ⟨fun hr => ?_, fun hr => ?_⟩⟩
  · have hc := State_Check_inactive g h
    refine ⟨hc, ?_, ?_, ?_, ?_, ?_, ?_⟩
    · have hc1 := State_Check_inactive
        { g with toGimbal := (g.toGimbal.Position_Set aPosition aPosition_Flags aDuration_ms).2 } h
      unfold Position_Set
      simp only [hpos, if_true, hc1]
      rfl
    · have hc1 := State_Check_inactive
        { g with toGimbal := (g.toGimbal.Speed_Set aSpeed aSpeed_Flags).2 } h
      unfold Speed_Set
      simp only [hspeed, if_true, hc1]
      rfl
    · have hc1 := State_Check_inactive { g with toGimbal := g.toGimbal.Speed_Stop.2 } h
      unfold Speed_Stop
      have hs : g.toGimbal.Speed_Stop.1 = ZT_OK := rfl
      simp only [hs, if_true, hc1]
      rfl
    · unfold Focus_Cal
      rw [if_neg (Nat.not_le.2 hop), hc]
      rfl
    · unfold Focus_Position_Set
      simp only [hfocus, if_true, hc]
      rfl
    · unfold Track_Switch
      rw [hc]
      rfl
  · unfold State_Check
    rw [h]
    simp only [hp, hr, State_Change_Z0, h, State_Set_Z0]
    rfl
  · unfold State_Check
    rw [h]
    simp only [hp, hr]
    rfl

/-- Witness of C12: the engine as constructed (INIT) and the engine in
ERROR_ETH on a link that can be reset. -/
theorem State_Check_spec_witness :
    Example.engine.State_Check = some (ZT_ERROR_STATE, Example.engine) ∧
    Track_Switch Example.crc Example.engine = some (ZT_ERROR_STATE, Example.engine) ∧
    Example.engine_ETH.State_Check =
      some (ZT_OK, { Example.engine_ETH with mState := STATE_ACTIVATED, mState_Counter := 10 }) :=
  ⟨((State_Check_spec Example.crc Example.engine Example.position_A 0 0 Example.speed_A 0
      OPERATION_CAL_STOP 50 (by decide!) (by decide!) (by decide) (by decide!)).2.1
      (Or.inl rfl)).1,
   ((State_Check_spec Example.crc Example.engine Example.position_A 0 0 Example.speed_A 0
      OPERATION_CAL_STOP 50 (by decide!) (by decide!) (by decide) (by decide!)).2.1
      (Or.inl rfl)).2.2.2.2.2.2,
   ((State_Check_spec Example.crc Example.engine_ETH Example.position_A 0 0 Example.speed_A 0
      OPERATION_CAL_STOP 50 (by decide!) (by decide!) (by decide) (by decide!)).2.2
      rfl rfl).1 rfl⟩

end DJI_Gimbal

namespace DJI_Transaction

theorem Frame_Init_ANGLE_GET_shape (crc : DJI_CRC) (s : Nat) (tr : DJI_Transaction) :
    ∃ t, Frame_Init_ANGLE_GET crc s tr = some (t, (s + 1) % 4294967296) ∧
      Reframed tr t 19 := by
  obtain ⟨t0, h0, s0⟩ := Frame_Init_shape crc s tr 3 DJI_CMD_TYPE_DO_REPLY DJI_CMD_ANGLE_GET
    (by omega) (by simp [DJI_CMD_ANGLE_GET])
  obtain ⟨t1, h1, s1⟩ := Data_Set_shape tr t0 2 0x01 _ (by omega) s0
  refine ⟨t1, ?_, s1⟩
  simp only [Frame_Init_ANGLE_GET, h0, h1, Option.some_bind, Option.map_some']

end DJI_Transaction

theorem Send_flags (d : EthCAN_Device) (f : EthCAN_Frame) :
    (d.Send f).2.mCAN_Reset_OK = d.mCAN_Reset_OK := by
  unfold EthCAN_Device.Send
  split <;> rfl

namespace DJI_Gimbal

open State

theorem Frame_Send_Loop_flags (lFrame : List Nat) (lTotalSize_byte : Nat) :
    ∀ (fuel lOffset_byte : Nat) (g g2 : DJI_Gimbal) (r : Result),
      Frame_Send_Loop lFrame lTotalSize_byte fuel lOffset_byte g = some (r, g2) →
      g2.mDevice.mCAN_Reset_OK = g.mDevice.mCAN_Reset_OK := by
  intro fuel
  induction fuel with
  | zero =>
    intro o g g2 r h
    exact absurd h (fun hh => Option.noConfusion hh)
  | succ n ih =>
    intro o g g2 r h
    unfold Frame_Send_Loop at h
    simp only at h
    split at h
    · exact absurd h (fun hh => Option.noConfusion hh)
    · rename_i lBytes _
      have hf := Send_flags g.mDevice
        { mId := DJI_CAN_ID_TX
          mDataSize_byte := Frame_Send_Size (lTotalSize_byte - o)
          mData := lBytes ++ List.replicate (8 - Frame_Send_Size (lTotalSize_byte - o)) 0 }
      split at h
      · rename_i d hsend
        rw [hsend] at hf
        simp only [Option.some.injEq, Prod.mk.injEq] at h
        rw [← h.2]
        exact hf
      · rename_i d hsend
        rw [hsend] at hf
        split at h
        · have := ih _ _ _ _ h
          rw [this]
          exact hf
        · simp only [Option.some.injEq, Prod.mk.injEq] at h
          rw [← h.2]
          exact hf

/-- A frame of length 5..28 sent on a link that accepts every send: the engine changes
in its link only, which still accepts every send and resets as before. -/
theorem Frame_Send_Z0_ok (crc : DJI_CRC) (g : DJI_Gimbal) (aFrame : DJI_Frame) (L : Nat)
    (hshape : Frame_Shape aFrame L) (hmin : 4 < L) (hmax : L ≤ 28)
    (hs : g.mDevice.SendsSucceed) :
    ∃ (lSealed : DJI_Frame) (d : EthCAN_Device),
      Frame_Send_Z0 crc g aFrame = some (ZT_OK, { g with mDevice := d }, lSealed) ∧
      d.SendsSucceed ∧ d.mCAN_Reset_OK = g.mDevice.mCAN_Reset_OK := by
  obtain ⟨hlen, hL⟩ := hshape
  obtain ⟨lSealed, d, ps, hseal, hsend, -, hd, -⟩ :=
    Frame_Send_Z0_frames crc g aFrame hlen (by omega) (by omega) hs
  refine ⟨lSealed, d, hsend, hd, ?_⟩
  unfold Frame_Send_Z0 at hsend
  simp only [hseal] at hsend
  split at hsend
  · exact absurd hsend (fun hh => Option.noConfusion hh)
  · rename_i lResult g1 hloop
    simp only [Option.some.injEq, Prod.mk.injEq] at hsend
    have := Frame_Send_Loop_flags _ _ _ _ _ _ _ hloop
    rw [hsend.2.1] at this
    exact this

theorem Tick_Kept_refl (g : DJI_Gimbal) (h : g.Tick_Ready) : Tick_Kept g g :=
  ⟨rfl, rfl, rfl, h.2.2.1, rfl, h.2.2.2.1, h.2.2.2.2.1, rfl⟩

theorem Tick_Focus_Speed_Z0_ok (crc : DJI_CRC) (g0 g : DJI_Gimbal) (h : Tick_Kept g0 g) :
    ∃ g2, Tick_Focus_Speed_Z0 crc g = some g2 ∧ Tick_Kept g0 g2 := by
  obtain ⟨k1, k2, k3, k4, k5, k6, k7, k8⟩ := h
  unfold Tick_Focus_Speed_Z0
  by_cases hm : g.toGimbal.IsFocusMoving = true
  · rw [if_pos hm]
    simp only
    have hlim : ∃ l, Value_Limit
        (g.mFocus_Position_pc + g.mFocus_Speed_pc_s * 2 * PERIOD_ms / 1000)
        FOCUS_POSITION_MIN_pc FOCUS_POSITION_MAX_pc = some l ∧ 0 ≤ l ∧ l ≤ 100 := by
      unfold Value_Limit FOCUS_POSITION_MIN_pc FOCUS_POSITION_MAX_pc
      rw [if_neg (by norm_num)]
      split_ifs with a b
      · exact ⟨_, rfl, by norm_num, by norm_num⟩
      · exact ⟨_, rfl, by norm_num, by norm_num⟩
      · exact ⟨_, rfl, le_of_not_gt a, le_of_not_lt b⟩
    obtain ⟨l, hl, l0, l100⟩ := hlim
    rw [hl]
    simp only
    obtain ⟨t, ht, hshape⟩ := DJI_Transaction.Frame_Init_FOCUS_SET_shape crc g.sSerial
      DJI_Transaction.fresh l l0 l100
    rw [ht]
    simp only
    obtain ⟨lSealed, d, hsend, hd, hf⟩ := Frame_Send_Z0_ok crc
      { g with mFocus_Position_pc := l, sSerial := (g.sSerial + 1) % 4294967296 }
      t.Frame_Get 23 hshape.1 (by omega) (by omega) k4
    rw [hsend]
    exact ⟨_, rfl, k1, k2, k3, hd, hf.trans k5, k6, k7, k8⟩
  · rw [if_neg hm]
    exact ⟨g, rfl, k1, k2, k3, k4, k5, k6, k7, k8⟩

theorem Tick_Speed_Z0_ok (crc : DJI_CRC) (g0 g : DJI_Gimbal) (h : Tick_Kept g0 g) :
    ∃ g2, Tick_Speed_Z0 crc g = some g2 ∧ Tick_Kept g0 g2 := by
  obtain ⟨k1, k2, k3, k4, k5, k6, k7, k8⟩ := h
  unfold Tick_Speed_Z0
  rcases hst : g.toGimbal.Position_State_Get with _ | _ | _ | _
  · exact ⟨g, rfl, k1, k2, k3, k4, k5, k6, k7, k8⟩
  · simp only
    obtain ⟨t, ht, hshape⟩ := DJI_Transaction.Frame_Init_POSITION_SET_shape crc g.sSerial
      DJI_Transaction.fresh g.mPosition_Target g.mPosition_Flags g.mMoveDuration_ms
    rw [ht]
    simp only
    obtain ⟨lSealed, d, hsend, hd, hf⟩ := Frame_Send_Z0_ok crc
      { g with sSerial := (g.sSerial + 1) % 4294967296 }
      t.Frame_Get 26 hshape.1 (by omega) (by omega) k4
    rw [hsend]
    exact ⟨_, rfl, k1, k2, k3, hd, hf.trans k5, k6, k7, k8⟩
  · simp only
    obtain ⟨t, ht, hshape⟩ := DJI_Transaction.Frame_Init_SPEED_SET_shape crc g.sSerial
      DJI_Transaction.fresh g.mSpeed
    rw [ht]
    simp only
    obtain ⟨lSealed, d, hsend, hd, hf⟩ := Frame_Send_Z0_ok crc
      { g with sSerial := (g.sSerial + 1) % 4294967296 }
      t.Frame_Get 25 hshape.1 (by omega) (by omega) k4
    rw [hsend]
    exact ⟨_, rfl, k1, k2, k3, hd, hf.trans k5, k6, k7, k8⟩
  · exact ⟨g, rfl, k1, k2, k3, k4, k5, k6, k7, k8⟩

theorem Tick_Position_Z0_ok (crc : DJI_CRC) (g0 g : DJI_Gimbal) (h : Tick_Kept g0 g)
    (hexp : 0 < g0.mTr_Position.mRxExpected_byte) :
    ∃ g2, Tick_Position_Z0 crc g = some g2 ∧ Tick_Kept g0 g2 := by
  obtain ⟨k1, k2, k3, k4, k5, k6, k7, k8⟩ := h
  obtain ⟨t, ht, hshape, hsame⟩ := DJI_Transaction.Frame_Init_ANGLE_GET_shape crc g.sSerial
    g.mTr_Position
  have hte : t.mRxExpected_byte = g.mTr_Position.mRxExpected_byte := by rw [hsame]
  have hreset : ({ g with
      mTr_Position := t.Reset
      sSerial := (g.sSerial + 1) % 4294967296
      mTr_Current := some .Position } : DJI_Gimbal).Receiver_Reset =
      some { g with
        mTr_Position := t.Reset
        sSerial := (g.sSerial + 1) % 4294967296
        mTr_Current := some .Position
        mRxOffset_byte := 0
        mRxSize_byte := 0 } := by
    unfold Receiver_Reset
    rw [if_neg (by simpa using k6), if_neg (by simpa using k7)]
  obtain ⟨lSealed, d, hsend, hd, hf⟩ := Frame_Send_Z0_ok crc
    { g with
      mTr_Position := t.Reset
      sSerial := (g.sSerial + 1) % 4294967296
      mTr_Current := some .Position
      mRxOffset_byte := 0
      mRxSize_byte := 0 } t.Reset.mTxFrame 19 hshape (by omega) (by omega) k4
  have hne : ¬ (0 ≥ t.mRxExpected_byte) := by rw [hte, k8]; omega
  have hstart : Tick_Position_Z0 crc g = some
      { g with
        mTr_Position := { t.Reset with mTxFrame := lSealed }
        sSerial := (g.sSerial + 1) % 4294967296
        mTr_Current := some .Position
        mRxOffset_byte := 0
        mRxSize_byte := 0
        mDevice := d } := by
    unfold Tick_Position_Z0
    rw [ht]
    simp only
    unfold Tr_Start_Z0
    simp only [hreset, Tr_Deref, DJI_Transaction.Frame_Get, hsend]
    simp [Tr_Current_Call, Tr_Current, Tr_Current_Store, Tr_Deref, DJI_Transaction.Started,
      DJI_Transaction.Reset, hne]
  exact ⟨_, hstart, k1, k2, k3, hd, hf.trans k5, Nat.zero_le _, Nat.zero_le _,
    hte.trans k8⟩

theorem Tick_Work_Z0_ok (crc : DJI_CRC) (g : DJI_Gimbal) (h : g.Tick_Ready) :
    ∃ g2, Tick_Work_Z0 crc g = some g2 ∧ Tick_Kept g g2 := by
  have hk : Tick_Kept g { g with mCounter := (g.mCounter + 1) % 4294967296 } :=
    Tick_Kept_refl g h
  unfold Tick_Work_Z0
  simp only
  split
  · exact Tick_Focus_Speed_Z0_ok crc g _ hk
  · exact Tick_Focus_Speed_Z0_ok crc g _ hk
  · exact Tick_Position_Z0_ok crc g _ hk h.2.2.2.2.2
  · exact Tick_Speed_Z0_ok crc g _ hk

/-- A tick of an idle engine whose liveness counter is above 1: the periodic work is
done and the counter loses one. -/
theorem OnTick_idle (crc : DJI_CRC) (g : DJI_Gimbal) (n : Nat) (h : g.Tick_Ready)
    (hc : g.mState_Counter = n + 2) :
    ∃ g2, OnTick crc g = some g2 ∧ g2.Tick_Ready ∧ g2.mState_Counter = n + 1 ∧
      g2.mDevice.mCAN_Reset_OK = g.mDevice.mCAN_Reset_OK := by
  obtain ⟨g1, hw, k1, k2, k3, k4, k5, k6, k7, k8⟩ := Tick_Work_Z0_ok crc g h
  obtain ⟨h1, h2, h3, h4, h5, h6⟩ := h
  have hcount : g1.mState_Counter = n + 2 := by rw [k2, hc]
  refine ⟨{ g1 with mState_Counter := n + 1, toGimbal := g1.toGimbal.Tick }, ?_,
    ⟨k1.trans h1, k3.trans h2, k4, k6, k7, by rw [k8]; exact h6⟩, rfl, k5⟩
  unfold OnTick
  simp only [h1, Tick_ACTIVATED_Z0, h2, ne_eq, not_true_eq_false, if_false, hw, hcount,
    Option.map_some']

/-- The tick of an idle engine that finds the liveness counter at 1: the engine enters
ERROR_CAN and the bus is reset. -/
theorem OnTick_last (crc : DJI_CRC) (g : DJI_Gimbal) (h : g.Tick_Ready)
    (hc : g.mState_Counter = 1) :
    ∃ g1 g2, Tick_Work_Z0 crc g = some g1 ∧ g1.mState_Counter = 1 ∧
      (g1.State_Set_Z0 STATE_ERROR_CAN).mState = STATE_ERROR_CAN ∧
      OnTick crc g = ((g1.State_Set_Z0 STATE_ERROR_CAN).ResetAndSleep_Z0 STATE_ACTIVATED).map
        (fun gx => { gx with toGimbal := gx.toGimbal.Tick }) ∧
      OnTick crc g = some g2 ∧
      (g.mDevice.mCAN_Reset_OK = true →
        g2.mState = STATE_ACTIVATED ∧ g2.mState_Counter = 10) ∧
      (g.mDevice.mCAN_Reset_OK = false → g2.mState = STATE_ERROR_ETH) := by
  obtain ⟨g1, hw, k1, k2, k3, k4, k5, k6, k7, k8⟩ := Tick_Work_Z0_ok crc g h
  obtain ⟨h1, h2, h3, h4, h5, h6⟩ := h
  have hcount : g1.mState_Counter = 1 := by rw [k2, hc]
  have htick : OnTick crc g =
      ((g1.State_Set_Z0 STATE_ERROR_CAN).ResetAndSleep_Z0 STATE_ACTIVATED).map
        (fun gx => { gx with toGimbal := gx.toGimbal.Tick }) := by
    unfold OnTick
    simp only [h1, Tick_ACTIVATED_Z0, h2, ne_eq, not_true_eq_false, if_false, hw, hcount]
  by_cases hr : g.mDevice.mCAN_Reset_OK = true
  · have hres : (g1.State_Set_Z0 STATE_ERROR_CAN).ResetAndSleep_Z0 STATE_ACTIVATED =
        some { g1 with mState_Counter := 10, mState := STATE_ACTIVATED } := by
      unfold ResetAndSleep_Z0
      have hd : (g1.State_Set_Z0 STATE_ERROR_CAN).mDevice.mCAN_Reset_OK = true := by
        show g1.mDevice.mCAN_Reset_OK = true
        rw [k5, hr]
      rw [if_neg (by simp [State_Set_Z0]), if_pos hd]
      rfl
    refine ⟨g1,
      { g1 with
        mState_Counter := 10
        mState := STATE_ACTIVATED
        toGimbal := g1.toGimbal.Tick }, hw, hcount, rfl, htick, ?_, fun _ => ⟨rfl, rfl⟩,
      fun hf => ?_⟩
    · rw [htick, hres]
      rfl
    · rw [hf] at hr
      exact absurd hr (by simp)
  · have hres : (g1.State_Set_Z0 STATE_ERROR_CAN).ResetAndSleep_Z0 STATE_ACTIVATED =
        some { g1 with mState := STATE_ERROR_ETH } := by
      unfold ResetAndSleep_Z0
      have hd : ¬ (g1.State_Set_Z0 STATE_ERROR_CAN).mDevice.mCAN_Reset_OK = true := by
        show ¬ g1.mDevice.mCAN_Reset_OK = true
        rw [k5]
        exact hr
      rw [if_neg (by simp [State_Set_Z0]), if_neg hd]
      rfl
    refine ⟨g1,
      { g1 with
        mState := STATE_ERROR_ETH
        toGimbal := g1.toGimbal.Tick }, hw, hcount, rfl, htick, ?_, fun ht => absurd ht hr,
      fun _ => rfl⟩
    rw [htick, hres]
    rfl

theorem OnTick_Times_ready (crc : DJI_CRC) :
    ∀ (c : Nat) (g : DJI_Gimbal), g.Tick_Ready → g.mState_Counter = c + 1 →
      (∀ k, k ≤ c → ∃ gk, OnTick_Times crc k g = some gk ∧ gk.Tick_Ready ∧
        gk.mState_Counter = c + 1 - k ∧
        gk.mDevice.mCAN_Reset_OK = g.mDevice.mCAN_Reset_OK) := by
  intro c
  induction c with
  | zero =>
    intro g h hc k hk
    have : k = 0 := by omega
    subst this
    exact ⟨g, rfl, h, by omega, rfl⟩
  | succ n ih =>
    intro g h hc k hk
    cases k with
    | zero => exact ⟨g, rfl, h, by omega, rfl⟩
    | succ j =>
      obtain ⟨g1, ht, hr1, hc1, hf1⟩ := OnTick_idle crc g n h hc
      obtain ⟨gk, hk1, hk2, hk3, hk4⟩ := ih g1 hr1 hc1 j (by omega)
      refine ⟨gk, ?_, hk2, by rw [hk3]; omega, hk4.trans hf1⟩
      simp only [OnTick_Times, ht, Option.some_bind]
      exact hk1

theorem OnTick_Times_succ (crc : DJI_CRC) :
    ∀ (k : Nat) (g gk : DJI_Gimbal), OnTick_Times crc k g = some gk →
      OnTick_Times crc (k + 1) g = OnTick crc gk := by
  intro k
  induction k with
  | zero =>
    intro g gk h
    simp only [OnTick_Times, Option.some.injEq] at h
    subst h
    simp only [OnTick_Times]
    cases OnTick crc g <;> rfl
  | succ n ih =>
    intro g gk h
    simp only [OnTick_Times] at h ⊢
    rcases ht : OnTick crc g with _ | g1
    · rw [ht] at h
      exact absurd h (fun hh => Option.noConfusion hh)
    · rw [ht] at h
      simp only [Option.some_bind] at h ⊢
      have := ih g1 gk h
      simp only [OnTick_Times] at this
      exact this

/-- C13 (as stated, refuted). On a link that refuses a send, the first tick of the idle
example engine (liveness counter 30, pending slot empty, no reply) does not leave the
engine ACTIVATED: the send of the position query fails and the engine ends the tick in
ERROR_ETH, the counter at 29. -/
theorem Liveness_tick_send_fails :
    (Example.engine_send_fails.mState, Example.engine_send_fails.mState_Counter,
      Example.engine_send_fails.mTr_Next.isSome) = (STATE_ACTIVATED, 30, false) ∧
    (OnTick Example.crc Example.engine_send_fails).map
      (fun g => (g.mState, g.mState_Counter)) = some (STATE_ERROR_ETH, 29) := by
  refine ⟨?_, ?_⟩
  · decide
  · decide!

/-- C13 (amended). An idle engine on a link that accepts every send (ACTIVATED, the
pending slot empty, the receive counters within the buffer, a reply expected for the
position query), with liveness counter `c ≥ 1` and nothing but worker ticks happening:
after each of the first `c - 1` ticks the engine is ACTIVATED with the counter one
lower; the `c`-th tick does the periodic work, finds the counter at 1, sets ERROR_CAN
and runs `ResetAndSleep_Z0`; if `CAN_Reset` succeeds the engine ends that tick
ACTIVATED with the counter at 10, and if it fails the engine ends it in ERROR_ETH. -/
theorem Liveness_timeout (crc : DJI_CRC) (g : DJI_Gimbal) (c : Nat)
    (hr : g.Tick_Ready) (hc : g.mState_Counter = c) (h1 : 1 ≤ c) :
    (∀ k, k < c → ∃ gk, OnTick_Times crc k g = some gk ∧ gk.mState = STATE_ACTIVATED ∧
      gk.mState_Counter = c - k ∧ gk.mTr_Next = none) ∧
    ∃ g1 gw gc, OnTick_Times crc (c - 1) g = some g1 ∧
      Tick_Work_Z0 crc g1 = some gw ∧ gw.mState_Counter = 1 ∧
      OnTick crc g1 = ((gw.State_Set_Z0 STATE_ERROR_CAN).ResetAndSleep_Z0 STATE_ACTIVATED).map
        (fun gx => { gx with toGimbal := gx.toGimbal.Tick }) ∧
      OnTick_Times crc c g = some gc ∧
      (g.mDevice.mCAN_Reset_OK = true →
        gc.mState = STATE_ACTIVATED ∧ gc.mState_Counter = 10) ∧
      (g.mDevice.mCAN_Reset_OK = false → gc.mState = STATE_ERROR_ETH) := by
  obtain ⟨n, rfl⟩ : ∃ n, c = n + 1 := ⟨c - 1, by omega⟩
  have hall := OnTick_Times_ready crc n g hr hc
  constructor
  · intro k hk
    obtain ⟨gk, e1, e2, e3, -⟩ := hall k (by omega)
    exact ⟨gk, e1, e2.1, e3, e2.2.1⟩
  · obtain ⟨g1, e1, e2, e3, e4⟩ := hall n (le_refl n)
    have e3' : g1.mState_Counter = 1 := by rw [e3]; omega
    obtain ⟨gw, gc, w1, w2, -, w4, w5, w6, w7⟩ := OnTick_last crc g1 e2 e3'
    refine ⟨g1, gw, gc, e1, w1, w2, w4, ?_, ?_, ?_⟩
    · rw [OnTick_Times_succ crc n g g1 e1]
      exact w5
    · intro ht
      exact w6 (by rw [e4, ht])
    · intro hf
      exact w7 (by rw [e4, hf])

/-- Witness of C13 (amended): the idle example engine with the liveness counter at 3. -/
theorem Liveness_timeout_witness :
    (∃ g2, OnTick_Times Example.crc 2 Example.engine_counter_3 = some g2 ∧
      g2.mState = STATE_ACTIVATED ∧ g2.mState_Counter = 1) ∧
    (∃ g3, OnTick_Times Example.crc 3 Example.engine_counter_3 = some g3 ∧
      g3.mState = STATE_ACTIVATED ∧ g3.mState_Counter = 10) := by
  obtain ⟨hfirst, -, -, gc, -, -, -, -, hgc, hok, -⟩ :=
    Liveness_timeout Example.crc Example.engine_counter_3 3 (by decide) (by decide) (by decide)
  obtain ⟨g2, e1, e2, e3, -⟩ := hfirst 2 (by decide)
  exact ⟨⟨g2, e1, e2, e3⟩, ⟨gc, hgc, hok (by decide)⟩⟩

end DJI_Gimbal

namespace DJI_Gimbal

open State

/-- C14 (refuted by the code). The constructor leaves `mState_Counter` indeterminate
(here 0, then 31). `Activate` queues the version request; the first worker tick sends
it, no reply arrives, and the hundredth tick after that completes it with
`ZT_ERROR_TIMEOUT`, which moves the engine to ACTIVATED without the counter ever having
been written. With 0 the ACTIVATED tick that follows inspects the counter at 0 and
reaches `case 0: assert(false)`; with 31 the counter of a reachable state exceeds
30. -/
theorem Liveness_counter_indeterminate :
    ((((ctor Example.device 0 (List.replicate 128 0) 0 DJI_Transaction.fresh 0).bind
        (Activate_Begin Example.crc)).bind (OnTick_Times Example.crc 101)).map
      (fun g => (g.mState, g.mState_Counter, g.mTr_Next.isSome,
        g.mTr_Done.map (fun t => (t.mCode, t.mResult)))) =
      some (STATE_ACTIVATED, 0, false, [(MSG_INFO, ZT_ERROR_TIMEOUT)])) ∧
    (((ctor Example.device 0 (List.replicate 128 0) 0 DJI_Transaction.fresh 0).bind
        (Activate_Begin Example.crc)).bind (OnTick_Times Example.crc 102) = none) ∧
    ((((ctor Example.device 0 (List.replicate 128 0) 31 DJI_Transaction.fresh 0).bind
        (Activate_Begin Example.crc)).bind (OnTick_Times Example.crc 101)).map
      (fun g => (g.mState, g.mState_Counter)) = some (STATE_ACTIVATED, 31)) := by
  refine ⟨?_, ?_, ?_⟩
  · decide!
  · decide!
  · decide!

end DJI_Gimbal

namespace DJI_Gimbal

open State

/-- C15 (as stated, refuted). The reply to the position query arrives in three payloads
and the receiver completes the transaction with `ZT_OK`: `Complete` assigns `ZT_OK`
to the result slot. The handler `OnPosition_Z0` then parses the reply, which announces
no valid angle (data byte 3 is 0), and assigns the slot again through `Result_Set`:
the completed transaction carries `ZT_ERROR_NOT_READY`. -/
theorem Position_result_assigned_twice :
    ((Example.engine_position.Receiver_Run [Example.rx [0xaa, 22, 0, 0x20, 0, 0, 0, 0],
        Example.rx [1, 0, 7, 0, 0x0e, 0x02, 0, 0]]).bind
      (fun g => g.Receiver_Step (Example.rx [0, 0, 0, 0, 0, 0]))).map (fun r => r.2) =
      some (some ZT_OK) ∧
    (Example.engine_position.Tr_Current.bind (fun t => t.Complete ZT_OK)).map
      (fun r => r.1.mResult) = some ZT_OK ∧
    (Example.engine_position.Receiver_Run [Example.rx [0xaa, 22, 0, 0x20, 0, 0, 0, 0],
        Example.rx [1, 0, 7, 0, 0x0e, 0x02, 0, 0], Example.rx [0, 0, 0, 0, 0, 0]]).map
      (fun g => (g.mTr_Position.mResult, g.mTr_Done.map (fun t => (t.mCode, t.mResult)))) =
      some (ZT_ERROR_NOT_READY, [(MSG_POSITION, ZT_ERROR_NOT_READY)]) := by
  refine ⟨?_, ?_, ?_⟩
  · decide!
  · decide!
  · decide!

end DJI_Gimbal

namespace DJI_Gimbal

open State

theorem Same_Slots_refl (g : DJI_Gimbal) : Same_Slots g g := ⟨rfl, rfl, rfl, rfl⟩

theorem Same_Slots_trans {g1 g2 g3 : DJI_Gimbal} (h1 : Same_Slots g1 g2)
    (h2 : Same_Slots g2 g3) : Same_Slots g1 g3 :=
  ⟨h2.1.trans h1.1, h2.2.1.trans h1.2.1, h2.2.2.1.trans h1.2.2.1, h2.2.2.2.trans h1.2.2.2⟩

theorem Same_Slots_Tr_Current {g1 g2 : DJI_Gimbal} (h : Same_Slots g1 g2) :
    g2.Tr_Current = g1.Tr_Current := by
  obtain ⟨h1, -, -, h4⟩ := h
  unfold Tr_Current
  rw [h1]
  cases g1.mTr_Current with
  | none => rfl
  | some p => cases p <;> simp [Tr_Deref, h4]

theorem Slots_Unassigned_of_Same_Slots {g1 g2 : DJI_Gimbal} (h : Same_Slots g1 g2)
    (hI : g1.Slots_Unassigned) : g2.Slots_Unassigned := by
  obtain ⟨i1, i2, i3⟩ := hI
  refine ⟨?_, ?_, ?_⟩
  · intro t ht
    rw [Same_Slots_Tr_Current h] at ht
    exact i1 t ht
  · intro p hp
    rw [h.2.1] at hp
    exact i2 p hp
  · rw [h.2.2.2]
    exact i3

theorem Completed_Assigned_of_Same_Slots {g1 g2 : DJI_Gimbal} (h : Same_Slots g1 g2)
    (hI : g1.Slots_Unassigned) : Completed_Assigned g1 g2 0 :=
  ⟨Slots_Unassigned_of_Same_Slots h hI, [], by rw [h.2.2.1]; simp, by simp, by simp⟩

theorem Detached_of_Same_Slots {g0 g1 g2 : DJI_Gimbal} {t : DJI_Transaction}
    (hs : g1.mTr_Next = g0.mTr_Next) (hd : g1.mTr_Done = g0.mTr_Done)
    (hp : Tr_Prepared g0.mTr_Position → Tr_Prepared g1.mTr_Position)
    (h : Detached g1 g2 t) : Detached g0 g2 t := by
  obtain ⟨h1, h2, h3, h4⟩ := h
  exact ⟨h1, h2.trans hs, by rw [h3, hd], fun k => h4 (hp k)⟩

/-- After a detachment of a transaction with an assigned result, the slots hold
unassigned transactions again. -/
theorem Completed_Assigned_of_Detached {g1 g2 : DJI_Gimbal} {t : DJI_Transaction}
    (hI : g1.Slots_Unassigned) (h : Detached g1 g2 t) (hr : t.mResult ≠ ZT_RESULT_INVALID) :
    Completed_Assigned g1 g2 1 := by
  obtain ⟨h1, h2, h3, h4⟩ := h
  obtain ⟨-, i2, i3⟩ := hI
  refine ⟨⟨?_, ?_, h4 i3⟩, [t], h3, by simp, ?_⟩
  · intro t' ht'
    simp [Tr_Current, h1] at ht'
  · intro p hp
    rw [h2] at hp
    exact i2 p hp
  · intro t' ht'
    simp only [List.mem_singleton] at ht'
    rw [ht']
    exact hr

theorem Completed_Assigned_mono {g1 g2 : DJI_Gimbal} {n m : Nat} (hnm : n ≤ m)
    (h : Completed_Assigned g1 g2 n) : Completed_Assigned g1 g2 m := by
  obtain ⟨h1, l, h2, h3, h4⟩ := h
  exact ⟨h1, l, h2, le_trans h3 hnm, h4⟩

theorem Completed_Assigned_trans {g1 g2 g3 : DJI_Gimbal} {n m : Nat}
    (h1 : Completed_Assigned g1 g2 n) (h2 : Completed_Assigned g2 g3 m) :
    Completed_Assigned g1 g3 (n + m) := by
  obtain ⟨-, l1, a2, a3, a4⟩ := h1
  obtain ⟨b1, l2, b2, b3, b4⟩ := h2
  refine ⟨b1, l1 ++ l2, by rw [b2, a2, List.append_assoc], by simp; omega, ?_⟩
  intro t ht
  rcases List.mem_append.1 ht with h | h
  · exact a4 t h
  · exact b4 t h

/-- A write through `mTr_Current` of a transaction with the receiver and the code of the
one that was there. -/
theorem Tr_Current_Store_prepared (g : DJI_Gimbal) (t0 t : DJI_Transaction)
    (hcur : g.Tr_Current = some t0)
    (hr : t.mReceiver = t0.mReceiver) (hc : t.mCode = t0.mCode) :
    (g.Tr_Current_Store t).Tr_Current = some t ∧
    (g.Tr_Current_Store t).mTr_Next = g.mTr_Next ∧
    (g.Tr_Current_Store t).mTr_Done = g.mTr_Done ∧
    (Tr_Prepared g.mTr_Position → Tr_Prepared (g.Tr_Current_Store t).mTr_Position) := by
  unfold Tr_Current_Store
  rcases hp : g.mTr_Current with _ | p
  · simp [Tr_Current, hp] at hcur
  · cases p with
    | Position =>
      refine ⟨by simp [Tr_Current, Tr_Deref], rfl, rfl, ?_⟩
      intro k
      have e : t0 = g.mTr_Position := by
        simp [Tr_Current, hp, Tr_Deref] at hcur
        exact hcur.symm
      show Tr_Prepared t
      unfold Tr_Prepared at k ⊢
      rw [hr, hc, e]
      exact k
    | Object o => exact ⟨by simp [Tr_Current, Tr_Deref], rfl, rfl, fun k => k⟩

/-- A write through `mTr_Current` of an unassigned transaction keeps the slots
unassigned. -/
theorem Tr_Current_Store_unassigned (g : DJI_Gimbal) (t0 t : DJI_Transaction)
    (hI : g.Slots_Unassigned) (hcur : g.Tr_Current = some t0)
    (hr : t.mReceiver = t0.mReceiver) (hc : t.mCode = t0.mCode)
    (hres : t.mResult = ZT_RESULT_INVALID) :
    Completed_Assigned g (g.Tr_Current_Store t) 0 := by
  obtain ⟨s1, s2, s3, s4⟩ := Tr_Current_Store_prepared g t0 t hcur hr hc
  obtain ⟨i1, i2, i3⟩ := hI
  refine ⟨⟨?_, ?_, s4 i3⟩, [], by rw [s3]; simp, by simp, by simp⟩
  · intro t' ht'
    rw [s1] at ht'
    injection ht' with ht'
    subst ht'
    have := (i1 t0 hcur).2
    exact ⟨hres, by unfold Tr_Prepared at this ⊢; rw [hr, hc]; exact this⟩
  · intro p hp
    rw [s2] at hp
    exact i2 p hp

theorem Tr_Complete_Z0_detach (g : DJI_Gimbal) (t : DJI_Transaction)
    (hcur : g.Tr_Current = some t) : Detached g g.Tr_Complete_Z0 t := by
  unfold Tr_Complete_Z0
  rw [hcur]
  exact ⟨rfl, rfl, rfl, fun k => k⟩

theorem OnSignal_Z0_detach (g : DJI_Gimbal) (t : DJI_Transaction)
    (hcur : g.Tr_Current = some t) : Detached g g.OnSignal_Z0 t := by
  obtain ⟨h1, h2, h3, h4⟩ := Tr_Complete_Z0_detach g t hcur
  obtain ⟨k1, k2, k3, k4⟩ := State_Change_Z0_slots g.Tr_Complete_Z0 STATE_TRANSACTION
    STATE_ACTIVATED
  unfold OnSignal_Z0
  exact ⟨by rw [k2, h1], by rw [k1, h2], by rw [k3, h3], fun k => by rw [k4]; exact h4 k⟩

end DJI_Gimbal

namespace DJI_Gimbal

open State

theorem Result_Set_assigned (tr t : DJI_Transaction) (r : Result)
    (h : tr.Result_Set r = some t) : r ≠ ZT_RESULT_INVALID ∧ t = { tr with mResult := r } := by
  unfold DJI_Transaction.Result_Set at h
  rcases ite_eq_some_cases h with ⟨_, h⟩ | ⟨hne, h⟩
  · exact absurd h (fun hh => Option.noConfusion hh)
  · injection h with h
    exact ⟨fun hh => (not_not.1 hne) hh.symm, h.symm⟩

theorem OnPosition_Parse_store (g g2 : DJI_Gimbal) (lTr : DJI_Transaction)
    (hcur : g.Tr_Current = some lTr) (h : g.OnPosition_Parse lTr = some g2) :
    ∃ r, r ≠ ZT_RESULT_INVALID ∧ g2.Tr_Current = some { lTr with mResult := r } ∧
      g2.mTr_Next = g.mTr_Next ∧ g2.mTr_Done = g.mTr_Done ∧
      (Tr_Prepared g.mTr_Position → Tr_Prepared g2.mTr_Position) := by
  unfold OnPosition_Parse at h
  obtain ⟨⟨r, g1⟩, hp, h⟩ := Option.bind_eq_some.1 h
  simp only at h
  obtain ⟨t, ht, rfl⟩ := Option.map_eq_some'.1 h
  obtain ⟨hr, he⟩ := Result_Set_assigned _ _ _ ht
  have hs : Same_Slots g g1 := by
    rcases Position_Parse_cases g r g1 hp with rfl | ⟨p, rfl⟩
    · exact Same_Slots_refl _
    · exact ⟨rfl, rfl, rfl, rfl⟩
  have hcur1 : g1.Tr_Current = some lTr := by rw [Same_Slots_Tr_Current hs, hcur]
  obtain ⟨s1, s2, s3, s4⟩ := Tr_Current_Store_prepared g1 lTr t hcur1
    (by rw [he]) (by rw [he])
  refine ⟨r, hr, by rw [s1, he], by rw [s2, hs.2.1], by rw [s3, hs.2.2.1], ?_⟩
  intro k
  exact s4 (by rw [hs.2.2.2]; exact k)

theorem OnConfig_Z0_detach (g g2 : DJI_Gimbal) (t : DJI_Transaction)
    (hcur : g.Tr_Current = some t) (h : g.OnConfig_Z0 = some g2) :
    Detached g g2 t := by
  unfold OnConfig_Z0 at h
  rw [hcur] at h
  simp only [Option.some.injEq] at h
  subst h
  by_cases hok : t.IsOK = true
  · rw [if_pos hok]
    exact Detached_of_Same_Slots rfl rfl (fun k => k) (OnSignal_Z0_detach _ t hcur)
  · rw [if_neg hok]
    exact OnSignal_Z0_detach g t hcur

theorem OnInfo_Z0_detach (g g2 : DJI_Gimbal) (t : DJI_Transaction)
    (hcur : g.Tr_Current = some t) (h : g.OnInfo_Z0 = some g2) :
    Detached g g2 t := by
  unfold OnInfo_Z0 at h
  rw [hcur] at h
  simp only [Option.some.injEq] at h
  subst h
  by_cases hok : t.IsOK = true
  · rw [if_pos hok]
    exact Detached_of_Same_Slots rfl rfl (fun k => k) (OnSignal_Z0_detach _ t hcur)
  · rw [if_neg hok]
    exact OnSignal_Z0_detach g t hcur

theorem OnConfigStiffness_Z0_detach (g g2 : DJI_Gimbal) (t : DJI_Transaction)
    (hcur : g.Tr_Current = some t) (hres : t.mResult ≠ ZT_RESULT_INVALID)
    (h : g.OnConfigStiffness_Z0 = some g2) :
    ∃ r, Detached g g2 { t with mResult := r } ∧ r ≠ ZT_RESULT_INVALID ∧
      (t.IsOK = false → r = t.mResult) := by
  unfold OnConfigStiffness_Z0 at h
  rw [hcur] at h
  simp only at h
  rcases ite_eq_some_cases h with ⟨hok, h⟩ | ⟨hok, h⟩
  · split at h
    · exact absurd h (fun hh => Option.noConfusion hh)
    · rename_i lResult _
      obtain ⟨t1, ht1, rfl⟩ := Option.map_eq_some'.1 h
      obtain ⟨hr, he⟩ := Result_Set_assigned _ _ _ ht1
      subst he
      refine ⟨lResult, ?_, hr, fun hf => absurd hok (by rw [hf]; simp)⟩
      have key : ∀ gx : DJI_Gimbal, gx.Tr_Current = some t → gx.mTr_Next = g.mTr_Next →
          gx.mTr_Done = g.mTr_Done → gx.mTr_Position = g.mTr_Position →
          Detached g (gx.Tr_Current_Store { t with mResult := lResult }).OnSignal_Z0
            { t with mResult := lResult } := by
        intro gx hx hn hd hp
        obtain ⟨s1, s2, s3, s4⟩ := Tr_Current_Store_prepared gx t { t with mResult := lResult }
          hx rfl rfl
        exact Detached_of_Same_Slots (s2.trans hn) (s3.trans hd)
          (fun k => s4 (by rw [hp]; exact k)) (OnSignal_Z0_detach _ _ s1)
      exact key _ hcur rfl rfl rfl
  · simp only [Option.some.injEq] at h
    subst h
    exact ⟨t.mResult, OnSignal_Z0_detach g t hcur, hres, fun _ => rfl⟩

theorem OnPosition_Z0_detach (g g2 : DJI_Gimbal) (t : DJI_Transaction)
    (hcur : g.Tr_Current = some t) (hres : t.mResult ≠ ZT_RESULT_INVALID)
    (h : g.OnPosition_Z0 = some g2) :
    ∃ r, Detached g g2 { t with mResult := r } ∧ r ≠ ZT_RESULT_INVALID ∧
      (t.IsOK = false → r = t.mResult) := by
  unfold OnPosition_Z0 at h
  rw [hcur] at h
  simp only at h
  rcases ite_eq_some_cases h with ⟨hok, h⟩ | ⟨hok, h⟩
  · obtain ⟨g1, h1, rfl⟩ := Option.map_eq_some'.1 h
    obtain ⟨r, hr, s1, s2, s3, s4⟩ := OnPosition_Parse_store g g1 t hcur h1
    exact ⟨r, Detached_of_Same_Slots s2 s3 s4 (Tr_Complete_Z0_detach g1 _ s1), hr,
      fun hf => absurd hok (by rw [hf]; simp)⟩
  · simp only [Option.some.injEq] at h
    subst h
    exact ⟨t.mResult, Tr_Complete_Z0_detach g t hcur, hres, fun _ => rfl⟩

theorem OnPositionAndSignal_Z0_detach (g g2 : DJI_Gimbal) (t : DJI_Transaction)
    (hcur : g.Tr_Current = some t) (hres : t.mResult ≠ ZT_RESULT_INVALID)
    (h : g.OnPositionAndSignal_Z0 = some g2) :
    ∃ r, Detached g g2 { t with mResult := r } ∧ r ≠ ZT_RESULT_INVALID ∧
      (t.IsOK = false → r = t.mResult) := by
  unfold OnPositionAndSignal_Z0 at h
  rw [hcur] at h
  simp only at h
  rcases ite_eq_some_cases h with ⟨hok, h⟩ | ⟨hok, h⟩
  · obtain ⟨g1, h1, rfl⟩ := Option.map_eq_some'.1 h
    obtain ⟨r, hr, s1, s2, s3, s4⟩ := OnPosition_Parse_store g g1 t hcur h1
    exact ⟨r, Detached_of_Same_Slots s2 s3 s4 (OnSignal_Z0_detach g1 _ s1), hr,
      fun hf => absurd hok (by rw [hf]; simp)⟩
  · simp only [Option.some.injEq] at h
    subst h
    exact ⟨t.mResult, OnSignal_Z0_detach g t hcur, hres, fun _ => rfl⟩

theorem OnRelease_Z0_detach (g g2 : DJI_Gimbal) (t : DJI_Transaction)
    (hcur : g.Tr_Current = some t) (hrep : t.mResult ≠ ZT_OK_REPLACED)
    (h : g.OnRelease_Z0 = some g2) :
    Detached g g2 t := by
  unfold OnRelease_Z0 at h
  rw [hcur] at h
  simp only at h
  rcases ite_eq_some_cases h with ⟨_, h⟩ | ⟨hn, h⟩
  · simp only [Option.some.injEq] at h
    subst h
    exact OnSignal_Z0_detach g t hcur
  · exact absurd (fun hh => hrep hh.symm) hn

/-- The handler of the completion message of a prepared transaction detaches it. Only
the handlers of the parsing codes, and only for a transaction completed with `ZT_OK`,
change its result, and the result they assign is not `ZT_RESULT_INVALID`. -/
theorem ProcessMessage_Tr_detach (g g2 : DJI_Gimbal) (aCode : Nat) (t : DJI_Transaction)
    (hcur : g.Tr_Current = some t) (hc : Handled_Code aCode)
    (hres : t.mResult ≠ ZT_RESULT_INVALID) (hrep : t.mResult ≠ ZT_OK_REPLACED)
    (h : g.ProcessMessage_Tr aCode = some g2) :
    ∃ r, Detached g g2 { t with mResult := r } ∧ r ≠ ZT_RESULT_INVALID ∧
      (¬ Parsing_Code aCode ∨ t.IsOK = false → r = t.mResult) := by
  unfold ProcessMessage_Tr at h
  rcases ite_eq_some_cases h with ⟨_, h⟩ | ⟨n1, h⟩
  · exact ⟨t.mResult, OnConfig_Z0_detach g g2 t hcur h, hres, fun _ => rfl⟩
  rcases ite_eq_some_cases h with ⟨c2, h⟩ | ⟨n2, h⟩
  · obtain ⟨r, e, hr, hk⟩ := OnConfigStiffness_Z0_detach g g2 t hcur hres h
    refine ⟨r, e, hr, fun hh => ?_⟩
    rcases hh with hh | hh
    · exact absurd (Or.inl c2) hh
    · exact hk hh
  rcases ite_eq_some_cases h with ⟨_, h⟩ | ⟨n3, h⟩
  · exact ⟨t.mResult, OnInfo_Z0_detach g g2 t hcur h, hres, fun _ => rfl⟩
  rcases ite_eq_some_cases h with ⟨c4, h⟩ | ⟨n4, h⟩
  · obtain ⟨r, e, hr, hk⟩ := OnPosition_Z0_detach g g2 t hcur hres h
    refine ⟨r, e, hr, fun hh => ?_⟩
    rcases hh with hh | hh
    · exact absurd (Or.inr (Or.inl c4)) hh
    · exact hk hh
  rcases ite_eq_some_cases h with ⟨c5, h⟩ | ⟨n5, h⟩
  · obtain ⟨r, e, hr, hk⟩ := OnPositionAndSignal_Z0_detach g g2 t hcur hres h
    refine ⟨r, e, hr, fun hh => ?_⟩
    rcases hh with hh | hh
    · exact absurd (Or.inr (Or.inr c5)) hh
    · exact hk hh
  rcases ite_eq_some_cases h with ⟨_, h⟩ | ⟨n6, h⟩
  · exact ⟨t.mResult, OnRelease_Z0_detach g g2 t hcur hrep h, hres, fun _ => rfl⟩
  rcases ite_eq_some_cases h with ⟨_, h⟩ | ⟨n7, h⟩
  · simp only [Option.some.injEq] at h
    subst h
    exact ⟨t.mResult, OnSignal_Z0_detach g t hcur, hres, fun _ => rfl⟩
  · rcases hc with hc | hc | hc | hc | hc | hc | hc
    · exact absurd hc n1
    · exact absurd hc n2
    · exact absurd hc n3
    · exact absurd hc n4
    · exact absurd hc n5
    · exact absurd hc n6
    · exact absurd hc n7

/-- The call `mTr_Current->Complete(aResult)` on an unassigned, prepared transaction and
the handler it reaches: the transaction is detached and recorded with an assigned
result, which is `aResult` unless a parsing handler replaced a `ZT_OK`. -/
theorem Complete_detach (g g2 : DJI_Gimbal) (aResult : Result) (tr : DJI_Transaction)
    (hcur : g.Tr_Current = some tr) (hU : Tr_Unassigned tr)
    (hrep : aResult ≠ ZT_OK_REPLACED)
    (h : g.Tr_Current_Call (fun t => t.Complete aResult) = some g2) :
    ∃ r, Detached g g2 { tr with mResult := r } ∧ r ≠ ZT_RESULT_INVALID ∧
      (¬ (aResult = ZT_OK ∧ Parsing_Code tr.mCode) → r = aResult) := by
  obtain ⟨-, hrecv, hcode⟩ := hU
  unfold Tr_Current_Call at h
  rw [hcur] at h
  simp only at h
  rcases hk : tr.Complete aResult with _ | ⟨t, c⟩
  · rw [hk] at h; exact absurd h (fun hh => Option.noConfusion hh)
  · rw [hk] at h
    obtain ⟨-, e2, e3, e4⟩ := Complete_eq _ _ _ _ hk
    rw [if_pos hrecv] at e4
    subst e4
    simp only at h
    obtain ⟨s1, s2, s3, s4⟩ := Tr_Current_Store_prepared g tr t hcur (by rw [e3]) (by rw [e3])
    obtain ⟨r, hd, hr, hv⟩ := ProcessMessage_Tr_detach _ g2 tr.mCode t s1 hcode
      (by rw [e3]; exact e2) (by rw [e3]; exact hrep) h
    refine ⟨r, ?_, hr, ?_⟩
    · have := Detached_of_Same_Slots s2 s3 s4 hd
      rw [e3] at this
      exact this
    · intro hn
      have : r = t.mResult := by
        apply hv
        by_cases hp : Parsing_Code tr.mCode
        · right
          have hne : aResult ≠ ZT_OK := fun hh => hn ⟨hh, hp⟩
          rw [e3]
          simp only [DJI_Transaction.IsOK, decide_eq_false_iff_not]
          exact fun hh => hne hh.symm
        · exact Or.inl hp
      rw [this, e3]

end DJI_Gimbal

namespace DJI_Gimbal

open State

theorem Receiver_Reset_slots (g g1 : DJI_Gimbal) (h : g.Receiver_Reset = some g1) :
    Same_Slots g g1 := by
  unfold Receiver_Reset at h
  rcases ite_eq_some_cases h with ⟨_, h⟩ | ⟨_, h⟩
  · exact absurd h (fun hh => Option.noConfusion hh)
  rcases ite_eq_some_cases h with ⟨_, h⟩ | ⟨_, h⟩
  · exact absurd h (fun hh => Option.noConfusion hh)
  injection h with h
  subst h
  exact ⟨rfl, rfl, rfl, rfl⟩

theorem Receiver_CopyNewData_slots (g g1 : DJI_Gimbal) (aCF : EthCAN_Frame)
    (h : g.Receiver_CopyNewData aCF = some g1) : Same_Slots g g1 := by
  unfold Receiver_CopyNewData at h
  rcases ite_eq_some_cases h with ⟨_, h⟩ | ⟨_, h⟩
  · exact absurd h (fun hh => Option.noConfusion hh)
  rcases ite_eq_some_cases h with ⟨_, h⟩ | ⟨_, h⟩
  · exact absurd h (fun hh => Option.noConfusion hh)
  rcases ite_eq_some_cases h with ⟨_, h⟩ | ⟨_, h⟩
  · exact absurd h (fun hh => Option.noConfusion hh)
  simp only at h
  split at h
  · exact absurd h (fun hh => Option.noConfusion hh)
  split at h
  · exact absurd h (fun hh => Option.noConfusion hh)
  split at h
  · exact absurd h (fun hh => Option.noConfusion hh)
  injection h with h
  subst h
  exact ⟨rfl, rfl, rfl, rfl⟩

/-- `Receiver_Validate_Z0` leaves the transactions alone and never returns
`ZT_OK_REPLACED`. -/
theorem Receiver_Validate_Z0_slots (g g2 : DJI_Gimbal) (aTo_byte : Nat) (r : Result)
    (h : g.Receiver_Validate_Z0 aTo_byte = some (r, g2)) :
    Same_Slots g g2 ∧ r ≠ ZT_OK_REPLACED := by
  have herr : ∀ (x : Result), x ≠ ZT_OK_REPLACED → ∀ (r : Result) (g2 : DJI_Gimbal),
      g.Receiver_Validate_Error x = some (r, g2) → Same_Slots g g2 ∧ r ≠ ZT_OK_REPLACED := by
    intro x hx r g2 hh
    unfold Receiver_Validate_Error at hh
    obtain ⟨g1, h1, h2⟩ := Option.map_eq_some'.1 hh
    simp only [Prod.mk.injEq] at h2
    rw [← h2.1, ← h2.2]
    exact ⟨Receiver_Reset_slots g g1 h1, hx⟩
  have hite : ∀ (c : Prop) [Decidable c] (a b : Option (Result × DJI_Gimbal)),
      (∀ r g2, a = some (r, g2) → Same_Slots g g2 ∧ r ≠ ZT_OK_REPLACED) →
      (∀ r g2, b = some (r, g2) → Same_Slots g g2 ∧ r ≠ ZT_OK_REPLACED) →
      ∀ r g2, (if c then a else b) = some (r, g2) → Same_Slots g g2 ∧ r ≠ ZT_OK_REPLACED := by
    intro c _ a b ha hb r g2 hh
    by_cases hc : c
    · rw [if_pos hc] at hh; exact ha r g2 hh
    · rw [if_neg hc] at hh; exact hb r g2 hh
  unfold Receiver_Validate_Z0 at h
  rcases hcur : g.Tr_Current with _ | lTr
  · rw [hcur] at h
    exact absurd h (fun hh => Option.noConfusion hh)
  rw [hcur] at h
  simp only at h
  revert h
  revert g2
  revert r
  repeat' apply hite
  all_goals first
    | exact herr _ (by decide)
    | (intro r g2 hh
       exact absurd hh (fun k => Option.noConfusion k))
    | (intro r g2 hh
       simp only [Option.some.injEq, Prod.mk.injEq] at hh
       rw [← hh.1, ← hh.2]
       exact ⟨⟨rfl, rfl, rfl, rfl⟩, by decide⟩)

/-- `Receiver` up to its call of `Complete`: the transactions are left alone, and the
result `Complete` is about to be given is not `ZT_OK_REPLACED`. -/
theorem Receiver_Step_slots (g g1 : DJI_Gimbal) (aCF : EthCAN_Frame) (o : Option Result)
    (h : g.Receiver_Step aCF = some (g1, o)) :
    Same_Slots g g1 ∧ ∀ r, o = some r → r ≠ ZT_OK_REPLACED ∧ g.mTr_Current ≠ none := by
  unfold Receiver_Step at h
  rcases ite_eq_some_cases h with ⟨_, h⟩ | ⟨_, h⟩
  · exact absurd h (fun hh => Option.noConfusion hh)
  rcases ite_eq_some_cases h with ⟨_, h⟩ | ⟨_, h⟩
  · exact absurd h (fun hh => Option.noConfusion hh)
  rcases ite_eq_some_cases h with ⟨_, h⟩ | ⟨hc, h⟩
  · simp only [Option.some.injEq, Prod.mk.injEq] at h
    rw [← h.1, ← h.2]
    exact ⟨Same_Slots_refl g, fun r hr => Option.noConfusion hr⟩
  have hne : g.mTr_Current ≠ none := fun hh => hc (Or.inr hh)
  simp only at h
  rcases ite_eq_some_cases h with ⟨_, h⟩ | ⟨_, h⟩
  · obtain ⟨ga, h1, h2⟩ := Option.map_eq_some'.1 h
    simp only [Prod.mk.injEq] at h2
    rw [← h2.1, ← h2.2]
    exact ⟨Receiver_Reset_slots g ga h1, fun r hr => Option.noConfusion hr⟩
  rcases hcopy : g.Receiver_CopyNewData aCF with _ | ga
  · rw [hcopy] at h
    exact absurd h (fun hh => Option.noConfusion hh)
  rw [hcopy] at h
  simp only at h
  have s1 := Receiver_CopyNewData_slots g ga aCF hcopy
  rcases hval : ga.Receiver_Validate_Z0 (g.mRxSize_byte + aCF.mDataSize_byte) with
    _ | ⟨lRet, gb⟩
  · rw [hval] at h
    exact absurd h (fun hh => Option.noConfusion hh)
  rw [hval] at h
  simp only at h
  obtain ⟨s2, hr2⟩ := Receiver_Validate_Z0_slots ga gb _ lRet hval
  have s12 := Same_Slots_trans s1 s2
  rcases ite_eq_some_cases h with ⟨hok, h⟩ | ⟨hok, h⟩
  · split at h
    · exact absurd h (fun hh => Option.noConfusion hh)
    · rcases ite_eq_some_cases h with ⟨_, h⟩ | ⟨_, h⟩
      · split at h
        · simp only [Option.some.injEq, Prod.mk.injEq] at h
          rw [← h.1, ← h.2]
          exact ⟨Same_Slots_trans s12 ⟨rfl, rfl, rfl, rfl⟩,
            fun r hr => by injection hr with hr; rw [← hr]; exact ⟨by decide, hne⟩⟩
        · simp only [Option.some.injEq, Prod.mk.injEq] at h
          rw [← h.1, ← h.2]
          exact ⟨Same_Slots_trans s12 ⟨rfl, rfl, rfl, rfl⟩,
            fun r hr => by injection hr with hr; rw [← hr]; exact ⟨by decide, hne⟩⟩
        · simp only [Option.some.injEq, Prod.mk.injEq] at h
          rw [← h.1, ← h.2]
          exact ⟨Same_Slots_trans s12 ⟨rfl, rfl, rfl, rfl⟩,
            fun r hr => by injection hr with hr; rw [← hr]; exact ⟨by decide, hne⟩⟩
        · exact absurd h (fun hh => Option.noConfusion hh)
      · simp only [Option.some.injEq, Prod.mk.injEq] at h
        rw [← h.1, ← h.2]
        exact ⟨s12, fun r hr => Option.noConfusion hr⟩
  · simp only [Option.some.injEq, Prod.mk.injEq] at h
    rw [← h.1, ← h.2]
    exact ⟨s12, fun r hr => by injection hr with hr; rw [← hr]; exact ⟨hr2, hne⟩⟩

/-- One received payload: the slots hold unassigned transactions afterwards and at most
one transaction was completed. -/
theorem Receiver_assigned (g g2 : DJI_Gimbal) (aCF : EthCAN_Frame)
    (hI : g.Slots_Unassigned) (h : g.Receiver aCF = some g2) :
    Completed_Assigned g g2 1 := by
  unfold Receiver at h
  rcases hstep : g.Receiver_Step aCF with _ | ⟨g1, o⟩
  · rw [hstep] at h
    exact absurd h (fun hh => Option.noConfusion hh)
  rw [hstep] at h
  obtain ⟨hs, hr⟩ := Receiver_Step_slots g g1 aCF o hstep
  have hI1 := Slots_Unassigned_of_Same_Slots hs hI
  cases o with
  | none =>
    simp only [Option.some.injEq] at h
    subst h
    exact Completed_Assigned_mono (Nat.zero_le _) (Completed_Assigned_of_Same_Slots hs hI)
  | some lResult =>
    simp only at h
    obtain ⟨hrep, -⟩ := hr lResult rfl
    rcases hcur : g1.Tr_Current with _ | tr
    · unfold Tr_Current_Call at h
      rw [hcur] at h
      exact absurd h (fun hh => Option.noConfusion hh)
    obtain ⟨r, hd, hne, -⟩ := Complete_detach g1 g2 lResult tr hcur (hI1.1 tr hcur) hrep h
    have := Completed_Assigned_of_Detached hI1 hd hne
    obtain ⟨a1, l, a2, a3, a4⟩ := this
    exact ⟨a1, l, by rw [a2, hs.2.2.1], a3, a4⟩

end DJI_Gimbal

namespace DJI_Gimbal

open State

theorem Completed_Assigned_of_Done_eq {g0 g1 g2 : DJI_Gimbal} {n : Nat}
    (hd : g1.mTr_Done = g0.mTr_Done) (h : Completed_Assigned g1 g2 n) :
    Completed_Assigned g0 g2 n := by
  obtain ⟨a1, l, a2, a3, a4⟩ := h
  exact ⟨a1, l, by rw [a2, hd], a3, a4⟩

/-- The loop of `Frame_Send_Z0` leaves the transactions alone and returns `ZT_OK` or
`ZT_ERROR_SEND`. -/
theorem Frame_Send_Loop_slots (lFrame : List Nat) (lTotalSize_byte : Nat) :
    ∀ (fuel lOffset_byte : Nat) (g g2 : DJI_Gimbal) (r : Result),
      Frame_Send_Loop lFrame lTotalSize_byte fuel lOffset_byte g = some (r, g2) →
      Same_Slots g g2 ∧ r ≠ ZT_OK_REPLACED := by
  intro fuel
  induction fuel with
  | zero =>
    intro o g g2 r h
    exact absurd h (fun hh => Option.noConfusion hh)
  | succ n ih =>
    intro o g g2 r h
    unfold Frame_Send_Loop at h
    simp only at h
    split at h
    · exact absurd h (fun hh => Option.noConfusion hh)
    · split at h
      · simp only [Option.some.injEq, Prod.mk.injEq] at h
        rw [← h.1, ← h.2]
        exact ⟨⟨rfl, rfl, rfl, rfl⟩, by decide⟩
      · split at h
        · obtain ⟨k1, k2⟩ := ih _ _ _ _ h
          exact ⟨Same_Slots_trans ⟨rfl, rfl, rfl, rfl⟩ k1, k2⟩
        · simp only [Option.some.injEq, Prod.mk.injEq] at h
          rw [← h.1, ← h.2]
          exact ⟨⟨rfl, rfl, rfl, rfl⟩, by decide⟩

theorem Frame_Send_Z0_slots (crc : DJI_CRC) (g g2 : DJI_Gimbal) (aFrame lSealed : DJI_Frame)
    (r : Result) (h : Frame_Send_Z0 crc g aFrame = some (r, g2, lSealed)) :
    Same_Slots g g2 ∧ r ≠ ZT_OK_REPLACED := by
  unfold Frame_Send_Z0 at h
  simp only at h
  split at h
  · exact absurd h (fun hh => Option.noConfusion hh)
  · split at h
    · exact absurd h (fun hh => Option.noConfusion hh)
    · rename_i lResult g1 hloop
      simp only [Option.some.injEq, Prod.mk.injEq] at h
      rw [← h.1, ← h.2.1]
      exact Frame_Send_Loop_slots _ _ _ _ _ _ _ hloop

/-- The call `mTr_Current->Tick()` on a current slot that holds an unassigned
transaction. -/
theorem Tick_assigned (g g2 : DJI_Gimbal) (hI : g.Slots_Unassigned)
    (h : g.Tr_Current_Call (fun t => t.Tick) = some g2) :
    Completed_Assigned g g2 1 := by
  rcases hcur : g.Tr_Current with _ | tr
  · unfold Tr_Current_Call at h
    rw [hcur] at h
    exact absurd h (fun hh => Option.noConfusion hh)
  · have hU := hI.1 tr hcur
    rcases hto : tr.mRxTimeout_tick with _ | _ | n
    · unfold Tr_Current_Call at h
      rw [hcur] at h
      simp only [DJI_Transaction.Tick, hto, Option.some.injEq] at h
      subst h
      exact Completed_Assigned_mono (Nat.zero_le _)
        (Tr_Current_Store_unassigned g tr tr hI hcur rfl rfl hU.1)
    · have hc : g.Tr_Current_Call (fun t => t.Complete ZT_ERROR_TIMEOUT) = some g2 := by
        unfold Tr_Current_Call at h ⊢
        rw [hcur] at h ⊢
        simp only [DJI_Transaction.Tick, hto] at h
        exact h
      obtain ⟨r, hd, hr, -⟩ := Complete_detach g g2 _ tr hcur hU (by decide) hc
      exact Completed_Assigned_of_Detached hI hd hr
    · unfold Tr_Current_Call at h
      rw [hcur] at h
      simp only [DJI_Transaction.Tick, hto, Option.some.injEq] at h
      subst h
      exact Completed_Assigned_mono (Nat.zero_le _)
        (Tr_Current_Store_unassigned g tr _ hI hcur rfl rfl hU.1)

/-- `Tr_Start_Z0` on an unassigned transaction: it becomes the current one, or it was
completed at once and detached with an assigned result. -/
theorem Tr_Start_Z0_assigned (crc : DJI_CRC) (g g2 : DJI_Gimbal) (aTr : DJI_Transaction_Ptr)
    (hN : ∀ p, g.mTr_Next = some p → ∃ t, p = .Object t ∧ Tr_Unassigned t)
    (hP : Tr_Prepared g.mTr_Position) (hT : Tr_Unassigned (g.Tr_Deref aTr))
    (h : Tr_Start_Z0 crc g aTr = some g2) :
    Completed_Assigned g g2 1 ∧ g2.mTr_Next = g.mTr_Next := by
  unfold Tr_Start_Z0 at h
  simp only at h
  set g1 : DJI_Gimbal := { g with mTr_Current := some aTr } with hg1
  have hI1 : g1.Slots_Unassigned := by
    refine ⟨?_, hN, hP⟩
    intro t ht
    have e : g1.Tr_Current = some (g.Tr_Deref aTr) := by
      simp only [Tr_Current, hg1, Option.map_some']
      cases aTr <;> rfl
    rw [e] at ht
    injection ht with ht
    rw [← ht]
    exact hT
  rcases hreset : g1.Receiver_Reset with _ | ga
  · rw [hreset] at h
    exact absurd h (fun hh => Option.noConfusion hh)
  rw [hreset] at h
  simp only at h
  have sa := Receiver_Reset_slots g1 ga hreset
  rcases hsend : Frame_Send_Z0 crc ga (ga.Tr_Deref aTr).Frame_Get with _ | ⟨lRet, gb, lFrame⟩
  · rw [hsend] at h
    exact absurd h (fun hh => Option.noConfusion hh)
  rw [hsend] at h
  simp only at h
  obtain ⟨sb, hrep⟩ := Frame_Send_Z0_slots crc ga gb _ lFrame lRet hsend
  have sab := Same_Slots_trans sa sb
  have hIb := Slots_Unassigned_of_Same_Slots sab hI1
  have hcurb : gb.Tr_Current = some (gb.Tr_Deref aTr) := by
    simp only [Tr_Current, sab.1, hg1, Option.map_some']
  have hUb := hIb.1 _ hcurb
  set t : DJI_Transaction := { gb.Tr_Deref aTr with mTxFrame := lFrame } with ht
  obtain ⟨c1, c2, c3, c4⟩ := Tr_Current_Store_prepared gb _ t hcurb rfl rfl
  have hIc := (Tr_Current_Store_unassigned gb _ t hIb hcurb rfl rfl hUb.1).1
  have hdone : (gb.Tr_Current_Store t).mTr_Done = g.mTr_Done := by
    rw [c3, sab.2.2.1]
  have hnext : (gb.Tr_Current_Store t).mTr_Next = g.mTr_Next := by
    rw [c2, sab.2.1]
  have hUt : Tr_Unassigned t := hIc.1 t c1
  by_cases hcond : 0 ≥ t.mRxExpected_byte ∨ ZT_OK ≠ lRet
  · have hc : (gb.Tr_Current_Store t).Tr_Current_Call (fun x => x.Complete lRet) = some g2 := by
      unfold Tr_Current_Call at h ⊢
      rw [c1] at h ⊢
      simp only [DJI_Transaction.Started, if_pos hcond] at h
      exact h
    obtain ⟨r, hd, hr, -⟩ := Complete_detach _ g2 lRet t c1 hUt hrep hc
    exact ⟨Completed_Assigned_of_Done_eq hdone (Completed_Assigned_of_Detached hIc hd hr),
      hd.2.1.trans hnext⟩
  · unfold Tr_Current_Call at h
    rw [c1] at h
    simp only [DJI_Transaction.Started, if_neg hcond, Option.some.injEq] at h
    subst h
    obtain ⟨d1, d2, d3, d4⟩ := Tr_Current_Store_prepared (gb.Tr_Current_Store t) t t c1 rfl rfl
    exact ⟨Completed_Assigned_of_Done_eq hdone (Completed_Assigned_mono (Nat.zero_le _)
      (Tr_Current_Store_unassigned _ t t hIc c1 rfl rfl hUt.1)), d2.trans hnext⟩

theorem State_TRANSACTION_Z0_assigned (crc : DJI_CRC) (g g2 : DJI_Gimbal)
    (hI : g.Slots_Unassigned) (h : State_TRANSACTION_Z0 crc g = some g2) :
    Completed_Assigned g g2 1 := by
  unfold State_TRANSACTION_Z0 at h
  rcases hn : g.mTr_Next with _ | lNext
  · rw [hn] at h
    exact absurd h (fun hh => Option.noConfusion hh)
  rw [hn] at h
  simp only at h
  obtain ⟨g1, h1, rfl⟩ := Option.map_eq_some'.1 h
  obtain ⟨t, rfl, hU⟩ := hI.2.1 lNext hn
  obtain ⟨⟨⟨a1, a2, a3⟩, l, b1, b2, b3⟩, -⟩ := Tr_Start_Z0_assigned crc
    (g.State_Set_Z0 STATE_TRANSACTION) g1 (.Object t) hI.2.1 hI.2.2 hU h1
  refine ⟨⟨?_, ?_, a3⟩, l, b1, b2, b3⟩
  · intro t' ht'
    exact a1 t' ht'
  · intro p hp
    exact absurd hp (fun hh => Option.noConfusion hh)

theorem Tick_Position_Z0_assigned (crc : DJI_CRC) (g g2 : DJI_Gimbal)
    (hI : g.Slots_Unassigned) (h : Tick_Position_Z0 crc g = some g2) :
    Completed_Assigned g g2 1 := by
  unfold Tick_Position_Z0 at h
  obtain ⟨t, ht, hre⟩ := DJI_Transaction.Frame_Init_ANGLE_GET_shape crc g.sSerial g.mTr_Position
  rw [ht] at h
  simp only at h
  have hr : t.mReceiver = g.mTr_Position.mReceiver := by rw [hre.2]
  have hc : t.mCode = g.mTr_Position.mCode := by rw [hre.2]
  have hprep : Tr_Prepared t.Reset := by
    have := hI.2.2
    unfold Tr_Prepared at this ⊢
    simp only [DJI_Transaction.Reset]
    rw [hr, hc]
    exact this
  have hstart := Tr_Start_Z0_assigned crc
    { g with mTr_Position := t.Reset, sSerial := (g.sSerial + 1) % 4294967296 } g2 .Position
    hI.2.1 hprep ⟨rfl, hprep⟩ h
  exact Completed_Assigned_of_Done_eq (by rfl) hstart.1

theorem Tick_Focus_Speed_Z0_slots (crc : DJI_CRC) (g g2 : DJI_Gimbal)
    (h : Tick_Focus_Speed_Z0 crc g = some g2) : Same_Slots g g2 := by
  unfold Tick_Focus_Speed_Z0 at h
  rcases ite_eq_some_cases h with ⟨_, h⟩ | ⟨_, h⟩
  · simp only at h
    split at h
    · exact absurd h (fun hh => Option.noConfusion hh)
    · split at h
      · exact absurd h (fun hh => Option.noConfusion hh)
      · split at h
        · exact absurd h (fun hh => Option.noConfusion hh)
        · rename_i lRet ga lSealed hsend
          rcases ite_eq_some_cases h with ⟨_, h⟩ | ⟨_, h⟩
          · exact absurd h (fun hh => Option.noConfusion hh)
          · injection h with h
            subst h
            exact Same_Slots_trans ⟨rfl, rfl, rfl, rfl⟩
              (Frame_Send_Z0_slots crc _ _ _ _ _ hsend).1
  · injection h with h
    subst h
    exact Same_Slots_refl g

theorem Tick_Speed_Z0_slots (crc : DJI_CRC) (g g2 : DJI_Gimbal)
    (h : Tick_Speed_Z0 crc g = some g2) : Same_Slots g g2 := by
  unfold Tick_Speed_Z0 at h
  split at h
  · injection h with h
    subst h
    exact Same_Slots_refl g
  · injection h with h
    subst h
    exact Same_Slots_refl g
  · split at h
    · exact absurd h (fun hh => Option.noConfusion hh)
    · obtain ⟨⟨r, ga, f⟩, hsend, rfl⟩ := Option.map_eq_some'.1 h
      exact Same_Slots_trans ⟨rfl, rfl, rfl, rfl⟩ (Frame_Send_Z0_slots crc _ _ _ _ _ hsend).1
  · split at h
    · exact absurd h (fun hh => Option.noConfusion hh)
    · obtain ⟨⟨r, ga, f⟩, hsend, rfl⟩ := Option.map_eq_some'.1 h
      exact Same_Slots_trans ⟨rfl, rfl, rfl, rfl⟩ (Frame_Send_Z0_slots crc _ _ _ _ _ hsend).1

theorem Tick_Work_Z0_assigned (crc : DJI_CRC) (g g2 : DJI_Gimbal)
    (hI : g.Slots_Unassigned) (h : Tick_Work_Z0 crc g = some g2) :
    Completed_Assigned g g2 1 := by
  unfold Tick_Work_Z0 at h
  simp only at h
  have hs : Same_Slots g { g with mCounter := (g.mCounter + 1) % 4294967296 } :=
    ⟨rfl, rfl, rfl, rfl⟩
  have hI1 := Slots_Unassigned_of_Same_Slots hs hI
  split at h
  · exact Completed_Assigned_mono (Nat.zero_le _) (Completed_Assigned_of_Same_Slots
      (Same_Slots_trans hs (Tick_Focus_Speed_Z0_slots crc _ g2 h)) hI)
  · exact Completed_Assigned_mono (Nat.zero_le _) (Completed_Assigned_of_Same_Slots
      (Same_Slots_trans hs (Tick_Focus_Speed_Z0_slots crc _ g2 h)) hI)
  · exact Completed_Assigned_of_Done_eq (by rfl)
      (Tick_Position_Z0_assigned crc { g with mCounter := (g.mCounter + 1) % 4294967296 } g2
        hI1 h)
  · exact Completed_Assigned_mono (Nat.zero_le _) (Completed_Assigned_of_Same_Slots
      (Same_Slots_trans hs (Tick_Speed_Z0_slots crc _ g2 h)) hI)

theorem ResetAndSleep_Z0_slots (g g2 : DJI_Gimbal) (aNextState : State)
    (h : g.ResetAndSleep_Z0 aNextState = some g2) : Same_Slots g g2 := by
  unfold ResetAndSleep_Z0 at h
  rcases ite_eq_some_cases h with ⟨_, h⟩ | ⟨_, h⟩
  · exact absurd h (fun hh => Option.noConfusion hh)
  rcases ite_eq_some_cases h with ⟨_, h⟩ | ⟨_, h⟩
  · injection h with h
    subst h
    exact ⟨rfl, rfl, rfl, rfl⟩
  · injection h with h
    subst h
    exact ⟨rfl, rfl, rfl, rfl⟩

theorem Completed_Assigned_then_Same_Slots {g1 g2 g3 : DJI_Gimbal} {n : Nat}
    (h : Completed_Assigned g1 g2 n) (hs : Same_Slots g2 g3) : Completed_Assigned g1 g3 n := by
  obtain ⟨a1, l, a2, a3, a4⟩ := h
  exact ⟨Slots_Unassigned_of_Same_Slots hs a1, l, by rw [hs.2.2.1, a2], a3, a4⟩

theorem Tick_ACTIVATED_Z0_assigned (crc : DJI_CRC) (g g2 : DJI_Gimbal)
    (hI : g.Slots_Unassigned) (h : Tick_ACTIVATED_Z0 crc g = some g2) :
    Completed_Assigned g g2 1 := by
  unfold Tick_ACTIVATED_Z0 at h
  rcases ite_eq_some_cases h with ⟨_, h⟩ | ⟨_, h⟩
  · exact State_TRANSACTION_Z0_assigned crc g g2 hI h
  rcases hw : Tick_Work_Z0 crc g with _ | g1
  · rw [hw] at h
    exact absurd h (fun hh => Option.noConfusion hh)
  rw [hw] at h
  simp only at h
  have h1 := Tick_Work_Z0_assigned crc g g1 hI hw
  split at h
  · exact absurd h (fun hh => Option.noConfusion hh)
  · exact Completed_Assigned_then_Same_Slots h1
      (@Same_Slots_trans g1 (g1.State_Set_Z0 STATE_ERROR_CAN) g2 ⟨rfl, rfl, rfl, rfl⟩
        (ResetAndSleep_Z0_slots _ g2 _ h))
  · injection h with h
    subst h
    exact Completed_Assigned_then_Same_Slots h1 ⟨rfl, rfl, rfl, rfl⟩

/-- One iteration of the worker thread: the slots hold unassigned transactions
afterwards and at most one transaction was completed. -/
theorem OnTick_assigned (crc : DJI_CRC) (g g2 : DJI_Gimbal)
    (hI : g.Slots_Unassigned) (h : OnTick crc g = some g2) :
    Completed_Assigned g g2 1 := by
  unfold OnTick at h
  simp only at h
  obtain ⟨g1, h1, rfl⟩ := Option.map_eq_some'.1 h
  refine Completed_Assigned_then_Same_Slots ?_ ⟨rfl, rfl, rfl, rfl⟩
  split at h1
  · exact Tick_ACTIVATED_Z0_assigned crc g g1 hI h1
  · rcases ite_eq_some_cases h1 with ⟨_, h1⟩ | ⟨_, h1⟩
    · exact State_TRANSACTION_Z0_assigned crc g g1 hI h1
    · injection h1 with h1
      subst h1
      exact Completed_Assigned_mono (Nat.zero_le _)
        (Completed_Assigned_of_Same_Slots (Same_Slots_refl g) hI)
  · rcases ite_eq_some_cases h1 with ⟨_, h1⟩ | ⟨_, h1⟩
    · exact State_TRANSACTION_Z0_assigned crc g g1 hI h1
    · injection h1 with h1
      subst h1
      exact Completed_Assigned_mono (Nat.zero_le _)
        (Completed_Assigned_of_Same_Slots (Same_Slots_refl g) hI)
  · exact Tick_assigned g g1 hI h1
  · injection h1 with h1
    subst h1
    exact Completed_Assigned_mono (Nat.zero_le _)
      (Completed_Assigned_of_Same_Slots (Same_Slots_refl g) hI)
  · exact absurd h1 (fun hh => Option.noConfusion hh)

/-- A prepared transaction handed to `Tr_Queue_Z0` is reset and stored in the pending
slot. -/
theorem Tr_Queue_Z0_assigned (g g2 : DJI_Gimbal) (aTr : DJI_Transaction)
    (hI : g.Slots_Unassigned) (hp : Tr_Prepared aTr) (h : g.Tr_Queue_Z0 aTr = some g2) :
    Completed_Assigned g g2 0 := by
  unfold Tr_Queue_Z0 at h
  rcases ite_eq_some_cases h with ⟨_, h⟩ | ⟨_, h⟩
  · exact absurd h (fun hh => Option.noConfusion hh)
  injection h with h
  subst h
  refine ⟨⟨hI.1, ?_, hI.2.2⟩, [], by simp, by simp, by simp⟩
  intro p hpp
  simp only [Option.some.injEq] at hpp
  exact ⟨_, hpp.symm, rfl, hp⟩

theorem Engine_Step_assigned (crc : DJI_CRC) (g g2 : DJI_Gimbal) (s : Engine_Step)
    (hI : g.Slots_Unassigned) (hs : s.Prepared) (h : s.apply crc g = some g2) :
    Completed_Assigned g g2 1 := by
  cases s with
  | Tick => exact OnTick_assigned crc g g2 hI h
  | Rx aCF => exact Receiver_assigned g g2 aCF hI h
  | Queue aTr =>
    exact Completed_Assigned_mono (Nat.zero_le _) (Tr_Queue_Z0_assigned g g2 aTr hI hs h)

theorem Engine_Run_assigned (crc : DJI_CRC) : ∀ (aSteps : List Engine_Step) (g g2 : DJI_Gimbal),
    g.Slots_Unassigned → (∀ s ∈ aSteps, s.Prepared) → Engine_Run crc g aSteps = some g2 →
    Completed_Assigned g g2 aSteps.length := by
  intro aSteps
  induction aSteps with
  | nil =>
    intro g g2 hI _ h
    simp only [Engine_Run, Option.some.injEq] at h
    subst h
    exact Completed_Assigned_of_Same_Slots (Same_Slots_refl g) hI
  | cons s lRest ih =>
    intro g g2 hI hp h
    unfold Engine_Run at h
    rcases hs : s.apply crc g with _ | g1
    · rw [hs] at h
      exact absurd h (fun hh => Option.noConfusion hh)
    rw [hs] at h
    simp only at h
    have h1 := Engine_Step_assigned crc g g1 s hI (hp s (List.mem_cons_self _ _)) hs
    have h2 := ih g1 g2 h1.1 (fun x hx => hp x (List.mem_cons_of_mem _ hx)) h
    have := Completed_Assigned_trans h1 h2
    rw [List.length_cons, Nat.add_comm]
    exact this

end DJI_Gimbal

theorem foldl_invariant {α β : Type} (P : β → Prop) (f : β → α → β) :
    ∀ (l : List α) (b : β), P b → (∀ b a, P b → P (f b a)) → P (l.foldl f b) := by
  intro l
  induction l with
  | nil => intro b hb _; exact hb
  | cons a l ih => intro b hb hf; exact ih (f b a) (hf b a hb) hf

namespace Gimbal

open State

theorem Config_Axis_Validate_some (aIn : Config_Axis) (aInfo : Info_Axis) :
    ∃ r, Config_Axis_Validate aIn aInfo = some r ∧ r ≠ ZT_RESULT_INVALID := by
  unfold Config_Axis_Validate Value_Validate
  rw [if_neg (by norm_num : ¬ ¬ ((0 : ℚ) < 100))]
  split_ifs <;> exact ⟨_, rfl, by decide⟩

theorem Config_Validate_some (g : Gimbal) (aIn : Config) :
    ∃ r, g.Config_Validate aIn = some r ∧ r ≠ ZT_RESULT_INVALID := by
  unfold Config_Validate
  refine foldl_invariant (fun acc => ∃ r, acc = some r ∧ r ≠ ZT_RESULT_INVALID) _
    FOR_EACH_AXIS (some ZT_OK) ⟨ZT_OK, rfl, by decide⟩ ?_
  intro acc a h
  obtain ⟨r, rfl, hr⟩ := h
  cases r <;> first
    | exact Config_Axis_Validate_some _ _
    | exact ⟨_, rfl, by decide⟩
    | exact absurd rfl hr

theorem Position_Validate_assigned (g : Gimbal) (aIn : Position) (aFlags : Nat) :
    g.Position_Validate aIn aFlags ≠ ZT_RESULT_INVALID := by
  have haxis : ∀ (x : ℚ) (c : Config_Axis), Position_Validate_Axis x c ≠ ZT_RESULT_INVALID := by
    intro x c
    unfold Position_Validate_Axis
    split_ifs <;> decide
  unfold Position_Validate
  refine foldl_invariant (fun acc => acc ≠ ZT_RESULT_INVALID) _ FOR_EACH_AXIS ZT_OK
    (by decide) ?_
  intro acc a h
  split_ifs
  · exact haxis _ _
  · exact h
  · exact h

end Gimbal

namespace DJI_Gimbal

open State

/-- `Position_Parse` returns, with an assigned result. -/
theorem Position_Parse_some (g : DJI_Gimbal) :
    ∃ r g1, g.Position_Parse = some (r, g1) ∧ r ≠ ZT_RESULT_INVALID := by
  unfold Position_Parse
  by_cases h0 : 0x00 = g.mReply.mData 3
  · rw [if_pos h0]
    exact ⟨_, _, rfl, by decide⟩
  · rw [if_neg h0]
    simp only [DJI_Frame.Angle_Get, Position_Parse_OFFSETS, Nat.reduceAdd, Nat.reduceLT,
      not_true_eq_false, if_false, Option.some_bind]
    split_ifs with hv
    · exact ⟨_, _, rfl, by rw [← hv]; decide⟩
    · exact ⟨_, _, rfl, Gimbal.Position_Validate_assigned _ _ _⟩

theorem OnPosition_Parse_some (g : DJI_Gimbal) (lTr : DJI_Transaction) :
    ∃ g2, g.OnPosition_Parse lTr = some g2 := by
  obtain ⟨r, g1, hp, hr⟩ := Position_Parse_some g
  unfold OnPosition_Parse
  rw [hp]
  simp only [Option.some_bind, DJI_Transaction.Result_Set]
  rw [if_neg (not_not.2 (fun hh => hr hh.symm))]
  exact ⟨_, rfl⟩

/-- The handler of the completion message of a prepared transaction returns. -/
theorem ProcessMessage_Tr_some (g : DJI_Gimbal) (aCode : Nat) (t : DJI_Transaction)
    (hcur : g.Tr_Current = some t) (hc : Handled_Code aCode) :
    ∃ g2, g.ProcessMessage_Tr aCode = some g2 := by
  have hite : ∀ (c : Prop) [Decidable c] (a b : Option DJI_Gimbal),
      (∃ g2, a = some g2) → (¬ c → ∃ g2, b = some g2) → ∃ g2, (if c then a else b) = some g2 := by
    intro c _ a b ha hb
    by_cases h : c
    · rw [if_pos h]; exact ha
    · rw [if_neg h]; exact hb h
  unfold ProcessMessage_Tr
  refine hite _ _ _ ?_ (fun n1 => hite _ _ _ ?_ (fun n2 => hite _ _ _ ?_ (fun n3 =>
    hite _ _ _ ?_ (fun n4 => hite _ _ _ ?_ (fun n5 => hite _ _ _ ?_ (fun n6 =>
    hite _ _ _ ?_ (fun n7 => ?_)))))))
  · unfold OnConfig_Z0
    rw [hcur]
    exact ⟨_, rfl⟩
  · unfold OnConfigStiffness_Z0
    rw [hcur]
    simp only
    by_cases hok : t.IsOK = true
    · rw [if_pos hok]
      obtain ⟨r, hr, hne⟩ := Gimbal.Config_Validate_some
        ({ g with
          mConfig :=
            { mAxis := FOR_EACH_AXIS.foldl
                (fun c a =>
                  c.set a { c.get a with
                    mStiffness_pc := (g.mReply.mData (OnConfigStiffness_OFFSETS a) : ℚ) })
                g.mConfig.mAxis } } : DJI_Gimbal).toGimbal
        { mAxis := FOR_EACH_AXIS.foldl
            (fun c a =>
              c.set a { c.get a with
                mStiffness_pc := (g.mReply.mData (OnConfigStiffness_OFFSETS a) : ℚ) })
            g.mConfig.mAxis }
      rw [hr]
      simp only [DJI_Transaction.Result_Set]
      rw [if_neg (not_not.2 (fun hh => hne hh.symm))]
      exact ⟨_, rfl⟩
    · rw [if_neg hok]
      exact ⟨_, rfl⟩
  · unfold OnInfo_Z0
    rw [hcur]
    exact ⟨_, rfl⟩
  · unfold OnPosition_Z0
    rw [hcur]
    simp only
    by_cases hok : t.IsOK = true
    · rw [if_pos hok]
      obtain ⟨g2, h2⟩ := OnPosition_Parse_some g t
      rw [h2]
      exact ⟨_, rfl⟩
    · rw [if_neg hok]
      exact ⟨_, rfl⟩
  · unfold OnPositionAndSignal_Z0
    rw [hcur]
    simp only
    by_cases hok : t.IsOK = true
    · rw [if_pos hok]
      obtain ⟨g2, h2⟩ := OnPosition_Parse_some g t
      rw [h2]
      exact ⟨_, rfl⟩
    · rw [if_neg hok]
      exact ⟨_, rfl⟩
  · unfold OnRelease_Z0
    rw [hcur]
    simp only
    split_ifs <;> exact ⟨_, rfl⟩
  · exact ⟨_, rfl⟩
  · rcases hc with hc | hc | hc | hc | hc | hc | hc
    · exact absurd hc n1
    · exact absurd hc n2
    · exact absurd hc n3
    · exact absurd hc n4
    · exact absurd hc n5
    · exact absurd hc n6
    · exact absurd hc n7

/-- On an unassigned, prepared transaction `Complete` and the handler it reaches
return: no assertion fails. -/
theorem Complete_returns (g : DJI_Gimbal) (aResult : Result) (tr : DJI_Transaction)
    (hcur : g.Tr_Current = some tr) (hU : Tr_Unassigned tr)
    (hr : aResult ≠ ZT_RESULT_INVALID) :
    ∃ g2, g.Tr_Current_Call (fun t => t.Complete aResult) = some g2 := by
  obtain ⟨hres, hrecv, hcode⟩ := hU
  have hk : tr.Complete aResult = some ({ tr with mResult := aResult }, some tr.mCode) := by
    unfold DJI_Transaction.Complete
    rw [if_neg (not_not.2 (fun hh => hr hh.symm)), if_neg (not_not.2 hres.symm), if_pos hrecv]
  obtain ⟨s1, -, -, -⟩ := Tr_Current_Store_prepared g tr { tr with mResult := aResult } hcur
    rfl rfl
  obtain ⟨g2, h2⟩ := ProcessMessage_Tr_some _ tr.mCode _ s1 hcode
  refine ⟨g2, ?_⟩
  unfold Tr_Current_Call
  rw [hcur]
  simp only [hk]
  exact h2

/-- The engine as the constructor leaves it holds no transaction, and its member
`mTr_Position` is prepared. -/
theorem ctor_Slots_Unassigned (aDevice : EthCAN_Device) (aMoveDuration_ms : Nat)
    (aRxBuffer : List Nat) (aState_Counter : Nat) (aTr_Position : DJI_Transaction)
    (aSerial : Nat) (g : DJI_Gimbal)
    (h : ctor aDevice aMoveDuration_ms aRxBuffer aState_Counter aTr_Position aSerial = some g) :
    g.Slots_Unassigned := by
  unfold ctor at h
  obtain ⟨t, ht, rfl⟩ := Option.map_eq_some'.1 h
  unfold DJI_Transaction.Prepare_Full at ht
  obtain ⟨t1, h1, h2⟩ := Option.bind_eq_some.1 ht
  unfold DJI_Transaction.Prepare at h1
  rcases ite_eq_some_cases h1 with ⟨_, h1⟩ | ⟨_, h1⟩
  · exact absurd h1 (fun hh => Option.noConfusion hh)
  injection h1 with h1
  subst h1
  unfold DJI_Transaction.Prepare_RxExpected at h2
  rcases ite_eq_some_cases h2 with ⟨_, h2⟩ | ⟨_, h2⟩
  · exact absurd h2 (fun hh => Option.noConfusion hh)
  rcases ite_eq_some_cases h2 with ⟨_, h2⟩ | ⟨_, h2⟩
  · exact absurd h2 (fun hh => Option.noConfusion hh)
  injection h2 with h2
  subst h2
  refine ⟨?_, ?_, ⟨rfl, Or.inr (Or.inr (Or.inr (Or.inl rfl)))⟩⟩
  · intro t ht
    exact absurd ht (fun hh => Option.noConfusion hh)
  · intro p hp
    exact absurd hp (fun hh => Option.noConfusion hh)

/-- C15 (amended). A run of engine steps (iterations of the worker thread, received
payloads, prepared transactions handed to `Tr_Queue_Z0`) starts from an engine whose
slots hold unassigned transactions, and returns. Then the transaction in the current
slot and the one in the pending slot are unassigned again; the record of the detached
transactions was only extended, by at most one transaction for each step, each with an
assigned result. In the engine reached, `Complete(aResult)` on the current transaction
returns, for every result but `ZT_RESULT_INVALID` and `ZT_OK_REPLACED` (which no caller
gives); it finds the slot unassigned, and the transaction is detached and recorded with
the result `aResult`, unless `aResult` is `ZT_OK` and the code is one of
`MSG_POSITION`, `MSG_POSITION_AND_SIGNAL`, `MSG_CONFIG_STIFFNESS`: then the handler has
assigned the slot a second time, and the recorded result is the one of the handler,
which is not `ZT_RESULT_INVALID`. -/
theorem Result_assigned_once (crc : DJI_CRC) (g g2 : DJI_Gimbal) (aSteps : List Engine_Step)
    (hI : g.Slots_Unassigned) (hp : ∀ s ∈ aSteps, s.Prepared)
    (h : Engine_Run crc g aSteps = some g2) :
    g2.Slots_Unassigned ∧
    (∃ lNew : List DJI_Transaction, g2.mTr_Done = g.mTr_Done ++ lNew ∧
      lNew.length ≤ aSteps.length ∧ ∀ t ∈ lNew, t.mResult ≠ ZT_RESULT_INVALID) ∧
    (∀ (tr : DJI_Transaction) (aResult : Result), g2.Tr_Current = some tr →
      aResult ≠ ZT_RESULT_INVALID → aResult ≠ ZT_OK_REPLACED →
      tr.mResult = ZT_RESULT_INVALID ∧
      ∃ g3 r, g2.Tr_Current_Call (fun t => t.Complete aResult) = some g3 ∧
        g3.mTr_Current = none ∧ g3.mTr_Next = g2.mTr_Next ∧
        g3.mTr_Done = g2.mTr_Done ++ [{ tr with mResult := r }] ∧
        r ≠ ZT_RESULT_INVALID ∧
        (¬ (aResult = ZT_OK ∧ Parsing_Code tr.mCode) → r = aResult)) := by
  obtain ⟨hI2, hnew⟩ := Engine_Run_assigned crc aSteps g g2 hI hp h
  refine ⟨hI2, hnew, ?_⟩
  intro tr aResult hcur hr hrep
  have hU := hI2.1 tr hcur
  obtain ⟨g3, h3⟩ := Complete_returns g2 aResult tr hcur hU hr
  obtain ⟨r, hd, hne, hv⟩ := Complete_detach g2 g3 aResult tr hcur hU hrep h3
  exact ⟨hU.1, g3, r, h3, hd.1, hd.2.1, hd.2.2.1, hne, hv⟩

end DJI_Gimbal

namespace DJI_Gimbal

open State

/-- Witness of C15 (amended). On the idle example engine a prepared transaction is
queued, the worker tick promotes and sends it, and a payload arrives that announces a
frame of 5 bytes: the receiver completes the transaction with
`ZT_ERROR_FRAME_TOO_SHORT`, once, and the slots are empty again. After the first two
steps only, the transaction is in flight and unassigned, and `Complete` with
`ZT_ERROR_TIMEOUT` detaches it. -/
theorem Result_assigned_once_witness :
    (∃ g2, Engine_Run Example.crc Example.engine_active
        [.Queue Example.tr_TLV, .Tick, .Rx (Example.rx [0xaa, 5, 0, 0x20, 0, 0, 0, 0])] =
          some g2 ∧
      g2.Slots_Unassigned ∧
      g2.mTr_Done.map (fun t => (t.mCode, t.mResult)) =
        [(MSG_SIGNAL, ZT_ERROR_FRAME_TOO_SHORT)]) ∧
    (∃ g2 tr g3, Engine_Run Example.crc Example.engine_active
        [.Queue Example.tr_TLV, .Tick] = some g2 ∧
      g2.Tr_Current = some tr ∧ tr.mResult = ZT_RESULT_INVALID ∧
      g2.Tr_Current_Call (fun t => t.Complete ZT_ERROR_TIMEOUT) = some g3 ∧
      g3.mTr_Current = none ∧
      g3.mTr_Done = g2.mTr_Done ++ [{ tr with mResult := ZT_ERROR_TIMEOUT }]) := by
  have hI : Example.engine_active.Slots_Unassigned := by
    refine ⟨?_, ?_, by decide⟩
    · intro t ht
      have e : Example.engine_active.Tr_Current = none := by decide
      rw [e] at ht
      exact Option.noConfusion ht
    · intro p hp
      have e : Example.engine_active.mTr_Next = none := by decide
      rw [e] at hp
      exact Option.noConfusion hp
  have hq : Engine_Step.Prepared (.Queue Example.tr_TLV) :=
    (by decide : Tr_Prepared Example.tr_TLV)
  constructor
  · have hrun : (Engine_Run Example.crc Example.engine_active
        [.Queue Example.tr_TLV, .Tick,
          .Rx (Example.rx [0xaa, 5, 0, 0x20, 0, 0, 0, 0])]).isSome = true := by decide!
    obtain ⟨g2, h2⟩ := Option.isSome_iff_exists.1 hrun
    have hd : (Engine_Run Example.crc Example.engine_active
        [.Queue Example.tr_TLV, .Tick,
          .Rx (Example.rx [0xaa, 5, 0, 0x20, 0, 0, 0, 0])]).map
        (fun g => g.mTr_Done.map (fun t => (t.mCode, t.mResult))) =
        some [(MSG_SIGNAL, ZT_ERROR_FRAME_TOO_SHORT)] := by decide!
    rw [h2] at hd
    simp only [Option.map_some', Option.some.injEq] at hd
    have h := Result_assigned_once Example.crc Example.engine_active g2 _ hI
      (by
        intro s hs
        simp only [List.mem_cons, List.mem_singleton, List.not_mem_nil, or_false] at hs
        rcases hs with rfl | rfl | rfl
        · exact hq
        · trivial
        · trivial) h2
    exact ⟨g2, h2, h.1, hd⟩
  · have hrun : (Engine_Run Example.crc Example.engine_active
        [.Queue Example.tr_TLV, .Tick]).isSome = true := by decide!
    obtain ⟨g2, h2⟩ := Option.isSome_iff_exists.1 hrun
    have hc : ((Engine_Run Example.crc Example.engine_active
        [.Queue Example.tr_TLV, .Tick]).bind (fun g => g.Tr_Current)).isSome = true := by
      decide!
    rw [h2] at hc
    obtain ⟨tr, htr⟩ := Option.isSome_iff_exists.1 hc
    simp only [Option.some_bind] at htr
    have h := Result_assigned_once Example.crc Example.engine_active g2 _ hI
      (by
        intro s hs
        simp only [List.mem_cons, List.mem_singleton, List.not_mem_nil, or_false] at hs
        rcases hs with rfl | rfl
        · exact hq
        · trivial) h2
    obtain ⟨hres, g3, r, h3, k1, -, k3, -, k5⟩ := h.2.2 tr ZT_ERROR_TIMEOUT htr (by decide)
      (by decide)
    have hr : r = ZT_ERROR_TIMEOUT := k5 (fun hh => absurd hh.1 (by decide))
    rw [hr] at k3
    exact ⟨g2, tr, g3, h2, htr, hres, h3, k1, k3⟩

end DJI_Gimbal

namespace DJI_Gimbal

end DJI_Gimbal

namespace Gimbal

open State

theorem Speed_Validate_Axis_spec (x : ℚ) :
    Speed_Validate_Axis x 360 =
      if x > 360 ∨ x < -360 then (if x > 360 then ZT_ERROR_SPEED_MAX else ZT_ERROR_SPEED_MIN)
      else ZT_OK := by
  unfold Speed_Validate_Axis
  by_cases h1 : (360 : ℚ) < x
  · rw [if_pos h1, if_pos (Or.inl h1), if_pos h1]
  · rw [if_neg h1]
    by_cases h2 : -(360 : ℚ) > x
    · rw [if_pos h2, if_pos (Or.inr h2), if_neg h1]
    · rw [if_neg h2, if_neg]
      rintro (h | h)
      · exact h1 h
      · exact h2 h

/-- `Speed_Validate` agrees with the worded result when every axis allows 360 deg/s. -/
theorem Speed_Validate_spec (g : Gimbal) (aIn : Speed) (aFlags : Nat)
    (hinfo : ∀ a, (g.mInfo.mAxis.get a).mSpeed_Max_deg_s = 360) :
    g.Speed_Validate aIn aFlags = Speed_Set_Spec aIn aFlags := by
  unfold Speed_Validate Speed_Set_Spec
  simp only [FOR_EACH_AXIS, List.foldl, List.find?, hinfo, Speed_Validate_Axis_spec, if_true]
  rcases hp : Axis_Controlled aFlags .AXIS_PITCH <;>
  rcases hr : Axis_Controlled aFlags .AXIS_ROLL <;>
  rcases hy : Axis_Controlled aFlags .AXIS_YAW <;>
  simp only [Bool.false_and, Bool.true_and, if_true, if_false, Bool.false_eq_true] <;>
  (try by_cases c1 : aIn.mAxis_deg_s.get .AXIS_PITCH > 360 ∨ aIn.mAxis_deg_s.get .AXIS_PITCH < -360) <;>
  (try by_cases c2 : aIn.mAxis_deg_s.get .AXIS_ROLL > 360 ∨ aIn.mAxis_deg_s.get .AXIS_ROLL < -360) <;>
  (try by_cases c3 : aIn.mAxis_deg_s.get .AXIS_YAW > 360 ∨ aIn.mAxis_deg_s.get .AXIS_YAW < -360) <;>
  simp [*] <;>
  split_ifs <;> simp_all

end Gimbal

namespace DJI_Gimbal

open State

/-- C16. With every axis allowing 360 deg/s (as the constructor sets it), `Gimbal::Speed_Set`
returns `ZT_ERROR_SPEED_MAX` or `ZT_ERROR_SPEED_MIN` according to the first non-ignored
axis whose speed is outside [-360, 360]; then the model is unchanged and
`DJI_Gimbal::Speed_Set` returns that error with the engine unchanged. Otherwise it
returns `ZT_OK`, the stored speed takes the given value on the non-ignored axes and
keeps its value on the others, nothing but the stored speed and the position state
changes, and the state is SPEED when some stored axis speed is not zero and KNOWN
otherwise. -/
theorem Speed_Set_spec (crc : DJI_CRC) (g : DJI_Gimbal) (aIn : Speed) (aFlags : Nat)
    (hinfo : ∀ a, (g.mInfo.mAxis.get a).mSpeed_Max_deg_s = 360) :
    (g.toGimbal.Speed_Set aIn aFlags).1 = Gimbal.Speed_Set_Spec aIn aFlags ∧
    ((g.toGimbal.Speed_Set aIn aFlags).1 ≠ ZT_OK →
      (g.toGimbal.Speed_Set aIn aFlags).2 = g.toGimbal ∧
      Speed_Set crc g aIn aFlags = some ((g.toGimbal.Speed_Set aIn aFlags).1, g)) ∧
    ((g.toGimbal.Speed_Set aIn aFlags).1 = ZT_OK →
      (∀ a, (g.toGimbal.Speed_Set aIn aFlags).2.mSpeed.mAxis_deg_s.get a =
        if Axis_Controlled aFlags a = true then aIn.mAxis_deg_s.get a
        else g.mSpeed.mAxis_deg_s.get a) ∧
      ((∃ a, (g.toGimbal.Speed_Set aIn aFlags).2.mSpeed.mAxis_deg_s.get a ≠ 0) →
        (g.toGimbal.Speed_Set aIn aFlags).2.mPosition_State = Gimbal.State.STATE_SPEED) ∧
      ((∀ a, (g.toGimbal.Speed_Set aIn aFlags).2.mSpeed.mAxis_deg_s.get a = 0) →
        (g.toGimbal.Speed_Set aIn aFlags).2.mPosition_State = Gimbal.State.STATE_KNOWN) ∧
      (g.toGimbal.Speed_Set aIn aFlags).2 =
        { g.toGimbal with
          mSpeed := (g.toGimbal.Speed_Set aIn aFlags).2.mSpeed
          mPosition_State := (g.toGimbal.Speed_Set aIn aFlags).2.mPosition_State }) := by
  have hval : (g.toGimbal.Speed_Set aIn aFlags).1 = g.toGimbal.Speed_Validate aIn aFlags := by
    unfold Gimbal.Speed_Set
    simp only
    split_ifs <;> rfl
  refine ⟨by rw [hval]; exact Gimbal.Speed_Validate_spec g.toGimbal aIn aFlags hinfo, ?_, ?_⟩
  · intro hne
    have hne' : ¬ (g.toGimbal.Speed_Validate aIn aFlags = ZT_OK) := by rw [← hval]; exact hne
    have h2 : (g.toGimbal.Speed_Set aIn aFlags).2 = g.toGimbal := by
      unfold Gimbal.Speed_Set
      simp only
      rw [if_neg hne']
    refine ⟨h2, ?_⟩
    unfold Speed_Set
    simp only
    rw [if_neg (fun hh => hne hh.symm)]
  · intro hok
    obtain ⟨hstored, hnz, hz⟩ := Gimbal.Speed_Set_stores g.toGimbal aIn aFlags hok
    have hok' : g.toGimbal.Speed_Validate aIn aFlags = ZT_OK := by rw [← hval]; exact hok
    refine ⟨fun a => ?_, hnz, hz, ?_⟩
    · by_cases hc : Axis_Controlled aFlags a = true
      · rw [if_pos hc]
        exact hstored a hc
      · rw [if_neg hc]
        unfold Gimbal.Speed_Set
        simp only
        rw [if_pos hok']
        simp only [Gimbal.Speed_Copy, FOR_EACH_AXIS, List.foldl]
        cases a <;> split_ifs <;> simp_all [PerAxis.get, PerAxis.set]
    · unfold Gimbal.Speed_Set
      simp only
      rw [if_pos hok']

/-- Witness of C16: a speed within the limits and a pitch speed of 400 deg/s on the
example engine. -/
theorem Speed_Set_spec_witness :
    (Example.engine_busy.toGimbal.Speed_Set Example.speed_A 0).1 = ZT_OK ∧
    Speed_Set Example.crc Example.engine_busy Example.speed_fast 0 =
      some (ZT_ERROR_SPEED_MAX, Example.engine_busy) := by
  have hA := (Speed_Set_spec Example.crc Example.engine_busy Example.speed_A 0
    (by intro a; cases a <;> rfl)).1
  have hB := Speed_Set_spec Example.crc Example.engine_busy Example.speed_fast 0
    (by intro a; cases a <;> rfl)
  have eA : Gimbal.Speed_Set_Spec Example.speed_A 0 = ZT_OK := by decide!
  have eB : Gimbal.Speed_Set_Spec Example.speed_fast 0 = ZT_ERROR_SPEED_MAX := by decide!
  refine ⟨hA.trans eA, ?_⟩
  have h1 := hB.1.trans eB
  have h2 := (hB.2.1 (by rw [h1]; decide)).2
  rw [h1] at h2
  exact h2

end DJI_Gimbal

namespace Gimbal

open State

theorem Position_Validate_Axis_spec (x : ℚ) (c : Config_Axis) :
    Position_Validate_Axis x c =
      if x > c.mMax_deg ∨ x < c.mMin_deg then
        (if x > c.mMax_deg then ZT_ERROR_ANGLE_MAX else ZT_ERROR_ANGLE_MIN)
      else ZT_OK := by
  unfold Position_Validate_Axis
  by_cases h1 : c.mMax_deg < x
  · rw [if_pos h1, if_pos (Or.inl h1), if_pos h1]
  · rw [if_neg h1]
    by_cases h2 : c.mMin_deg > x
    · rw [if_pos h2, if_pos (Or.inr h2), if_neg h1]
    · rw [if_neg h2, if_neg]
      rintro (h | h)
      · exact h1 h
      · exact h2 h

theorem Position_Copy_get_ignored (aOut aIn : Position) (aFlags : Nat) (a : Axis)
    (h : ¬ Axis_Controlled aFlags a = true) :
    (Position_Copy aOut aIn aFlags).mAxis_deg.get a = aOut.mAxis_deg.get a := by
  simp only [Position_Copy, FOR_EACH_AXIS, List.foldl]
  cases a <;> split_ifs <;> simp_all [PerAxis.get, PerAxis.set]

theorem Position_Set_target (g : Gimbal) (aIn : Position) (aFlags aDuration_ms : Nat)
    (hok : (g.Position_Set aIn aFlags aDuration_ms).1 = ZT_OK) :
    ∃ lPosition, (g.Position_Set aIn aFlags aDuration_ms).2.mPosition_Target =
      Position_Copy g.mPosition_Target lPosition aFlags := by
  unfold Position_Set at hok ⊢
  simp only at hok ⊢
  split_ifs at hok ⊢ with h
  · exact ⟨_, rfl⟩
  · exact absurd hok h

/-- The result of `Position_Set` is the worded one. -/
theorem Position_Set_result (g : Gimbal) (aIn : Position) (aFlags aDuration_ms : Nat) :
    (g.Position_Set aIn aFlags aDuration_ms).1 = Position_Set_Spec g.mConfig aIn aFlags := by
  have hl : ∀ a, Axis_Controlled aFlags a = true →
      (FOR_EACH_AXIS.foldl
        (fun (o : Position) a =>
          if Axis_Controlled aFlags a then
            { mAxis_deg := o.mAxis_deg.set a
                (aIn.mAxis_deg.get a + (g.mConfig.mAxis.get a).mOffset_deg) }
          else o)
        { mAxis_deg := { pitch := 0, roll := 0, yaw := 0 } }).mAxis_deg.get a =
        aIn.mAxis_deg.get a + (g.mConfig.mAxis.get a).mOffset_deg := by
    intro a ha
    simp only [FOR_EACH_AXIS, List.foldl]
    cases a <;> split_ifs <;> simp_all [PerAxis.get, PerAxis.set]
  have hval : ∀ lPosition : Position,
      (∀ a, Axis_Controlled aFlags a = true →
        lPosition.mAxis_deg.get a = aIn.mAxis_deg.get a + (g.mConfig.mAxis.get a).mOffset_deg) →
      g.Position_Validate lPosition aFlags = Position_Set_Spec g.mConfig aIn aFlags := by
    intro lPosition hl
    unfold Position_Validate Position_Set_Spec
    simp only [FOR_EACH_AXIS, List.foldl, List.find?, Position_Validate_Axis_spec, if_true]
    rcases hp : Axis_Controlled aFlags .AXIS_PITCH <;>
    rcases hr : Axis_Controlled aFlags .AXIS_ROLL <;>
    rcases hy : Axis_Controlled aFlags .AXIS_YAW <;>
    simp only [Bool.false_and, Bool.true_and, if_true, if_false, Bool.false_eq_true] <;>
    (try rw [hl .AXIS_PITCH hp]) <;>
    (try rw [hl .AXIS_ROLL hr]) <;>
    (try rw [hl .AXIS_YAW hy]) <;>
    (try by_cases c1 : aIn.mAxis_deg.get .AXIS_PITCH +
        (g.mConfig.mAxis.get .AXIS_PITCH).mOffset_deg > (g.mConfig.mAxis.get .AXIS_PITCH).mMax_deg ∨
      aIn.mAxis_deg.get .AXIS_PITCH + (g.mConfig.mAxis.get .AXIS_PITCH).mOffset_deg <
        (g.mConfig.mAxis.get .AXIS_PITCH).mMin_deg) <;>
    (try by_cases c2 : aIn.mAxis_deg.get .AXIS_ROLL +
        (g.mConfig.mAxis.get .AXIS_ROLL).mOffset_deg > (g.mConfig.mAxis.get .AXIS_ROLL).mMax_deg ∨
      aIn.mAxis_deg.get .AXIS_ROLL + (g.mConfig.mAxis.get .AXIS_ROLL).mOffset_deg <
        (g.mConfig.mAxis.get .AXIS_ROLL).mMin_deg) <;>
    (try by_cases c3 : aIn.mAxis_deg.get .AXIS_YAW +
        (g.mConfig.mAxis.get .AXIS_YAW).mOffset_deg > (g.mConfig.mAxis.get .AXIS_YAW).mMax_deg ∨
      aIn.mAxis_deg.get .AXIS_YAW + (g.mConfig.mAxis.get .AXIS_YAW).mOffset_deg <
        (g.mConfig.mAxis.get .AXIS_YAW).mMin_deg) <;>
    simp [*] <;>
    split_ifs <;> simp_all
  have := hval _ hl
  unfold Position_Set
  simp only
  split_ifs with h
  · rw [← this]
  · rw [← this]

end Gimbal

namespace DJI_Gimbal

open State

/-- C17. `Gimbal::Position_Set` returns `ZT_ERROR_ANGLE_MAX` or `ZT_ERROR_ANGLE_MIN`
according to the first non-ignored axis whose angle plus offset is outside the
configured range; then the model is unchanged and `DJI_Gimbal::Position_Set` returns
that error with the engine unchanged. Otherwise it returns `ZT_OK`, the state is MOVING,
the target is angle plus offset on the non-ignored axes and keeps its value on the
others, the ignore mask is the old mask AND the flags, and nothing else changes. -/
theorem Position_Set_spec (crc : DJI_CRC) (g : DJI_Gimbal) (aIn : Position)
    (aFlags aDuration_ms : Nat) :
    (g.toGimbal.Position_Set aIn aFlags aDuration_ms).1 =
      Gimbal.Position_Set_Spec g.mConfig aIn aFlags ∧
    ((g.toGimbal.Position_Set aIn aFlags aDuration_ms).1 ≠ ZT_OK →
      (g.toGimbal.Position_Set aIn aFlags aDuration_ms).2 = g.toGimbal ∧
      Position_Set crc g aIn aFlags aDuration_ms =
        some ((g.toGimbal.Position_Set aIn aFlags aDuration_ms).1, g)) ∧
    ((g.toGimbal.Position_Set aIn aFlags aDuration_ms).1 = ZT_OK →
      (∀ a, (g.toGimbal.Position_Set aIn aFlags aDuration_ms).2.mPosition_Target.mAxis_deg.get a =
        if Axis_Controlled aFlags a = true then
          aIn.mAxis_deg.get a + (g.mConfig.mAxis.get a).mOffset_deg
        else g.mPosition_Target.mAxis_deg.get a) ∧
      (g.toGimbal.Position_Set aIn aFlags aDuration_ms).2 =
        { g.toGimbal with
          mPosition_Flags := g.mPosition_Flags &&& aFlags
          mPosition_State := Gimbal.State.STATE_MOVING
          mPosition_Target :=
            (g.toGimbal.Position_Set aIn aFlags aDuration_ms).2.mPosition_Target }) := by
  refine ⟨Gimbal.Position_Set_result g.toGimbal aIn aFlags aDuration_ms, ?_, ?_⟩
  · intro hne
    have h2 : (g.toGimbal.Position_Set aIn aFlags aDuration_ms).2 = g.toGimbal := by
      unfold Gimbal.Position_Set at hne ⊢
      simp only at hne ⊢
      split_ifs at hne ⊢ with h
      · exact absurd h hne
      · rfl
    refine ⟨h2, ?_⟩
    unfold Position_Set
    simp only
    rw [if_neg (fun hh => hne hh.symm)]
  · intro hok
    obtain ⟨-, -, htarget⟩ := Gimbal.Position_Set_stores g.toGimbal aIn aFlags aDuration_ms hok
    refine ⟨fun a => ?_, ?_⟩
    · by_cases hc : Axis_Controlled aFlags a = true
      · rw [if_pos hc]
        exact (htarget a hc).1
      · rw [if_neg hc]
        obtain ⟨lPosition, hl⟩ := Gimbal.Position_Set_target g.toGimbal aIn aFlags aDuration_ms hok
        rw [hl]
        exact Gimbal.Position_Copy_get_ignored _ _ _ a hc
    · unfold Gimbal.Position_Set at hok ⊢
      simp only at hok ⊢
      split_ifs at hok ⊢ with h
      · rfl
      · exact absurd hok h

/-- Witness of C17: on the example engine a pitch of -200 degrees is refused before
the yaw of 200 degrees is looked at, and a position within the limits is accepted. -/
theorem Position_Set_spec_witness :
    Position_Set Example.crc Example.engine_busy Example.position_out 0 0 =
      some (ZT_ERROR_ANGLE_MIN, Example.engine_busy) ∧
    (Example.engine_busy.toGimbal.Position_Set Example.position_A 0 0).2.mPosition_State =
      Gimbal.State.STATE_MOVING := by
  have hB := Position_Set_spec Example.crc Example.engine_busy Example.position_out 0 0
  have hA := Position_Set_spec Example.crc Example.engine_busy Example.position_A 0 0
  have eB : Gimbal.Position_Set_Spec Example.engine_busy.mConfig Example.position_out 0 =
      ZT_ERROR_ANGLE_MIN := by decide!
  have eA : Gimbal.Position_Set_Spec Example.engine_busy.mConfig Example.position_A 0 =
      ZT_OK := by decide!
  have h1 := hB.1.trans eB
  have h2 := (hB.2.1 (by rw [h1]; decide)).2
  rw [h1] at h2
  refine ⟨h2, ?_⟩
  rw [(hA.2.2 (hA.1.trans eA)).2]

end DJI_Gimbal

namespace Gimbal

open State

/-- `Config_Axis_Validate` returns the worded error of the axis. -/
theorem Config_Axis_Validate_spec (c : Config_Axis) (i : Info_Axis) :
    Config_Axis_Validate c i = some (Config_Axis_Spec c i.mSpeed_Max_deg_s) := by
  unfold Config_Axis_Validate Config_Axis_Spec Value_Validate
  simp only [POSITION_MAX_deg, POSITION_MIN_deg, SPEED_MIN_deg_s, gt_iff_lt, not_le, not_and_or,
    not_lt]
  by_cases h1 : (180.5 : ℚ) < c.mMax_deg
  · simp only [if_pos h1]
  · simp only [if_neg h1]
    by_cases h2 : c.mMin_deg < (-180.5 : ℚ) ∨ c.mMax_deg < c.mMin_deg
    · simp only [if_pos h2]
    · simp only [if_neg h2]
      by_cases h3 : c.mSpeed_deg_s < (0.1 : ℚ) ∨ i.mSpeed_Max_deg_s < c.mSpeed_deg_s
      · simp only [if_pos h3]
      · simp only [if_neg h3]
        norm_num
        split_ifs <;> rfl

/-- The worded error of an axis is `ZT_OK` exactly when the axis is valid. -/
theorem Config_Axis_Spec_OK (c : Config_Axis) (m : ℚ) :
    Config_Axis_Spec c m = ZT_OK ↔ Config_Axis_Valid c m := by
  unfold Config_Axis_Spec Config_Axis_Valid
  constructor
  · intro h
    split_ifs at h with h1 h2 h3 h4 h5
    exact ⟨h1, h2.1, h2.2, h3.1, h3.2, h4, h5⟩
  · rintro ⟨h1, h2, h3, h4, h5, h6, h7⟩
    rw [if_neg (not_not.2 h1), if_neg (not_not.2 ⟨h2, h3⟩), if_neg (not_not.2 ⟨h4, h5⟩),
      if_neg (not_not.2 h6), if_neg (not_not.2 h7)]

theorem Config_Validate_step (x : Result) (f : Option Result) (h : x ≠ ZT_OK) :
    (match some x with
      | some ZT_OK => f
      | other => other) = some x := by
  cases x <;> first | rfl | exact absurd rfl h

/-- `Config_Validate` returns the worded result. -/
theorem Config_Validate_spec (g : Gimbal) (aIn : Config) :
    g.Config_Validate aIn = some (Config_Set_Spec g aIn) := by
  unfold Config_Validate Config_Set_Spec
  simp only [FOR_EACH_AXIS, List.foldl, List.find?, Config_Axis_Validate_spec]
  by_cases hp : Config_Axis_Valid (aIn.mAxis.get .AXIS_PITCH)
      (g.mInfo.mAxis.get .AXIS_PITCH).mSpeed_Max_deg_s
  · have hp2 := (Config_Axis_Spec_OK _ _).2 hp
    simp only [hp, hp2, not_true_eq_false, decide_False]
    by_cases hr : Config_Axis_Valid (aIn.mAxis.get .AXIS_ROLL)
        (g.mInfo.mAxis.get .AXIS_ROLL).mSpeed_Max_deg_s
    · have hr2 := (Config_Axis_Spec_OK _ _).2 hr
      simp only [hr, hr2, not_true_eq_false, decide_False]
      by_cases hy : Config_Axis_Valid (aIn.mAxis.get .AXIS_YAW)
          (g.mInfo.mAxis.get .AXIS_YAW).mSpeed_Max_deg_s
      · have hy2 := (Config_Axis_Spec_OK _ _).2 hy
        simp only [hy, hy2, not_true_eq_false, decide_False]
      · simp only [hy, not_false_eq_true, decide_True]
    · have hr2 : Config_Axis_Spec (aIn.mAxis.get .AXIS_ROLL)
          (g.mInfo.mAxis.get .AXIS_ROLL).mSpeed_Max_deg_s ≠ ZT_OK :=
        fun h => hr ((Config_Axis_Spec_OK _ _).1 h)
      simp only [hr, not_false_eq_true, decide_True]
      exact Config_Validate_step _ _ hr2
  · have hp2 : Config_Axis_Spec (aIn.mAxis.get .AXIS_PITCH)
        (g.mInfo.mAxis.get .AXIS_PITCH).mSpeed_Max_deg_s ≠ ZT_OK :=
      fun h => hp ((Config_Axis_Spec_OK _ _).1 h)
    simp only [hp, not_false_eq_true, decide_True]
    generalize Config_Axis_Spec (aIn.mAxis.get .AXIS_PITCH)
      (g.mInfo.mAxis.get .AXIS_PITCH).mSpeed_Max_deg_s = x at hp2
    cases x <;> first | rfl | exact absurd rfl hp2

/-- The worded result is `ZT_OK` exactly when every axis is valid. -/
theorem Config_Set_Spec_OK (g : Gimbal) (aIn : Config) :
    Config_Set_Spec g aIn = ZT_OK ↔
      ∀ a, Config_Axis_Valid (aIn.mAxis.get a) (g.mInfo.mAxis.get a).mSpeed_Max_deg_s := by
  unfold Config_Set_Spec
  simp only [FOR_EACH_AXIS, List.find?]
  by_cases hp : Config_Axis_Valid (aIn.mAxis.get .AXIS_PITCH)
      (g.mInfo.mAxis.get .AXIS_PITCH).mSpeed_Max_deg_s
  · simp only [hp, not_true_eq_false, decide_False]
    by_cases hr : Config_Axis_Valid (aIn.mAxis.get .AXIS_ROLL)
        (g.mInfo.mAxis.get .AXIS_ROLL).mSpeed_Max_deg_s
    · simp only [hr, not_true_eq_false, decide_False]
      by_cases hy : Config_Axis_Valid (aIn.mAxis.get .AXIS_YAW)
          (g.mInfo.mAxis.get .AXIS_YAW).mSpeed_Max_deg_s
      · simp only [hy, not_true_eq_false, decide_False, true_iff]
        intro a
        cases a
        · exact hp
        · exact hr
        · exact hy
      · simp only [hy, not_false_eq_true, decide_True]
        exact ⟨fun h => absurd ((Config_Axis_Spec_OK _ _).1 h) hy, fun h => absurd (h _) hy⟩
    · simp only [hr, not_false_eq_true, decide_True]
      exact ⟨fun h => absurd ((Config_Axis_Spec_OK _ _).1 h) hr, fun h => absurd (h _) hr⟩
  · simp only [hp, not_false_eq_true, decide_True]
    exact ⟨fun h => absurd ((Config_Axis_Spec_OK _ _).1 h) hp, fun h => absurd (h _) hp⟩

end Gimbal
namespace Gimbal

open State

/-- `Config_Set` always returns: the worded result, and the model with the new
configuration exactly when that result is `ZT_OK`. -/
theorem Config_Set_eq (g : Gimbal) (aIn : Config) :
    g.Config_Set aIn =
      some (Config_Set_Spec g aIn,
        if Config_Set_Spec g aIn = ZT_OK then { g with mConfig := aIn } else g) := by
  unfold Config_Set
  rw [Config_Validate_spec]
  generalize Config_Set_Spec g aIn = x
  cases x <;> rfl

end Gimbal

namespace DJI_Gimbal

open State

/-- C18 (as stated, refuted). The last sentence fails for a configuration that
`Config_Set` did not store. The engine has the angle-limit query of `Config_Retrieve`
in flight (`MSG_CONFIG`, 9 data bytes expected, an ANGLE_LIMIT_GET frame); the reply
carries 200 as the pitch maximum. The receiver completes the transaction with `ZT_OK`
and `OnConfig_Z0` stores the limits unchecked, so `Config_Get` reads a pitch maximum
of 200, and `Gimbal::Config_Set` of the configuration just read returns
`ZT_ERROR_ANGLE_MAX`. -/
theorem Config_Set_of_Config_Get_refused :
    ((DJI_Transaction.fresh.Frame_Init_ANGLE_LIMIT_GET Example.crc 0).bind
      (fun r => (r.1.Prepare_Full MSG_CONFIG 9).map
        (fun t => (t.mCode, t.mRxExpected_byte, t.mTxFrame.bytes)))) =
      some (Example.tr_config.mCode, Example.tr_config.mRxExpected_byte,
        Example.tr_config.mTxFrame.bytes) ∧
    (Example.engine_config.Receiver_Run Example.config_reply).map
      (fun g => (g.mState, g.mTr_Done.map (fun t => (t.mCode, t.mResult)),
        (g.toGimbal.Config_Get.mAxis.get .AXIS_PITCH).mMax_deg)) =
      some (STATE_ACTIVATED, [(MSG_CONFIG, ZT_OK)], 200) ∧
    (Example.engine_config.Receiver_Run Example.config_reply).bind
      (fun g => (g.toGimbal.Config_Set g.toGimbal.Config_Get).map
        (fun r => (r.1, decide (r.2 = g.toGimbal)))) =
      some (ZT_ERROR_ANGLE_MAX, true) := by
  refine ⟨?_, ?_, ?_⟩
  · decide!
  · decide!
  · decide!

end DJI_Gimbal

namespace Gimbal

open State

/-- C18 (amended). `Gimbal::Config_Set(C)` always returns, with the result the
specification words: `ZT_OK` exactly when every axis of `C` satisfies max <= 180.5,
-180.5 <= min <= max, 0.1 <= speed <= the maximum speed of the axis and
0 <= stiffness <= 100, otherwise the error of the first failing axis, the conditions of
an axis being checked in the order ANGLE_MAX, ANGLE_MIN, SPEED, MIN, MAX. When every
axis is valid only the stored configuration changes and `Config_Get` returns `C`;
otherwise the model is unchanged. Setting the configuration just read with
`Config_Get` returns `ZT_OK` and changes nothing exactly when the stored configuration
is valid on every axis. -/
theorem Config_Set_spec (g : Gimbal) (aIn : Config) :
    ∃ g2, g.Config_Set aIn = some (Config_Set_Spec g aIn, g2) ∧
      (Config_Set_Spec g aIn = ZT_OK ↔
        ∀ a, Config_Axis_Valid (aIn.mAxis.get a) (g.mInfo.mAxis.get a).mSpeed_Max_deg_s) ∧
      ((∀ a, Config_Axis_Valid (aIn.mAxis.get a) (g.mInfo.mAxis.get a).mSpeed_Max_deg_s) →
        g2 = { g with mConfig := aIn } ∧ g2.Config_Get = aIn) ∧
      ((¬ ∀ a, Config_Axis_Valid (aIn.mAxis.get a) (g.mInfo.mAxis.get a).mSpeed_Max_deg_s) →
        g2 = g) ∧
      (g.Config_Set g.Config_Get = some (ZT_OK, g) ↔
        ∀ a, Config_Axis_Valid (g.mConfig.mAxis.get a)
          (g.mInfo.mAxis.get a).mSpeed_Max_deg_s) := by
  refine ⟨_, Config_Set_eq g aIn, Config_Set_Spec_OK g aIn, ?_, ?_, ?_⟩
  · intro h
    rw [if_pos ((Config_Set_Spec_OK g aIn).2 h)]
    exact ⟨rfl, rfl⟩
  · intro h
    rw [if_neg (fun hh => h ((Config_Set_Spec_OK g aIn).1 hh))]
  · rw [Config_Set_eq]
    unfold Config_Get
    constructor
    · intro h
      simp only [Option.some.injEq, Prod.mk.injEq] at h
      exact (Config_Set_Spec_OK g g.mConfig).1 h.1
    · intro h
      have h1 := (Config_Set_Spec_OK g g.mConfig).2 h
      rw [h1, if_pos rfl]

/-- C18 (amended), evaluated on the model as constructed: a configuration whose roll
axis has its minimum above its maximum and whose yaw axis has speed zero is refused
with `ZT_ERROR_ANGLE_MIN`, the error of the roll axis, and the model is unchanged; a
valid configuration is stored and read back; the configuration just read is accepted
and changes nothing. -/
theorem Config_Set_spec_witness :
    Gimbal.ctor.Config_Set Example.config_bad = some (ZT_ERROR_ANGLE_MIN, Gimbal.ctor) ∧
    (∃ g2, Gimbal.ctor.Config_Set Example.config_good = some (ZT_OK, g2) ∧
      g2.Config_Get = Example.config_good) ∧
    Gimbal.ctor.Config_Set Gimbal.ctor.Config_Get = some (ZT_OK, Gimbal.ctor) := by
  refine ⟨?_, ?_, ?_⟩
  · obtain ⟨g2, h1, h2, -, h4, -⟩ := Config_Set_spec Gimbal.ctor Example.config_bad
    have hs : Config_Set_Spec Gimbal.ctor Example.config_bad = ZT_ERROR_ANGLE_MIN := by decide!
    have hn : ¬ ∀ a, Config_Axis_Valid (Example.config_bad.mAxis.get a)
        (Gimbal.ctor.mInfo.mAxis.get a).mSpeed_Max_deg_s := by
      intro h
      have := h2.2 h
      rw [hs] at this
      exact Result.noConfusion this
    rw [h1, hs, h4 hn]
  · obtain ⟨g2, h1, h2, h3, -, -⟩ := Config_Set_spec Gimbal.ctor Example.config_good
    have hs : Config_Set_Spec Gimbal.ctor Example.config_good = ZT_OK := by decide!
    exact ⟨g2, by rw [h1, hs], (h3 (h2.1 hs)).2⟩
  · obtain ⟨g2, -, -, -, -, h5⟩ := Config_Set_spec Gimbal.ctor Example.config_good
    refine h5.2 ?_
    intro a
    cases a <;> decide!

end Gimbal

namespace Gimbal

open State

/-- `Position_Get` succeeds exactly when the state is not UNKNOWN and the counter is
not zero; it then writes the current position minus the offsets. -/
theorem Position_Get_eq (g : Gimbal) (aOut : Position) :
    (g.mPosition_State ≠ STATE_UNKNOWN ∧ 0 < g.mPosition_Count →
      (g.Position_Get aOut).1 = ZT_OK ∧
      ∀ a, (g.Position_Get aOut).2.mAxis_deg.get a =
        g.mPosition_Current.mAxis_deg.get a - (g.mConfig.mAxis.get a).mOffset_deg) ∧
    (¬ (g.mPosition_State ≠ STATE_UNKNOWN ∧ 0 < g.mPosition_Count) →
      g.Position_Get aOut = (ZT_ERROR_NOT_READY, aOut)) := by
  constructor
  · rintro ⟨hs, hc⟩
    have hf : g.Position_Current_Get = (true, g.mPosition_Current) := by
      unfold Position_Current_Get
      rcases h : g.mPosition_State
      · simp [hc]
      · simp [hc]
      · simp [hc]
      · exact absurd h hs
    unfold Position_Get
    rw [hf]
    refine ⟨rfl, ?_⟩
    intro a
    cases a <;> simp [FOR_EACH_AXIS, PerAxis.get, PerAxis.set]
  · intro hn
    have hf : g.Position_Current_Get = (false, g.mPosition_Current) := by
      unfold Position_Current_Get
      rcases h : g.mPosition_State
      · have : ¬ 0 < g.mPosition_Count := fun hc => hn ⟨by rw [h]; decide, hc⟩
        simp [this]
      · have : ¬ 0 < g.mPosition_Count := fun hc => hn ⟨by rw [h]; decide, hc⟩
        simp [this]
      · have : ¬ 0 < g.mPosition_Count := fun hc => hn ⟨by rw [h]; decide, hc⟩
        simp [this]
      · rfl
    unfold Position_Get
    rw [hf]
    rfl

end Gimbal
namespace Gimbal

open State

theorem Position_Update_fields (g : Gimbal) (aIn : Position) :
    (g.Position_Update aIn).mConfig = g.mConfig ∧
    (g.Position_Update aIn).mPosition_Count = 15 ∧
    (g.Position_Update aIn).mPosition_Current = aIn ∧
    (g.Position_Update aIn).mPosition_State ≠ STATE_UNKNOWN := by
  unfold Position_Update
  simp only
  rcases h : g.mPosition_State
  · exact ⟨rfl, rfl, rfl, by simp [h]⟩
  · simp only
    split_ifs <;> exact ⟨rfl, rfl, rfl, by simp [h]⟩
  · exact ⟨rfl, rfl, rfl, by simp [h]⟩
  · exact ⟨rfl, rfl, rfl, by simp⟩

theorem Tick_fields (g : Gimbal) :
    g.Tick.mConfig = g.mConfig ∧
    g.Tick.mPosition_Count = g.mPosition_Count - 1 ∧
    g.Tick.mPosition_Current = g.mPosition_Current ∧
    (g.Tick.mPosition_State = STATE_UNKNOWN →
      g.mPosition_State = STATE_UNKNOWN ∨ g.mPosition_Count = 0) := by
  unfold Tick
  rcases h : g.mPosition_State
  · by_cases hc : 0 = g.mPosition_Count
    · simp only [if_pos hc]
      have : ¬ 0 < g.mPosition_Count := by omega
      rw [if_neg this]
      exact ⟨rfl, by simp only; omega, rfl, fun _ => Or.inr hc.symm⟩
    · simp only [if_neg hc]
      have : 0 < g.mPosition_Count := by omega
      rw [if_pos this]
      exact ⟨rfl, rfl, rfl, fun hh => by simp_all⟩
  all_goals
    simp only
    by_cases hc : 0 < g.mPosition_Count
    · rw [if_pos hc]
      refine ⟨rfl, rfl, rfl, fun hh => ?_⟩
      simp_all
    · rw [if_neg hc]
      refine ⟨rfl, by omega, rfl, fun hh => ?_⟩
      exact Or.inr (by omega)

theorem Position_Set_fields (g : Gimbal) (aIn : Position) (aFlags aDuration_ms : Nat) :
    (g.Position_Set aIn aFlags aDuration_ms).2.mConfig = g.mConfig ∧
    (g.Position_Set aIn aFlags aDuration_ms).2.mPosition_Count = g.mPosition_Count ∧
    (g.Position_Set aIn aFlags aDuration_ms).2.mPosition_Current = g.mPosition_Current ∧
    ((g.Position_Set aIn aFlags aDuration_ms).2.mPosition_State = STATE_UNKNOWN →
      g.mPosition_State = STATE_UNKNOWN) := by
  unfold Position_Set
  simp only
  split_ifs
  · exact ⟨rfl, rfl, rfl, fun hh => by cases hh⟩
  · exact ⟨rfl, rfl, rfl, fun hh => hh⟩

theorem Speed_Set_fields (g : Gimbal) (aIn : Speed) (aFlags : Nat) :
    (g.Speed_Set aIn aFlags).2.mConfig = g.mConfig ∧
    (g.Speed_Set aIn aFlags).2.mPosition_Count = g.mPosition_Count ∧
    (g.Speed_Set aIn aFlags).2.mPosition_Current = g.mPosition_Current ∧
    ((g.Speed_Set aIn aFlags).2.mPosition_State = STATE_UNKNOWN →
      g.mPosition_State = STATE_UNKNOWN) := by
  unfold Speed_Set
  simp only
  split_ifs
  · refine ⟨rfl, rfl, rfl, fun hh => ?_⟩
    simp only [FOR_EACH_AXIS, List.foldl] at hh
    split_ifs at hh
  · exact ⟨rfl, rfl, rfl, fun hh => hh⟩

/-- Every operation keeps the invariant, the history advancing by the same operation. -/
theorem Fresh_Inv_step (c : Config) (g : Gimbal) (l : Option (Position × Nat)) (op : Op)
    (h : Fresh_Inv c g l) : Fresh_Inv c (Op.apply g op) (Last_Update_Step l op) := by
  obtain ⟨h1, h2, h3⟩ := h
  cases op with
  | Position_Update aIn =>
    obtain ⟨k1, k2, k3, k4⟩ := Position_Update_fields g aIn
    refine ⟨k1.trans h1, fun hh => absurd hh k4, ?_⟩
    cases l <;> exact ⟨k2, k3⟩
  | Tick =>
    obtain ⟨k1, k2, k3, k4⟩ := Tick_fields g
    refine ⟨k1.trans h1, fun hh => ?_, ?_⟩
    · show g.Tick.mPosition_Count = 0
      rcases k4 hh with k | k
      · rw [k2, h2 k]
      · rw [k2, k]
    · rcases l with _ | ⟨p, n⟩
      · show g.Tick.mPosition_Count = 0
        have h3' : g.mPosition_Count = 0 := h3
        rw [k2, h3']
      · have h3' : g.mPosition_Count = 15 - n ∧ g.mPosition_Current = p := h3
        show g.Tick.mPosition_Count = 15 - (n + 1) ∧ g.Tick.mPosition_Current = p
        refine ⟨?_, k3.trans h3'.2⟩
        rw [k2, h3'.1]
        omega
  | Position_Set aIn aFlags aDuration_ms =>
    obtain ⟨k1, k2, k3, k4⟩ := Position_Set_fields g aIn aFlags aDuration_ms
    refine ⟨k1.trans h1, fun hh => k2.trans (h2 (k4 hh)), ?_⟩
    rcases l with _ | ⟨p, n⟩
    · exact k2.trans h3
    · have h3' : g.mPosition_Count = 15 - n ∧ g.mPosition_Current = p := h3
      exact ⟨k2.trans h3'.1, k3.trans h3'.2⟩
  | Speed_Set aIn aFlags =>
    obtain ⟨k1, k2, k3, k4⟩ := Speed_Set_fields g aIn aFlags
    refine ⟨k1.trans h1, fun hh => k2.trans (h2 (k4 hh)), ?_⟩
    rcases l with _ | ⟨p, n⟩
    · exact k2.trans h3
    · have h3' : g.mPosition_Count = 15 - n ∧ g.mPosition_Current = p := h3
      exact ⟨k2.trans h3'.1, k3.trans h3'.2⟩
  | Speed_Stop =>
    refine ⟨h1, fun hh => State.noConfusion hh, ?_⟩
    rcases l with _ | ⟨p, n⟩
    · exact h3
    · exact h3

/-- The invariant holds after every sequence of operations. -/
theorem Fresh_Inv_foldl (c : Config) (aOps : List Op) :
    ∀ (g : Gimbal) (l : Option (Position × Nat)), Fresh_Inv c g l →
      Fresh_Inv c (aOps.foldl Op.apply g) (aOps.foldl Last_Update_Step l) := by
  induction aOps with
  | nil => exact fun _ _ h => h
  | cons op rest ih => exact fun g l h => ih _ _ (Fresh_Inv_step c g l op h)

/-- C19. From a model whose freshness counter is zero, as the constructor leaves it,
after every sequence of `Position_Update`, `Tick`, `Position_Set`, `Speed_Set` and
`Speed_Stop`: the freshness counter is at most 15 and the configuration is the initial
one; if the last `Position_Update` was followed by fewer than 15 `Tick` calls,
`Position_Get` returns `ZT_OK` and writes, on every axis, the position of that update
minus the configured offset; if there was no `Position_Update`, or 15 or more `Tick`
calls followed the last one, or the state is UNKNOWN, `Position_Get` returns
`ZT_ERROR_NOT_READY` and writes nothing. -/
theorem Position_Get_fresh (g0 : Gimbal) (aOps : List Op) (aOut : Position)
    (h0 : g0.mPosition_Count = 0) :
    (Run g0 aOps).mPosition_Count ≤ 15 ∧
    (Run g0 aOps).mConfig = g0.mConfig ∧
    (∀ p n, Last_Update aOps = some (p, n) → n < 15 →
      ((Run g0 aOps).Position_Get aOut).1 = ZT_OK ∧
      ∀ a, ((Run g0 aOps).Position_Get aOut).2.mAxis_deg.get a =
        p.mAxis_deg.get a - (g0.mConfig.mAxis.get a).mOffset_deg) ∧
    ((∀ p n, Last_Update aOps = some (p, n) → 15 ≤ n) →
      (Run g0 aOps).Position_Get aOut = (ZT_ERROR_NOT_READY, aOut)) ∧
    ((Run g0 aOps).mPosition_State = STATE_UNKNOWN →
      (Run g0 aOps).Position_Get aOut = (ZT_ERROR_NOT_READY, aOut)) := by
  have hinv : Fresh_Inv g0.mConfig (Run g0 aOps) (Last_Update aOps) :=
    Fresh_Inv_foldl g0.mConfig aOps g0 none ⟨rfl, fun _ => h0, h0⟩
  obtain ⟨h1, h2, h3⟩ := hinv
  obtain ⟨e1, e2⟩ := Position_Get_eq (Run g0 aOps) aOut
  refine ⟨?_, h1, ?_, ?_, ?_⟩
  · rcases hl : Last_Update aOps with _ | ⟨p, n⟩
    · rw [hl] at h3
      have h3' : (Run g0 aOps).mPosition_Count = 0 := h3
      omega
    · rw [hl] at h3
      have h3' : (Run g0 aOps).mPosition_Count = 15 - n ∧ _ := h3
      omega
  · intro p n hl hn
    rw [hl] at h3
    have h3' : (Run g0 aOps).mPosition_Count = 15 - n ∧
      (Run g0 aOps).mPosition_Current = p := h3
    have hc : 0 < (Run g0 aOps).mPosition_Count := by omega
    have hs : (Run g0 aOps).mPosition_State ≠ STATE_UNKNOWN := fun hh => by
      have := h2 hh
      omega
    obtain ⟨r1, r2⟩ := e1 ⟨hs, hc⟩
    refine ⟨r1, fun a => ?_⟩
    rw [r2 a, h3'.2, h1]
  · intro hall
    apply e2
    rintro ⟨-, hc⟩
    rcases hl : Last_Update aOps with _ | ⟨p, n⟩
    · rw [hl] at h3
      have h3' : (Run g0 aOps).mPosition_Count = 0 := h3
      omega
    · rw [hl] at h3
      have h3' : (Run g0 aOps).mPosition_Count = 15 - n ∧ _ := h3
      have := hall p n hl
      omega
  · intro hs
    exact e2 (fun hh => hh.1 hs)

/-- C19, evaluated: with a pitch offset of 5 configured, after two updates, three
ticks, a move and a stop, the last update two ticks back, `Position_Get` returns
`ZT_OK` with the position of the second update minus the offsets; never updated, it
returns `ZT_ERROR_NOT_READY`. -/
theorem Position_Get_fresh_witness :
    Example.model_offset.mPosition_Count = 0 ∧
    (Run Example.model_offset Example.ops_fresh).mPosition_Count ≤ 15 ∧
    ((Run Example.model_offset Example.ops_fresh).Position_Get Example.position_B).1 = ZT_OK ∧
    (∀ a, ((Run Example.model_offset Example.ops_fresh).Position_Get
        Example.position_B).2.mAxis_deg.get a =
      Example.position_A.mAxis_deg.get a -
        (Example.model_offset.mConfig.mAxis.get a).mOffset_deg) ∧
    (Run Example.model_offset [.Tick, .Speed_Stop]).Position_Get Example.position_B =
      (ZT_ERROR_NOT_READY, Example.position_B) := by
  have hl : Last_Update Example.ops_fresh = some (Example.position_A, 2) := by decide!
  obtain ⟨h1, -, h3, -, -⟩ :=
    Position_Get_fresh Example.model_offset Example.ops_fresh Example.position_B rfl
  obtain ⟨-, -, -, k4, -⟩ :=
    Position_Get_fresh Example.model_offset [.Tick, .Speed_Stop] Example.position_B rfl
  refine ⟨rfl, h1, (h3 _ _ hl (by decide)).1, (h3 _ _ hl (by decide)).2, k4 ?_⟩
  intro p n h
  have hn : Last_Update [.Tick, .Speed_Stop] = none := rfl
  rw [hn] at h
  exact Option.noConfusion h

end Gimbal

namespace ControlLink

theorem Table_FindEntry_Loop_none (t : Table) (a c : Nat) :
    Table_FindEntry_Loop t a c = none ↔ (a, c) ∉ t.map TableEntry.key := by
  induction t with
  | nil => simp [Table_FindEntry_Loop]
  | cons e rest ih =>
    unfold Table_FindEntry_Loop
    by_cases h : a = e.mAction ∧ c = e.mControl
    · rw [if_pos h]
      simp [TableEntry.key, h.1, h.2]
    · rw [if_neg h]
      have hk : ¬ ((a, c) = e.key) := by
        intro hh
        simp only [TableEntry.key, Prod.mk.injEq] at hh
        exact h hh
      simp only [Option.map_eq_none', ih, List.map_cons, List.mem_cons, not_or]
      exact ⟨fun x => ⟨hk, x⟩, fun x => x.2⟩

theorem Table_FindEntry_Loop_some (t : Table) (a c : Nat) :
    ∀ i, Table_FindEntry_Loop t a c = some i →
      ∃ e, t[i]? = some e ∧ e.key = (a, c) := by
  induction t with
  | nil => intro i h; exact absurd h (by simp [Table_FindEntry_Loop])
  | cons e rest ih =>
    intro i h
    unfold Table_FindEntry_Loop at h
    by_cases hk : a = e.mAction ∧ c = e.mControl
    · rw [if_pos hk] at h
      simp only [Option.some.injEq] at h
      subst h
      exact ⟨e, by simp, by simp [TableEntry.key, hk.1, hk.2]⟩
    · rw [if_neg hk] at h
      obtain ⟨j, hj, rfl⟩ := Option.map_eq_some'.1 h
      obtain ⟨e1, h1, h2⟩ := ih j hj
      exact ⟨e1, by simpa using h1, h2⟩

theorem Table_Entry_Assign_set (t : Table) (f : Nat) (o fa : ℚ) :
    ∀ i e, t[i]? = some e →
      Table_Entry_Assign t i f o fa =
        t.set i { e with mFunction := f, mOffset := o, mFactor := fa } := by
  induction t with
  | nil => intro i e h; exact absurd h (by simp)
  | cons e0 rest ih =>
    intro i e h
    cases i with
    | zero =>
      simp only [List.getElem?_cons_zero, Option.some.injEq] at h
      subst h
      rfl
    | succ j =>
      simp only [List.getElem?_cons_succ] at h
      simp only [Table_Entry_Assign, List.set_cons_succ, ih j e h]

theorem Table_set_keys (t : Table) (i : Nat) (e e1 : TableEntry) (h : t[i]? = some e)
    (hk : e1.key = e.key) : (t.set i e1).map TableEntry.key = t.map TableEntry.key := by
  induction t generalizing i with
  | nil => rfl
  | cons e0 rest ih =>
    cases i with
    | zero =>
      simp only [List.getElem?_cons_zero, Option.some.injEq] at h
      subst h
      simp [hk]
    | succ j =>
      simp only [List.getElem?_cons_succ] at h
      simp [ih j h]

theorem Table_FindEntry_Loop_keys (t1 t2 : Table) (a c : Nat)
    (h : t1.map TableEntry.key = t2.map TableEntry.key) :
    Table_FindEntry_Loop t1 a c = Table_FindEntry_Loop t2 a c := by
  induction t1 generalizing t2 with
  | nil =>
    cases t2 with
    | nil => rfl
    | cons e r => simp at h
  | cons e1 r1 ih =>
    cases t2 with
    | nil => simp at h
    | cons e2 r2 =>
      simp only [List.map_cons, List.cons.injEq, TableEntry.key, Prod.mk.injEq] at h
      unfold Table_FindEntry_Loop
      rw [h.1.1, h.1.2, ih r2 h.2]

theorem Table_FindEntry_Loop_append (t : Table) (e : TableEntry)
    (h : Table_FindEntry_Loop t e.mAction e.mControl = none) :
    Table_FindEntry_Loop (t ++ [e]) e.mAction e.mControl = some t.length := by
  induction t with
  | nil => simp [Table_FindEntry_Loop]
  | cons e0 rest ih =>
    unfold Table_FindEntry_Loop at h
    by_cases hk : e.mAction = e0.mAction ∧ e.mControl = e0.mControl
    · rw [if_pos hk] at h
      exact absurd h (by simp)
    · rw [if_neg hk] at h
      have h1 := ih (Option.map_eq_none'.1 h)
      show Table_FindEntry_Loop (e0 :: (rest ++ [e])) e.mAction e.mControl = _
      unfold Table_FindEntry_Loop
      rw [if_neg hk, h1]
      rfl

theorem Table_RemoveEntry_Loop_keys (t : Table) (a c : Nat) :
    ((Table_RemoveEntry_Loop t a c).map TableEntry.key).Sublist (t.map TableEntry.key) := by
  induction t with
  | nil => exact List.Sublist.refl _
  | cons e rest ih =>
    unfold Table_RemoveEntry_Loop
    by_cases hk : a = e.mAction ∧ c = e.mControl
    · rw [if_pos hk]
      exact List.sublist_cons_self _ _
    · rw [if_neg hk]
      exact List.Sublist.cons₂ _ ih

theorem Value_Validate_some (x lo hi : ℚ) (h : lo < hi) :
    (lo ≤ x ∧ x ≤ hi → Value_Validate x lo hi = some ZT_OK) ∧
    (¬ (lo ≤ x ∧ x ≤ hi) →
      ∃ r, Value_Validate x lo hi = some r ∧ r ≠ ZT_OK) := by
  unfold Value_Validate
  rw [if_neg (not_not.2 h)]
  constructor
  · rintro ⟨h1, h2⟩
    rw [if_neg (not_lt.2 h1), if_neg (not_lt.2 h2)]
  · intro hn
    by_cases h1 : lo > x
    · rw [if_pos h1]
      exact ⟨_, rfl, fun hh => Result.noConfusion hh⟩
    · rw [if_neg h1]
      have h2 : hi < x := by
        by_contra h2
        exact hn ⟨not_lt.1 h1, not_lt.1 h2⟩
      rw [if_pos h2]
      exact ⟨_, rfl, fun hh => Result.noConfusion hh⟩

/-- `Table_AddEntry` with values of the enumerations and factor and offset in range. -/
theorem Table_AddEntry_valid (t : Table) (a c f : Nat) (fa o : ℚ)
    (hA : a < IGamepad.ACTION_QTY) (hC : c < IGamepad.CONTROL_QTY) (hF : f < FUNCTION_QTY)
    (hfa : -360 ≤ fa ∧ fa ≤ 360) (ho : -180 ≤ o ∧ o ≤ 180) :
    Table_AddEntry t a c f fa o =
      some (ZT_OK,
        match Table_FindEntry_Loop t a c with
        | none => t ++ [{ mAction := a, mControl := c, mFunction := f, mOffset := o,
                          mFactor := fa }]
        | some i => Table_Entry_Assign t i f o fa) := by
  have v1 := (Value_Validate_some fa FACTOR_MIN FACTOR_MAX (by norm_num [FACTOR_MIN, FACTOR_MAX])).1
    (by simpa [FACTOR_MIN, FACTOR_MAX] using hfa)
  have v2 := (Value_Validate_some o OFFSET_MIN OFFSET_MAX (by norm_num [OFFSET_MIN, OFFSET_MAX])).1
    (by simpa [OFFSET_MIN, OFFSET_MAX] using ho)
  have hfe : Table_FindEntry t a c = some (Table_FindEntry_Loop t a c) := by
    unfold Table_FindEntry
    rw [if_neg (not_not.2 hA), if_neg (not_not.2 hC)]
  unfold Table_AddEntry
  rw [if_neg (not_not.2 hA), if_neg (not_not.2 hC), if_neg (not_not.2 hF), v1, v2, hfe]
  simp only
  cases Table_FindEntry_Loop t a c <;> rfl

/-- `Table_AddEntry` with values of the enumerations returns, and the table afterwards
is the one before, or has one entry with a new key appended, or has the same keys. -/
theorem Table_AddEntry_keys (t : Table) (a c f : Nat) (fa o : ℚ)
    (hA : a < IGamepad.ACTION_QTY) (hC : c < IGamepad.CONTROL_QTY) (hF : f < FUNCTION_QTY) :
    ∃ r t2, Table_AddEntry t a c f fa o = some (r, t2) ∧
      (t2.map TableEntry.key = t.map TableEntry.key ∨
        ((a, c) ∉ t.map TableEntry.key ∧
          t2.map TableEntry.key = t.map TableEntry.key ++ [(a, c)])) := by
  by_cases hfa : FACTOR_MIN ≤ fa ∧ fa ≤ FACTOR_MAX
  · by_cases ho : OFFSET_MIN ≤ o ∧ o ≤ OFFSET_MAX
    · have e := Table_AddEntry_valid t a c f fa o hA hC hF
        (by simpa [FACTOR_MIN, FACTOR_MAX] using hfa) (by simpa [OFFSET_MIN, OFFSET_MAX] using ho)
      refine ⟨_, _, e, ?_⟩
      rcases hl : Table_FindEntry_Loop t a c with _ | i
      · right
        exact ⟨(Table_FindEntry_Loop_none t a c).1 hl, by simp [TableEntry.key]⟩
      · left
        obtain ⟨e0, h1, h2⟩ := Table_FindEntry_Loop_some t a c i hl
        simp only
        rw [Table_Entry_Assign_set t f o fa i e0 h1]
        exact Table_set_keys t i e0 _ h1 rfl
    · have v1 := (Value_Validate_some fa FACTOR_MIN FACTOR_MAX
        (by norm_num [FACTOR_MIN, FACTOR_MAX])).1 hfa
      obtain ⟨r, v2, hr⟩ := (Value_Validate_some o OFFSET_MIN OFFSET_MAX
        (by norm_num [OFFSET_MIN, OFFSET_MAX])).2 ho
      refine ⟨r, t, ?_, Or.inl rfl⟩
      unfold Table_AddEntry
      rw [if_neg (not_not.2 hA), if_neg (not_not.2 hC), if_neg (not_not.2 hF), v1, v2]
      cases r <;> first | rfl | exact absurd rfl hr
  · obtain ⟨r, v1, hr⟩ := (Value_Validate_some fa FACTOR_MIN FACTOR_MAX
      (by norm_num [FACTOR_MIN, FACTOR_MAX])).2 hfa
    refine ⟨r, t, ?_, Or.inl rfl⟩
    unfold Table_AddEntry
    rw [if_neg (not_not.2 hA), if_neg (not_not.2 hC), if_neg (not_not.2 hF), v1]
    cases r <;> first | rfl | exact absurd rfl hr

/-- Every operation with values of the enumerations returns and keeps the keys
unique. -/
theorem Table_Op_apply_unique (t : Table) (op : Table_Op) (hr : op.In_Range)
    (hu : Unique_Keys t) : ∃ t1, Table_Op.apply t op = some t1 ∧ Unique_Keys t1 := by
  cases op with
  | AddEntry a c f fa o =>
    obtain ⟨hA, hC, hF⟩ := hr
    obtain ⟨r, t2, h1, h2⟩ := Table_AddEntry_keys t a c f fa o hA hC hF
    refine ⟨t2, by simp [Table_Op.apply, h1], ?_⟩
    unfold Unique_Keys at hu ⊢
    rcases h2 with h2 | ⟨h2, h3⟩
    · rw [h2]; exact hu
    · rw [h3]
      exact List.Nodup.append hu (List.nodup_singleton _)
        (by simpa [List.Disjoint] using h2)
  | RemoveEntry a c =>
    obtain ⟨hA, hC⟩ := hr
    refine ⟨Table_RemoveEntry_Loop t a c, ?_, ?_⟩
    · simp only [Table_Op.apply, Table_RemoveEntry]
      rw [if_neg (not_not.2 hA), if_neg (not_not.2 hC)]
    · exact List.Nodup.sublist (Table_RemoveEntry_Loop_keys t a c) hu
  | CLEAR => exact ⟨[], rfl, List.nodup_nil⟩

theorem Table_Run_unique (aOps : List Table_Op) :
    ∀ t, (∀ op ∈ aOps, op.In_Range) → Unique_Keys t →
      ∃ tN, Table_Run t aOps = some tN ∧ Unique_Keys tN := by
  induction aOps with
  | nil => exact fun t _ hu => ⟨t, rfl, hu⟩
  | cons op rest ih =>
    intro t hr hu
    obtain ⟨t1, h1, h2⟩ := Table_Op_apply_unique t op (hr op (List.mem_cons_self _ _)) hu
    obtain ⟨tN, h3, h4⟩ := ih t1 (fun q hq => hr q (List.mem_cons_of_mem _ hq)) h2
    exact ⟨tN, by simp only [Table_Run, h1, h3], h4⟩

/-- C20. The default table exists and, after every sequence of `Table_AddEntry`,
`Table_RemoveEntry` and `CLEAR` whose enumeration arguments are values of their
enumerations, the table exists and no two of its entries have the same
(Action, Control) key. For every table, `Table_AddEntry` with such arguments and with
-360 <= factor <= 360 and -180 <= offset <= 180 returns `ZT_OK`; when the key is in the
table, the length is unchanged and the table afterwards is the one before with one
entry of that key replaced, in place, by itself with the given function, factor and
offset; when the key is not in the table, exactly one entry with the given values is
appended; in both cases `Table_FindEntry` of the key then returns an entry with
exactly the given function, factor and offset. -/
theorem Table_upsert (aOps : List Table_Op) (t : Table) (aAction aControl aFunction : Nat)
    (aFactor aOffset : ℚ)
    (hOps : ∀ op ∈ aOps, op.In_Range)
    (hA : aAction < IGamepad.ACTION_QTY) (hC : aControl < IGamepad.CONTROL_QTY)
    (hF : aFunction < FUNCTION_QTY)
    (hFactor : -360 ≤ aFactor ∧ aFactor ≤ 360) (hOffset : -180 ≤ aOffset ∧ aOffset ≤ 180) :
    (∃ t0 tN, Table_Default = some t0 ∧ Table_Run t0 aOps = some tN ∧ Unique_Keys tN) ∧
    (∃ t2, Table_AddEntry t aAction aControl aFunction aFactor aOffset = some (ZT_OK, t2) ∧
      ((aAction, aControl) ∈ t.map TableEntry.key →
        t2.length = t.length ∧
        ∃ i e, t[i]? = some e ∧ e.key = (aAction, aControl) ∧
          t2 = t.set i { e with mFunction := aFunction, mFactor := aFactor,
                                mOffset := aOffset }) ∧
      ((aAction, aControl) ∉ t.map TableEntry.key →
        t2 = t ++ [{ mAction := aAction, mControl := aControl, mFunction := aFunction,
                     mFactor := aFactor, mOffset := aOffset }]) ∧
      ∃ i e, Table_FindEntry t2 aAction aControl = some (some i) ∧ t2[i]? = some e ∧
        e.mFunction = aFunction ∧ e.mFactor = aFactor ∧ e.mOffset = aOffset) := by
  constructor
  · have hd : Table_Default = some Example.table_default := by decide!
    have hu : Unique_Keys Example.table_default := by decide
    obtain ⟨tN, h1, h2⟩ := Table_Run_unique aOps Example.table_default hOps hu
    exact ⟨_, tN, hd, h1, h2⟩
  · have e := Table_AddEntry_valid t aAction aControl aFunction aFactor aOffset hA hC hF
      hFactor hOffset
    have hfe : ∀ t2 : Table, Table_FindEntry t2 aAction aControl =
        some (Table_FindEntry_Loop t2 aAction aControl) := by
      intro t2
      unfold Table_FindEntry
      rw [if_neg (not_not.2 hA), if_neg (not_not.2 hC)]
    refine ⟨_, e, ?_, ?_, ?_⟩
    · intro hk
      rcases hl : Table_FindEntry_Loop t aAction aControl with _ | i
      · exact absurd hk ((Table_FindEntry_Loop_none t aAction aControl).1 hl)
      · obtain ⟨e0, h1, h2⟩ := Table_FindEntry_Loop_some t aAction aControl i hl
        simp only
        rw [Table_Entry_Assign_set t aFunction aOffset aFactor i e0 h1]
        exact ⟨List.length_set _ _ _, i, e0, h1, h2, rfl⟩
    · intro hk
      rw [(Table_FindEntry_Loop_none t aAction aControl).2 hk]
    · rcases hl : Table_FindEntry_Loop t aAction aControl with _ | i
      · simp only
        refine ⟨t.length, _, ?_, List.getElem?_concat_length _ _, rfl, rfl, rfl⟩
        rw [hfe]
        exact congrArg some (Table_FindEntry_Loop_append t
          { mAction := aAction, mControl := aControl, mFunction := aFunction,
            mFactor := aFactor, mOffset := aOffset } hl)
      · obtain ⟨e0, h1, h2⟩ := Table_FindEntry_Loop_some t aAction aControl i hl
        simp only
        rw [Table_Entry_Assign_set t aFunction aOffset aFactor i e0 h1]
        refine ⟨i, { e0 with mFunction := aFunction, mFactor := aFactor, mOffset := aOffset },
          ?_, ?_, rfl, rfl, rfl⟩
        · rw [hfe, Table_FindEntry_Loop_keys _ t aAction aControl
            (Table_set_keys t i e0
              { e0 with mFunction := aFunction, mFactor := aFactor, mOffset := aOffset }
              h1 rfl), hl]
        · have hlt : i < t.length := by
            by_contra hh
            rw [List.getElem?_eq_none (Nat.le_of_not_lt hh)] at h1
            exact Option.noConfusion h1
          simp [List.getElem?_set, hlt]

/-- C20, evaluated on the default table: the four operations of `table_ops` leave a
table with unique keys; adding focus with factor -1.5 and offset 10 for button B, a
key of the default table, returns `ZT_OK` and keeps the 16 entries; the entry found
for button B afterwards has these values. -/
theorem Table_upsert_witness :
    (∃ tN, Table_Run Example.table_default Example.table_ops = some tN ∧ Unique_Keys tN ∧
      tN.length = 16) ∧
    (∃ t2, Table_AddEntry Example.table_default IGamepad.ACTION_PRESSED IGamepad.BUTTON_B
        FUNCTION_FOCUS (-1.5) 10 = some (ZT_OK, t2) ∧ t2.length = 16 ∧
      ∃ i e, Table_FindEntry t2 IGamepad.ACTION_PRESSED IGamepad.BUTTON_B = some (some i) ∧
        t2[i]? = some e ∧ e.mFunction = FUNCTION_FOCUS ∧ e.mFactor = -1.5 ∧
        e.mOffset = 10) := by
  obtain ⟨⟨t0, tN, h0, h1, h2⟩, t2, k1, k2, -, k4⟩ :=
    Table_upsert Example.table_ops Example.table_default IGamepad.ACTION_PRESSED
      IGamepad.BUTTON_B FUNCTION_FOCUS (-1.5) 10 (by decide) (by decide) (by decide)
      (by decide) (by norm_num) (by norm_num)
  have hd : Table_Default = some Example.table_default := by decide!
  rw [hd] at h0
  simp only [Option.some.injEq] at h0
  subst h0
  refine ⟨⟨tN, h1, h2, ?_⟩, t2, k1, (k2 (by decide)).1, k4⟩
  have hr : (Table_Run Example.table_default Example.table_ops).map List.length = some 16 := by
    decide!
  rw [h1] at hr
  simpa using hr

end ControlLink

namespace ControlLink

/-- C21. `Table_AddEntry` with values of the enumerations: a factor below -360 gives
`ZT_ERROR_MIN` and a factor above 360 gives `ZT_ERROR_MAX`, whatever the offset; with
the factor in [-360, 360], an offset below -180 gives `ZT_ERROR_MIN` and an offset
above 180 gives `ZT_ERROR_MAX`; in these four cases the table is the one before. With
the factor in [-360, 360] and the offset in [-180, 180], bounds included, the result
is `ZT_OK`. -/
theorem Table_AddEntry_errors (t : Table) (aAction aControl aFunction : Nat)
    (aFactor aOffset : ℚ)
    (hA : aAction < IGamepad.ACTION_QTY) (hC : aControl < IGamepad.CONTROL_QTY)
    (hF : aFunction < FUNCTION_QTY) :
    (aFactor < -360 →
      Table_AddEntry t aAction aControl aFunction aFactor aOffset = some (ZT_ERROR_MIN, t)) ∧
    (360 < aFactor →
      Table_AddEntry t aAction aControl aFunction aFactor aOffset = some (ZT_ERROR_MAX, t)) ∧
    (-360 ≤ aFactor → aFactor ≤ 360 → aOffset < -180 →
      Table_AddEntry t aAction aControl aFunction aFactor aOffset = some (ZT_ERROR_MIN, t)) ∧
    (-360 ≤ aFactor → aFactor ≤ 360 → 180 < aOffset →
      Table_AddEntry t aAction aControl aFunction aFactor aOffset = some (ZT_ERROR_MAX, t)) ∧
    (-360 ≤ aFactor → aFactor ≤ 360 → -180 ≤ aOffset → aOffset ≤ 180 →
      ∃ t2, Table_AddEntry t aAction aControl aFunction aFactor aOffset = some (ZT_OK, t2)) := by
  have hf : (FACTOR_MIN < FACTOR_MAX) := by norm_num [FACTOR_MIN, FACTOR_MAX]
  have ho : (OFFSET_MIN < OFFSET_MAX) := by norm_num [OFFSET_MIN, OFFSET_MAX]
  have hfok : -360 ≤ aFactor → aFactor ≤ 360 →
      Value_Validate aFactor FACTOR_MIN FACTOR_MAX = some ZT_OK := fun h1 h2 =>
    (Value_Validate_some aFactor FACTOR_MIN FACTOR_MAX hf).1
      (by simpa [FACTOR_MIN, FACTOR_MAX] using And.intro h1 h2)
  refine ⟨?_, ?_, ?_, ?_, ?_⟩
  · intro h
    have v : Value_Validate aFactor FACTOR_MIN FACTOR_MAX = some ZT_ERROR_MIN := by
      unfold Value_Validate
      rw [if_neg (not_not.2 hf), if_pos (by simpa [FACTOR_MIN] using h)]
    unfold Table_AddEntry
    rw [if_neg (not_not.2 hA), if_neg (not_not.2 hC), if_neg (not_not.2 hF), v]
  · intro h
    have v : Value_Validate aFactor FACTOR_MIN FACTOR_MAX = some ZT_ERROR_MAX := by
      unfold Value_Validate
      have h1 : ¬ (FACTOR_MIN > aFactor) := by
        simp only [FACTOR_MIN, gt_iff_lt, not_lt]
        linarith
      rw [if_neg (not_not.2 hf), if_neg h1, if_pos (by simpa [FACTOR_MAX] using h)]
    unfold Table_AddEntry
    rw [if_neg (not_not.2 hA), if_neg (not_not.2 hC), if_neg (not_not.2 hF), v]
  · intro h1 h2 h
    have v : Value_Validate aOffset OFFSET_MIN OFFSET_MAX = some ZT_ERROR_MIN := by
      unfold Value_Validate
      rw [if_neg (not_not.2 ho), if_pos (by simpa [OFFSET_MIN] using h)]
    unfold Table_AddEntry
    rw [if_neg (not_not.2 hA), if_neg (not_not.2 hC), if_neg (not_not.2 hF), hfok h1 h2, v]
  · intro h1 h2 h
    have v : Value_Validate aOffset OFFSET_MIN OFFSET_MAX = some ZT_ERROR_MAX := by
      unfold Value_Validate
      have h3 : ¬ (OFFSET_MIN > aOffset) := by
        simp only [OFFSET_MIN, gt_iff_lt, not_lt]
        linarith
      rw [if_neg (not_not.2 ho), if_neg h3, if_pos (by simpa [OFFSET_MAX] using h)]
    unfold Table_AddEntry
    rw [if_neg (not_not.2 hA), if_neg (not_not.2 hC), if_neg (not_not.2 hF), hfok h1 h2, v]
  · intro h1 h2 h3 h4
    exact ⟨_, Table_AddEntry_valid t aAction aControl aFunction aFactor aOffset hA hC hF
      ⟨h1, h2⟩ ⟨h3, h4⟩⟩

/-- C21, evaluated on the default table for the key of button A: factor -400 with
offset 200, factor 360.5, offset -181 and offset 180.25 are refused with the table
unchanged; the bounds 360 with -180 and -360 with 180 are accepted. -/
theorem Table_AddEntry_errors_witness :
    Table_AddEntry Example.table_default IGamepad.ACTION_PRESSED IGamepad.BUTTON_A
      FUNCTION_FOCUS (-400) 200 = some (ZT_ERROR_MIN, Example.table_default) ∧
    Table_AddEntry Example.table_default IGamepad.ACTION_PRESSED IGamepad.BUTTON_A
      FUNCTION_FOCUS 360.5 0 = some (ZT_ERROR_MAX, Example.table_default) ∧
    Table_AddEntry Example.table_default IGamepad.ACTION_PRESSED IGamepad.BUTTON_A
      FUNCTION_FOCUS 1 (-181) = some (ZT_ERROR_MIN, Example.table_default) ∧
    Table_AddEntry Example.table_default IGamepad.ACTION_PRESSED IGamepad.BUTTON_A
      FUNCTION_FOCUS 1 180.25 = some (ZT_ERROR_MAX, Example.table_default) ∧
    (∃ t2, Table_AddEntry Example.table_default IGamepad.ACTION_PRESSED IGamepad.BUTTON_A
      FUNCTION_FOCUS 360 (-180) = some (ZT_OK, t2)) ∧
    (∃ t2, Table_AddEntry Example.table_default IGamepad.ACTION_PRESSED IGamepad.BUTTON_A
      FUNCTION_FOCUS (-360) 180 = some (ZT_OK, t2)) :=
  ⟨(Table_AddEntry_errors Example.table_default IGamepad.ACTION_PRESSED IGamepad.BUTTON_A
      FUNCTION_FOCUS (-400) 200 (by decide) (by decide) (by decide)).1 (by norm_num),
   (Table_AddEntry_errors Example.table_default IGamepad.ACTION_PRESSED IGamepad.BUTTON_A
      FUNCTION_FOCUS 360.5 0 (by decide) (by decide) (by decide)).2.1 (by norm_num),
   (Table_AddEntry_errors Example.table_default IGamepad.ACTION_PRESSED IGamepad.BUTTON_A
      FUNCTION_FOCUS 1 (-181) (by decide) (by decide) (by decide)).2.2.1
      (by norm_num) (by norm_num) (by norm_num),
   (Table_AddEntry_errors Example.table_default IGamepad.ACTION_PRESSED IGamepad.BUTTON_A
      FUNCTION_FOCUS 1 180.25 (by decide) (by decide) (by decide)).2.2.2.1
      (by norm_num) (by norm_num) (by norm_num),
   (Table_AddEntry_errors Example.table_default IGamepad.ACTION_PRESSED IGamepad.BUTTON_A
      FUNCTION_FOCUS 360 (-180) (by decide) (by decide) (by decide)).2.2.2.2
      (by norm_num) (by norm_num) (by norm_num) (by norm_num),
   (Table_AddEntry_errors Example.table_default IGamepad.ACTION_PRESSED IGamepad.BUTTON_A
      FUNCTION_FOCUS (-360) 180 (by decide) (by decide) (by decide)).2.2.2.2
      (by norm_num) (by norm_num) (by norm_num) (by norm_num)⟩

end ControlLink

theorem Double_Trunc_int (n : Int) : Double_Trunc (n : ℚ) = n := by
  unfold Double_Trunc
  split_ifs <;> simp

theorem Byte_or_shift (lo hi : Nat) (h : lo < 256) : lo ||| (hi <<< 8) = lo + 256 * hi := by
  rw [Nat.shiftLeft_eq, Nat.or_comm, Nat.mul_comm hi, Nat.add_comm]
  exact (Nat.mul_add_lt_is_or (show lo < 2 ^ 8 from h) hi).symm

/-- The two's complement pattern of an integer in the range of `int16_t`, split in two
bytes and read back. -/
theorem Int16_Value_bytes (n : Int) (hlo : -32768 ≤ n) (hhi : n ≤ 32767) :
    (n % 65536).toNat &&& 0xff < 256 ∧ (n % 65536).toNat >>> 8 < 256 ∧
    Int16_Value (((n % 65536).toNat &&& 0xff) ||| (((n % 65536).toNat >>> 8) <<< 8)) = n := by
  have e1 : (n % 65536).toNat &&& 0xff = (n % 65536).toNat % 256 :=
    Nat.and_pow_two_sub_one_eq_mod _ 8
  have e2 : (n % 65536).toNat >>> 8 = (n % 65536).toNat / 256 :=
    Nat.shiftRight_eq_div_pow _ 8
  have hp : ((n % 65536).toNat : Int) = n % 65536 := Int.toNat_of_nonneg (by omega)
  have hlt : (n % 65536).toNat < 65536 := by omega
  rw [e1, e2]
  refine ⟨Nat.mod_lt _ (by norm_num), by omega, ?_⟩
  have e3 : (n % 65536).toNat % 256 ||| (((n % 65536).toNat / 256) <<< 8) =
      (n % 65536).toNat := by
    rw [Nat.shiftLeft_eq, Nat.or_comm, Nat.mul_comm]
    rw [← Nat.mul_add_lt_is_or (show (n % 65536).toNat % 256 < 2 ^ 8 from
      Nat.mod_lt _ (by norm_num))]
    exact Nat.div_add_mod _ _
  rw [e3]
  unfold Int16_Value
  split_ifs with h <;> omega

namespace DJI_Frame

/-- The two data bytes at an offset after `Angle_Set`, the others being kept. -/
theorem Angle_Set_bytes (f : DJI_Frame) (o : Nat) (x : ℚ)
    (hlen : f.bytes.length = DJI_Frame.sizeof) (ho : o + 1 < 16) :
    ∃ f', f.Angle_Set o x = some f' ∧
      f'.mData o = (Double_To_Int16 (x * 10) &&& 0xff) % 256 ∧
      f'.mData (o + 1) = (Double_To_Int16 (x * 10) >>> 8) % 256 ∧
      f'.bytes.length = DJI_Frame.sizeof ∧
      ∀ i, i ≠ o → i ≠ o + 1 → f'.mData i = f.mData i := by
  have hlen' : f.bytes.length = 28 := hlen
  have ho' : o < 16 := by omega
  unfold Angle_Set
  rw [if_neg (by omega)]
  simp only [mData_Set, ho, ho', not_true_eq_false, if_false, Option.some_bind]
  refine ⟨_, rfl, ?_, ?_, ?_, ?_⟩
  · simp only [mData, DJI_HEADER_SIZE_byte, List.getD_eq_getElem?_getD]
    rw [List.getElem?_set_ne (by omega), List.getElem?_set_self (by omega)]
    rfl
  · simp only [mData, DJI_HEADER_SIZE_byte, List.getD_eq_getElem?_getD]
    rw [List.getElem?_set_self (by simp; omega)]
    rfl
  · simp [hlen]
  · intro i h1 h2
    simp only [mData, DJI_HEADER_SIZE_byte, List.getD_eq_getElem?_getD]
    rw [List.getElem?_set_ne (by omega), List.getElem?_set_ne (by omega)]

/-- C26 (amended). In a 28-byte frame, at every data offset from 0 to 14, for every
angle `a` such that `10 * a`, truncated toward zero, is in -32768..32767: `Angle_Set`
returns, writes that integer as a signed 16-bit little-endian value (the low byte at the
offset, the high byte after it) and keeps the other data bytes; `Angle_Get` at the same
offset returns the truncated value divided by 10, which is `a` itself when `10 * a` is
an integer. -/
theorem Angle_roundtrip (f : DJI_Frame) (aOffset_byte : Nat) (aAngle_deg : ℚ)
    (hlen : f.bytes.length = DJI_Frame.sizeof) (hoff : aOffset_byte + 1 < 16)
    (hlo : -32768 ≤ Double_Trunc (aAngle_deg * 10))
    (hhi : Double_Trunc (aAngle_deg * 10) ≤ 32767) :
    ∃ f', f.Angle_Set aOffset_byte aAngle_deg = some f' ∧
      f'.mData aOffset_byte < 256 ∧ f'.mData (aOffset_byte + 1) < 256 ∧
      Int16_Value (f'.mData aOffset_byte + 256 * f'.mData (aOffset_byte + 1)) =
        Double_Trunc (aAngle_deg * 10) ∧
      (∀ i, i ≠ aOffset_byte → i ≠ aOffset_byte + 1 → f'.mData i = f.mData i) ∧
      f'.Angle_Get aOffset_byte = some ((Double_Trunc (aAngle_deg * 10) : ℚ) / 10) ∧
      (∀ n : Int, aAngle_deg * 10 = n → f'.Angle_Get aOffset_byte = some aAngle_deg) := by
  obtain ⟨f', h1, h2, h3, -, h5⟩ := Angle_Set_bytes f aOffset_byte aAngle_deg hlen hoff
  obtain ⟨k1, k2, k3⟩ := Int16_Value_bytes (Double_Trunc (aAngle_deg * 10)) hlo hhi
  have e2 : f'.mData aOffset_byte = (Double_Trunc (aAngle_deg * 10) % 65536).toNat &&& 0xff := by
    rw [h2]
    exact Nat.mod_eq_of_lt k1
  have e3 : f'.mData (aOffset_byte + 1) =
      (Double_Trunc (aAngle_deg * 10) % 65536).toNat >>> 8 := by
    rw [h3]
    exact Nat.mod_eq_of_lt k2
  have eor : f'.mData aOffset_byte ||| (f'.mData (aOffset_byte + 1) <<< 8) =
      f'.mData aOffset_byte + 256 * f'.mData (aOffset_byte + 1) :=
    Byte_or_shift _ _ (by rw [e2]; exact k1)
  have hv : Int16_Value (f'.mData aOffset_byte + 256 * f'.mData (aOffset_byte + 1)) =
      Double_Trunc (aAngle_deg * 10) := by
    rw [← eor, e2, e3]
    exact k3
  have hg : f'.Angle_Get aOffset_byte = some ((Double_Trunc (aAngle_deg * 10) : ℚ) / 10) := by
    unfold Angle_Get
    rw [if_neg (not_not.2 hoff)]
    simp only [eor, hv]
  refine ⟨f', h1, by rw [e2]; exact k1, by rw [e3]; exact k2, hv, h5, hg, ?_⟩
  intro n hn
  rw [hg, hn, Double_Trunc_int]
  rw [← hn]
  congr 1
  field_simp

/-- C26 as stated, refuted at the data offset 15: the assertion of `Angle_Set` admits
it (`sizeof(mData) > 15`), the low byte goes to `mData[15]` and the high byte to
`mData[16]`, outside the 16 data bytes, so neither `Angle_Set` nor `Angle_Get` is
followed there and no angle is read back; at the offset 14 the round trip holds. -/
theorem Angle_roundtrip_offset_15 :
    (16 > 15) ∧
    (Example.frame 26).Angle_Set 15 180.5 = none ∧
    (Example.frame 26).Angle_Get 15 = none ∧
    (¬ ∃ f', (Example.frame 26).Angle_Set 15 180.5 = some f' ∧
      f'.Angle_Get 15 = some 180.5) ∧
    ((Example.frame 26).Angle_Set 14 180.5).bind (fun f => f.Angle_Get 14) = some 180.5 := by
  refine ⟨by decide, by decide!, by decide!, ?_, by decide!⟩
  rintro ⟨f', h, -⟩
  have e : (Example.frame 26).Angle_Set 15 180.5 = none := by decide!
  rw [e] at h
  exact Option.noConfusion h

/-- C26 (amended), evaluated at data offset 2 of a 28-byte frame: 180.5 is written as
1805 (bytes 0x0D, 0x07) and -180.5 as -1805 (bytes 0xF3, 0xF8), both read back exactly;
12.34 is written as 123 and read back as 12.3, -12.34 as -123 and read back as
-12.3. -/
theorem Angle_roundtrip_witness :
    ((Example.frame 26).Angle_Set 2 180.5).map
      (fun f => (f.mData 2, f.mData 3, f.Angle_Get 2)) = some (0x0d, 0x07, some 180.5) ∧
    ((Example.frame 26).Angle_Set 2 (-180.5)).map
      (fun f => (f.mData 2, f.mData 3, f.Angle_Get 2)) = some (0xf3, 0xf8, some (-180.5)) ∧
    ((Example.frame 26).Angle_Set 2 12.34).bind (fun f => f.Angle_Get 2) = some 12.3 ∧
    ((Example.frame 26).Angle_Set 2 (-12.34)).bind (fun f => f.Angle_Get 2) = some (-12.3) ∧
    (∃ f', (Example.frame 26).Angle_Set 2 180.5 = some f' ∧ f'.Angle_Get 2 = some 180.5) := by
  obtain ⟨f', h1, -, -, -, -, -, h7⟩ :=
    Angle_roundtrip (Example.frame 26) 2 180.5 (by decide) (by decide) (by decide!) (by decide!)
  refine ⟨?_, ?_, ?_, ?_, f', h1, h7 1805 (by norm_num)⟩
  · decide!
  · decide!
  · decide!
  · decide!

end DJI_Frame

namespace DJI_Transaction

/-- `Frame_Init_POSITION_SET` always returns, and its frame is `POSITION_SET_Image`. -/
theorem Frame_Init_POSITION_SET_bytes (crc : DJI_CRC) (s : Nat) (tr : DJI_Transaction)
    (aIn : Position) (aFlags aDuration_ms : Nat) :
    Frame_Init_POSITION_SET crc s tr aIn aFlags aDuration_ms =
      some ({ tr with mTxFrame :=
                DJI_Frame.mk (POSITION_SET_Image crc ((s + 1) % 4294967296 % 65536) aIn aFlags
                  aDuration_ms) },
            (s + 1) % 4294967296) := by
  rcases hp : Axis_Controlled aFlags .AXIS_PITCH <;>
  rcases hr : Axis_Controlled aFlags .AXIS_ROLL <;>
  rcases hy : Axis_Controlled aFlags .AXIS_YAW <;>
  simp [Frame_Init_POSITION_SET, Frame_Init, DJI_Frame.Init, DJI_CMD_SET_DEFAULT,
    DJI_CMD_POSITION_SET, DJI_CMD_SET_THIRD_PARTY, DJI_CMD_TYPE_NO_REPLY, DJI_Frame.sizeof,
    DJI_HEADER_SIZE_byte, DJI_DATA_CMD_SET, DJI_DATA_CMD_ID, DJI_FRAME_TOTAL_SIZE,
    DJI_FOOTER_SIZE_byte, FOR_EACH_AXIS, hp, hr, hy, Data_Set, Frame_Angle_Set,
    DJI_Frame.Angle_Set, DJI_Frame.mData_Set, DJI_Frame.mData, AXIS_OFFSETS,
    POSITION_SET_FLAGS, List.replicate, POSITION_SET_Image, DJI_SOF]

/-- C27. For every position, ignore flags and duration, `Frame_Init_POSITION_SET`
returns a 28-byte frame image with length byte 26, command type NO_REPLY, command set
0x0E and command id 0x00. The byte at data offset 8 is 0x01 plus 0x08 if pitch is
ignored, plus 0x04 if roll is ignored, plus 0x02 if yaw is ignored. A controlled axis
has, at data offset 6 (pitch), 4 (roll) or 2 (yaw), the low byte and then the high
byte of its angle times ten, truncated and converted to `int16_t`; when that integer
is in -32768..32767, `Angle_Get` at the offset returns it divided by ten. The two
bytes of an ignored axis are zero. Data offset 9 holds the duration divided by 100,
modulo 256, which is the quotient itself up to 25500 ms. -/
theorem Frame_Init_POSITION_SET_spec (crc : DJI_CRC) (s : Nat) (tr : DJI_Transaction)
    (aIn : Position) (aFlags aDuration_ms : Nat) :
    ∃ t, Frame_Init_POSITION_SET crc s tr aIn aFlags aDuration_ms =
        some (t, (s + 1) % 4294967296) ∧
      t.mTxFrame.bytes.length = DJI_Frame.sizeof ∧
      t.mTxFrame.mSize_byte = 26 ∧
      t.mTxFrame.mCmdType = DJI_CMD_TYPE_NO_REPLY ∧
      t.mTxFrame.mData DJI_DATA_CMD_SET = 0x0e ∧
      t.mTxFrame.mData DJI_DATA_CMD_ID = 0x00 ∧
      t.mTxFrame.mData 8 =
        0x01 + (if aFlags &&& ZT_FLAG_IGNORE_PITCH = 0 then 0 else 0x08) +
          (if aFlags &&& ZT_FLAG_IGNORE_ROLL = 0 then 0 else 0x04) +
          (if aFlags &&& ZT_FLAG_IGNORE_YAW = 0 then 0 else 0x02) ∧
      (∀ a, aFlags &&& ZT_FLAG_IGNORE a = 0 →
        t.mTxFrame.mData (AXIS_OFFSETS a) =
          Double_To_Int16 (aIn.mAxis_deg.get a * 10) % 256 ∧
        t.mTxFrame.mData (AXIS_OFFSETS a + 1) =
          Double_To_Int16 (aIn.mAxis_deg.get a * 10) / 256 % 256 ∧
        (-32768 ≤ Double_Trunc (aIn.mAxis_deg.get a * 10) →
          Double_Trunc (aIn.mAxis_deg.get a * 10) ≤ 32767 →
          t.mTxFrame.Angle_Get (AXIS_OFFSETS a) =
            some ((Double_Trunc (aIn.mAxis_deg.get a * 10) : ℚ) / 10))) ∧
      (∀ a, aFlags &&& ZT_FLAG_IGNORE a ≠ 0 →
        t.mTxFrame.mData (AXIS_OFFSETS a) = 0 ∧ t.mTxFrame.mData (AXIS_OFFSETS a + 1) = 0) ∧
      t.mTxFrame.mData 9 = aDuration_ms / 100 % 256 ∧
      (aDuration_ms ≤ 25500 → t.mTxFrame.mData 9 = aDuration_ms / 100) := by
  have hc : ∀ a, Axis_Controlled aFlags a = true ↔ aFlags &&& ZT_FLAG_IGNORE a = 0 := by
    intro a
    simp [Axis_Controlled]
  have hP : ZT_FLAG_IGNORE .AXIS_PITCH = ZT_FLAG_IGNORE_PITCH := rfl
  have hR : ZT_FLAG_IGNORE .AXIS_ROLL = ZT_FLAG_IGNORE_ROLL := rfl
  have hY : ZT_FLAG_IGNORE .AXIS_YAW = ZT_FLAG_IGNORE_YAW := rfl
  have hand : ∀ p : Nat, p &&& 0xff = p % 256 := fun p => Nat.and_pow_two_sub_one_eq_mod p 8
  have hshr : ∀ p : Nat, p >>> 8 = p / 256 := fun p => Nat.shiftRight_eq_div_pow p 8
  have hget : ∀ (x : ℚ) (lo hi : Nat),
      lo = (Double_To_Int16 (x * 10) &&& 0xff) % 256 →
      hi = (Double_To_Int16 (x * 10) >>> 8) % 256 →
      -32768 ≤ Double_Trunc (x * 10) → Double_Trunc (x * 10) ≤ 32767 →
      ((Int16_Value (lo ||| (hi <<< 8)) : ℚ) / 10 = (Double_Trunc (x * 10) : ℚ) / 10) := by
    intro x lo hi h1 h2 h3 h4
    obtain ⟨k1, k2, k3⟩ := Int16_Value_bytes (Double_Trunc (x * 10)) h3 h4
    have e1 : lo = (Double_Trunc (x * 10) % 65536).toNat &&& 0xff := by
      rw [h1]; exact Nat.mod_eq_of_lt k1
    have e2 : hi = (Double_Trunc (x * 10) % 65536).toNat >>> 8 := by
      rw [h2]; exact Nat.mod_eq_of_lt k2
    rw [e1, e2, k3]
  refine ⟨_, Frame_Init_POSITION_SET_bytes crc s tr aIn aFlags aDuration_ms, rfl, rfl, rfl,
    rfl, rfl, ?_, ?_, ?_, rfl, ?_⟩
  · simp only [DJI_Frame.mData, POSITION_SET_Image, DJI_HEADER_SIZE_byte, hc, hP, hR, hY,
      List.getD_cons_succ, List.getD_cons_zero]
  · intro a ha
    have hca := (hc a).2 ha
    cases a
    · simp only [DJI_Frame.mData, DJI_Frame.Angle_Get, POSITION_SET_Image,
        DJI_HEADER_SIZE_byte, AXIS_OFFSETS, hca, List.getD_cons_succ, List.getD_cons_zero,
        if_true, not_true_eq_false, if_false]
      refine ⟨by rw [hand, Nat.mod_mod], by rw [hshr], ?_⟩
      exact fun h3 h4 => congrArg some (hget _ _ _ rfl rfl h3 h4)
    · simp only [DJI_Frame.mData, DJI_Frame.Angle_Get, POSITION_SET_Image,
        DJI_HEADER_SIZE_byte, AXIS_OFFSETS, hca, List.getD_cons_succ, List.getD_cons_zero,
        if_true, not_true_eq_false, if_false]
      refine ⟨by rw [hand, Nat.mod_mod], by rw [hshr], ?_⟩
      exact fun h3 h4 => congrArg some (hget _ _ _ rfl rfl h3 h4)
    · simp only [DJI_Frame.mData, DJI_Frame.Angle_Get, POSITION_SET_Image,
        DJI_HEADER_SIZE_byte, AXIS_OFFSETS, hca, List.getD_cons_succ, List.getD_cons_zero,
        if_true, not_true_eq_false, if_false]
      refine ⟨by rw [hand, Nat.mod_mod], by rw [hshr], ?_⟩
      exact fun h3 h4 => congrArg some (hget _ _ _ rfl rfl h3 h4)
  · intro a ha
    have hca : ¬ (Axis_Controlled aFlags a = true) := fun h => ha ((hc a).1 h)
    cases a <;>
    simp only [DJI_Frame.mData, POSITION_SET_Image, DJI_HEADER_SIZE_byte, AXIS_OFFSETS,
      if_neg hca, List.getD_cons_succ, List.getD_cons_zero, and_self]
  · intro hd
    show aDuration_ms / 100 % 256 = aDuration_ms / 100
    omega

/-- C27, evaluated: the position pitch 30, roll 0, yaw 90 with pitch ignored and a
duration of 1500 ms gives the flags byte 0x09, the yaw bytes of 900 (0x84, 0x03), zero
roll and pitch bytes and 15 at data offset 9. -/
theorem Frame_Init_POSITION_SET_spec_witness :
    (Frame_Init_POSITION_SET Example.crc 0 DJI_Transaction.fresh
        { mAxis_deg := { pitch := 30, roll := 0, yaw := 90 } } ZT_FLAG_IGNORE_PITCH 1500).map
      (fun r => (r.1.mTxFrame.mSize_byte,
        [2, 3, 4, 5, 6, 7, 8, 9].map r.1.mTxFrame.mData)) =
      some (26, [0x84, 0x03, 0, 0, 0, 0, 0x09, 15]) ∧
    (∃ t, Frame_Init_POSITION_SET Example.crc 0 DJI_Transaction.fresh
        { mAxis_deg := { pitch := 30, roll := 0, yaw := 90 } } ZT_FLAG_IGNORE_PITCH 1500 =
        some (t, 1) ∧
      t.mTxFrame.mData 8 = 0x09 ∧ t.mTxFrame.Angle_Get 2 = some 90 ∧
      t.mTxFrame.mData 9 = 15) := by
  refine ⟨by decide!, ?_⟩
  obtain ⟨t, h1, -, -, -, -, -, h7, h8, -, -, h11⟩ :=
    Frame_Init_POSITION_SET_spec Example.crc 0 DJI_Transaction.fresh
      { mAxis_deg := { pitch := 30, roll := 0, yaw := 90 } } ZT_FLAG_IGNORE_PITCH 1500
  refine ⟨t, h1, ?_, ?_, h11 (by decide)⟩
  · rw [h7]
    decide
  · have h := (h8 .AXIS_YAW (by decide)).2.2 (by decide!) (by decide!)
    have e : AXIS_OFFSETS .AXIS_YAW = 2 := rfl
    rw [e] at h
    rw [h]
    have e2 : Double_Trunc ((90 : ℚ) * 10) = 900 := by decide!
    simp only [PerAxis.get, e2]
    norm_num

end DJI_Transaction

namespace DJI_Gimbal

open State

/-- C28 (as stated, refuted). A link on which no reply arrives: the transaction of
`Track_Speed_Set` is handed to `Retry` with 400 worker ticks to come. The first
attempt times out after 101 ticks and is re-issued once; the second attempt times out
after 101 more ticks and `Retry` returns `ZT_ERROR_TIMEOUT` with 198 ticks unused: the
request was sent twice (six CAN frames), two transactions were completed, and there
is no third attempt. -/
theorem Retry_two_attempts :
    (Retry Example.crc Example.engine_active Example.tr_TLV (List.replicate 400 .Tick)).map
      (fun r => (r.1, r.2.1.mDevice.mSent.length,
        r.2.1.mTr_Done.map (fun t => (t.mCode, t.mResult)), r.2.2.2.length)) =
      some (ZT_ERROR_TIMEOUT, 6,
        [(MSG_SIGNAL, ZT_ERROR_TIMEOUT), (MSG_SIGNAL, ZT_ERROR_TIMEOUT)], 198) ∧
    (Tr_QueueAndWait Example.crc Example.engine_active Example.tr_TLV
        (List.replicate 400 .Tick)).map
      (fun r => (r.1, r.2.1.mDevice.mSent.length, r.2.2.2.length)) =
      some (ZT_ERROR_TIMEOUT, 3, 299) := by
  refine ⟨?_, ?_⟩
  · decide!
  · decide!

/-- C28 (amended). `Retry` makes a first attempt with `Tr_QueueAndWait`. A result other
than `ZT_ERROR_TIMEOUT` and `ZT_ERROR_GIMBAL`, `ZT_OK` included, is returned at once.
After `ZT_ERROR_TIMEOUT` or `ZT_ERROR_GIMBAL` the transaction is re-issued once, on
the engine and with the events the first attempt left, and whatever the second attempt
gives is what `Retry` gives: two attempts at most. When an attempt does not return,
`Retry` does not return. -/
theorem Retry_spec (crc : DJI_CRC) (g : DJI_Gimbal) (aTr : DJI_Transaction)
    (aEvents : List Event) :
    (Tr_QueueAndWait crc g aTr aEvents = none → Retry crc g aTr aEvents = none) ∧
    (∀ r g1 t1 ev1, Tr_QueueAndWait crc g aTr aEvents = some (r, g1, t1, ev1) →
      (r ≠ ZT_ERROR_TIMEOUT → r ≠ ZT_ERROR_GIMBAL →
        Retry crc g aTr aEvents = some (r, g1, t1, ev1)) ∧
      (r = ZT_ERROR_TIMEOUT ∨ r = ZT_ERROR_GIMBAL →
        Retry crc g aTr aEvents = Tr_QueueAndWait crc g1 t1 ev1)) := by
  refine ⟨?_, ?_⟩
  · intro h
    simp only [Retry, Retry_Loop, h]
  · intro r g1 t1 ev1 h
    refine ⟨?_, ?_⟩
    · intro h1 h2
      simp only [Retry, Retry_Loop, h]
      rw [if_pos ⟨fun hh => h1 hh.symm, fun hh => h2 hh.symm⟩]
    · intro h1
      simp only [Retry, Retry_Loop, h]
      rw [if_neg (by
        rintro ⟨a, b⟩
        rcases h1 with h1 | h1
        · exact a h1.symm
        · exact b h1.symm)]
      rcases h2 : Tr_QueueAndWait crc g1 t1 ev1 with _ | ⟨r2, g2, t2, ev2⟩
      · rfl
      · simp only
        split_ifs <;> rfl

/-- C28 (amended), evaluated: when the reply arrives during the first attempt, `Retry`
returns `ZT_OK` after that attempt, the request having been sent once; on a silent
link the result is the one of the second attempt. -/
theorem Retry_spec_witness :
    (Retry Example.crc Example.engine_active Example.tr_TLV
        ([.Tick, .Rx (Example.rx [0xaa, 17, 0, 0x20, 0, 0, 0, 0]),
          .Rx (Example.rx [1, 0, 196, 0, 0x0e])] ++ List.replicate 4 .Tick)).map
      (fun r => (r.1, r.2.1.mDevice.mSent.length, r.2.2.2.length)) = some (ZT_OK, 3, 4) ∧
    (∃ g1 t1 ev1, Tr_QueueAndWait Example.crc Example.engine_active Example.tr_TLV
        (List.replicate 400 .Tick) = some (ZT_ERROR_TIMEOUT, g1, t1, ev1) ∧
      Retry Example.crc Example.engine_active Example.tr_TLV (List.replicate 400 .Tick) =
        Tr_QueueAndWait Example.crc g1 t1 ev1) := by
  refine ⟨by decide!, ?_⟩
  obtain ⟨x, hx⟩ := Option.isSome_iff_exists.1 (show (Tr_QueueAndWait Example.crc
    Example.engine_active Example.tr_TLV (List.replicate 400 .Tick)).isSome = true by decide!)
  obtain ⟨r, g1, t1, ev1⟩ := x
  have hr : r = ZT_ERROR_TIMEOUT := by
    have h : (Tr_QueueAndWait Example.crc Example.engine_active Example.tr_TLV
      (List.replicate 400 .Tick)).map (fun r => r.1) = some ZT_ERROR_TIMEOUT := by decide!
    rw [hx] at h
    simpa using h
  subst hr
  exact ⟨g1, t1, ev1, hx, ((Retry_spec Example.crc Example.engine_active Example.tr_TLV
    (List.replicate 400 .Tick)).2 _ g1 t1 ev1 hx).2 (Or.inl rfl)⟩

end DJI_Gimbal

/-- The parts of a buffer after `memWrite`: length, bytes before, bytes written, bytes
after. -/
theorem memWrite_parts {buf src b : List Nat} {off : Nat}
    (h : memWrite buf off src = some b) :
    b.length = buf.length ∧ b.take off = buf.take off ∧
    (b.drop off).take src.length = src ∧
    b.drop (off + src.length) = buf.drop (off + src.length) := by
  unfold memWrite at h
  split_ifs at h with hle
  injection h with h
  subst h
  have hl : (buf.take off).length = off := by simp [List.length_take]; omega
  refine ⟨?_, ?_, ?_, ?_⟩
  · simp only [List.length_append, List.length_take, List.length_drop]; omega
  · rw [List.append_assoc, List.take_left' hl]
  · rw [List.append_assoc, List.drop_left' hl, List.take_left' rfl]
  · rw [List.append_assoc, ← List.drop_drop, List.drop_left' hl, List.drop_left' rfl]

namespace DJI_Gimbal

open State

/-- Feeding two lists of payloads one after the other. -/
theorem Receiver_Feed_append (xs ys : List EthCAN_Frame) :
    ∀ g : DJI_Gimbal, g.Receiver_Feed (xs ++ ys) =
      (g.Receiver_Feed xs).bind (fun g1 => g1.Receiver_Feed ys) := by
  induction xs with
  | nil => intro g; rfl
  | cons x rest ih =>
    intro g
    simp only [List.cons_append, Receiver_Feed]
    rcases g.Receiver_CopyNewData x with _ | g1
    · rfl
    · exact ih _

/-- One 8-byte payload while `t` bytes of a short payload wait between the receive
offset and the receive size: the waiting bytes move up by 8 and the payload takes
their place. -/
theorem Receiver_CopyNewData_insert (g : DJI_Gimbal) (aCF : EthCAN_Frame) (tail : List Nat)
    (hbuf : g.mRxBuffer.length = RX_BUFFER_SIZE)
    (hoff : g.mRxOffset_byte + tail.length = g.mRxSize_byte)
    (htail : (g.mRxBuffer.drop g.mRxOffset_byte).take tail.length = tail)
    (h8 : aCF.mDataSize_byte = 8)
    (hsize : g.mRxSize_byte + 8 ≤ RX_BUFFER_SIZE)
    (hdata : aCF.mDataSize_byte ≤ aCF.mData.length) :
    ∃ g1, g.Receiver_CopyNewData aCF = some g1 ∧
      g1.mRxOffset_byte = g.mRxOffset_byte + 8 ∧
      g1.mRxSize_byte = g.mRxSize_byte ∧
      g1.mRxBuffer.length = RX_BUFFER_SIZE ∧
      g1.mRxBuffer.take g1.mRxOffset_byte =
        g.mRxBuffer.take g.mRxOffset_byte ++ aCF.payload ∧
      (g1.mRxBuffer.drop g1.mRxOffset_byte).take tail.length = tail := by
  have hR : RX_BUFFER_SIZE = 128 := rfl
  have hpl : aCF.payload.length = 8 := by
    simp [EthCAN_Frame.payload]; omega
  have hread : memRead aCF.mData 0 aCF.mDataSize_byte = some aCF.payload := by
    rw [memRead_eq_some (by omega)]; simp [EthCAN_Frame.payload]
  have hmv : memRead g.mRxBuffer g.mRxOffset_byte (g.mRxSize_byte - g.mRxOffset_byte) =
      some tail := by
    rw [memRead_eq_some (by omega)]
    have : g.mRxSize_byte - g.mRxOffset_byte = tail.length := by omega
    rw [this, htail]
  obtain ⟨b1, hb1, l1, t1, d1⟩ : ∃ b1,
      (if 0 < g.mRxSize_byte - g.mRxOffset_byte then
        (memRead g.mRxBuffer g.mRxOffset_byte (g.mRxSize_byte - g.mRxOffset_byte)).bind
          (fun lBytes => memWrite g.mRxBuffer (g.mRxOffset_byte + aCF.mDataSize_byte) lBytes)
      else some g.mRxBuffer) = some b1 ∧ b1.length = 128 ∧
      b1.take g.mRxOffset_byte = g.mRxBuffer.take g.mRxOffset_byte ∧
      (b1.drop (g.mRxOffset_byte + 8)).take tail.length = tail := by
    by_cases ht : 0 < g.mRxSize_byte - g.mRxOffset_byte
    · rw [if_pos ht, hmv, Option.some_bind, h8]
      have hw : g.mRxOffset_byte + 8 + tail.length ≤ g.mRxBuffer.length := by omega
      refine ⟨_, memWrite_eq_some hw, ?_, ?_, ?_⟩
      · simp only [List.length_append, List.length_take, List.length_drop]; omega
      · obtain ⟨-, k2, -, -⟩ := memWrite_parts (memWrite_eq_some hw)
        have := congrArg (List.take g.mRxOffset_byte) k2
        simpa [List.take_take] using this
      · exact (memWrite_parts (memWrite_eq_some hw)).2.2.1
    · rw [if_neg ht]
      have ht0 : tail.length = 0 := by omega
      refine ⟨_, rfl, by omega, rfl, ?_⟩
      rw [ht0, List.take_zero]
      exact (List.length_eq_zero.1 ht0).symm
  have hw2 : g.mRxOffset_byte + aCF.payload.length ≤ b1.length := by omega
  obtain ⟨k1, k2, k3, k4⟩ := memWrite_parts (memWrite_eq_some hw2)
  have hcopy : g.Receiver_CopyNewData aCF = some
      { g with
        mRxBuffer := b1.take g.mRxOffset_byte ++ aCF.payload ++
          b1.drop (g.mRxOffset_byte + aCF.payload.length)
        mRxOffset_byte := g.mRxOffset_byte + 8 } := by
    unfold Receiver_CopyNewData
    rw [if_neg (by omega), if_neg (by omega), if_neg (by omega)]
    rw [h8] at hb1 hread
    simp only [h8, hb1, hread, memWrite_eq_some hw2, le_refl, if_true]
  refine ⟨_, hcopy, rfl, rfl, ?_, ?_, ?_⟩
  · simp only [k1, l1, hR]
  · rw [hpl] at k3 k4
    have e : (b1.take g.mRxOffset_byte ++ aCF.payload ++
        b1.drop (g.mRxOffset_byte + aCF.payload.length)).take (g.mRxOffset_byte + 8) =
        b1.take g.mRxOffset_byte ++ aCF.payload := by
      apply List.take_left'
      simp only [List.length_append, List.length_take, hpl]
      omega
    show (b1.take g.mRxOffset_byte ++ aCF.payload ++
        b1.drop (g.mRxOffset_byte + aCF.payload.length)).take (g.mRxOffset_byte + 8) = _
    rw [e, t1]
  · rw [hpl] at k4
    show ((b1.take g.mRxOffset_byte ++ aCF.payload ++
        b1.drop (g.mRxOffset_byte + aCF.payload.length)).drop (g.mRxOffset_byte + 8)).take
          tail.length = tail
    rw [hpl, k4, d1]

end DJI_Gimbal
namespace DJI_Gimbal

open State

/-- A run of 8-byte payloads while the bytes `tail` of a short payload wait between the
receive offset and the receive size: the payloads are appended in order below the
waiting bytes, which stay last. -/
theorem Receiver_Feed_chunks :
    ∀ (cs : List EthCAN_Frame) (g : DJI_Gimbal) (tail : List Nat),
      g.mRxBuffer.length = RX_BUFFER_SIZE →
      g.mRxOffset_byte + tail.length = g.mRxSize_byte →
      (g.mRxBuffer.drop g.mRxOffset_byte).take tail.length = tail →
      (∀ c ∈ cs, c.mDataSize_byte = 8 ∧ c.mDataSize_byte ≤ c.mData.length) →
      g.mRxSize_byte + 8 * cs.length ≤ RX_BUFFER_SIZE →
      ∃ g', g.Receiver_Feed cs = some g' ∧
        g'.mRxOffset_byte = g.mRxOffset_byte + 8 * cs.length ∧
        g'.mRxSize_byte = g.mRxSize_byte + 8 * cs.length ∧
        g'.mRxBuffer.length = RX_BUFFER_SIZE ∧
        g'.mRxBuffer.take g'.mRxOffset_byte =
          g.mRxBuffer.take g.mRxOffset_byte ++ (cs.map EthCAN_Frame.payload).flatten ∧
        (g'.mRxBuffer.drop g'.mRxOffset_byte).take tail.length = tail := by
  intro cs
  induction cs with
  | nil =>
    intro g tail hbuf _ htail _ _
    exact ⟨g, rfl, by simp, by simp, hbuf, by simp, htail⟩
  | cons c rest ih =>
    intro g tail hbuf hoff htail h8 hsize
    obtain ⟨hc8, hcd⟩ := h8 c (List.mem_cons_self _ _)
    simp only [List.length_cons] at hsize
    obtain ⟨g1, k1, k2, k3, k4, k5, k6⟩ :=
      Receiver_CopyNewData_insert g c tail hbuf hoff htail hc8 (by omega) hcd
    obtain ⟨g', m1, m2, m3, m4, m5, m6⟩ :=
      ih { g1 with mRxSize_byte := g1.mRxSize_byte + c.mDataSize_byte } tail k4
        (by show g1.mRxOffset_byte + tail.length = g1.mRxSize_byte + c.mDataSize_byte; omega)
        k6 (fun q hq => h8 q (List.mem_cons_of_mem _ hq))
        (by show g1.mRxSize_byte + c.mDataSize_byte + 8 * rest.length ≤ RX_BUFFER_SIZE; omega)
    refine ⟨g', ?_, ?_, ?_, m4, ?_, m6⟩
    · simp only [Receiver_Feed, k1]
      exact m1
    · rw [m2]
      show g1.mRxOffset_byte + 8 * rest.length = _
      simp only [List.length_cons]
      omega
    · rw [m3]
      show g1.mRxSize_byte + c.mDataSize_byte + 8 * rest.length = _
      simp only [List.length_cons]
      omega
    · rw [m5]
      show g1.mRxBuffer.take g1.mRxOffset_byte ++ _ = _
      rw [k5]
      simp only [List.map_cons, List.flatten_cons, List.append_assoc]

/-- C29. From an empty receive buffer of 128 bytes, for payloads `cs` of 8 bytes each
and one short payload `p` of 1 to 7 bytes, at most 128 bytes together: when the 8-byte
payloads are delivered in order and the short one after the first `j` of them, for any
`j`, every `Receiver_CopyNewData` returns and, the receive size being advanced by each
payload length, the receive size ends as the total length and the received bytes are
the 8-byte payloads in order followed by the short payload. -/
theorem Receiver_Feed_short_anywhere (g : DJI_Gimbal) (cs : List EthCAN_Frame)
    (p : EthCAN_Frame) (j : Nat)
    (hbuf : g.mRxBuffer.length = RX_BUFFER_SIZE)
    (hoff : g.mRxOffset_byte = 0) (hsize : g.mRxSize_byte = 0)
    (h8 : ∀ c ∈ cs, c.mDataSize_byte = 8 ∧ c.mDataSize_byte ≤ c.mData.length)
    (hs1 : 1 ≤ p.mDataSize_byte) (hs7 : p.mDataSize_byte ≤ 7)
    (hpd : p.mDataSize_byte ≤ p.mData.length)
    (hlen : 8 * cs.length + p.mDataSize_byte ≤ 128) :
    ∃ g', g.Receiver_Feed (cs.take j ++ p :: cs.drop j) = some g' ∧
      g'.mRxSize_byte = 8 * cs.length + p.mDataSize_byte ∧
      g'.mRxBuffer.take g'.mRxSize_byte =
        (cs.map EthCAN_Frame.payload).flatten ++ p.payload := by
  have hR : RX_BUFFER_SIZE = 128 := rfl
  have hpl : p.payload.length = p.mDataSize_byte := by
    simp [EthCAN_Frame.payload]; omega
  have hcount : (cs.take j).length + (cs.drop j).length = cs.length := by
    simp only [List.length_take, List.length_drop]; omega
  -- the first `j` payloads
  obtain ⟨g1, a1, a2, a3, a4, a5, -⟩ := Receiver_Feed_chunks (cs.take j) g [] hbuf
    (by simp [hoff, hsize]) (by simp)
    (fun c hc => h8 c (List.mem_of_mem_take hc)) (by omega)
  rw [hoff, List.take_zero, List.nil_append] at a5
  rw [hoff] at a2
  rw [hsize] at a3
  -- the short payload
  have b1 := Receiver_CopyNewData_append g1 p a4 (by omega) (by omega) (by omega) hpd
  rw [if_neg (by omega)] at b1
  have a5' : g1.mRxBuffer.take g1.mRxSize_byte =
      ((cs.take j).map EthCAN_Frame.payload).flatten := by
    rw [← a5]; congr 1; omega
  have hlen1 : (g1.mRxBuffer.take g1.mRxSize_byte).length = g1.mRxSize_byte := by
    simp only [List.length_take]; omega
  -- the remaining payloads
  obtain ⟨g', c1, c2, c3, c4, c5, c6⟩ := Receiver_Feed_chunks (cs.drop j)
    { g1 with
      mRxBuffer := g1.mRxBuffer.take g1.mRxSize_byte ++ p.payload ++
        g1.mRxBuffer.drop (g1.mRxSize_byte + p.mDataSize_byte)
      mRxOffset_byte := g1.mRxSize_byte
      mRxSize_byte := g1.mRxSize_byte + p.mDataSize_byte } p.payload
    (by
      show (g1.mRxBuffer.take g1.mRxSize_byte ++ p.payload ++
        g1.mRxBuffer.drop (g1.mRxSize_byte + p.mDataSize_byte)).length = RX_BUFFER_SIZE
      simp only [List.length_append, List.length_take, List.length_drop, hpl]
      omega)
    (by
      show g1.mRxSize_byte + p.payload.length = g1.mRxSize_byte + p.mDataSize_byte
      rw [hpl])
    (by
      show ((g1.mRxBuffer.take g1.mRxSize_byte ++ p.payload ++
        g1.mRxBuffer.drop (g1.mRxSize_byte + p.mDataSize_byte)).drop g1.mRxSize_byte).take
          p.payload.length = p.payload
      rw [List.append_assoc, List.drop_left' hlen1, List.take_left' rfl])
    (fun c hc => h8 c (List.mem_of_mem_drop hc))
    (by
      show g1.mRxSize_byte + p.mDataSize_byte + 8 * (cs.drop j).length ≤ RX_BUFFER_SIZE
      omega)
  refine ⟨g', ?_, ?_, ?_⟩
  · rw [Receiver_Feed_append, a1, Option.some_bind]
    simp only [Receiver_Feed, b1]
    exact c1
  · rw [c3]
    show g1.mRxSize_byte + p.mDataSize_byte + 8 * (cs.drop j).length = _
    omega
  · have hsz : g'.mRxSize_byte = g'.mRxOffset_byte + p.payload.length := by
      rw [c3, c2, hpl]
      show g1.mRxSize_byte + p.mDataSize_byte + 8 * (cs.drop j).length =
        g1.mRxSize_byte + 8 * (cs.drop j).length + p.mDataSize_byte
      omega
    have hsplit : g'.mRxBuffer.take g'.mRxSize_byte =
        g'.mRxBuffer.take g'.mRxOffset_byte ++
          (g'.mRxBuffer.drop g'.mRxOffset_byte).take p.payload.length := by
      rw [hsz, List.take_add]
    rw [hsplit, c6, c5]
    show (g1.mRxBuffer.take g1.mRxSize_byte ++ p.payload ++
        g1.mRxBuffer.drop (g1.mRxSize_byte + p.mDataSize_byte)).take g1.mRxSize_byte ++ _ ++ _ = _
    rw [List.append_assoc (g1.mRxBuffer.take g1.mRxSize_byte), List.take_left' hlen1, a5']
    rw [← List.flatten_append, ← List.map_append, List.take_append_drop]

end DJI_Gimbal
namespace DJI_Gimbal

open State

/-- C29, evaluated: 19 bytes in payloads of 8, 8 and 3 bytes, the short payload
delivered between the two others, are reassembled in order. -/
theorem Receiver_Feed_short_anywhere_witness :
    ∃ g', Example.engine.Receiver_Feed
        [Example.rx [1, 2, 3, 4, 5, 6, 7, 8], Example.rx [17, 18, 19],
         Example.rx [9, 10, 11, 12, 13, 14, 15, 16]] = some g' ∧
      g'.mRxSize_byte = 19 ∧
      g'.mRxBuffer.take g'.mRxSize_byte =
        [1, 2, 3, 4, 5, 6, 7, 8, 9, 10, 11, 12, 13, 14, 15, 16, 17, 18, 19] :=
  Receiver_Feed_short_anywhere Example.engine
    [Example.rx [1, 2, 3, 4, 5, 6, 7, 8], Example.rx [9, 10, 11, 12, 13, 14, 15, 16]]
    (Example.rx [17, 18, 19]) 1 (by decide) (by decide) (by decide) (by decide) (by decide)
    (by decide) (by decide) (by decide)

/-- `Receiver_Step` on the path where the payload is copied and validated with
`ZT_OK`: what is left is the comparison with the expected count and the switch on
the state. -/
theorem Receiver_Step_valid (g g1 g2 : DJI_Gimbal) (aCF : EthCAN_Frame)
    (lTr : DJI_Transaction)
    (hsz : aCF.mDataSize_byte ≤ 8) (hsize : g.mRxSize_byte ≤ RX_BUFFER_SIZE)
    (hid : aCF.mId = DJI_CAN_ID_RX) (hcur : g.mTr_Current ≠ none)
    (hle : g.mRxSize_byte + aCF.mDataSize_byte ≤ RX_BUFFER_SIZE)
    (hcopy : g.Receiver_CopyNewData aCF = some g1)
    (hval : g1.Receiver_Validate_Z0 (g.mRxSize_byte + aCF.mDataSize_byte) = some (ZT_OK, g2))
    (htr : g2.Tr_Current = some lTr) :
    (g2.mRxSize_byte < lTr.RxExpected_Get → g.Receiver_Step aCF = some (g2, none)) ∧
    (lTr.RxExpected_Get ≤ g2.mRxSize_byte → g2.mState = STATE_ERROR_ETH →
      g.Receiver_Step aCF =
        some ({ g2 with mState := STATE_ACTIVATED, mState_Counter := 30 }, some ZT_OK)) ∧
    (lTr.RxExpected_Get ≤ g2.mRxSize_byte →
      g2.mState = STATE_ACTIVATED ∨ g2.mState = STATE_TRANSACTION →
      g.Receiver_Step aCF = some ({ g2 with mState_Counter := 30 }, some ZT_OK)) ∧
    (lTr.RxExpected_Get ≤ g2.mRxSize_byte →
      g2.mState = STATE_ACTIVATING ∨ g2.mState = STATE_INIT ∨ g2.mState = STATE_ERROR_CAN →
      g.Receiver_Step aCF = none) := by
  have key : g.Receiver_Step aCF =
      (if lTr.RxExpected_Get ≤ g2.mRxSize_byte then
        (match g2.mState with
          | STATE_ERROR_ETH =>
            some ({ g2.State_Set_Z0 STATE_ACTIVATED with mState_Counter := 30 }, some ZT_OK)
          | STATE_ACTIVATED | STATE_TRANSACTION =>
            some ({ g2 with mState_Counter := 30 }, some ZT_OK)
          | _ => none : Option (DJI_Gimbal × Option Result))
      else some (g2, none)) := by
    unfold Receiver_Step
    rw [if_neg (not_not.2 hsz), if_neg (not_not.2 hsize),
      if_neg (by rintro (h | h); exact h hid.symm; exact hcur h)]
    simp only
    rw [if_neg (not_lt.2 hle)]
    simp only [hcopy, hval, htr, if_true]
  refine ⟨?_, ?_, ?_, ?_⟩
  · intro h
    rw [key, if_neg (not_le.2 h)]
  · intro h hs
    rw [key, if_pos h, hs]
    rfl
  · intro h hs
    rw [key, if_pos h]
    rcases hs with hs | hs <;> rw [hs]
  · intro h hs
    rw [key, if_pos h]
    rcases hs with hs | hs | hs <;> rw [hs]

/-- The engine after `Receiver_CopyNewData` and an accepting `Receiver_Validate_Z0`
differs from the one before in the receive buffer, offset and size only. -/
theorem Receiver_valid_fields (g g1 g2 : DJI_Gimbal) (aCF : EthCAN_Frame) (n : Nat)
    (ret : Result)
    (hcopy : g.Receiver_CopyNewData aCF = some g1)
    (hval : g1.Receiver_Validate_Z0 n = some (ret, g2)) :
    g2.mState = g.mState ∧ g2.mState_Counter = g.mState_Counter ∧
    g2.mTr_Current = g.mTr_Current ∧ g2.mTr_Next = g.mTr_Next ∧
    g2.mTr_Position = g.mTr_Position ∧ g2.mTr_Done = g.mTr_Done ∧
    g2.toGimbal = g.toGimbal := by
  have h1 : g1.mState = g.mState ∧ g1.mState_Counter = g.mState_Counter ∧
      g1.mTr_Current = g.mTr_Current ∧ g1.mTr_Next = g.mTr_Next ∧
      g1.mTr_Position = g.mTr_Position ∧ g1.mTr_Done = g.mTr_Done ∧
      g1.toGimbal = g.toGimbal := by
    unfold Receiver_CopyNewData at hcopy
    rcases ite_eq_some_cases hcopy with ⟨_, h⟩ | ⟨_, h⟩
    · exact absurd h (fun hh => Option.noConfusion hh)
    rcases ite_eq_some_cases h with ⟨_, h⟩ | ⟨_, h⟩
    · exact absurd h (fun hh => Option.noConfusion hh)
    rcases ite_eq_some_cases h with ⟨_, h⟩ | ⟨_, h⟩
    · exact absurd h (fun hh => Option.noConfusion hh)
    simp only at h
    split at h
    · exact absurd h (fun hh => Option.noConfusion hh)
    · split at h
      · exact absurd h (fun hh => Option.noConfusion hh)
      · split at h
        · exact absurd h (fun hh => Option.noConfusion hh)
        · simp only [Option.some.injEq] at h
          subst h
          exact ⟨rfl, rfl, rfl, rfl, rfl, rfl, rfl⟩
  rcases hc : g1.Tr_Current with _ | lTr
  · unfold Receiver_Validate_Z0 at hval
    rw [hc] at hval
    exact absurd hval (fun hh => Option.noConfusion hh)
  · rcases Receiver_Validate_Z0_some g1 g2 n ret lTr hc hval with e | ⟨-, e, -⟩
    · subst e
      exact h1
    · subst e
      exact h1

end DJI_Gimbal
namespace DJI_Gimbal

open State

/-- C30, failing input. An engine in state ACTIVATING with a transaction in
flight: the second pass of the loop of `Activate` resets the CAN link while the position
query started by the worker is still current. The reply arrives in payloads of 8, 8
and 6 bytes with identifier 0x222; the third one is copied and validated with `ZT_OK`,
the receive size reaches the expected count 22, and the switch on the state takes its
`default: assert(false)` branch: the liveness counter is not set and `Receiver` does
not return. The same reply completes the query when the state is ACTIVATED. -/
theorem Receiver_completion_in_ACTIVATING :
    (Example.engine_position.State_Set_Z0 STATE_ERROR_CAN).ResetAndSleep_Z0 STATE_ACTIVATING =
      some Example.engine_position_activating ∧
    (Example.engine_position_activating.Receiver_Run (Example.position_reply.take 2)).map
      (fun g => (g.mState, g.mRxSize_byte, g.Tr_Current.map (fun t => t.RxExpected_Get))) =
      some (STATE_ACTIVATING, 16, some 22) ∧
    ((Example.engine_position_activating.Receiver_Run (Example.position_reply.take 2)).bind
      (fun g => (g.Receiver_CopyNewData (Example.rx [100, 0, 0, 0, 200, 0])).bind
        (fun g1 => g1.Receiver_Validate_Z0 22))).map (fun r => (r.1, r.2.mRxSize_byte)) =
      some (ZT_OK, 22) ∧
    Example.engine_position_activating.Receiver_Run Example.position_reply = none ∧
    (Example.engine_position.Receiver_Run Example.position_reply).map
      (fun g => (g.mState, g.mState_Counter, g.mTr_Current, g.mTr_Done.length)) =
      some (STATE_ACTIVATED, 30, none, 1) := by
  refine ⟨?_, ?_, ?_, ?_, ?_⟩
  · decide!
  · decide!
  · decide!
  · decide!
  · decide!

/-- C30. `Receiver` is given a payload of at most 8 bytes while the receive
size is at most 128. With another identifier than 0x222, or without a current
transaction, the engine is unchanged. With identifier 0x222, a current transaction,
receive size plus payload length at most 128, and the payload copied and validated with
`ZT_OK`: the validation leaves everything but the receive buffer, offset and size as
it was; if the receive size is then below the expected count of the transaction,
`Receiver` returns that engine, so the transaction is not completed and the liveness
counter is unchanged; if it is at least the expected count and the state is ACTIVATED,
TRANSACTION or ERROR_ETH, `Complete(ZT_OK)` is called on the current transaction with
the liveness counter set to 30 and the state ERROR_ETH replaced by ACTIVATED; in the
states ACTIVATING, INIT and ERROR_CAN `Receiver` does not return. The expected count of
a transaction prepared for `n` reply data bytes is `12 + n`. -/
theorem Receiver_completion (g : DJI_Gimbal) (aCF : EthCAN_Frame)
    (hsz : aCF.mDataSize_byte ≤ 8) (hsize : g.mRxSize_byte ≤ RX_BUFFER_SIZE) :
    (aCF.mId ≠ DJI_CAN_ID_RX ∨ g.mTr_Current = none → g.Receiver aCF = some g) ∧
    (∀ (g1 g2 : DJI_Gimbal) (lTr : DJI_Transaction),
      aCF.mId = DJI_CAN_ID_RX → g.mTr_Current ≠ none →
      g.mRxSize_byte + aCF.mDataSize_byte ≤ RX_BUFFER_SIZE →
      g.Receiver_CopyNewData aCF = some g1 →
      g1.Receiver_Validate_Z0 (g.mRxSize_byte + aCF.mDataSize_byte) = some (ZT_OK, g2) →
      g2.Tr_Current = some lTr →
      (g2.mState = g.mState ∧ g2.mState_Counter = g.mState_Counter ∧
        g2.mTr_Current = g.mTr_Current ∧ g2.mTr_Next = g.mTr_Next ∧
        g2.mTr_Position = g.mTr_Position ∧ g2.mTr_Done = g.mTr_Done ∧
        g2.toGimbal = g.toGimbal) ∧
      (g2.mRxSize_byte < lTr.RxExpected_Get → g.Receiver aCF = some g2) ∧
      (lTr.RxExpected_Get ≤ g2.mRxSize_byte → g.mState = STATE_ERROR_ETH →
        g.Receiver aCF =
          ({ g2 with mState := STATE_ACTIVATED, mState_Counter := 30 }).Tr_Current_Call
            (fun t => t.Complete ZT_OK)) ∧
      (lTr.RxExpected_Get ≤ g2.mRxSize_byte →
        g.mState = STATE_ACTIVATED ∨ g.mState = STATE_TRANSACTION →
        g.Receiver aCF =
          ({ g2 with mState_Counter := 30 }).Tr_Current_Call (fun t => t.Complete ZT_OK)) ∧
      (lTr.RxExpected_Get ≤ g2.mRxSize_byte →
        g.mState = STATE_ACTIVATING ∨ g.mState = STATE_INIT ∨ g.mState = STATE_ERROR_CAN →
        g.Receiver aCF = none)) ∧
    (∀ (tr t : DJI_Transaction) (n : Nat), n + 12 < 4294967296 →
      tr.Prepare_RxExpected n = some t → t.RxExpected_Get = 12 + n) := by
  refine ⟨?_, ?_, ?_⟩
  · intro h
    unfold Receiver Receiver_Step
    rw [if_neg (not_not.2 hsz), if_neg (not_not.2 hsize), if_pos (by
      rcases h with h | h
      · exact Or.inl (fun hh => h hh.symm)
      · exact Or.inr h)]
  · intro g1 g2 lTr hid hcur hle hcopy hval htr
    obtain ⟨s1, s2, s3, s4⟩ :=
      Receiver_Step_valid g g1 g2 aCF lTr hsz hsize hid hcur hle hcopy hval htr
    have hf := Receiver_valid_fields g g1 g2 aCF _ ZT_OK hcopy hval
    refine ⟨hf, ?_, ?_, ?_, ?_⟩
    · intro h
      unfold Receiver
      rw [s1 h]
    · intro h hs
      unfold Receiver
      rw [s2 h (hf.1.trans hs)]
    · intro h hs
      unfold Receiver
      rw [s3 h (by rw [hf.1]; exact hs)]
    · intro h hs
      unfold Receiver
      rw [s4 h (by rw [hf.1]; exact hs)]
  · intro tr t n hn h
    unfold DJI_Transaction.Prepare_RxExpected at h
    rcases ite_eq_some_cases h with ⟨_, h⟩ | ⟨_, h⟩
    · exact absurd h (fun hh => Option.noConfusion hh)
    rcases ite_eq_some_cases h with ⟨_, h⟩ | ⟨_, h⟩
    · exact absurd h (fun hh => Option.noConfusion hh)
    simp only [Option.some.injEq] at h
    subst h
    show (DJI_FRAME_TOTAL_SIZE n - DJI_FOOTER_SIZE_byte) % 4294967296 = 12 + n
    unfold DJI_FRAME_TOTAL_SIZE DJI_HEADER_SIZE_byte DJI_FOOTER_SIZE_byte
    omega

end DJI_Gimbal
namespace DJI_Gimbal

open State

/-- C30, evaluated on the engine with the position query in flight: a
payload with identifier 0x123 changes nothing; the second payload of the reply brings
the receive size to 16, below the expected count 22, and the query stays in flight
with the liveness counter unchanged; the third payload brings it to 22, and
`Complete(ZT_OK)` is called with the liveness counter at 30, after which no transaction
is current. -/
theorem Receiver_completion_witness :
    Example.engine_position.Receiver
      { Example.rx [1, 2, 3] with mId := 0x123 } = some Example.engine_position ∧
    (Example.engine_position.Receiver_Run (Example.position_reply.take 2) =
      some Example.engine_position_16 ∧
      Example.engine_position_16.mState_Counter = Example.engine_position.mState_Counter ∧
      Example.engine_position_16.mTr_Current = Example.engine_position.mTr_Current) ∧
    Example.engine_position_16.Receiver (Example.rx [100, 0, 0, 0, 200, 0]) =
      ({ Example.engine_position_22 with mState_Counter := 30 }).Tr_Current_Call
        (fun t => t.Complete ZT_OK) ∧
    (Example.engine_position_16.Receiver (Example.rx [100, 0, 0, 0, 200, 0])).map
      (fun g => (g.mState, g.mState_Counter, g.mTr_Current)) =
      some (STATE_ACTIVATED, 30, none) := by
  refine ⟨?_, ⟨?_, rfl, rfl⟩, ?_, ?_⟩
  · exact (Receiver_completion Example.engine_position { Example.rx [1, 2, 3] with mId := 0x123 }
      (by decide) (by decide)).1 (Or.inl (by decide))
  · decide!
  · exact ((Receiver_completion Example.engine_position_16 (Example.rx [100, 0, 0, 0, 200, 0])
      (by decide) (by decide)).2.1
      { Example.engine_position_22 with mRxSize_byte := 16 } Example.engine_position_22
      Example.engine_position_22.mTr_Position (by decide) (by decide) (by decide) (by decide!)
      (by decide!) (by decide!)).2.2.2.1 (by decide) (Or.inl (by decide))
  · decide!

end DJI_Gimbal

/-- `Value_Limit` between -360 and 360 is the clamp. -/
theorem Value_Limit_speed (x : ℚ) :
    Value_Limit x SPEED_MIN_deg_s SPEED_MAX_deg_s = some (min 360 (max (-360) x)) := by
  unfold Value_Limit SPEED_MIN_deg_s SPEED_MAX_deg_s
  rw [if_neg (by norm_num)]
  by_cases h1 : (-360 : ℚ) > x
  · rw [if_pos h1, max_eq_left (le_of_lt h1), min_eq_right (by norm_num)]
  · rw [if_neg h1, max_eq_right (not_lt.1 h1)]
    by_cases h2 : (360 : ℚ) < x
    · rw [if_pos h2, min_eq_left (le_of_lt h2)]
    · rw [if_neg h2, min_eq_right (not_lt.1 h2)]

/-- Reading an axis after writing one. -/
theorem PerAxis_get_set {α : Type} (v : PerAxis α) (a b : Axis) (x : α) :
    (v.set a x).get b = if b = a then x else v.get b := by
  cases a <;> cases b <;> rfl

namespace ControlLink

/-- `CURRENT_GIMBAL` when the active binding holds a gimbal. -/
theorem CURRENT_GIMBAL_bound (cl : ControlLink) (lInfo : GimbalInfo) (o : IGimbal_Object)
    (hsize : cl.mGimbalIndex < cl.mGimbals.length)
    (hinfo : cl.mGimbals[cl.mGimbalIndex]? = some lInfo) (hg : lInfo.mGimbal = some o) :
    cl.CURRENT_GIMBAL = some (lInfo, some o) := by
  unfold CURRENT_GIMBAL
  rw [if_neg (not_not.2 hsize), hinfo, Option.map_some', hg]

/-- One call on a gimbal. -/
theorem Call_eq (o : IGimbal_Object) (c : IGimbal_Call) :
    o.Call c = (o.Answer 0, { o with mCalls := o.mCalls ++ [c], mScript := o.mScript.drop 1 }) := by
  unfold IGimbal_Object.Call
  rw [List.drop_one]

/-- The answer of a gimbal that has answered `n` calls. -/
theorem Answer_drop (o : IGimbal_Object) (l : List IGimbal_Call) (n k : Nat) :
    ({ o with mCalls := l, mScript := o.mScript.drop n } : IGimbal_Object).Answer k =
      o.Answer (n + k) := by
  unfold IGimbal_Object.Answer
  simp only [List.getElem?_drop]

/-- The mask of an axis function leaves that axis, and no other, under control. -/
theorem FLAGS_controlled (a b : Axis) : Axis_Controlled (FLAGS a) b = true ↔ b = a := by
  cases a <;> cases b <;> decide

/-- C22, failing input. The engine of a bound gimbal is in ERROR_ETH and
`Receiver_Config` fails on its link: `DJI_Gimbal::Speed_Set` returns `ZT_ERROR_STATE`.
With a gimbal that gives this answer, the table row `CHANGED ANALOG_0_X YAW 2.0` and
the value 50, `Function_Yaw` calls `Speed_Set` and the assertion on its result fails:
nothing is recorded. -/
theorem Function_Axis_refused :
    (DJI_Gimbal.Speed_Set Example.crc Example.engine_ETH_no_config
        { mAxis_deg_s := { pitch := 0, roll := 0, yaw := 100 } } (FLAGS .AXIS_YAW)).map
      (fun r => r.1) = some ZT_ERROR_STATE ∧
    (Example.gimbal_down.Call
        (.Speed_Set { mAxis_deg_s := { pitch := 0, roll := 0, yaw := 100 } }
          (FLAGS .AXIS_YAW))).1.mResult = ZT_ERROR_STATE ∧
    (Example.mapper Example.gimbal_down).Function_Yaw 2 50 Example.speed_A = none := by
  refine ⟨?_, ?_, ?_⟩
  · decide!
  · decide!
  · decide!

/-- C22. The active binding holds a gimbal and `f = aFactor + boost * k` is
not 0, `k` being 0.5 for pitch, 0 for roll and 1 for yaw. The mask `FLAGS[aAxis]`
leaves `aAxis`, and no other axis, under control. `Function_Axis` calls `Speed_Set` once,
with that mask and a speed whose axis `aAxis` is `min(360, max(-360, f * v))`. If the
gimbal returns `ZT_OK`, the speed command of `aAxis` becomes that speed divided by `f`,
the other axes of the speed command and the boost being kept; if the gimbal returns
something else the assertion fails and the function does not return. -/
theorem Function_Axis_spec (cl : ControlLink) (aAxis : Axis) (aFactor aValue_pc : ℚ)
    (lSpeed : Speed) (lInfo : GimbalInfo) (o : IGimbal_Object)
    (hsize : cl.mGimbalIndex < cl.mGimbals.length)
    (hinfo : cl.mGimbals[cl.mGimbalIndex]? = some lInfo) (hg : lInfo.mGimbal = some o)
    (hf : aFactor + cl.mSpeedBoost * BOOST_AXIS aAxis ≠ 0) :
    (∀ b, Axis_Controlled (FLAGS aAxis) b = true ↔ b = aAxis) ∧
    ∃ s c : Speed,
      s.mAxis_deg_s.get aAxis =
        min 360 (max (-360) ((aFactor + cl.mSpeedBoost * BOOST_AXIS aAxis) * aValue_pc)) ∧
      c.mAxis_deg_s.get aAxis =
        s.mAxis_deg_s.get aAxis / (aFactor + cl.mSpeedBoost * BOOST_AXIS aAxis) ∧
      (∀ b, b ≠ aAxis → c.mAxis_deg_s.get b = cl.mSpeedCommand.mAxis_deg_s.get b) ∧
      ((o.Answer 0).mResult = ZT_OK →
        cl.Function_Axis aAxis aFactor aValue_pc lSpeed =
          some { cl.After_Calls lInfo o [.Speed_Set s (FLAGS aAxis)] with mSpeedCommand := c }) ∧
      ((o.Answer 0).mResult ≠ ZT_OK →
        cl.Function_Axis aAxis aFactor aValue_pc lSpeed = none) := by
  refine ⟨fun b => FLAGS_controlled aAxis b,
    { mAxis_deg_s := lSpeed.mAxis_deg_s.set aAxis
        (min 360 (max (-360) ((aFactor + cl.mSpeedBoost * BOOST_AXIS aAxis) * aValue_pc))) },
    { mAxis_deg_s := cl.mSpeedCommand.mAxis_deg_s.set aAxis
        (min 360 (max (-360) ((aFactor + cl.mSpeedBoost * BOOST_AXIS aAxis) * aValue_pc)) /
          (aFactor + cl.mSpeedBoost * BOOST_AXIS aAxis)) }, ?_, ?_, ?_, ?_, ?_⟩
  rotate_left 3
  · intro hok
    unfold Function_Axis
    rw [CURRENT_GIMBAL_bound cl lInfo o hsize hinfo hg]
    simp only [Value_Limit_speed, Call_eq]
    rw [if_neg (not_not.2 hok.symm), if_neg hf]
    rfl
  · intro hno
    unfold Function_Axis
    rw [CURRENT_GIMBAL_bound cl lInfo o hsize hinfo hg]
    simp only [Value_Limit_speed, Call_eq]
    rw [if_pos (fun h => hno h.symm)]
  · simp only [PerAxis_get_set, if_true]
  · simp only [PerAxis_get_set, if_true]
  · intro b hb
    simp only [PerAxis_get_set, if_neg hb]

/-- C22, evaluated on the example of the claim: the first row of the default
table is `CHANGED ANALOG_0_X YAW 2.0`; with the value 50 and no boost the gimbal is
sent yaw = 100 deg/s with pitch and roll ignored, and 50 is recorded. -/
theorem Function_Axis_spec_witness :
    (Table_FindEntry (Example.mapper Example.gimbal).mTable IGamepad.ACTION_CHANGED
        IGamepad.ANALOG_0_X = some (some 0) ∧
      ((Example.mapper Example.gimbal).mTable[0]?).map
          (fun e => (e.mFunction, e.mFactor)) = some (FUNCTION_YAW, 2)) ∧
    ∃ s : Speed, s.mAxis_deg_s.yaw = 100 ∧
      (Example.mapper Example.gimbal).Function_Yaw 2 50 Example.speed_A =
        some { (Example.mapper Example.gimbal).After_Calls (Example.binding Example.gimbal)
                Example.gimbal [.Speed_Set s (ZT_FLAG_IGNORE_PITCH ||| ZT_FLAG_IGNORE_ROLL)] with
          mSpeedCommand := { mAxis_deg_s := { pitch := 0, roll := 0, yaw := 50 } } } := by
  refine ⟨⟨by decide!, by decide!⟩, ?_⟩
  obtain ⟨_, s, c, hs, hc, hrest, hok, _⟩ :=
    Function_Axis_spec (Example.mapper Example.gimbal) .AXIS_YAW 2 50 Example.speed_A
      (Example.binding Example.gimbal) Example.gimbal (by decide) (by decide) rfl (by decide!)
  have hs1 : s.mAxis_deg_s.yaw = 100 := by
    have : s.mAxis_deg_s.get .AXIS_YAW = 100 := by
      rw [hs]
      decide!
    exact this
  have hc1 : c = { mAxis_deg_s := { pitch := 0, roll := 0, yaw := 50 } } := by
    have hy : c.mAxis_deg_s.get .AXIS_YAW = 50 := by
      rw [hc, hs]
      decide!
    have hp := hrest .AXIS_PITCH (by decide)
    have hr := hrest .AXIS_ROLL (by decide)
    rcases c with ⟨⟨p, r, y⟩⟩
    simp only [PerAxis.get] at hy hp hr
    rw [hy, hp, hr]
    rfl
  refine ⟨s, hs1, ?_⟩
  rw [← hc1]
  exact hok (by decide)

end ControlLink

namespace ControlLink

/-- One pass of the loop over the axes of `Function_Speed_Boost`. -/
theorem Speed_Boost_Axis_get (c : Speed) (d : ℚ) (l : Speed) (a b : Axis) :
    (Speed_Boost_Axis c d l a).mAxis_deg_s.get b =
      if b = a then
        (if l.mAxis_deg_s.get a ≠ 0 ∧ c.mAxis_deg_s.get a ≠ 0 then
          l.mAxis_deg_s.get a + d * BOOST_AXIS a * c.mAxis_deg_s.get a
        else l.mAxis_deg_s.get a)
      else l.mAxis_deg_s.get b := by
  unfold Speed_Boost_Axis
  by_cases h : l.mAxis_deg_s.get a ≠ 0 ∧ c.mAxis_deg_s.get a ≠ 0
  · rw [if_pos ⟨h.1.symm, h.2.symm⟩, if_pos h]
    exact PerAxis_get_set _ a b _
  · rw [if_neg (fun hh => h ⟨hh.1.symm, hh.2.symm⟩), if_neg h]
    by_cases hb : b = a
    · rw [if_pos hb, hb]
    · rw [if_neg hb]

/-- The loop over the axes of `Function_Speed_Boost`, axis by axis. -/
theorem Speed_Boost_Adjust_get (l c : Speed) (d : ℚ) (a : Axis) :
    (Speed_Boost_Adjust l c d).mAxis_deg_s.get a =
      if l.mAxis_deg_s.get a ≠ 0 ∧ c.mAxis_deg_s.get a ≠ 0 then
        l.mAxis_deg_s.get a + d * BOOST_AXIS a * c.mAxis_deg_s.get a
      else l.mAxis_deg_s.get a := by
  unfold Speed_Boost_Adjust
  simp only [FOR_EACH_AXIS, List.foldl, Speed_Boost_Axis_get]
  cases a <;> simp

/-- C23, failing input. A yaw command of 100 is recorded and the gimbal turns at
200 deg/s in yaw. The row `SPEED_BOOST` with factor 2 and the value 100 raise the
boost from 0 to 2: the adjusted yaw speed is 200 + 2 * 1 * 100 = 400 deg/s, which
`Gimbal::Speed_Set` refuses with `ZT_ERROR_SPEED_MAX`. The assertion on that result
fails, and `Track_Speed_Set` is not called. -/
theorem Function_Speed_Boost_refused :
    Speed_Boost_Adjust { mAxis_deg_s := { pitch := 0, roll := 0, yaw := 200 } }
        (Example.mapper_yaw Example.gimbal_yaw_200 100).mSpeedCommand (2 * 100 / 100 - 0) =
      { mAxis_deg_s := { pitch := 0, roll := 0, yaw := 400 } } ∧
    (Gimbal.ctor.Speed_Set { mAxis_deg_s := { pitch := 0, roll := 0, yaw := 400 } } 0).1 =
      ZT_ERROR_SPEED_MAX ∧
    Speed_Boost_Push Example.gimbal_yaw_200
        (Example.mapper_yaw Example.gimbal_yaw_200 100).mSpeedCommand 2 Example.speed_A = none ∧
    (Example.mapper_yaw Example.gimbal_yaw_200 100).Function_Speed_Boost 2 100
        Example.speed_A = none := by
  refine ⟨?_, ?_, ?_, ?_⟩
  · decide!
  · decide!
  · decide!
  · decide!

/-- C23. The active binding holds a gimbal. `Function_Speed_Boost` sets the
boost to `b = aFactor * aValue_pc / 100`. If `b` is the previous boost, the only call
is `Track_Speed_Set(aValue_pc)`. If `b` differs, `Speed_Get` is called first; when it
does not return `ZT_OK` the next and last call is `Track_Speed_Set(aValue_pc)`; when
it returns `ZT_OK`, `Speed_Set` is called once with no ignore flag and the speed `s`
in which every axis `a` is `live[a] + (b - boost) * k_a * speed_command[a]` if
`live[a]` and `speed_command[a]` are both non-zero and `live[a]` otherwise, `live`
being what `Speed_Get` stored (the indeterminate local when it stored nothing), and
then `Track_Speed_Set(aValue_pc)` is called. The function returns, with the speed
command kept, exactly when `Speed_Set` and `Track_Speed_Set` return `ZT_OK`: any other
result fails an assertion, and after a refused `Speed_Set` there is no
`Track_Speed_Set`. -/
theorem Function_Speed_Boost_spec (cl : ControlLink) (aFactor aValue_pc : ℚ)
    (lSpeed : Speed) (lInfo : GimbalInfo) (o : IGimbal_Object)
    (hsize : cl.mGimbalIndex < cl.mGimbals.length)
    (hinfo : cl.mGimbals[cl.mGimbalIndex]? = some lInfo) (hg : lInfo.mGimbal = some o) :
    (aFactor * aValue_pc / 100 = cl.mSpeedBoost →
      cl.Function_Speed_Boost aFactor aValue_pc lSpeed =
        if (o.Answer 0).mResult = ZT_OK then
          some (cl.After_Calls lInfo o [.Track_Speed_Set aValue_pc])
        else none) ∧
    (aFactor * aValue_pc / 100 ≠ cl.mSpeedBoost → (o.Answer 0).mResult ≠ ZT_OK →
      cl.Function_Speed_Boost aFactor aValue_pc lSpeed =
        if (o.Answer 1).mResult = ZT_OK then
          some ({ cl with mSpeedBoost := aFactor * aValue_pc / 100 }.After_Calls lInfo o
            [.Speed_Get, .Track_Speed_Set aValue_pc])
        else none) ∧
    (aFactor * aValue_pc / 100 ≠ cl.mSpeedBoost → (o.Answer 0).mResult = ZT_OK →
      ∃ s : Speed,
        (∀ a, s.mAxis_deg_s.get a =
          if (((o.Answer 0).mSpeed).getD lSpeed).mAxis_deg_s.get a ≠ 0 ∧
              cl.mSpeedCommand.mAxis_deg_s.get a ≠ 0 then
            (((o.Answer 0).mSpeed).getD lSpeed).mAxis_deg_s.get a +
              (aFactor * aValue_pc / 100 - cl.mSpeedBoost) * BOOST_AXIS a *
                cl.mSpeedCommand.mAxis_deg_s.get a
          else (((o.Answer 0).mSpeed).getD lSpeed).mAxis_deg_s.get a) ∧
        ((o.Answer 1).mResult ≠ ZT_OK →
          Speed_Boost_Push o cl.mSpeedCommand (aFactor * aValue_pc / 100 - cl.mSpeedBoost)
            lSpeed = none) ∧
        cl.Function_Speed_Boost aFactor aValue_pc lSpeed =
          if (o.Answer 1).mResult = ZT_OK ∧ (o.Answer 2).mResult = ZT_OK then
            some ({ cl with mSpeedBoost := aFactor * aValue_pc / 100 }.After_Calls lInfo o
              [.Speed_Get, .Speed_Set s 0, .Track_Speed_Set aValue_pc])
          else none) := by
  have hput : ∀ (c : ControlLink) (l : List IGimbal_Call) (n : Nat), n = l.length →
      c.Gimbal_Put lInfo { o with mCalls := o.mCalls ++ l, mScript := o.mScript.drop n } =
        c.After_Calls lInfo o l := by
    intro c l n hn
    rw [hn]
    rfl
  refine ⟨?_, ?_, ?_⟩
  · intro hb
    unfold Function_Speed_Boost
    rw [CURRENT_GIMBAL_bound cl lInfo o hsize hinfo hg]
    simp only [Speed_Boost_Push, hb, sub_self, ne_eq, not_true_eq_false, if_false, Call_eq]
    by_cases h : (o.Answer 0).mResult = ZT_OK
    · rw [if_neg (not_not.2 h.symm), if_pos h]
      rfl
    · rw [if_pos (fun hh => h hh.symm), if_neg h]
  · intro hb hget
    have hd : (0 : ℚ) ≠ aFactor * aValue_pc / 100 - cl.mSpeedBoost :=
      fun hh => hb (sub_eq_zero.1 hh.symm)
    unfold Function_Speed_Boost
    rw [CURRENT_GIMBAL_bound cl lInfo o hsize hinfo hg]
    simp only [Speed_Boost_Push, Call_eq]
    rw [if_pos hd, if_neg (fun hh => hget hh.symm)]
    simp only [List.drop_drop, Answer_drop, Nat.reduceAdd, Nat.add_zero, List.append_assoc,
      List.singleton_append, List.cons_append, List.nil_append]
    by_cases h : (o.Answer 1).mResult = ZT_OK
    · rw [if_neg (not_not.2 h.symm), if_pos h]
      exact congrArg some (hput _ _ _ rfl)
    · rw [if_pos (fun hh => h hh.symm), if_neg h]
  · intro hb hget
    have hd : (0 : ℚ) ≠ aFactor * aValue_pc / 100 - cl.mSpeedBoost :=
      fun hh => hb (sub_eq_zero.1 hh.symm)
    refine ⟨Speed_Boost_Adjust (((o.Answer 0).mSpeed).getD lSpeed) cl.mSpeedCommand
      (aFactor * aValue_pc / 100 - cl.mSpeedBoost), fun a => Speed_Boost_Adjust_get _ _ _ a,
      ?_, ?_⟩
    · intro hset
      simp only [Speed_Boost_Push, Call_eq]
      rw [if_pos hd, if_pos hget.symm]
      simp only [List.drop_drop, Answer_drop, Nat.reduceAdd, Nat.add_zero]
      rw [if_pos (fun hh => hset hh.symm)]
    · unfold Function_Speed_Boost
      rw [CURRENT_GIMBAL_bound cl lInfo o hsize hinfo hg]
      simp only [Speed_Boost_Push, Call_eq]
      rw [if_pos hd, if_pos hget.symm]
      simp only [List.drop_drop, Answer_drop, Nat.reduceAdd, Nat.add_zero]
      by_cases h1 : (o.Answer 1).mResult = ZT_OK
      · rw [if_neg (not_not.2 h1.symm)]
        simp only [List.drop_drop, Answer_drop, Nat.reduceAdd, Nat.add_zero,
          List.append_assoc, List.singleton_append, List.cons_append, List.nil_append]
        by_cases h2 : (o.Answer 2).mResult = ZT_OK
        · rw [if_neg (not_not.2 h2.symm), if_pos ⟨h1, h2⟩]
          exact congrArg some (hput _ _ _ rfl)
        · rw [if_pos (fun hh => h2 hh.symm), if_neg (fun hh => h2 hh.2)]
      · rw [if_pos (fun hh => h1 hh.symm), if_neg (fun hh => h1 hh.1)]

end ControlLink

namespace ControlLink

/-- C23, evaluated on the example of the claim: the gimbal turns at 50 deg/s
in yaw, the recorded yaw command is 50 and the boost goes from 0 to 1. `Speed_Get`,
then `Speed_Set` with yaw = 100 and pitch and roll as they were and no flag, then
`Track_Speed_Set(100)`. With a value that leaves the boost at 0 the only call is
`Track_Speed_Set`. -/
theorem Function_Speed_Boost_spec_witness :
    (∃ s : Speed, s = { mAxis_deg_s := { pitch := 0, roll := 0, yaw := 100 } } ∧
      (Example.mapper_yaw Example.gimbal_yaw_50 50).Function_Speed_Boost 1 100
          Example.speed_A =
        some ({ Example.mapper_yaw Example.gimbal_yaw_50 50 with
            mSpeedBoost := 1 * 100 / 100 }.After_Calls
          (Example.binding Example.gimbal_yaw_50) Example.gimbal_yaw_50
          [.Speed_Get, .Speed_Set s 0, .Track_Speed_Set 100])) ∧
    (Example.mapper_yaw Example.gimbal_yaw_50 50).Function_Speed_Boost 0 100
        Example.speed_A =
      some ((Example.mapper_yaw Example.gimbal_yaw_50 50).After_Calls
        (Example.binding Example.gimbal_yaw_50) Example.gimbal_yaw_50
        [.Track_Speed_Set 100]) := by
  have h := Function_Speed_Boost_spec (Example.mapper_yaw Example.gimbal_yaw_50 50) 1 100
    Example.speed_A (Example.binding Example.gimbal_yaw_50) Example.gimbal_yaw_50
    (by decide) (by decide) rfl
  have h0 := Function_Speed_Boost_spec (Example.mapper_yaw Example.gimbal_yaw_50 50) 0 100
    Example.speed_A (Example.binding Example.gimbal_yaw_50) Example.gimbal_yaw_50
    (by decide) (by decide) rfl
  refine ⟨?_, ?_⟩
  · obtain ⟨s, hs, _, hF⟩ := h.2.2 (by decide!) (by decide)
    refine ⟨s, ?_, ?_⟩
    · have hp := hs .AXIS_PITCH
      have hr := hs .AXIS_ROLL
      have hy := hs .AXIS_YAW
      rcases s with ⟨⟨p, r, y⟩⟩
      simp only [PerAxis.get] at hp hr hy
      have hp1 : p = 0 := by
        rw [hp]
        decide!
      have hr1 : r = 0 := by
        rw [hr]
        decide!
      have hy1 : y = 100 := by
        rw [hy]
        decide!
      rw [hp1, hr1, hy1]
    · rw [hF, if_pos (by decide)]
  · rw [h0.1 (by decide!), if_pos (by decide)]

end ControlLink

namespace ControlLink

/-- C24 (code at fault). With a non-empty binding list, `Function_Gimbal_First`, `_Last`,
`_Next`, `_Next_Loop`, `_Previous` and `_Previous_Loop` leave the speed command all
zeros whenever they change the active index (`_Last` returns, its assertion holding).
`Function_Gimbal_Select` never calls `OnGimbalChanged`: it leaves the speed command
as it was, whatever it does to the index. -/
theorem Function_Gimbal_Select_keeps_command (cl : ControlLink) (aFactor : ℚ)
    (h : cl.mGimbals ≠ []) :
    (cl.Function_Gimbal_First.mGimbalIndex ≠ cl.mGimbalIndex →
      cl.Function_Gimbal_First.mSpeedCommand =
        { mAxis_deg_s := { pitch := 0, roll := 0, yaw := 0 } }) ∧
    (∃ c, cl.Function_Gimbal_Last = some c ∧
      (c.mGimbalIndex ≠ cl.mGimbalIndex →
        c.mSpeedCommand = { mAxis_deg_s := { pitch := 0, roll := 0, yaw := 0 } })) ∧
    (cl.Function_Gimbal_Next.mGimbalIndex ≠ cl.mGimbalIndex →
      cl.Function_Gimbal_Next.mSpeedCommand =
        { mAxis_deg_s := { pitch := 0, roll := 0, yaw := 0 } }) ∧
    (cl.Function_Gimbal_Next_Loop.mGimbalIndex ≠ cl.mGimbalIndex →
      cl.Function_Gimbal_Next_Loop.mSpeedCommand =
        { mAxis_deg_s := { pitch := 0, roll := 0, yaw := 0 } }) ∧
    (cl.Function_Gimbal_Previous.mGimbalIndex ≠ cl.mGimbalIndex →
      cl.Function_Gimbal_Previous.mSpeedCommand =
        { mAxis_deg_s := { pitch := 0, roll := 0, yaw := 0 } }) ∧
    (cl.Function_Gimbal_Previous_Loop.mGimbalIndex ≠ cl.mGimbalIndex →
      cl.Function_Gimbal_Previous_Loop.mSpeedCommand =
        { mAxis_deg_s := { pitch := 0, roll := 0, yaw := 0 } }) ∧
    (cl.Function_Gimbal_Select aFactor).mSpeedCommand = cl.mSpeedCommand := by
  refine ⟨fun _ => rfl,
    ⟨OnGimbalChanged { cl with mGimbalIndex := cl.Gimbals_Last }, ?_, fun _ => rfl⟩,
    fun _ => ?_, fun _ => ?_, ?_, fun _ => ?_, ?_⟩
  · unfold Function_Gimbal_Last
    rw [if_neg (not_not.2 (List.length_pos.2 h))]
  · unfold Function_Gimbal_Next
    simp only
    split_ifs <;> rfl
  · unfold Function_Gimbal_Next_Loop
    simp only
    split_ifs <;> rfl
  · intro hne
    unfold Function_Gimbal_Previous at hne ⊢
    by_cases hp : 0 < cl.mGimbalIndex
    · rw [if_pos hp]
      rfl
    · rw [if_neg hp] at hne
      exact absurd rfl hne
  · unfold Function_Gimbal_Previous_Loop
    split_ifs <;> rfl
  · unfold Function_Gimbal_Select
    simp only
    split_ifs <;> rfl

/-- C24, the failing input: two gimbals are bound and the first is active; the row
`CHANGED ANALOG_0_X YAW 2.0` with the value 50 records the yaw command 50; then a row
`GIMBAL_SELECT` with factor 1 makes the second gimbal active and the speed command
still holds 50 for yaw, where `Function_Gimbal_Next` leaves zeros. -/
theorem Function_Gimbal_Select_keeps_command_witness :
    Example.mapper_pair.mGimbals ≠ [] ∧
    (Example.mapper_pair.Function_Yaw 2 50 Example.speed_A).map
      (fun c => (c.mGimbalIndex, (c.Function_Gimbal_Select 1).mGimbalIndex,
        (c.Function_Gimbal_Select 1).mSpeedCommand,
        c.Function_Gimbal_Next.mGimbalIndex, c.Function_Gimbal_Next.mSpeedCommand)) =
      some (0, 1, { mAxis_deg_s := { pitch := 0, roll := 0, yaw := 50 } },
        1, { mAxis_deg_s := { pitch := 0, roll := 0, yaw := 0 } }) ∧
    (Example.mapper_pair.Function_Gimbal_Select 1).mSpeedCommand =
      Example.mapper_pair.mSpeedCommand :=
  ⟨by decide, by decide!,
    (Function_Gimbal_Select_keeps_command Example.mapper_pair 1 (by decide)).2.2.2.2.2.2⟩

end ControlLink

namespace ControlLink

/-- C25 (code at fault, the part that holds). When the chain of tests at the head of
`Gimbal_Set` accepts the identifier with the ATEM number `n`: for `n` in 0..9 the camera
type is MFT, for `n` in 10..19 it is EF, and for `n` of 20 or more the result is
`ZT_ERROR_CONFIG` with the binding list unchanged. With a camera type chosen, either
the result is `ZT_OK` and one binding is appended, with that type, the port `n mod 10`,
the gimbal found and a zero home position, or the result is `ZT_ERROR_GIMBAL_OFF` and
the binding list is unchanged. Nothing compares `n mod 10` with 8. -/
theorem Gimbal_Set_port_modulo (sscanf : Sscanf) (cl : ControlLink) (aSystem : System)
    (aId : String) (lIndex : Nat) (lFound : Gimbal_Set_Identified)
    (h : Gimbal_Set_Identify sscanf aSystem aId lIndex = some (some lFound)) :
    (lFound.mLocals.mAtemPort ≤ 9 →
      Gimbal_Set sscanf cl aSystem aId lIndex =
        some (Gimbal_Set_Store cl lFound Atem.CAMERA_MFT)) ∧
    (10 ≤ lFound.mLocals.mAtemPort → lFound.mLocals.mAtemPort ≤ 19 →
      Gimbal_Set sscanf cl aSystem aId lIndex =
        some (Gimbal_Set_Store cl lFound Atem.CAMERA_EF)) ∧
    (20 ≤ lFound.mLocals.mAtemPort →
      Gimbal_Set sscanf cl aSystem aId lIndex = some (ZT_ERROR_CONFIG, cl, lFound.mSystem)) ∧
    (∀ aType,
      ((Gimbal_Set_Store cl lFound aType).1 = ZT_OK ∧
        (Gimbal_Set_Store cl lFound aType).2.1.mGimbals = cl.mGimbals ++
          [{ mAtemCameraType := aType
             mAtemPort := lFound.mLocals.mAtemPort % 10
             mGimbal := lFound.mGimbal
             mHome := { mAxis_deg := { pitch := 0, roll := 0, yaw := 0 } } }]) ∨
      ((Gimbal_Set_Store cl lFound aType).1 = ZT_ERROR_GIMBAL_OFF ∧
        (Gimbal_Set_Store cl lFound aType).2.1 = cl)) := by
  refine ⟨?_, ?_, ?_, ?_⟩
  · intro h9
    unfold Gimbal_Set
    rw [h]
    simp only
    rw [Nat.div_eq_of_lt (Nat.lt_succ_of_le h9)]
  · intro h10 h19
    unfold Gimbal_Set
    rw [h]
    simp only
    have : lFound.mLocals.mAtemPort / 10 = 1 := by omega
    rw [this]
  · intro h20
    unfold Gimbal_Set
    rw [h]
    simp only
    obtain ⟨k, hk⟩ : ∃ k, lFound.mLocals.mAtemPort / 10 = k + 2 :=
      ⟨lFound.mLocals.mAtemPort / 10 - 2, by omega⟩
    rw [hk]
    rfl
  · intro aType
    unfold Gimbal_Set_Store
    by_cases hc : lFound.lTestGimbal = true ∧ lFound.mGimbal = none
    · rw [if_pos hc]
      exact Or.inr ⟨rfl, rfl⟩
    · rw [if_neg hc]
      exact Or.inl ⟨rfl, rfl⟩

/-- C25, the failing input: the identifiers `ATEM = 9` and `ATEM = 19` given to a new
mapper, the system holding one gimbal. `Gimbal_Set` returns `ZT_OK` and stores a binding
with the ATEM port 9, which is above `Atem::PORT_QTY` (8) and fails the assertions of
`Atem::Focus_Absolute`; the camera type is MFT for 9 and EF for 19. The identifier
`ATEM = 8` stores the port 8. -/
theorem Gimbal_Set_port_modulo_witness :
    (Gimbal_Set_Identify Example.sscanf Example.system "ATEM = 9" 0 =
        some (some { mLocals := { lId := "", lIndex := 0, mAtemPort := 9 }
                     lTestGimbal := true
                     mGimbal := some Example.gimbal
                     mSystem := { mGimbals := [] } }) ∧
      Gimbal_Set Example.sscanf Example.mapper_new Example.system "ATEM = 9" 0 =
        some (ZT_OK,
          { Example.mapper_new with
            mGimbals := [{ mAtemCameraType := Atem.CAMERA_MFT
                           mAtemPort := 9
                           mGimbal := some Example.gimbal
                           mHome := { mAxis_deg := { pitch := 0, roll := 0, yaw := 0 } } }] },
          { mGimbals := [] })) ∧
    (Gimbal_Set Example.sscanf Example.mapper_new Example.system "ATEM = 19" 0).map
        (fun r => (r.1, r.2.1.mGimbals.map (fun i => (i.mAtemCameraType, i.mAtemPort)))) =
      some (ZT_OK, [(Atem.CAMERA_EF, 9)]) ∧
    (Gimbal_Set Example.sscanf Example.mapper_new Example.system "ATEM = 8" 0).map
        (fun r => (r.1, r.2.1.mGimbals.map (fun i => (i.mAtemCameraType, i.mAtemPort)))) =
      some (ZT_OK, [(Atem.CAMERA_MFT, 8)]) ∧
    (Gimbal_Set Example.sscanf Example.mapper_new Example.system "ATEM = 20" 0).map
        (fun r => (r.1, r.2.1.mGimbals.length)) = some (ZT_ERROR_CONFIG, 0) ∧
    ¬ (9 ≤ Atem.PORT_QTY) ∧ Atem.Absolute_Asserts 9 50 = false ∧
    Atem.Absolute_Asserts 8 50 = true := by
  have hid : Gimbal_Set_Identify Example.sscanf Example.system "ATEM = 9" 0 =
      some (some { mLocals := { lId := "", lIndex := 0, mAtemPort := 9 }
                   lTestGimbal := true
                   mGimbal := some Example.gimbal
                   mSystem := { mGimbals := [] } }) := by decide!
  refine ⟨⟨hid, ?_⟩, ?_, ?_, ?_, ?_, ?_, ?_⟩
  · rw [(Gimbal_Set_port_modulo Example.sscanf Example.mapper_new Example.system "ATEM = 9" 0
      _ hid).1 (by decide)]
    rfl
  · decide!
  · decide!
  · decide!
  · decide
  · decide!
  · decide!

end ControlLink

namespace Gimbal

open State

/-- C34 (code at fault). `Gimbal::Speed_Get` returns `ZT_OK` in every position state:
the local `lResult` is set to `ZT_ERROR_STATE` in MOVING but the function ends with
`return ZT::ZT_OK`. In MOVING the output is left untouched, in KNOWN and UNKNOWN it is
the all-zero speed, in SPEED it is the stored speed. -/
theorem Speed_Get_always_OK (g : Gimbal) (aOut : Speed) :
    (g.Speed_Get aOut).1 = ZT_OK ∧
    (g.mPosition_State = STATE_MOVING → (g.Speed_Get aOut).2 = aOut) ∧
    (g.mPosition_State = STATE_KNOWN ∨ g.mPosition_State = STATE_UNKNOWN →
      (g.Speed_Get aOut).2 = { mAxis_deg_s := { pitch := 0, roll := 0, yaw := 0 } }) ∧
    (g.mPosition_State = STATE_SPEED → (g.Speed_Get aOut).2 = g.mSpeed) := by
  unfold Speed_Get
  refine ⟨?_, ?_, ?_, ?_⟩
  · cases g.mPosition_State <;> rfl
  · intro h
    rw [h]
  · rintro (h | h) <;> rw [h] <;> rfl
  · intro h
    rw [h]

/-- C34, the failing input: the model is MOVING after `Position_Set`; `Speed_Get` returns
`ZT_OK`, not `ZT_ERROR_STATE`, and the caller's speed is as it was. -/
theorem Speed_Get_always_OK_witness :
    Example.model_moving.mPosition_State = STATE_MOVING ∧
    Example.model_moving.Speed_Get Example.speed_B = (ZT_OK, Example.speed_B) ∧
    (Example.model_moving.Speed_Get Example.speed_B).1 ≠ ZT_ERROR_STATE := by
  have h := Speed_Get_always_OK Example.model_moving Example.speed_B
  have hs : Example.model_moving.mPosition_State = STATE_MOVING := by decide!
  refine ⟨hs, Prod.ext h.1 (h.2.1 hs), ?_⟩
  rw [h.1]
  decide

/-- `Angle_Compare` is the comparison of the squared difference with 0.1. -/
theorem Angle_Compare_iff (a b : ℚ) : Angle_Compare a b = true ↔ (a - b) ^ 2 < 0.1 := by
  unfold Angle_Compare
  simp only [decide_eq_true_eq, gt_iff_lt, pow_two]

/-- The loop over the axes of `Position_Update` on a 3-bit ignore mask, `c a` telling
whether axis `a` is found at its target. -/
theorem Position_Update_flags (f : Nat) (hf : f ≤ 7) (c : Axis → Bool) :
    (∀ a, Axis_Controlled
        (FOR_EACH_AXIS.foldl
          (fun fl a => if Axis_Controlled fl a then if c a then fl ||| ZT_FLAG_IGNORE a else fl
            else fl) f) a = true ↔
      (Axis_Controlled f a = true ∧ c a = false)) ∧
    (ZT_FLAG_IGNORE_ALL =
        FOR_EACH_AXIS.foldl
          (fun fl a => if Axis_Controlled fl a then if c a then fl ||| ZT_FLAG_IGNORE a else fl
            else fl) f ↔
      ∀ a, Axis_Controlled
        (FOR_EACH_AXIS.foldl
          (fun fl a => if Axis_Controlled fl a then if c a then fl ||| ZT_FLAG_IGNORE a else fl
            else fl) f) a = false) ∧
    FOR_EACH_AXIS.foldl
      (fun fl a => if Axis_Controlled fl a then if c a then fl ||| ZT_FLAG_IGNORE a else fl
        else fl) f ≤ 7 := by
  simp only [FOR_EACH_AXIS, List.foldl]
  have hall : ∀ p : Axis → Prop, (∀ a, p a) ↔ p .AXIS_PITCH ∧ p .AXIS_ROLL ∧ p .AXIS_YAW :=
    fun p => ⟨fun h => ⟨h _, h _, h _⟩, fun h a => by cases a <;> simp [h.1, h.2.1, h.2.2]⟩
  rw [hall, hall]
  rcases hp : c .AXIS_PITCH <;> rcases hr : c .AXIS_ROLL <;> rcases hy : c .AXIS_YAW <;>
    interval_cases f <;> decide

/-- C31. For every model whose ignore mask has no bit above the three axis bits (the
constructor sets it to 7 and the code only clears bits or sets axis bits) and every
observed position `q`: `Position_Update(q)` sets the current position to `q` and the
freshness counter to 15 and leaves the target, the stored speed and the configuration
alone. In MOVING an axis is controlled afterwards exactly when it was controlled and
the square of `target - q` on that axis is not below 0.1; the state becomes KNOWN exactly
when no axis is controlled afterwards and is MOVING otherwise. In UNKNOWN the state
becomes KNOWN, in KNOWN and SPEED it is unchanged, the mask being kept in the three. -/
theorem Position_Update_spec (g : Gimbal) (aIn : Position)
    (hflags : g.mPosition_Flags ≤ ZT_FLAG_IGNORE_ALL) :
    (g.Position_Update aIn).mPosition_Current = aIn ∧
    (g.Position_Update aIn).mPosition_Count = 15 ∧
    (g.Position_Update aIn).mPosition_Target = g.mPosition_Target ∧
    (g.Position_Update aIn).mSpeed = g.mSpeed ∧
    (g.Position_Update aIn).mConfig = g.mConfig ∧
    (g.Position_Update aIn).mPosition_Flags ≤ ZT_FLAG_IGNORE_ALL ∧
    (g.mPosition_State = STATE_MOVING →
      (∀ a, Axis_Controlled (g.Position_Update aIn).mPosition_Flags a = true ↔
        (Axis_Controlled g.mPosition_Flags a = true ∧
          ¬ (g.mPosition_Target.mAxis_deg.get a - aIn.mAxis_deg.get a) ^ 2 < 0.1)) ∧
      ((g.Position_Update aIn).mPosition_State = STATE_KNOWN ↔
        ∀ a, Axis_Controlled (g.Position_Update aIn).mPosition_Flags a = false) ∧
      ((g.Position_Update aIn).mPosition_State = STATE_MOVING ↔
        ∃ a, Axis_Controlled (g.Position_Update aIn).mPosition_Flags a = true)) ∧
    (g.mPosition_State = STATE_UNKNOWN →
      (g.Position_Update aIn).mPosition_State = STATE_KNOWN ∧
      (g.Position_Update aIn).mPosition_Flags = g.mPosition_Flags) ∧
    (g.mPosition_State = STATE_KNOWN ∨ g.mPosition_State = STATE_SPEED →
      (g.Position_Update aIn).mPosition_State = g.mPosition_State ∧
      (g.Position_Update aIn).mPosition_Flags = g.mPosition_Flags) := by
  obtain ⟨k1, k2, k3⟩ := Position_Update_flags g.mPosition_Flags hflags
    (fun a => Angle_Compare (g.mPosition_Target.mAxis_deg.get a) (aIn.mAxis_deg.get a))
  have hfix : ∀ s : Gimbal.State, s = g.mPosition_State →
      (g.Position_Update aIn).mPosition_Current = aIn ∧
      (g.Position_Update aIn).mPosition_Count = 15 ∧
      (g.Position_Update aIn).mPosition_Target = g.mPosition_Target ∧
      (g.Position_Update aIn).mSpeed = g.mSpeed ∧
      (g.Position_Update aIn).mConfig = g.mConfig := by
    intro s hs
    unfold Position_Update
    simp only [← hs]
    cases s
    · exact ⟨rfl, rfl, rfl, rfl, rfl⟩
    · simp only
      split_ifs <;> exact ⟨rfl, rfl, rfl, rfl, rfl⟩
    · exact ⟨rfl, rfl, rfl, rfl, rfl⟩
    · exact ⟨rfl, rfl, rfl, rfl, rfl⟩
  obtain ⟨f1, f2, f3, f4, f5⟩ := hfix _ rfl
  have hmov : g.mPosition_State = STATE_MOVING →
      (g.Position_Update aIn).mPosition_Flags =
        FOR_EACH_AXIS.foldl
          (fun fl a =>
            if Axis_Controlled fl a then
              if Angle_Compare (g.mPosition_Target.mAxis_deg.get a) (aIn.mAxis_deg.get a) then
                fl ||| ZT_FLAG_IGNORE a
              else fl
            else fl) g.mPosition_Flags ∧
      ((g.Position_Update aIn).mPosition_State = STATE_KNOWN ↔
        ZT_FLAG_IGNORE_ALL = (g.Position_Update aIn).mPosition_Flags) ∧
      ((g.Position_Update aIn).mPosition_State = STATE_MOVING ↔
        ZT_FLAG_IGNORE_ALL ≠ (g.Position_Update aIn).mPosition_Flags) := by
    intro h
    unfold Position_Update
    simp only [h]
    split_ifs with hc
    · exact ⟨rfl, ⟨fun _ => hc, fun _ => rfl⟩,
        ⟨fun hh => (by cases hh), fun hh => absurd hc hh⟩⟩
    · exact ⟨rfl, ⟨fun hh => (by cases hh), fun hh => absurd hh hc⟩,
        ⟨fun _ => hc, fun _ => rfl⟩⟩
  have hother : g.mPosition_State ≠ STATE_MOVING →
      (g.Position_Update aIn).mPosition_Flags = g.mPosition_Flags ∧
      (g.mPosition_State = STATE_UNKNOWN →
        (g.Position_Update aIn).mPosition_State = STATE_KNOWN) ∧
      (g.mPosition_State = STATE_KNOWN ∨ g.mPosition_State = STATE_SPEED →
        (g.Position_Update aIn).mPosition_State = g.mPosition_State) := by
    intro h
    unfold Position_Update
    rcases hs : g.mPosition_State with _ | _ | _ | _
    · exact ⟨rfl, fun hh => (by cases hh), fun _ => rfl⟩
    · exact absurd hs h
    · exact ⟨rfl, fun hh => (by cases hh), fun _ => rfl⟩
    · exact ⟨rfl, fun _ => rfl, fun hh => by rcases hh with hh | hh <;> cases hh⟩
  refine ⟨f1, f2, f3, f4, f5, ?_, ?_, ?_, ?_⟩
  · by_cases h : g.mPosition_State = STATE_MOVING
    · rw [(hmov h).1]
      exact k3
    · rw [(hother h).1]
      exact hflags
  · intro h
    obtain ⟨m1, m2, m3⟩ := hmov h
    rw [m2, m3, m1]
    refine ⟨fun a => ?_, k2, ?_⟩
    · rw [k1 a, ← Angle_Compare_iff]
      simp only [Bool.not_eq_true]
    · rw [Ne, k2]
      push_neg
      exact ⟨fun ⟨a, ha⟩ => ⟨a, by simpa using ha⟩, fun ⟨a, ha⟩ => ⟨a, by simp [ha]⟩⟩
  · intro h
    have hne : g.mPosition_State ≠ STATE_MOVING := by rw [h]; decide
    exact ⟨(hother hne).2.1 h, (hother hne).1⟩
  · intro h
    have hne : g.mPosition_State ≠ STATE_MOVING := by rcases h with h | h <;> rw [h] <;> decide
    exact ⟨(hother hne).2.2 h, (hother hne).1⟩

/-- The ignore mask of the model stays within the three axis bits: the constructor sets
it to 7, `Position_Set` clears bits, and `Speed_Set`, `Speed_Stop` and `Tick` do not
write it. -/
theorem Position_Flags_bounded (g : Gimbal) (aPosition : Position) (aSpeed : Speed)
    (aFlags aDuration_ms : Nat) (h : g.mPosition_Flags ≤ ZT_FLAG_IGNORE_ALL) :
    ctor.mPosition_Flags ≤ ZT_FLAG_IGNORE_ALL ∧
    (g.Position_Set aPosition aFlags aDuration_ms).2.mPosition_Flags ≤ ZT_FLAG_IGNORE_ALL ∧
    (g.Speed_Set aSpeed aFlags).2.mPosition_Flags ≤ ZT_FLAG_IGNORE_ALL ∧
    g.Speed_Stop.2.mPosition_Flags ≤ ZT_FLAG_IGNORE_ALL ∧
    g.Tick.mPosition_Flags ≤ ZT_FLAG_IGNORE_ALL := by
  refine ⟨by decide, ?_, ?_, h, ?_⟩
  · unfold Position_Set
    simp only
    split_ifs
    · exact Nat.le_trans Nat.and_le_left h
    · exact h
  · unfold Speed_Set
    simp only
    split_ifs
    · exact h
    · exact h
  · unfold Tick
    simp only
    split_ifs <;> (try cases g.mPosition_State) <;> exact h

/-- C31, evaluated: after `Position_Set` to pitch 10, roll 0, yaw 20 with every axis
controlled, an observation at pitch 10.2, roll 0, yaw 5 leaves only yaw controlled
(mask 3) and the state MOVING; a second one at yaw 20.1 completes the mask and gives
KNOWN. -/
theorem Position_Update_spec_witness :
    Example.model_moving.mPosition_Flags ≤ ZT_FLAG_IGNORE_ALL ∧
    Example.model_moving.mPosition_State = STATE_MOVING ∧
    ((Example.model_moving.Position_Update
        { mAxis_deg := { pitch := 10.2, roll := 0, yaw := 5 } }).mPosition_Flags,
      (Example.model_moving.Position_Update
        { mAxis_deg := { pitch := 10.2, roll := 0, yaw := 5 } }).mPosition_State) =
      (3, STATE_MOVING) ∧
    (((Example.model_moving.Position_Update
        { mAxis_deg := { pitch := 10.2, roll := 0, yaw := 5 } }).Position_Update
        { mAxis_deg := { pitch := 10.2, roll := 0, yaw := 20.1 } }).mPosition_Flags,
      ((Example.model_moving.Position_Update
        { mAxis_deg := { pitch := 10.2, roll := 0, yaw := 5 } }).Position_Update
        { mAxis_deg := { pitch := 10.2, roll := 0, yaw := 20.1 } }).mPosition_State) =
      (7, STATE_KNOWN) ∧
    (Example.model_moving.Position_Update
        { mAxis_deg := { pitch := 10.2, roll := 0, yaw := 5 } }).mPosition_Current =
      { mAxis_deg := { pitch := 10.2, roll := 0, yaw := 5 } } ∧
    (Example.model_moving.Position_Update
        { mAxis_deg := { pitch := 10.2, roll := 0, yaw := 5 } }).mPosition_Count = 15 := by
  have h := Position_Update_spec Example.model_moving
    { mAxis_deg := { pitch := 10.2, roll := 0, yaw := 5 } } (by decide!)
  exact ⟨by decide!, by decide!, by decide!, by decide!, h.1, h.2.1⟩

end Gimbal

/-- `Value_Limit` between 0 and 100 is the clamp. -/
theorem Value_Limit_focus (x : ℚ) :
    Value_Limit x FOCUS_POSITION_MIN_pc FOCUS_POSITION_MAX_pc = some (min 100 (max 0 x)) := by
  unfold Value_Limit FOCUS_POSITION_MIN_pc FOCUS_POSITION_MAX_pc
  rw [if_neg (by norm_num)]
  by_cases h1 : (0 : ℚ) > x
  · rw [if_pos h1, max_eq_left (le_of_lt h1), min_eq_right (by norm_num)]
  · rw [if_neg h1, max_eq_right (not_lt.1 h1)]
    by_cases h2 : (100 : ℚ) < x
    · rw [if_pos h2, min_eq_left (le_of_lt h2)]
    · rw [if_neg h2, min_eq_right (not_lt.1 h2)]

namespace DJI_Gimbal

open State

/-- The focus value that `Frame_Init_FOCUS_SET` encodes is within 0..4095 for a position
within 0..100. -/
theorem Focus_Encoding_range (x : ℚ) (h0 : 0 ≤ x) (h100 : x ≤ 100) :
    Double_To_Int16 (x / 100 * 4095) ≤ 4095 ∧
    (Double_To_Int16 (x / 100 * 4095) : Int) = Int.floor (x / 100 * 4095) := by
  have hnn : (0 : ℚ) ≤ x / 100 * 4095 := by positivity
  have hle : x / 100 * 4095 ≤ 4095 := by
    have : x / 100 ≤ 1 := by
      rw [div_le_one (by norm_num)]
      exact h100
    nlinarith
  have hf0 : 0 ≤ Int.floor (x / 100 * 4095) := Int.floor_nonneg.2 hnn
  have hf1 : Int.floor (x / 100 * 4095) ≤ 4095 := by
    have := Int.floor_le (x / 100 * 4095)
    have h2 : ((Int.floor (x / 100 * 4095) : Int) : ℚ) ≤ 4095 := le_trans this hle
    exact_mod_cast h2
  unfold Double_To_Int16 Double_Trunc
  rw [if_pos hnn]
  have hm : Int.floor (x / 100 * 4095) % 65536 = Int.floor (x / 100 * 4095) :=
    Int.emod_eq_of_lt hf0 (by omega)
  rw [hm]
  constructor
  · omega
  · exact Int.toNat_of_nonneg hf0

/-- The step of the worker that integrates the focus, on a link that accepts every
send. -/
theorem Tick_Focus_Speed_Z0_step (crc : DJI_CRC) (g : DJI_Gimbal)
    (hs : g.mDevice.SendsSucceed) (hv : g.mFocus_Speed_pc_s ≠ 0) :
    ∃ (t : DJI_Transaction) (lSealed : DJI_Frame) (d : EthCAN_Device) (ps : List EthCAN_Frame),
      DJI_Transaction.fresh.Frame_Init_FOCUS_SET crc g.sSerial
          (min 100 (max 0 (g.mFocus_Position_pc + 0.02 * g.mFocus_Speed_pc_s))) =
        some (t, (g.sSerial + 1) % 4294967296) ∧
      t.Frame_Get.Seal crc = some lSealed ∧
      Tick_Focus_Speed_Z0 crc g =
        some { g with
          mFocus_Position_pc := min 100 (max 0 (g.mFocus_Position_pc + 0.02 * g.mFocus_Speed_pc_s))
          sSerial := (g.sSerial + 1) % 4294967296
          mDevice := d } ∧
      d.mSent = g.mDevice.mSent ++ ps ∧ d.SendsSucceed ∧
      (∀ p ∈ ps, p.mId = DJI_CAN_ID_TX) ∧
      (ps.map EthCAN_Frame.payload).flatten = lSealed.bytes.take 23 := by
  have hm : g.toGimbal.IsFocusMoving = true := by
    unfold Gimbal.IsFocusMoving FOCUS_SPEED_STOP_pc_s
    simpa using fun hh => hv hh.symm
  have hpos : g.mFocus_Position_pc + g.mFocus_Speed_pc_s * 2 * PERIOD_ms / 1000 =
      g.mFocus_Position_pc + 0.02 * g.mFocus_Speed_pc_s := by
    unfold PERIOD_ms
    push_cast
    ring
  have l0 : (0 : ℚ) ≤ min 100 (max 0 (g.mFocus_Position_pc + 0.02 * g.mFocus_Speed_pc_s)) :=
    le_min (by norm_num) (le_max_left _ _)
  have l100 : min 100 (max 0 (g.mFocus_Position_pc + 0.02 * g.mFocus_Speed_pc_s)) ≤ (100 : ℚ) :=
    min_le_left _ _
  obtain ⟨t, ht, hshape⟩ := DJI_Transaction.Frame_Init_FOCUS_SET_shape crc g.sSerial
    DJI_Transaction.fresh _ l0 l100
  obtain ⟨lSealed, d, ps, hseal, hsend, hsent, hd, -, hids, hcat⟩ := Frame_Send_Z0_frames crc
    { g with
      mFocus_Position_pc := min 100 (max 0 (g.mFocus_Position_pc + 0.02 * g.mFocus_Speed_pc_s))
      sSerial := (g.sSerial + 1) % 4294967296 }
    t.Frame_Get hshape.1.1 (by rw [DJI_Transaction.Frame_Get, hshape.1.2]; omega)
    (by rw [DJI_Transaction.Frame_Get, hshape.1.2]; omega) hs
  refine ⟨t, lSealed, d, ps, ht, hseal, ?_, hsent, hd, fun p hp => (hids p hp).1, ?_⟩
  · unfold Tick_Focus_Speed_Z0
    rw [if_pos hm]
    simp only [hpos, Value_Limit_focus, ht, hsend, not_true_eq_false, if_false]
  · rw [hcat, DJI_Transaction.Frame_Get, hshape.1.2]

/-- `Focus_Speed_Set` always returns and never touches the focus position or the
link. -/
theorem Focus_Speed_Set_keeps (crc : DJI_CRC) (g : DJI_Gimbal) (v : ℚ) :
    ∃ g1, Focus_Op.apply crc g (.Speed_Set v) = some g1 ∧
      g1.mFocus_Position_pc = g.mFocus_Position_pc ∧ g1.mDevice = g.mDevice := by
  simp only [Focus_Op.apply, Gimbal.Focus_Speed_Set, Value_Validate, FOCUS_SPEED_MIN_pc_s,
    FOCUS_SPEED_MAX_pc_s]
  rw [if_neg (by norm_num)]
  split_ifs <;> exact ⟨_, rfl, rfl, rfl⟩

/-- A focus position within 0..100 stays there, on a link that accepts every send,
whatever the integration steps and `Focus_Speed_Set` calls. -/
theorem Focus_Run_range (crc : DJI_CRC) (ops : List Focus_Op) (g : DJI_Gimbal)
    (hs : g.mDevice.SendsSucceed)
    (h0 : 0 ≤ g.mFocus_Position_pc) (h100 : g.mFocus_Position_pc ≤ 100) :
    ∃ g1, Focus_Run crc g ops = some g1 ∧ g1.mDevice.SendsSucceed ∧
      0 ≤ g1.mFocus_Position_pc ∧ g1.mFocus_Position_pc ≤ 100 := by
  induction ops generalizing g with
  | nil => exact ⟨g, rfl, hs, h0, h100⟩
  | cons op rest ih =>
    have hstep : ∃ g1, op.apply crc g = some g1 ∧ g1.mDevice.SendsSucceed ∧
        0 ≤ g1.mFocus_Position_pc ∧ g1.mFocus_Position_pc ≤ 100 := by
      cases op with
      | Step =>
        by_cases hv : g.mFocus_Speed_pc_s = 0
        · refine ⟨g, ?_, hs, h0, h100⟩
          unfold Focus_Op.apply Tick_Focus_Speed_Z0
          rw [if_neg]
          unfold Gimbal.IsFocusMoving FOCUS_SPEED_STOP_pc_s
          simpa using hv.symm
        · obtain ⟨t, lSealed, d, ps, -, -, hstep, -, hd, -, -⟩ :=
            Tick_Focus_Speed_Z0_step crc g hs hv
          exact ⟨_, hstep, hd, le_min (by norm_num) (le_max_left _ _), min_le_left _ _⟩
      | Speed_Set v =>
        obtain ⟨g1, h1, h2, h3⟩ := Focus_Speed_Set_keeps crc g v
        exact ⟨g1, h1, by rw [h3]; exact hs, by rw [h2]; exact h0, by rw [h2]; exact h100⟩
    obtain ⟨g1, h1, hs1, a0, a100⟩ := hstep
    obtain ⟨g2, h2, r⟩ := ih g1 hs1 a0 a100
    exact ⟨g2, by simp only [Focus_Run, h1, Option.some_bind, h2], r⟩

/-- C32, failing input. The focus moves at 10 %/s and the link refuses the next
send: `Frame_Send_Z0` in the integration step returns `ZT_ERROR_SEND`, the assertion on
its result fails and the step does not return. -/
theorem Tick_Focus_Speed_Z0_send_refused :
    Example.engine_focus_send_fails.mFocus_Speed_pc_s = 10 ∧
    ((DJI_Transaction.fresh.Frame_Init_FOCUS_SET Example.crc
        Example.engine_focus_send_fails.sSerial 100).bind
      (fun r => Frame_Send_Z0 Example.crc Example.engine_focus_send_fails r.1.Frame_Get)).map
      (fun r => (r.1, r.2.1.mDevice.mSent.length)) = some (ZT_ERROR_SEND, 0) ∧
    Tick_Focus_Speed_Z0 Example.crc Example.engine_focus_send_fails = none := by
  refine ⟨by decide!, by decide!, by decide!⟩

/-- C32. On a link that accepts every send, with the focus position `x` within
0..100: an integration step with a focus speed `v` other than 0 sets the position to
`min(100, max(0, x + 0.02 * v))`, builds the FOCUS SET frame of that position with
`Frame_Init_FOCUS_SET`, seals it and sends its 23 bytes in CAN frames with identifier
0x223, nothing else changing but the serial counter; with `v = 0` the step changes
nothing and sends nothing. After any sequence of integration steps and `Focus_Speed_Set`
calls the position is within 0..100 and the value encoded for it is within 0..4095. -/
theorem Focus_integration (crc : DJI_CRC) (g : DJI_Gimbal) (ops : List Focus_Op)
    (hs : g.mDevice.SendsSucceed)
    (h0 : 0 ≤ g.mFocus_Position_pc) (h100 : g.mFocus_Position_pc ≤ 100) :
    (g.mFocus_Speed_pc_s ≠ 0 →
      ∃ (t : DJI_Transaction) (lSealed : DJI_Frame) (d : EthCAN_Device)
          (ps : List EthCAN_Frame),
        DJI_Transaction.fresh.Frame_Init_FOCUS_SET crc g.sSerial
            (min 100 (max 0 (g.mFocus_Position_pc + 0.02 * g.mFocus_Speed_pc_s))) =
          some (t, (g.sSerial + 1) % 4294967296) ∧
        t.Frame_Get.Seal crc = some lSealed ∧
        Tick_Focus_Speed_Z0 crc g =
          some { g with
            mFocus_Position_pc :=
              min 100 (max 0 (g.mFocus_Position_pc + 0.02 * g.mFocus_Speed_pc_s))
            sSerial := (g.sSerial + 1) % 4294967296
            mDevice := d } ∧
        d.mSent = g.mDevice.mSent ++ ps ∧
        (∀ p ∈ ps, p.mId = 0x223) ∧
        (ps.map EthCAN_Frame.payload).flatten = lSealed.bytes.take 23) ∧
    (g.mFocus_Speed_pc_s = 0 → Tick_Focus_Speed_Z0 crc g = some g) ∧
    (∃ g1, Focus_Run crc g ops = some g1 ∧
      0 ≤ g1.mFocus_Position_pc ∧ g1.mFocus_Position_pc ≤ 100 ∧
      Double_To_Int16 (g1.mFocus_Position_pc / 100 * 4095) ≤ 4095) := by
  refine ⟨?_, ?_, ?_⟩
  · intro hv
    obtain ⟨t, lSealed, d, ps, a1, a2, a3, a4, -, a6, a7⟩ := Tick_Focus_Speed_Z0_step crc g hs hv
    exact ⟨t, lSealed, d, ps, a1, a2, a3, a4, a6, a7⟩
  · intro hv
    unfold Tick_Focus_Speed_Z0
    rw [if_neg]
    unfold Gimbal.IsFocusMoving FOCUS_SPEED_STOP_pc_s
    simpa using hv.symm
  · obtain ⟨g1, h1, -, a0, a100⟩ := Focus_Run_range crc ops g hs h0 h100
    exact ⟨g1, h1, a0, a100, (Focus_Encoding_range _ a0 a100).1⟩

/-- C32, evaluated: from 99.9 % at 10 %/s a step gives 100 % (99.9 + 0.2
clamped) and sends three CAN frames; two steps, `Focus_Speed_Set(-100)`, a refused
`Focus_Speed_Set(150)` and one more step give 98 %; after `Focus_Speed_Set(0)` a step
sends nothing. -/
theorem Focus_integration_witness :
    (Tick_Focus_Speed_Z0 Example.crc Example.engine_focus).map
      (fun g => (g.mFocus_Position_pc, g.mDevice.mSent.length)) = some (100, 3) ∧
    (Focus_Run Example.crc Example.engine_focus
        [.Step, .Step, .Speed_Set (-100), .Speed_Set 150, .Step]).map
      (fun g => (g.mFocus_Position_pc, g.mFocus_Speed_pc_s)) = some (98, -100) ∧
    (Focus_Run Example.crc Example.engine_focus [.Speed_Set 0, .Step]).map
      (fun g => (g.mFocus_Position_pc, g.mDevice.mSent.length)) = some (99.9, 0) ∧
    (∃ g1, Focus_Run Example.crc Example.engine_focus
        [.Step, .Step, .Speed_Set (-100), .Speed_Set 150, .Step] = some g1 ∧
      0 ≤ g1.mFocus_Position_pc ∧ g1.mFocus_Position_pc ≤ 100 ∧
      Double_To_Int16 (g1.mFocus_Position_pc / 100 * 4095) ≤ 4095) :=
  ⟨by decide!, by decide!, by decide!,
    (Focus_integration Example.crc Example.engine_focus
      [.Step, .Step, .Speed_Set (-100), .Speed_Set 150, .Step]
      (by decide) (by decide!) (by decide!)).2.2⟩

/-- `State_Check` does not touch the gimbal model. -/
theorem State_Check_toGimbal (g g1 : DJI_Gimbal) (r : Result)
    (h : g.State_Check = some (r, g1)) : g1.toGimbal = g.toGimbal := by
  unfold State_Check at h
  rcases hs : g.mState with _ | _ | _ | _ | _ | _ <;> rw [hs] at h <;> simp only at h
  all_goals first
    | (cases h; rfl)
    | (split_ifs at h <;> first
        | (cases h; rfl)
        | (exact absurd h (fun hh => Option.noConfusion hh))
        | (unfold State_Change_Z0 State_Set_Z0 at h
           split_ifs at h <;> cases h <;> rfl))
    | exact absurd h (fun hh => Option.noConfusion hh)

/-- `Tr_Queue` does not touch the gimbal model. -/
theorem Tr_Queue_toGimbal (g g1 : DJI_Gimbal) (aTr : DJI_Transaction) (r : Result)
    (h : g.Tr_Queue aTr = some (r, g1)) : g1.toGimbal = g.toGimbal := by
  unfold Tr_Queue at h
  rcases hp : aTr.Prepare MSG_RELEASE with _ | t
  · rw [hp] at h
    exact absurd h (fun hh => Option.noConfusion hh)
  · rw [hp] at h
    simp only at h
    split_ifs at h with hn
    · unfold Tr_Queue_Z0 at h
      rw [if_neg (not_not.2 hn)] at h
      cases h
      rfl
    · cases h
      rfl

/-- C33 (code at fault). Whatever `DJI_Gimbal::Focus_Position_Set(p)` returns, the gimbal
model, and with it the stored focus position and focus speed, is what it was before the
call: the function validates `p`, checks the state and queues a FOCUS SET frame, and
it does not call `Gimbal::Focus_Position_Set`. The next integration step therefore
starts from the position stored before the call. -/
theorem Focus_Position_Set_not_stored (crc : DJI_CRC) (g g1 : DJI_Gimbal) (aFocus_pc : ℚ)
    (r : Result) (h : Focus_Position_Set crc g aFocus_pc = some (r, g1)) :
    g1.toGimbal = g.toGimbal ∧ g1.mFocus_Position_pc = g.mFocus_Position_pc ∧
    g1.mFocus_Speed_pc_s = g.mFocus_Speed_pc_s := by
  have key : g1.toGimbal = g.toGimbal := by
    unfold Focus_Position_Set at h
    rcases hv : Value_Validate aFocus_pc 0 100 with _ | lResult
    · rw [hv] at h
      exact absurd h (fun hh => Option.noConfusion hh)
    · rw [hv] at h
      simp only at h
      split_ifs at h with h1
      · rcases hc : g.State_Check with _ | ⟨r2, g2⟩
        · rw [hc] at h
          exact absurd h (fun hh => Option.noConfusion hh)
        · rw [hc] at h
          simp only at h
          have k2 := State_Check_toGimbal g g2 r2 hc
          split_ifs at h with h2
          · rcases hf : DJI_Transaction.fresh.Frame_Init_FOCUS_SET crc g2.sSerial aFocus_pc
              with _ | ⟨lTr, lSerial⟩
            · rw [hf] at h
              exact absurd h (fun hh => Option.noConfusion hh)
            · rw [hf] at h
              simp only at h
              rw [Tr_Queue_toGimbal _ g1 lTr r h]
              exact k2
          · cases h
            exact k2
      · cases h
        rfl
  exact ⟨key, by rw [key], by rw [key]⟩

/-- C33, the failing input: the idle engine with the focus at 0 % and a focus speed of
10 %/s. `Focus_Position_Set(50)` returns `ZT_OK` and queues its frame, the stored
position is still 0, and the next integration step gives 0.2 %, not 50.2 %. -/
theorem Focus_Position_Set_not_stored_witness :
    (Focus_Position_Set Example.crc
        { Example.engine_active with mFocus_Speed_pc_s := 10 } 50).map
      (fun r => (r.1, r.2.mFocus_Position_pc, r.2.mTr_Next.isSome)) = some (ZT_OK, 0, true) ∧
    ((Focus_Position_Set Example.crc
        { Example.engine_active with mFocus_Speed_pc_s := 10 } 50).bind
      (fun r => Tick_Focus_Speed_Z0 Example.crc r.2)).map
      (fun g => g.mFocus_Position_pc) = some 0.2 ∧
    (∃ r g1, Focus_Position_Set Example.crc
        { Example.engine_active with mFocus_Speed_pc_s := 10 } 50 = some (r, g1) ∧
      g1.toGimbal = ({ Example.engine_active with mFocus_Speed_pc_s := 10 } : DJI_Gimbal).toGimbal ∧
      g1.mFocus_Position_pc = 0) := by
  refine ⟨by decide!, by decide!, ?_⟩
  have hs : (Focus_Position_Set Example.crc
      { Example.engine_active with mFocus_Speed_pc_s := 10 } 50).isSome = true := by decide!
  obtain ⟨⟨r, g1⟩, h⟩ := Option.isSome_iff_exists.1 hs
  have k := Focus_Position_Set_not_stored Example.crc _ g1 50 r h
  exact ⟨r, g1, h, k.1, k.2.1⟩

end DJI_Gimbal

namespace DJI_Transaction

/-- `Frame_Init_ANGLE_LIMIT_SET` always returns, and its frame is
`ANGLE_LIMIT_SET_Image`. -/
theorem Frame_Init_ANGLE_LIMIT_SET_bytes (crc : DJI_CRC) (s : Nat) (tr : DJI_Transaction)
    (aConfig : Config) :
    Frame_Init_ANGLE_LIMIT_SET crc s tr aConfig =
      some ({ tr with mTxFrame :=
                DJI_Frame.mk (ANGLE_LIMIT_SET_Image crc ((s + 1) % 4294967296 % 65536) aConfig) },
            (s + 1) % 4294967296) := by
  simp [Frame_Init_ANGLE_LIMIT_SET, Frame_Init, DJI_Frame.Init, DJI_CMD_SET_DEFAULT,
    DJI_CMD_ANGLE_LIMIT_SET, DJI_CMD_SET_THIRD_PARTY, DJI_CMD_TYPE_DO_REPLY, DJI_Frame.sizeof,
    DJI_HEADER_SIZE_byte, DJI_DATA_CMD_SET, DJI_DATA_CMD_ID, DJI_FRAME_TOTAL_SIZE,
    DJI_FOOTER_SIZE_byte, FOR_EACH_AXIS, Data_Set, DJI_Frame.mData_Set, DJI_Frame.mData,
    ANGLE_LIMIT_SET_OFFSETS, List.replicate, ANGLE_LIMIT_SET_Image, DJI_SOF, PerAxis.get]

end DJI_Transaction

namespace DJI_Transaction

/-- C35 (code at fault). For every config, `Frame_Init_ANGLE_LIMIT_SET` declares 8 data
bytes (total length 24, data offsets 0 to 7) and the sealed frame carries: at offset 2
the value 0x01, which the last assignment writes over the pitch maximum; at offset 3
`max(0, -min)` of pitch; at offsets 5 and 6 `max(0, max)` and `max(0, -min)` of yaw; at
offset 7 `max(0, max)` of roll; and at offset 8, where `max(0, -min)` of roll was
written, the first byte of the CRC-32 footer, offset 8 being outside the 8 declared
data bytes. -/
theorem Frame_Init_ANGLE_LIMIT_SET_overwritten (crc : DJI_CRC) (s : Nat)
    (tr : DJI_Transaction) (aConfig : Config) :
    ∃ (t : DJI_Transaction) (lSealed : DJI_Frame),
      Frame_Init_ANGLE_LIMIT_SET crc s tr aConfig = some (t, (s + 1) % 4294967296) ∧
      t.mTxFrame.mSize_byte = DJI_FRAME_TOTAL_SIZE 8 ∧
      t.mTxFrame.mData 8 =
        Double_To_UInt8 (max 0 (- (aConfig.mAxis.get .AXIS_ROLL).mMin_deg)) % 256 ∧
      t.Frame_Get.Seal crc = some lSealed ∧
      lSealed.mData (ANGLE_LIMIT_SET_OFFSETS .AXIS_PITCH) = 0x01 ∧
      lSealed.mData (ANGLE_LIMIT_SET_OFFSETS .AXIS_PITCH + 1) =
        Double_To_UInt8 (max 0 (- (aConfig.mAxis.get .AXIS_PITCH).mMin_deg)) % 256 ∧
      lSealed.mData (ANGLE_LIMIT_SET_OFFSETS .AXIS_YAW) =
        Double_To_UInt8 (max 0 (aConfig.mAxis.get .AXIS_YAW).mMax_deg) % 256 ∧
      lSealed.mData (ANGLE_LIMIT_SET_OFFSETS .AXIS_YAW + 1) =
        Double_To_UInt8 (max 0 (- (aConfig.mAxis.get .AXIS_YAW).mMin_deg)) % 256 ∧
      lSealed.mData (ANGLE_LIMIT_SET_OFFSETS .AXIS_ROLL) =
        Double_To_UInt8 (max 0 (aConfig.mAxis.get .AXIS_ROLL).mMax_deg) % 256 ∧
      ¬ (ANGLE_LIMIT_SET_OFFSETS .AXIS_ROLL + 1 < 8) ∧
      lSealed.mData (ANGLE_LIMIT_SET_OFFSETS .AXIS_ROLL + 1) =
        crc.DJI_CRC_32 (t.mTxFrame.bytes.take 20) % 4294967296 % 256 := by
  have hmaxp : ∀ x : ℚ, (if (0 : ℚ) < x then x else 0) = max 0 x := by
    intro x
    by_cases h : (0 : ℚ) < x
    · rw [if_pos h, max_eq_right (le_of_lt h)]
    · rw [if_neg h, max_eq_left (not_lt.1 h)]
  have hmaxn : ∀ x : ℚ, (if (0 : ℚ) > x then - x else 0) = max 0 (- x) := by
    intro x
    by_cases h : (0 : ℚ) > x
    · rw [if_pos h, max_eq_right (by linarith)]
    · rw [if_neg h, max_eq_left (by linarith)]
  have h24 : (DJI_Frame.mk (ANGLE_LIMIT_SET_Image crc ((s + 1) % 4294967296 % 65536)
      aConfig)).mSize_byte = 24 := rfl
  have hseal := Seal_eq_some crc
    (DJI_Frame.mk (ANGLE_LIMIT_SET_Image crc ((s + 1) % 4294967296 % 65536) aConfig)) rfl
    (by rw [h24]; decide) (by rw [h24]; decide)
  rw [h24] at hseal
  refine ⟨_, _, Frame_Init_ANGLE_LIMIT_SET_bytes crc s tr aConfig, rfl, ?_, hseal, ?_, ?_, ?_,
    ?_, ?_, by decide, ?_⟩
  · simp only [DJI_Frame.mData, ANGLE_LIMIT_SET_Image, DJI_HEADER_SIZE_byte, hmaxn,
      PerAxis.get, List.getD_cons_succ, List.getD_cons_zero]
  all_goals
    simp [DJI_Frame.mData, ANGLE_LIMIT_SET_Image, DJI_HEADER_SIZE_byte, hmaxn, hmaxp,
      PerAxis.get, ANGLE_LIMIT_SET_OFFSETS, bytes_u32, Frame_Get]

end DJI_Transaction

namespace DJI_Transaction

/-- C35, the failing input: the default config, every limit at 180.5 degrees. The six
bytes to carry are 180; before sealing, data offset 8 holds 180 and the length is 24;
in the sealed frame data offset 2 holds 1 and data offset 8 holds a byte of the
checksum (53 with the stand-in checksum), so the pitch maximum and the roll minimum
are not in the frame that is sent. -/
theorem Frame_Init_ANGLE_LIMIT_SET_overwritten_witness :
    (Gimbal.ctor.mConfig.mAxis.pitch.mMax_deg, Gimbal.ctor.mConfig.mAxis.roll.mMin_deg) =
      (180.5, -180.5) ∧
    Double_To_UInt8 (max 0 Gimbal.ctor.mConfig.mAxis.pitch.mMax_deg) = 180 ∧
    ((DJI_Transaction.fresh.Frame_Init_ANGLE_LIMIT_SET Example.crc 0 Gimbal.ctor.mConfig).bind
      (fun r => (r.1.Frame_Get.Seal Example.crc).map
        (fun f => (r.1.mTxFrame.mData 8, r.1.mTxFrame.mSize_byte,
          [f.mData 2, f.mData 3, f.mData 5, f.mData 6, f.mData 7, f.mData 8])))) =
      some (180, 24, [1, 180, 180, 180, 180, 53]) ∧
    (∃ (t : DJI_Transaction) (lSealed : DJI_Frame),
      Frame_Init_ANGLE_LIMIT_SET Example.crc 0 DJI_Transaction.fresh Gimbal.ctor.mConfig =
        some (t, 1) ∧
      t.Frame_Get.Seal Example.crc = some lSealed ∧ lSealed.mData 2 = 0x01) := by
  obtain ⟨t, lSealed, h1, -, -, h4, h5, -⟩ :=
    Frame_Init_ANGLE_LIMIT_SET_overwritten Example.crc 0 DJI_Transaction.fresh
      Gimbal.ctor.mConfig
  exact ⟨by decide!, by decide!, by decide!, t, lSealed, h1, h4, h5⟩

end DJI_Transaction

namespace DJI_Gimbal
open State

/-- C36 (the code departs from the claim). In INIT or ACTIVATING, a motion command whose
arguments the model accepts is refused with `ZT_ERROR_STATE`, and the engine it leaves
carries the model the base-class operation produced, not the model of before the call:
`Position_Set` leaves it in MOVING with the new target and ignore mask, `Speed_Set`
leaves the new stored speed and its state, `Speed_Stop` leaves it KNOWN with a zero
speed.  The source calls `Gimbal::Position_Set`, `Gimbal::Speed_Set` and
`Gimbal::Speed_Stop` before the state check. -/
theorem Failed_motion_command_stores (crc : DJI_CRC) (g : DJI_Gimbal)
    (aPosition : Position) (aPosition_Flags aDuration_ms : Nat)
    (aSpeed : Speed) (aSpeed_Flags : Nat)
    (hstate : g.mState = STATE_INIT ∨ g.mState = STATE_ACTIVATING)
    (hpos : (g.toGimbal.Position_Set aPosition aPosition_Flags aDuration_ms).1 = ZT_OK)
    (hspeed : (g.toGimbal.Speed_Set aSpeed aSpeed_Flags).1 = ZT_OK) :
    (Position_Set crc g aPosition aPosition_Flags aDuration_ms
        = some (ZT_ERROR_STATE,
            { g with toGimbal :=
                (g.toGimbal.Position_Set aPosition aPosition_Flags aDuration_ms).2 })
      ∧ (g.toGimbal.Position_Set aPosition aPosition_Flags aDuration_ms).2.mPosition_State
          = Gimbal.State.STATE_MOVING
      ∧ (g.toGimbal.Position_Set aPosition aPosition_Flags aDuration_ms).2.mPosition_Flags
          = g.mPosition_Flags &&& aPosition_Flags)
    ∧ (Speed_Set crc g aSpeed aSpeed_Flags
        = some (ZT_ERROR_STATE,
            { g with toGimbal := (g.toGimbal.Speed_Set aSpeed aSpeed_Flags).2 })
      ∧ (g.toGimbal.Speed_Set aSpeed aSpeed_Flags).2.mSpeed
          = Gimbal.Speed_Copy g.mSpeed aSpeed aSpeed_Flags)
    ∧ (Speed_Stop crc g
        = some (ZT_ERROR_STATE, { g with toGimbal := g.toGimbal.Speed_Stop.2 })
      ∧ g.toGimbal.Speed_Stop.2.mPosition_State = Gimbal.State.STATE_KNOWN
      ∧ g.toGimbal.Speed_Stop.2.mSpeed
          = { mAxis_deg_s := { pitch := 0, roll := 0, yaw := 0 } }) := by
  have hchk : ∀ b : Gimbal,
      ({ g with toGimbal := b } : DJI_Gimbal).State_Check
        = some (ZT_ERROR_STATE, { g with toGimbal := b }) :=
    fun b => State_Check_inactive _ hstate
  refine ⟨⟨?_, ?_, ?_⟩, ⟨?_, ?_⟩, ?_, rfl, rfl⟩
  · unfold Position_Set
    generalize hb : g.toGimbal.Position_Set aPosition aPosition_Flags aDuration_ms = b at hpos
    obtain ⟨r, b⟩ := b
    simp only at hpos
    subst hpos
    simp only [hchk, if_true]
    rfl
  · simp only [Gimbal.Position_Set] at hpos ⊢
    split_ifs at hpos ⊢ with h
    · rfl
    · exact absurd hpos h
  · simp only [Gimbal.Position_Set] at hpos ⊢
    split_ifs at hpos ⊢ with h
    · rfl
    · exact absurd hpos h
  · unfold Speed_Set
    generalize hb : g.toGimbal.Speed_Set aSpeed aSpeed_Flags = b at hspeed
    obtain ⟨r, b⟩ := b
    simp only at hspeed
    subst hspeed
    simp only [hchk, if_true]
    rfl
  · simp only [Gimbal.Speed_Set] at hspeed ⊢
    split_ifs at hspeed ⊢ with h
    · rfl
    · exact absurd hspeed h
  · unfold Speed_Stop
    generalize hb : g.toGimbal.Speed_Stop = b
    obtain ⟨r, b⟩ := b
    have hr : r = ZT_OK := by
      have := congrArg Prod.fst hb
      exact this.symm
    subst hr
    simp only [hchk, if_true]
    rfl

end DJI_Gimbal

namespace DJI_Gimbal
open State

/-- C36, the failing input: on the engine in INIT, `Speed_Set` of a valid speed returns
`ZT_ERROR_STATE` and leaves the model in SPEED with that speed stored, where it was
UNKNOWN with a zero speed; `Position_Set` of a valid position returns `ZT_ERROR_STATE`
and leaves the model MOVING with the new target and ignore mask 0, where the target was
the origin and the mask 7. -/
theorem Failed_motion_command_stores_witness :
    (Example.engine.mState = STATE_INIT ∨ Example.engine.mState = STATE_ACTIVATING)
    ∧ (Example.engine.toGimbal.Position_Set Example.position_A 0 0).1 = ZT_OK
    ∧ (Example.engine.toGimbal.Speed_Set Example.speed_B 0).1 = ZT_OK
    ∧ (Speed_Set Example.crc Example.engine Example.speed_B 0).map
          (fun r => (r.1, r.2.mPosition_State, r.2.mSpeed))
        = some (ZT_ERROR_STATE, Gimbal.State.STATE_SPEED, Example.speed_B)
    ∧ (Example.engine.mPosition_State, Example.engine.mSpeed)
        = (Gimbal.State.STATE_UNKNOWN, { mAxis_deg_s := { pitch := 0, roll := 0, yaw := 0 } })
    ∧ (Position_Set Example.crc Example.engine Example.position_A 0 0).map
          (fun r => (r.1, r.2.mPosition_State, r.2.mPosition_Target, r.2.mPosition_Flags))
        = some (ZT_ERROR_STATE, Gimbal.State.STATE_MOVING, Example.position_A, 0)
    ∧ (Example.engine.mPosition_Target, Example.engine.mPosition_Flags)
        = ({ mAxis_deg := { pitch := 0, roll := 0, yaw := 0 } }, 7) := by
  have h := Failed_motion_command_stores Example.crc Example.engine Example.position_A 0 0
    Example.speed_B 0 (Or.inl rfl) (by decide!) (by decide!)
  refine ⟨Or.inl rfl, by decide!, by decide!, ?_, by decide!, ?_, by decide!⟩
  · rw [h.2.1.1]; decide!
  · rw [h.1.1]; decide!

end DJI_Gimbal

namespace ControlLink

/-- C39 (the code departs from the claim). A factor `aFactor` in [-360, 360] with
`aFactor + mSpeedBoost * BOOST_AXIS[aAxis] = 0`, such as the default factor 0 with the
boost 0 of a new mapper, is accepted by `Table_AddEntry` with `ZT_OK`, and
`Function_Axis` then divides by zero: with a gimbal bound that accepts `Speed_Set`, the
limited speed is 0 and the recorded command is `0.0 / 0.0`, for which the model has no
value. -/
theorem Function_Axis_divisor_zero (t : Table) (aAction aControl aFunction : Nat)
    (cl : ControlLink) (aAxis : Axis) (aFactor aValue_pc : ℚ) (lSpeed : Speed)
    (lInfo : GimbalInfo) (lGimbal : IGimbal_Object)
    (hA : aAction < IGamepad.ACTION_QTY) (hC : aControl < IGamepad.CONTROL_QTY)
    (hF : aFunction < FUNCTION_QTY)
    (hfactor : -360 ≤ aFactor ∧ aFactor ≤ 360)
    (hzero : aFactor + cl.mSpeedBoost * BOOST_AXIS aAxis = 0)
    (hg : cl.CURRENT_GIMBAL = some (lInfo, some lGimbal))
    (hok : (lGimbal.Call
        (.Speed_Set { mAxis_deg_s := lSpeed.mAxis_deg_s.set aAxis 0 } (FLAGS aAxis))).1.mResult
          = ZT_OK) :
    (∃ t2, Table_AddEntry t aAction aControl aFunction aFactor 0 = some (ZT_OK, t2))
    ∧ Value_Limit ((aFactor + cl.mSpeedBoost * BOOST_AXIS aAxis) * aValue_pc)
        SPEED_MIN_deg_s SPEED_MAX_deg_s = some 0
    ∧ cl.Function_Axis aAxis aFactor aValue_pc lSpeed = none := by
  have hv : Value_Limit ((aFactor + cl.mSpeedBoost * BOOST_AXIS aAxis) * aValue_pc)
      SPEED_MIN_deg_s SPEED_MAX_deg_s = some 0 := by
    rw [hzero, zero_mul, Value_Limit_speed]
    norm_num
  refine ⟨⟨_, Table_AddEntry_valid t aAction aControl aFunction aFactor 0 hA hC hF hfactor
    (by norm_num)⟩, hv, ?_⟩
  unfold Function_Axis
  rw [hg]
  simp only [hv, hok, not_true_eq_false, if_false]
  rw [if_pos hzero]

/-- C39, the failing inputs: a new mapper (boost 0) whose table gets a yaw row without a
factor, so with the default factor 0; and the mapper after a speed-boost row of factor
-2 received the value 100, which holds the boost -2, with a yaw row of factor 2. -/
theorem Function_Axis_divisor_zero_witness :
    ((∃ t2, Table_AddEntry Example.table_default IGamepad.ACTION_CHANGED
        IGamepad.ANALOG_0_X FUNCTION_YAW 0 0 = some (ZT_OK, t2))
      ∧ (0 : ℚ) + (Example.mapper Example.gimbal).mSpeedBoost * BOOST_AXIS .AXIS_YAW = 0
      ∧ (Example.mapper Example.gimbal).Function_Yaw 0 50
          { mAxis_deg_s := { pitch := 0, roll := 0, yaw := 0 } } = none)
    ∧ ((Function_Speed_Boost (Example.mapper Example.gimbal) (-2) 100
          { mAxis_deg_s := { pitch := 0, roll := 0, yaw := 0 } }).map (fun c => c.mSpeedBoost)
        = some (-2)
      ∧ (2 : ℚ) + (-2) * BOOST_AXIS .AXIS_YAW = 0
      ∧ ({ Example.mapper Example.gimbal with mSpeedBoost := -2 } : ControlLink).Function_Yaw
          2 50 { mAxis_deg_s := { pitch := 0, roll := 0, yaw := 0 } } = none) := by
  have h1 := Function_Axis_divisor_zero Example.table_default IGamepad.ACTION_CHANGED
    IGamepad.ANALOG_0_X FUNCTION_YAW (Example.mapper Example.gimbal) .AXIS_YAW 0 50
    { mAxis_deg_s := { pitch := 0, roll := 0, yaw := 0 } }
    (Example.binding Example.gimbal) Example.gimbal
    (by decide) (by decide) (by decide) (by norm_num) (by decide!) (by decide!) (by decide!)
  have h2 := Function_Axis_divisor_zero Example.table_default IGamepad.ACTION_CHANGED
    IGamepad.ANALOG_0_X FUNCTION_YAW
    ({ Example.mapper Example.gimbal with mSpeedBoost := -2 } : ControlLink) .AXIS_YAW 2 50
    { mAxis_deg_s := { pitch := 0, roll := 0, yaw := 0 } }
    (Example.binding Example.gimbal) Example.gimbal
    (by decide) (by decide) (by decide) (by norm_num) (by decide!) (by decide!) (by decide!)
  exact ⟨⟨h1.1, by decide!, h1.2.2⟩, by decide!, by decide!, h2.2.2⟩

end ControlLink

/-- The mask 0xffff keeps a 16-bit word. -/
theorem and_ffff (x : Nat) (h : x < 65536) : x &&& 0xffff = x := by
  have e := Nat.and_pow_two_sub_one_eq_mod x 16
  norm_num at e
  rw [e]
  exact Nat.mod_eq_of_lt h

/-- The mask 0x00ff keeps the low byte. -/
theorem and_00ff (x : Nat) : x &&& 0x00ff = x % 256 := by
  have e := Nat.and_pow_two_sub_one_eq_mod x 8
  norm_num at e
  exact e

/-- The mask 0xff00 keeps the high byte of a 16-bit word, in place. -/
theorem and_ff00 (x : Nat) (h : x < 65536) : x &&& 0xff00 = 256 * (x / 256) := by
  have e : 256 * (x / 256) = (x >>> 8) <<< 8 := by
    rw [Nat.shiftLeft_eq, Nat.shiftRight_eq_div_pow]
    norm_num
    exact Nat.mul_comm _ _
  rw [e]
  apply Nat.eq_of_testBit_eq
  intro k
  rw [Nat.testBit_and, Nat.testBit_shiftLeft, Nat.testBit_shiftRight]
  by_cases hk : k < 16
  · interval_cases k <;> simp [Nat.testBit]
  · have h1 : x.testBit k = false :=
      Nat.testBit_lt_two_pow (lt_of_lt_of_le h (by
        calc 65536 = 2 ^ 16 := by norm_num
          _ ≤ 2 ^ k := Nat.pow_le_pow_right (by norm_num) (by omega)))
    have h2 : 8 + (k - 8) = k := by omega
    rw [h2, h1]
    simp

namespace OSX_Gamepad

open EntryType

/-- A word list whose words are those of `mReport` is skipped by the loop. -/
theorem Report_Loop_same (aIn : List Nat) :
    ∀ (aWords : List Nat) (g : OSX_Gamepad) (r : Bool),
      (∀ j ∈ aWords, ∃ x, g.mReport[j]? = some x ∧ aIn[j]? = some x) →
      Report_Loop aIn g r aWords = some (r, g) := by
  intro aWords
  induction aWords with
  | nil => intro g r _; rfl
  | cons j rest ih =>
    intro g r h
    obtain ⟨x, h1, h2⟩ := h j (List.mem_cons_self _ _)
    have hw : Report_Word g r aIn j = some (r, g) := by
      unfold Report_Word
      rw [h1, h2]
      simp
    simp only [Report_Loop, hw]
    exact ih g r (fun k hk => h k (List.mem_cons_of_mem _ hk))

theorem Report_Loop_append (aIn : List Nat) :
    ∀ (a b : List Nat) (g : OSX_Gamepad) (r : Bool),
      Report_Loop aIn g r (a ++ b) =
        (Report_Loop aIn g r a).bind (fun p => Report_Loop aIn p.2 p.1 b) := by
  intro a
  induction a with
  | nil => intro b g r; rfl
  | cons j rest ih =>
    intro b g r
    simp only [List.cons_append, Report_Loop]
    rcases Report_Word g r aIn j with _ | ⟨r1, g1⟩
    · rfl
    · exact ih b g1 r1

/-- A report that differs from the last one in the word `i` only: `Report_Process` is
the body of the loop for that word. -/
theorem Report_Process_one (g g1 : OSX_Gamepad) (i w : Nat) (r1 : Bool)
    (hlen : g.mReport.length = 10) (hi : i < 10)
    (hword : Report_Word g true (g.mReport.set i w) i = some (r1, g1))
    (hrep : g1.mReport = g.mReport.set i w) :
    Report_Process g (g.mReport.set i w) = some (r1, g1) := by
  have hsplit : List.range 10 = List.range i ++ i :: (List.range 10).drop (i + 1) := by
    interval_cases i <;> decide
  have hpost : ∀ j ∈ (List.range 10).drop (i + 1), j < 10 := by
    intro j hj
    exact List.mem_range.1 (List.mem_of_mem_drop hj)
  unfold Report_Process
  rw [hsplit, Report_Loop_append]
  rw [Report_Loop_same _ (List.range i) g true]
  · simp only [Option.bind, Report_Loop, hword]
    apply Report_Loop_same
    intro j hj
    have hj10 := hpost j hj
    have hlt : j < (g.mReport.set i w).length := by
      rw [List.length_set, hlen]; exact hj10
    exact ⟨(g.mReport.set i w)[j], by rw [hrep]; exact List.getElem?_eq_getElem hlt,
      List.getElem?_eq_getElem hlt⟩
  · intro j hj
    have hji : j < i := List.mem_range.1 hj
    have hlt : j < g.mReport.length := by omega
    refine ⟨g.mReport[j], List.getElem?_eq_getElem hlt, ?_⟩
    rw [List.getElem?_set_ne (by omega)]
    exact List.getElem?_eq_getElem hlt

end OSX_Gamepad

namespace OSX_Gamepad

open EntryType

/-- The body of the loop of `Report_Process` for a changed stick word. -/
theorem Report_Word_analog (g : OSX_Gamepad) (lReceiver : IMessageReceiver_Object)
    (i w lOld : Nat)
    (hrecv : g.mReceiver = some lReceiver) (hcode : 0 ≠ g.mReceiver_Code)
    (hlen : g.mReport.length = 10) (hold : g.mReport[i]? = some lOld)
    (holdw : lOld < 65536) (hw : w < 65536) (hi : 3 ≤ i ∧ i ≤ 6) (hne : lOld ≠ w) :
    Report_Word g true (g.mReport.set i w) i =
      some (lReceiver.mScript.headD true,
        { g with
          mReport := g.mReport.set i w
          mReceiver := some
            { mMessages := lReceiver.mMessages ++
                [(g.mReceiver_Code,
                  { mAction := IGamepad.ACTION_CHANGED, mControl := i - 2,
                    mValue_pc := (Int16_Value w : ℚ) / 524287 * 100 })]
              mScript := lReceiver.mScript.tail } }) := by
  have hnew : (g.mReport.set i w)[i]? = some w := by
    rw [List.getElem?_set_self (by omega)]
  have hne2 : ¬ (w = lOld) := fun h => hne h.symm
  obtain ⟨h3, h6⟩ := hi
  unfold Report_Word
  rw [hold, hnew]
  simp only [ne_eq, hne, not_false_eq_true, if_true]
  interval_cases i <;>
    simp [TABLE, TABLE_3, TABLE_4, TABLE_5, TABLE_6, Analog, Report_Entries, END_OF_LIST,
      and_ffff w hw, and_ffff lOld holdw, hne2, Report_Event, Call, hrecv, hcode, hcode.symm,
      IMessageReceiver_Object.ProcessMessage, IGamepad.ANALOG_0_X, IGamepad.ANALOG_0_Y,
      IGamepad.ANALOG_1_X, IGamepad.ANALOG_1_Y]

end OSX_Gamepad

namespace OSX_Gamepad

open EntryType

/-- The body of the loop of `Report_Process` for a changed trigger word: the report kept
and the messages the receiver has afterwards. -/
theorem Report_Word_trigger (g : OSX_Gamepad) (lReceiver : IMessageReceiver_Object)
    (w lOld : Nat)
    (hrecv : g.mReceiver = some lReceiver) (hcode : 0 ≠ g.mReceiver_Code)
    (hold : g.mReport[2]? = some lOld)
    (holdw : lOld < 65536) (hw : w < 65536) (hne : lOld ≠ w) :
    ∃ r g1, Report_Word g true (g.mReport.set 2 w) 2 = some (r, g1)
      ∧ g1.mReport = g.mReport.set 2 w
      ∧ g1.mReceiver.map (fun o => o.mMessages) = some (lReceiver.mMessages
        ++ (if w / 256 ≠ lOld / 256 then
              [(g.mReceiver_Code,
                ({ mAction := IGamepad.ACTION_CHANGED, mControl := IGamepad.TRIGGER_RIGHT,
                   mValue_pc := ((w / 256 : Nat) : ℚ) / 255 * 100 } : IGamepad.Event))]
            else [])
        ++ (if w % 256 ≠ lOld % 256 then
              [(g.mReceiver_Code,
                ({ mAction := IGamepad.ACTION_CHANGED, mControl := IGamepad.TRIGGER_LEFT,
                   mValue_pc := ((w % 256 : Nat) : ℚ) / 255 * 100 } : IGamepad.Event))]
            else [])) := by
  have hlt : 2 < g.mReport.length := by
    by_contra hh
    rw [List.getElem?_eq_none (not_lt.1 hh)] at hold
    cases hold
  have hnew : (g.mReport.set 2 w)[2]? = some w := by
    rw [List.getElem?_set_self hlt]
  have hshift : (256 * (w / 256)) >>> 8 = w / 256 := by
    rw [Nat.shiftRight_eq_div_pow]
    norm_num
  have hhigh : (256 * (w / 256) = 256 * (lOld / 256)) ↔ w / 256 = lOld / 256 := by
    constructor
    · intro h; omega
    · intro h; rw [h]
  have hc : (¬ 0 ≠ g.mReceiver_Code) = False := by simp [hcode]
  unfold Report_Word
  rw [hold, hnew]
  simp only [ne_eq, hne, not_false_eq_true, if_true, TABLE, TABLE_2, Report_Entries,
    END_OF_LIST, and_ff00 w hw, and_ff00 lOld holdw, and_00ff, hhigh]
  by_cases h1 : w / 256 = lOld / 256 <;> by_cases h2 : w % 256 = lOld % 256
  · exact absurd (by omega) hne
  all_goals
    simp only [h1, h2, not_true_eq_false, not_false_eq_true, if_true, if_false, Report_Event,
      Call, hrecv, hc, hshift, IMessageReceiver_Object.ProcessMessage, reduceCtorEq,
      List.append_nil, List.append_assoc]
    exact ⟨_, _, rfl, rfl, by simp⟩

end OSX_Gamepad

namespace OSX_Gamepad

open EntryType

/-- C40 (the code departs from the claim). The gamepad has a receiver and a report of 10
words; the new report differs from it in the word `i` only, which becomes `w`.  For a
stick word (`i` from 3 to 6), `Report_Process` returns what the receiver returns and
passes it exactly one more message, a CHANGED event of the control of that word whose
value is `w` read as a signed 16-bit integer, divided by 524287 (`0x7ffff`) and
multiplied by 100: whenever that integer is not 0, this is not the value / 32767 * 100
of the claim.  For the trigger word (`i = 2`), the messages added are one CHANGED event
of the right trigger with the value b / 255 * 100 when the high byte changed, `b` being
the new high byte, then one of the left trigger with the value b / 255 * 100 when the low
byte changed, `b` being the new low byte. -/
theorem Report_Process_values (g : OSX_Gamepad) (lReceiver : IMessageReceiver_Object)
    (i w lOld : Nat)
    (hrecv : g.mReceiver = some lReceiver) (hcode : 0 ≠ g.mReceiver_Code)
    (hlen : g.mReport.length = 10) (hold : g.mReport[i]? = some lOld)
    (holdw : lOld < 65536) (hw : w < 65536) (hne : lOld ≠ w) :
    ((3 ≤ i ∧ i ≤ 6) →
      Report_Process g (g.mReport.set i w) =
        some (lReceiver.mScript.headD true,
          { g with
            mReport := g.mReport.set i w
            mReceiver := some
              { mMessages := lReceiver.mMessages ++
                  [(g.mReceiver_Code,
                    { mAction := IGamepad.ACTION_CHANGED, mControl := i - 2,
                      mValue_pc := (Int16_Value w : ℚ) / 524287 * 100 })]
                mScript := lReceiver.mScript.tail } })
      ∧ (Int16_Value w ≠ 0 →
          (Int16_Value w : ℚ) / 524287 * 100 ≠ (Int16_Value w : ℚ) / 32767 * 100))
    ∧ (i = 2 →
      ∃ r g1, Report_Process g (g.mReport.set 2 w) = some (r, g1)
        ∧ g1.mReport = g.mReport.set 2 w
        ∧ g1.mReceiver.map (fun o => o.mMessages) = some (lReceiver.mMessages
          ++ (if w / 256 ≠ lOld / 256 then
                [(g.mReceiver_Code,
                  ({ mAction := IGamepad.ACTION_CHANGED, mControl := IGamepad.TRIGGER_RIGHT,
                     mValue_pc := ((w / 256 : Nat) : ℚ) / 255 * 100 } : IGamepad.Event))]
              else [])
          ++ (if w % 256 ≠ lOld % 256 then
                [(g.mReceiver_Code,
                  ({ mAction := IGamepad.ACTION_CHANGED, mControl := IGamepad.TRIGGER_LEFT,
                     mValue_pc := ((w % 256 : Nat) : ℚ) / 255 * 100 } : IGamepad.Event))]
              else []))) := by
  constructor
  · intro hi
    refine ⟨Report_Process_one g _ i w _ hlen (by omega)
      (Report_Word_analog g lReceiver i w lOld hrecv hcode hlen hold holdw hw hi hne) rfl, ?_⟩
    intro hx h
    apply hx
    have h0 : ((Int16_Value w : Int) : ℚ) = 0 := by linarith
    exact_mod_cast h0
  · intro hi
    subst hi
    obtain ⟨r, g1, h1, h2, h3⟩ :=
      Report_Word_trigger g lReceiver w lOld hrecv hcode hold holdw hw hne
    exact ⟨r, g1, Report_Process_one g g1 2 w r hlen (by omega) h1 h2, h2, h3⟩

/-- C40, the failing input: after `Receiver_Start`, a report whose first stick word is
0x7FFF, full positive deflection, gives one CHANGED event of ANALOG_0_X with the value
3276700 / 524287 (about 6.25), not 100.  A report whose trigger word becomes 0x80ff from
0 gives the right trigger 128 / 255 * 100 and the left trigger 100. -/
theorem Report_Process_values_witness :
    ((Report_Process Example.gamepad [0x1400, 0, 0, 0x7fff, 0, 0, 0, 0, 0, 0]).map
        (fun r => (r.1, r.2.mReceiver.map (fun o => o.mMessages), r.2.mReport))
      = some (true,
          some [(7, { mAction := IGamepad.ACTION_CHANGED, mControl := IGamepad.ANALOG_0_X,
                      mValue_pc := 3276700 / 524287 })],
          [0x1400, 0, 0, 0x7fff, 0, 0, 0, 0, 0, 0])
      ∧ (3276700 / 524287 : ℚ) ≠ 100
      ∧ (Int16_Value 0x7fff : ℚ) / 32767 * 100 = 100)
    ∧ (∃ r g1, Report_Process Example.gamepad [0x1400, 0, 0x80ff, 0, 0, 0, 0, 0, 0, 0]
          = some (r, g1)
        ∧ g1.mReceiver.map (fun o => o.mMessages)
          = some [(7, { mAction := IGamepad.ACTION_CHANGED, mControl := IGamepad.TRIGGER_RIGHT,
                        mValue_pc := 128 / 255 * 100 }),
                  (7, { mAction := IGamepad.ACTION_CHANGED, mControl := IGamepad.TRIGGER_LEFT,
                        mValue_pc := 100 })]) := by
  have h1 := (Report_Process_values Example.gamepad Example.receiver 3 0x7fff 0 rfl
    (by decide) rfl rfl (by decide) (by decide) (by decide)).1 ⟨by decide, by decide⟩
  obtain ⟨r, g1, h2, _, h3⟩ :=
    (Report_Process_values Example.gamepad Example.receiver 2 0x80ff 0 rfl
      (by decide) rfl rfl (by decide) (by decide) (by decide)).2 rfl
  refine ⟨⟨?_, by norm_num, by norm_num [Int16_Value]⟩, r, g1, h2, ?_⟩
  · have e : Example.gamepad.mReport.set 3 0x7fff = [0x1400, 0, 0, 0x7fff, 0, 0, 0, 0, 0, 0] :=
      rfl
    rw [e] at h1
    rw [h1.1]
    simp only [Option.map, Example.gamepad, Example.receiver, List.headD, List.nil_append,
      List.tail_nil]
    norm_num [Int16_Value, IGamepad.ANALOG_0_X]
  · rw [h3]
    norm_num [Example.gamepad, Example.receiver, IGamepad.TRIGGER_RIGHT]

end OSX_Gamepad

namespace DJI_Gimbal

open State

/-- Under the bounds, with room for the payload, `Receiver_CopyNewData` returns: every
access is inside the receive buffer and the frame, the receive size is untouched and the
receive offset stays at most the receive size plus the payload size. -/
theorem Receiver_CopyNewData_returns (g : DJI_Gimbal) (aCF : EthCAN_Frame)
    (hI : g.Rx_Bounds) (hroom : g.mRxSize_byte + aCF.mDataSize_byte ≤ RX_BUFFER_SIZE)
    (hlt : g.mRxSize_byte < RX_BUFFER_SIZE)
    (hdata : aCF.mDataSize_byte ≤ aCF.mData.length) :
    ∃ b, b.length = RX_BUFFER_SIZE ∧
      g.Receiver_CopyNewData aCF = some
        { g with
          mRxBuffer := b
          mRxOffset_byte :=
            if 8 ≤ aCF.mDataSize_byte then g.mRxOffset_byte + aCF.mDataSize_byte
            else g.mRxOffset_byte } := by
  obtain ⟨hlen, hoff, hsize⟩ := hI
  unfold RX_BUFFER_SIZE at hlen hroom hlt hsize
  have hmoved : ∃ b1, b1.length = 128 ∧
      (if 0 < g.mRxSize_byte - g.mRxOffset_byte then
        (memRead g.mRxBuffer g.mRxOffset_byte (g.mRxSize_byte - g.mRxOffset_byte)).bind
          (fun lBytes => memWrite g.mRxBuffer (g.mRxOffset_byte + aCF.mDataSize_byte) lBytes)
       else some g.mRxBuffer) = some b1 := by
    by_cases hm : 0 < g.mRxSize_byte - g.mRxOffset_byte
    · rw [if_pos hm, memRead_eq_some (by omega)]
      have hl : ((g.mRxBuffer.drop g.mRxOffset_byte).take
          (g.mRxSize_byte - g.mRxOffset_byte)).length = g.mRxSize_byte - g.mRxOffset_byte := by
        simp only [List.length_take, List.length_drop]; omega
      simp only [Option.bind]
      have hw := @memWrite_eq_some g.mRxBuffer
        ((g.mRxBuffer.drop g.mRxOffset_byte).take (g.mRxSize_byte - g.mRxOffset_byte))
        (g.mRxOffset_byte + aCF.mDataSize_byte) (by rw [hl]; omega)
      exact ⟨_, by rw [(memWrite_some hw).1]; exact hlen, hw⟩
    · rw [if_neg hm]
      exact ⟨_, hlen, rfl⟩
  obtain ⟨b1, hb1, hmv⟩ := hmoved
  have hrd := @memRead_eq_some aCF.mData 0 aCF.mDataSize_byte
    (by omega)
  have hl2 : ((aCF.mData.drop 0).take aCF.mDataSize_byte).length = aCF.mDataSize_byte := by
    simp only [List.drop_zero, List.length_take]; omega
  have hw2 := @memWrite_eq_some b1
    ((aCF.mData.drop 0).take aCF.mDataSize_byte) g.mRxOffset_byte
    (by rw [hl2]; omega)
  refine ⟨_, (by rw [(memWrite_some hw2).1]; exact hb1), ?_⟩
  unfold Receiver_CopyNewData RX_BUFFER_SIZE
  rw [if_neg (by omega), if_neg (by omega), if_neg (by omega)]
  simp only [hmv, hrd, hw2]

/-- With its precondition satisfied and the receive offset at most 128,
`Receiver_Validate_Z0` returns: it either reset the receive state or set the receive
size to `aTo_byte`. -/
theorem Receiver_Validate_Z0_returns (g : DJI_Gimbal) (lTr : DJI_Transaction) (aTo_byte : Nat)
    (hcur : g.Tr_Current = some lTr)
    (hlt : g.mRxSize_byte < aTo_byte) (hle : aTo_byte ≤ RX_BUFFER_SIZE)
    (hoff : g.mRxOffset_byte ≤ RX_BUFFER_SIZE) :
    ∃ r g2, g.Receiver_Validate_Z0 aTo_byte = some (r, g2) ∧
      (g2 = { g with mRxOffset_byte := 0, mRxSize_byte := 0 } ∨
        g2 = { g with mRxSize_byte := aTo_byte }) := by
  unfold RX_BUFFER_SIZE at hle hoff
  have hreset : ∀ r, g.Receiver_Validate_Error r =
      some (r, { g with mRxOffset_byte := 0, mRxSize_byte := 0 }) := by
    intro r
    simp only [Receiver_Validate_Error, Receiver_Reset, RX_BUFFER_SIZE]
    rw [if_neg (by omega), if_neg (by omega)]
    rfl
  have hget : lTr.Frame_Data_Get DJI_DATA_CMD_ID = some (lTr.mTxFrame.mData 1) := by
    simp [DJI_Transaction.Frame_Data_Get, DJI_DATA_CMD_ID]
  have hite : ∀ (c : Prop) [Decidable c] (a b : Option (Result × DJI_Gimbal)),
      (∃ r g2, a = some (r, g2) ∧
        (g2 = { g with mRxOffset_byte := 0, mRxSize_byte := 0 } ∨
          g2 = { g with mRxSize_byte := aTo_byte })) →
      (∃ r g2, b = some (r, g2) ∧
        (g2 = { g with mRxOffset_byte := 0, mRxSize_byte := 0 } ∨
          g2 = { g with mRxSize_byte := aTo_byte })) →
      ∃ r g2, (if c then a else b) = some (r, g2) ∧
        (g2 = { g with mRxOffset_byte := 0, mRxSize_byte := 0 } ∨
          g2 = { g with mRxSize_byte := aTo_byte }) := by
    intro c _ a b ha hb
    by_cases hc : c
    · rw [if_pos hc]; exact ha
    · rw [if_neg hc]; exact hb
  unfold Receiver_Validate_Z0
  simp only [hcur, hreset, hget, Option.some_bind]
  rw [if_neg (by omega), if_neg (by unfold RX_BUFFER_SIZE; omega)]
  repeat' apply hite
  all_goals first
    | exact ⟨_, _, rfl, Or.inl rfl⟩
    | exact ⟨_, _, rfl, Or.inr rfl⟩

/-- C38 (the code departs from the claim). A transaction is in flight, the receive state
is within its bounds and a payload with the identifier 0x222 arrives in a frame of 8
data bytes.  With 0 data bytes, `Receiver` does not return: `Receiver_CopyNewData` either
fails its assertion `128 > mRxSize_byte` (receive size 128) or returns, and then
`Receiver_Validate_Z0` is called with `aTo_byte` equal to the receive size, against its
precondition `mRxSize_byte < aTo_byte`.  With 1 to 8 data bytes, either the payload does
not fit and the receive state is reset, or `Receiver_CopyNewData` returns with every
access inside the buffer, `Receiver_Validate_Z0` is called with
old receive size < new receive size <= 128 and returns, and the bounds hold
afterwards. -/
theorem Receiver_empty_payload (g : DJI_Gimbal) (aCF : EthCAN_Frame) (lTr : DJI_Transaction)
    (hI : g.Rx_Bounds) (hcur : g.Tr_Current = some lTr) (hid : aCF.mId = DJI_CAN_ID_RX)
    (hdata : aCF.mData.length = 8) (hn : aCF.mDataSize_byte ≤ 8) :
    (aCF.mDataSize_byte = 0 →
      g.Receiver aCF = none ∧
      (g.mRxSize_byte = RX_BUFFER_SIZE → g.Receiver_CopyNewData aCF = none) ∧
      (g.mRxSize_byte < RX_BUFFER_SIZE →
        ∃ g1, g.Receiver_CopyNewData aCF = some g1 ∧
          ¬ (g1.mRxSize_byte < g.mRxSize_byte + aCF.mDataSize_byte) ∧
          g1.Receiver_Validate_Z0 (g.mRxSize_byte + aCF.mDataSize_byte) = none))
    ∧ (0 < aCF.mDataSize_byte →
      (RX_BUFFER_SIZE < g.mRxSize_byte + aCF.mDataSize_byte ∧
        g.Receiver_Step aCF
          = some ({ g with mRxOffset_byte := 0, mRxSize_byte := 0 }, none)) ∨
      (g.mRxSize_byte + aCF.mDataSize_byte ≤ RX_BUFFER_SIZE ∧
        ∃ g1 r g2, g.Receiver_CopyNewData aCF = some g1 ∧
          g1.mRxBuffer.length = RX_BUFFER_SIZE ∧
          g1.mRxSize_byte < g.mRxSize_byte + aCF.mDataSize_byte ∧
          g1.Receiver_Validate_Z0 (g.mRxSize_byte + aCF.mDataSize_byte) = some (r, g2) ∧
          g2.Rx_Bounds)) := by
  have hI0 := hI
  obtain ⟨hlen, hoff, hsize⟩ := hI
  have hne : g.mTr_Current ≠ none := by
    intro h
    rw [Tr_Current, h] at hcur
    cases hcur
  have hcond : ¬ (DJI_CAN_ID_RX ≠ aCF.mId ∨ g.mTr_Current = none) := by
    rintro (h | h)
    · exact h hid.symm
    · exact hne h
  have hcopy : g.mRxSize_byte + aCF.mDataSize_byte ≤ RX_BUFFER_SIZE →
      g.mRxSize_byte < RX_BUFFER_SIZE →
      ∃ g1, g.Receiver_CopyNewData aCF = some g1 ∧ g1.mRxBuffer.length = RX_BUFFER_SIZE ∧
        g1.mRxSize_byte = g.mRxSize_byte ∧ g1.Tr_Current = some lTr ∧
        g1.mRxOffset_byte ≤ g.mRxSize_byte + aCF.mDataSize_byte := by
    intro hroom hlt
    obtain ⟨b, hb, hc⟩ := Receiver_CopyNewData_returns g aCF hI0 hroom hlt (by omega)
    refine ⟨_, hc, hb, rfl, hcur, ?_⟩
    show (if 8 ≤ aCF.mDataSize_byte then g.mRxOffset_byte + aCF.mDataSize_byte
      else g.mRxOffset_byte) ≤ _
    split_ifs <;> omega
  have hfull : g.mRxSize_byte = RX_BUFFER_SIZE → g.Receiver_CopyNewData aCF = none := by
    intro h128
    unfold Receiver_CopyNewData
    by_cases ho : RX_BUFFER_SIZE > g.mRxOffset_byte
    · rw [if_neg (not_not.2 ho), if_pos (by rw [h128]; exact lt_irrefl _)]
    · rw [if_pos ho]
  constructor
  · intro h0
    have hstep : g.Receiver_Step aCF = none := by
      unfold Receiver_Step
      rw [if_neg (by omega), if_neg (not_not.2 hsize), if_neg hcond]
      simp only
      rw [if_neg (by rw [h0]; unfold RX_BUFFER_SIZE at hsize ⊢; omega)]
      rcases hc : g.Receiver_CopyNewData aCF with _ | g1
      · rfl
      · have hs1 : g1.mRxSize_byte = g.mRxSize_byte := by
          by_cases hlt : g.mRxSize_byte < RX_BUFFER_SIZE
          · obtain ⟨g1x, hcx, _, hsx, _⟩ := hcopy (by rw [h0]; omega) hlt
            rw [hc] at hcx
            injection hcx with hcx
            rw [hcx]; exact hsx
          · rw [hfull (le_antisymm hsize (not_lt.1 hlt))] at hc
            cases hc
        have hv : g1.Receiver_Validate_Z0 (g.mRxSize_byte + aCF.mDataSize_byte) = none := by
          unfold Receiver_Validate_Z0
          rcases g1.Tr_Current with _ | t
          · rfl
          · simp only
            rw [if_pos (by rw [hs1, h0]; omega)]
        simp only [hv]
    refine ⟨by unfold Receiver; rw [hstep], hfull, ?_⟩
    · intro hlt
      obtain ⟨g1, hc, _, hs1, hcur1, _⟩ := hcopy (by rw [h0]; omega) hlt
      refine ⟨g1, hc, by rw [hs1, h0]; omega, ?_⟩
      unfold Receiver_Validate_Z0
      rw [hcur1]
      simp only
      rw [if_pos (by rw [hs1, h0]; omega)]
  · intro hpos
    by_cases hroom : RX_BUFFER_SIZE < g.mRxSize_byte + aCF.mDataSize_byte
    · left
      refine ⟨hroom, ?_⟩
      unfold Receiver_Step
      rw [if_neg (by omega), if_neg (not_not.2 hsize), if_neg hcond]
      simp only
      rw [if_pos hroom]
      unfold Receiver_Reset
      rw [if_neg (not_not.2 (le_trans hoff hsize)), if_neg (not_not.2 hsize)]
      rfl
    · right
      have hroom2 : g.mRxSize_byte + aCF.mDataSize_byte ≤ RX_BUFFER_SIZE := not_lt.1 hroom
      obtain ⟨g1, hc, hb1, hs1, hcur1, ho1⟩ := hcopy hroom2 (by omega)
      obtain ⟨r, g2, hv, hg2⟩ := Receiver_Validate_Z0_returns g1 lTr
        (g.mRxSize_byte + aCF.mDataSize_byte) hcur1 (by rw [hs1]; omega) hroom2
        (le_trans ho1 hroom2)
      refine ⟨hroom2, g1, r, g2, hc, hb1, by rw [hs1]; omega, hv, ?_⟩
      rcases hg2 with rfl | rfl
      · exact ⟨hb1, le_refl _, Nat.zero_le _⟩
      · exact ⟨hb1, ho1, hroom2⟩

/-- C38, the failing input: the engine is activated, the position query is in flight and
the receive buffer is empty; a frame with the identifier 0x222 and no data byte arrives.
`Receiver_CopyNewData` returns and `Receiver_Validate_Z0` is called with `aTo_byte` = 0 =
receive size: its assertion `mRxSize_byte < aTo_byte` fails. -/
theorem Receiver_empty_payload_witness :
    Example.engine_position.Rx_Bounds ∧
    Example.engine_position.Tr_Current = some Example.engine_position.mTr_Position ∧
    (Example.rx []).mId = DJI_CAN_ID_RX ∧ (Example.rx []).mDataSize_byte = 0 ∧
    Example.engine_position.Receiver (Example.rx []) = none ∧
    (∃ g1, Example.engine_position.Receiver_CopyNewData (Example.rx []) = some g1 ∧
      ¬ (g1.mRxSize_byte < Example.engine_position.mRxSize_byte + 0) ∧
      g1.Receiver_Validate_Z0 (Example.engine_position.mRxSize_byte + 0) = none) := by
  have hI : Example.engine_position.Rx_Bounds := ⟨rfl, by decide, by decide⟩
  have h := (Receiver_empty_payload Example.engine_position (Example.rx [])
    Example.engine_position.mTr_Position hI rfl rfl rfl (by decide)).1 rfl
  exact ⟨hI, rfl, rfl, rfl, h.1, h.2.2 (by decide)⟩

/-- C37 (the code departs from the claim). The engine is constructed (30 being the
content of the liveness counter, which the constructor leaves indeterminate) and
`Activate` is called on a silent link.  The first `Info_Retrieve` times out twice,
after 202 worker ticks, and leaves the engine ACTIVATED with nothing in flight.  One
worker tick runs before the calling thread enters the Zone0 section of the second pass:
it starts the periodic position query.  The second pass moves the engine to ACTIVATING
with the position query still in flight, and `Info_Retrieve` queues its transaction.
The reply to the position query arrives in payloads of 8, 8 and 6 bytes: with the third
one `Receiver_CopyNewData` returns, `Receiver_Validate_Z0` returns `ZT_OK`, the receive
size 22 reaches the expected count 22 in state ACTIVATING, and `Receiver` reaches
`default: assert(false)`: neither `Receiver` nor `Activate` returns.  Without the third
payload, or without the worker tick in between, `Activate` returns
`ZT_ERROR_TIMEOUT`. -/
theorem Activate_reaches_default :
    (Example.engine_first_pass.map (fun g => (g.mState, g.mTr_Current, g.mTr_Next))
        = some (STATE_ACTIVATED, none, none)
      ∧ Example.engine_between.map (fun g => (g.mState, g.mTr_Current, g.mState_Counter))
        = some (STATE_ACTIVATED, some .Position, 29)
      ∧ Example.engine_second_pass.map (fun g => (g.mState, g.mTr_Current, g.mState_Counter))
        = some (STATE_ACTIVATING, some .Position, 10))
    ∧ (Example.engine_second_16.map
          (fun g => (g.mState, g.mTr_Current, g.mRxSize_byte,
            g.Tr_Current.map (fun t => t.RxExpected_Get)))
        = some (STATE_ACTIVATING, some .Position, 16, some 22)
      ∧ (Example.engine_second_16.bind (fun g =>
            (g.Receiver_CopyNewData Example.position_reply_3).bind (fun g1 =>
              (g1.Receiver_Validate_Z0 (16 + 6)).map
                (fun r => (r.1, r.2.mRxSize_byte, r.2.mState)))))
        = some (ZT_OK, 22, STATE_ACTIVATING)
      ∧ Example.engine_second_16.bind
          (fun g => (g.Receiver_Step Example.position_reply_3).map (fun r => r.2)) = none
      ∧ Example.engine_second_16.bind (fun g => g.Receiver Example.position_reply_3) = none)
    ∧ (Activate Example.crc Example.engine_new
          (List.replicate 202 .Tick ++ Example.position_reply.map .Rx ++
            List.replicate 202 .Tick) [.Tick] = none
      ∧ (Activate Example.crc Example.engine_new
            (List.replicate 202 .Tick ++ (Example.position_reply.take 2).map .Rx ++
              List.replicate 202 .Tick) [.Tick]).map (fun r => (r.1, r.2.1.mState))
          = some (ZT_ERROR_TIMEOUT, STATE_INIT)
      ∧ (Activate Example.crc Example.engine_new
            (List.replicate 202 .Tick ++ Example.position_reply.map .Rx ++
              List.replicate 202 .Tick) []).map (fun r => (r.1, r.2.1.mState))
          = some (ZT_ERROR_TIMEOUT, STATE_INIT)) := by
  refine ⟨⟨?_, ?_, ?_⟩, ⟨?_, ?_, ?_, ?_⟩, ?_, ?_, ?_⟩
  · decide!
  · decide!
  · decide!
  · decide!
  · decide!
  · decide!
  · decide!
  · decide!
  · decide!
  · decide!

end DJI_Gimbal

namespace DJI_Gimbal

open State

/-- C4 (amended). A transaction that waits for reply bytes is in flight, the receive
buffer is empty, and a payload of 1 to 8 bytes with the identifier 0x222 arrives whose
first byte is not 0xAA. `Receiver_Validate_Z0` resets the receive buffer and returns
`ZT_OK`, no error; `Receiver` returns without calling `Complete`: the receive offset
and size are zero, the transaction is still the current one, as it was, and the state,
the liveness counter, the pending slot and the completed transactions are
unchanged. -/
theorem Receiver_bad_SOF_dropped (g : DJI_Gimbal) (aCF : EthCAN_Frame) (lTr : DJI_Transaction)
    (hbuf : g.mRxBuffer.length = RX_BUFFER_SIZE)
    (hempty : g.mRxSize_byte = 0) (hoff : g.mRxOffset_byte = 0)
    (hcur : g.Tr_Current = some lTr) (hexp : 0 < lTr.RxExpected_Get)
    (hid : aCF.mId = DJI_CAN_ID_RX)
    (hmin : 0 < aCF.mDataSize_byte) (hmax : aCF.mDataSize_byte ≤ 8)
    (hdata : aCF.mData.length = 8)
    (hsof : aCF.mData.getD 0 0 ≠ DJI_SOF) :
    ∃ (b : List Nat) (g1 : DJI_Gimbal),
      g.Receiver_CopyNewData aCF = some g1 ∧
      g1.mReply.mSOF = aCF.mData.getD 0 0 ∧
      g1.Receiver_Validate_Z0 (g.mRxSize_byte + aCF.mDataSize_byte) =
        some (ZT_OK, { g with mRxBuffer := b, mRxOffset_byte := 0, mRxSize_byte := 0 }) ∧
      g.Receiver aCF = some { g with mRxBuffer := b, mRxOffset_byte := 0, mRxSize_byte := 0 } ∧
      ({ g with mRxBuffer := b, mRxOffset_byte := 0, mRxSize_byte := 0 } :
        DJI_Gimbal).Tr_Current = some lTr := by
  have hcopy := Receiver_CopyNewData_append g aCF hbuf (by rw [hoff, hempty])
    (by rw [hempty]; unfold RX_BUFFER_SIZE; omega) (by rw [hempty]; decide)
    (by rw [hdata]; exact hmax)
  have hne : g.mTr_Current ≠ none := by
    intro h
    simp [Tr_Current, h] at hcur
  set b := g.mRxBuffer.take g.mRxSize_byte ++ aCF.payload ++
    g.mRxBuffer.drop (g.mRxSize_byte + aCF.mDataSize_byte) with hb
  set g1 : DJI_Gimbal :=
    { g with
      mRxBuffer := b
      mRxOffset_byte :=
        if 8 ≤ aCF.mDataSize_byte then g.mRxSize_byte + aCF.mDataSize_byte
        else g.mRxSize_byte } with hg1
  have hcur1 : g1.Tr_Current = some lTr := hcur
  have hsof1 : g1.mReply.mSOF = aCF.mData.getD 0 0 := by
    have hp : aCF.payload ≠ [] := by
      intro h
      have hl : aCF.payload.length = aCF.mDataSize_byte := by
        simp [EthCAN_Frame.payload]; omega
      rw [h] at hl
      simp only [List.length_nil] at hl
      omega
    obtain ⟨x, xs, hx⟩ := List.exists_cons_of_ne_nil hp
    have hx0 : aCF.mData.getD 0 0 = x := by
      have h1 : aCF.payload.getD 0 0 = x := by rw [hx]; rfl
      rw [← h1]
      simp only [EthCAN_Frame.payload, List.getD_eq_getElem?_getD]
      rw [List.getElem?_take_of_lt hmin]
    simp only [mReply, DJI_Frame.mSOF, hg1, hb, hempty, List.take_zero, List.nil_append, hx,
      List.cons_append, List.getD_cons_zero, hx0]
  have hs1 : g1.mRxSize_byte = 0 := hempty
  have hreset : g1.Receiver_Validate_Error ZT_OK =
      some (ZT_OK, { g with mRxBuffer := b, mRxOffset_byte := 0, mRxSize_byte := 0 }) := by
    have ho1 : RX_BUFFER_SIZE ≥ g1.mRxOffset_byte := by
      simp only [hg1, hempty, RX_BUFFER_SIZE]
      split_ifs <;> omega
    have hs2 : RX_BUFFER_SIZE ≥ g1.mRxSize_byte := by rw [hs1]; exact Nat.zero_le _
    unfold Receiver_Validate_Error Receiver_Reset
    rw [if_neg (not_not.2 ho1), if_neg (not_not.2 hs2)]
    rfl
  have hval : g1.Receiver_Validate_Z0 (g.mRxSize_byte + aCF.mDataSize_byte) =
      some (ZT_OK, { g with mRxBuffer := b, mRxOffset_byte := 0, mRxSize_byte := 0 }) := by
    unfold Receiver_Validate_Z0
    rw [hcur1]
    simp only [hs1, hempty, Nat.zero_add]
    rw [if_neg (by omega), if_neg (by unfold RX_BUFFER_SIZE; omega),
      if_pos ⟨by simp; omega, by rw [hsof1]; exact fun h => hsof h.symm⟩]
    exact hreset
  refine ⟨b, g1, hcopy, hsof1, hval, ?_, hcur⟩
  unfold Receiver Receiver_Step
  rw [if_neg (by omega), if_neg (by rw [hempty]; unfold RX_BUFFER_SIZE; omega),
    if_neg (by simp [hid, hne])]
  simp only
  rw [if_neg (by rw [hempty]; unfold RX_BUFFER_SIZE; omega)]
  simp only [hcopy, hval, if_true]
  have hcur2 : ({ g with mRxBuffer := b, mRxOffset_byte := 0, mRxSize_byte := 0 } :
      DJI_Gimbal).Tr_Current = some lTr := hcur
  simp only [hcur2]
  rw [if_neg (by
    simp only [DJI_Transaction.RxExpected_Get] at hexp ⊢
    omega)]

/-- Witness of C4 (amended): the payload `55 11 00 20 00 00 00 00` offered to the
example engine whose transaction waits for 13 reply bytes. -/
theorem Receiver_bad_SOF_dropped_witness :
    ∃ b, Example.engine_TLV.Receiver (Example.rx [0x55, 17, 0, 0x20, 0, 0, 0, 0]) =
        some { Example.engine_TLV with mRxBuffer := b, mRxOffset_byte := 0, mRxSize_byte := 0 } ∧
      ({ Example.engine_TLV with mRxBuffer := b, mRxOffset_byte := 0, mRxSize_byte := 0 } :
        DJI_Gimbal).Tr_Current = some Example.tr_TLV := by
  obtain ⟨b, g1, -, -, -, h, hc⟩ := Receiver_bad_SOF_dropped Example.engine_TLV
    (Example.rx [0x55, 17, 0, 0x20, 0, 0, 0, 0]) Example.tr_TLV (by decide) (by decide)
    (by decide) (by decide) (by decide) (by decide) (by decide) (by decide) (by decide)
    (by decide)
  exact ⟨b, h, hc⟩

end DJI_Gimbal

end ZT
